import Mathlib

/-!
# DPAA2 CAAM (caamalg_qi2.c): request descriptors, DMA lifecycle, submission

A shallow embedding of `drivers/crypto/caam/caamalg_qi2.c`.

* Bus mappings, pool allocations and hardware enqueues are side effects of the
  C code.  Every function of the embedding returns, next to its C result, the
  list of `Event`s it performed, in program order.
* What the kernel and the hardware answer (does a mapping succeed, which bus
  address does it get, what does the queue say) is read from an `Env` record,
  so every definition is a computable function.
* `unsigned int` values are natural numbers reduced modulo `2^32` where the C
  expression can wrap, `dma_addr_t` sums are reduced modulo `2^64`.  Segment
  counts (`int`, bounded by the length of a scatter list) are plain naturals.
-/

namespace CaamQi2

/-! ## Constants -/

/-- Modelled from the spec: the errno the spec calls IOError (-EIO); its value
is that of include/uapi/asm-generic/errno-base.h, which is not among the
sources. -/
def EIO : Int := 5
/-- Modelled from the spec: the errno the spec calls ResourceExhausted
(-ENOMEM); its value is that of errno-base.h, which is not among the
sources. -/
def ENOMEM : Int := 12
/-- Modelled from the spec: the errno the spec calls Busy (-EBUSY); its value is
that of errno-base.h, which is not among the sources. -/
def EBUSY : Int := 16
/-- Modelled from the spec: the errno behind the spec's ShortBuffer and
BadKeyLength (-EINVAL); its value is that of errno-base.h, which is not among
the sources. -/
def EINVAL : Int := 22
/-- Modelled from the spec: the errno the spec calls IntegrityCheckFailed
(-EBADMSG); its value is that of include/uapi/asm-generic/errno.h, which is
not among the sources. -/
def EBADMSG : Int := 74
/-- Modelled from the spec: the errno the spec calls Pending (-EINPROGRESS);
its value is that of include/uapi/asm-generic/errno.h, which is not among the
sources. -/
def EINPROGRESS : Int := 115

/-- Modelled from the spec: request flag `CRYPTO_TFM_REQ_MAY_BACKLOG`, tested
by the entry points after a submission; the bit is that of
include/linux/crypto.h, which is not among the sources. -/
def CRYPTO_TFM_REQ_MAY_BACKLOG : Nat := 0x400
/-- Modelled from the spec: request flag `CRYPTO_TFM_REQ_MAY_SLEEP`, which
selects the allocation mode; the bit is that of include/linux/crypto.h, which
is not among the sources. -/
def CRYPTO_TFM_REQ_MAY_SLEEP : Nat := 0x200

/-- Modelled from the spec: `sizeof(*sg_table)`, the size in bytes of one
`struct dpaa2_sg_entry`, an entry of bus address, length and flags (8 + 4 + 4
bytes); the structure is declared in dpaa2-fd.h, which is not among the
sources. -/
def SG_ENTRY_SIZE : Nat := 16
/-- Modelled from the spec: `sizeof(req->fd_flt)`, two `struct dpaa2_fl_entry`
of 32 bytes each; the structure is declared in dpaa2-fd.h, which is not among
the sources. -/
def FD_FLT_SIZE : Nat := 64

/-- Reduction of a natural number to `unsigned int`. -/
def u32 (n : Nat) : Nat := n % 4294967296
/-- Unary minus on `unsigned int`, as in `(-authsize)`. -/
def u32_neg (n : Nat) : Nat := (4294967296 - n % 4294967296) % 4294967296
/-- Reduction of a natural number to `dma_addr_t` (64 bit). -/
def u64 (n : Nat) : Nat := n % 18446744073709551616

/-! ## Data model -/

/-- `enum dma_data_direction`. -/
inductive dma_data_direction where
  | DMA_BIDIRECTIONAL
  | DMA_TO_DEVICE
  | DMA_FROM_DEVICE
  deriving DecidableEq, Repr

/-- `enum optype` of caamalg_qi2.h: index into `ctx->flc[]`. -/
inductive optype where
  | ENCRYPT
  | DECRYPT
  | GIVENCRYPT
  deriving DecidableEq, Repr

/-- `enum dpaa2_fl_format`, the format of a frame list entry. -/
inductive dpaa2_fl_format where
  | dpaa2_fl_single
  | dpaa2_fl_res
  | dpaa2_fl_sg
  deriving DecidableEq, Repr

/-- `enum dpaa2_fd_format`, the format of a frame descriptor. -/
inductive dpaa2_fd_format where
  | dpaa2_fd_single
  | dpaa2_fd_list
  | dpaa2_fd_sg
  deriving DecidableEq, Repr

/-- `gfp_t` as the builders use it: `GFP_KERNEL` or `GFP_ATOMIC`. -/
inductive gfp_t where
  | GFP_KERNEL
  | GFP_ATOMIC
  deriving DecidableEq, Repr

/-- A `struct scatterlist *`: the pointer value and the byte length of every
entry that can be reached from it. Two lists are the same C pointer exactly
when the two records are equal. -/
structure scatterlist where
  ptr : Nat
  lens : List Nat
  deriving DecidableEq, Repr

/-- The DMA view of one mapped scatter list entry: `sg_dma_address`,
`sg_dma_len`. -/
structure sg_seg where
  dma_address : Nat
  dma_len : Nat
  deriving DecidableEq, Repr

/-- One `struct dpaa2_sg_entry` of a scatter/gather table. -/
structure dpaa2_sg_entry where
  addr : Nat
  len : Nat
  final : Bool
  offset : Nat
  deriving DecidableEq, Repr

/-- One `struct dpaa2_fl_entry` of the frame list `fd_flt`. -/
structure dpaa2_fl_entry where
  addr : Nat
  len : Nat
  format : dpaa2_fl_format
  final : Bool
  flc : Nat
  deriving DecidableEq, Repr

/-- A zeroed frame list entry (`memset(&req_ctx->fd_flt, 0, ...)`). -/
def dpaa2_fl_entry.zero : dpaa2_fl_entry :=
  ⟨0, 0, dpaa2_fl_format.dpaa2_fl_single, false, 0⟩

/-- A `struct dpaa2_fd` as `dpaa2_caam_enqueue` fills it. -/
structure dpaa2_fd where
  format : dpaa2_fd_format
  addr : Nat
  len : Nat
  flc : Nat
  deriving DecidableEq, Repr

/-- `struct caam_flc`: flow context words, shared descriptor, bus address. -/
structure caam_flc where
  flc : List Nat
  sh_desc : List Nat
  flc_dma : Nat
  deriving DecidableEq, Repr

/-- The completion callbacks stored in `caam_req->cbk`. -/
inductive cbk_fn where
  | none
  | aead_encrypt_done
  | aead_decrypt_done
  | tls_encrypt_done
  | tls_decrypt_done
  | ablkcipher_done
  deriving DecidableEq, Repr

/-- `struct caam_request`: `fd_flt[0]` is the output entry, `fd_flt[1]` the
input entry; `flc` is the flow context `req->flc` points to. -/
structure caam_request where
  fd_flt0 : dpaa2_fl_entry
  fd_flt1 : dpaa2_fl_entry
  fd_flt_dma : Nat
  flc : caam_flc
  op_type : optype
  cbk : cbk_fn
  deriving DecidableEq, Repr

/-- The buffers handed to `dma_map_single`. -/
inductive Buf where
  | iv
  | giv
  | assoclen
  | sg_table
  | fd_flt
  | key
  | flc (op : optype)
  deriving DecidableEq, Repr

/-- The side effects of the driver, in the order the code performs them:
pool allocation and release, bus mappings and unmappings, the cache
synchronisation of the congestion record, a hardware enqueue attempt, the
completion of a request towards the crypto API (`aead_request_complete`,
`ablkcipher_request_complete`), the copy of the last block into `req->info`,
the call of a stored callback `req->cbk(req->ctx, status)`, a pull command on
the response queue, `napi_complete_done` and the re-arming of the queue
notification. -/
inductive Event where
  | alloc (flags : gfp_t) (ok : Bool)
  | free
  | map_sg (sg : scatterlist) (nents : Nat) (dir : dma_data_direction) (mapped : Nat)
  | unmap_sg (sg : scatterlist) (nents : Nat) (dir : dma_data_direction)
  | map_single (buf : Buf) (size : Nat) (dir : dma_data_direction) (addr : Nat) (err : Bool)
  | unmap_single (addr : Nat) (size : Nat) (dir : dma_data_direction)
  | sync_for_cpu
  | enqueue (fqid : Nat) (fd : dpaa2_fd) (err : Int)
  | complete (ecode : Int)
  | scatterwalk_map_and_copy (start : Nat) (nbytes : Nat)
  | cbk (fn : cbk_fn) (status : Nat)
  | pull_fq (err : Int)
  | napi_complete_done (work_done : Nat)
  | rearm (err : Int)
  deriving DecidableEq, Repr

/-- What the kernel services and the hardware answer.

* `qi_cache_zalloc flags` : does the pool hand out a buffer;
* `dma_map_sg sg nents dir` : the DMA view of the entries that got mapped, the
  C return value is its length and `0` (no entry) is the failure;
* `dma_map_single buf size dir` : the bus address returned;
* `dma_mapping_error addr` : the kernel's verdict on a returned address;
* `congested` : `dpaa2_cscn_state_congested(priv->cscn_mem_aligned)`;
* `cpu` : `smp_processor_id()`;
* `enqueue_fq fqid i` : what the `i`-th call of
  `dpaa2_io_service_enqueue_fq` on `fqid` returns;
* `dma_map_sg_le` : `dma_map_sg` maps at most the `nents` entries it is given
  (the DMA API returns a count that "may be shorter than nents"). -/
structure Env where
  qi_cache_zalloc : gfp_t → Bool
  dma_map_sg : scatterlist → Nat → dma_data_direction → List sg_seg
  dma_map_single : Buf → Nat → dma_data_direction → Nat
  dma_mapping_error : Nat → Bool
  congested : Bool
  cpu : Nat
  enqueue_fq : Nat → Nat → Int
  dma_map_sg_le : ∀ sg nents dir, (dma_map_sg sg nents dir).length ≤ nents

/-- The fields of `struct dpaa2_caam_priv` that the submission path reads:
whether `cscn_mem` is set, `dpseci_attr.num_tx_queues` and
`tx_queue_attr[i].fqid`. -/
structure dpaa2_caam_priv where
  cscn_mem : Bool
  num_tx_queues : Nat
  tx_fqid : Nat → Nat

/-! ## Submission: `dpaa2_caam_enqueue` -/

/-- The retry loop of `dpaa2_caam_enqueue`:
`for (i = 0; i < (num_tx_queues << 1); i++) { err = enqueue; if (err != -EBUSY) break; }`.
`fuel` is the number of iterations left, `i` the index of the next attempt and
`err` the value the variable holds when the loop is entered. -/
def enqueue_loop (env : Env) (fqid : Nat) (fd : dpaa2_fd) :
    Nat → Nat → Int → Int × List Event
  | 0, _, err => (err, [])
  | fuel + 1, i, _ =>
    let err := env.enqueue_fq fqid i
    if err ≠ -EBUSY then (err, [Event.enqueue fqid fd err])
    else
      let r := enqueue_loop env fqid fd fuel (i + 1) err
      (r.1, Event.enqueue fqid fd err :: r.2)

/-- The outcome of `dpaa2_caam_enqueue`: the C return value, what the
argument points to when the call returns, and the side effects performed. -/
structure EnqueueResult where
  ret : Int
  req : Except Int caam_request
  trace : List Event

/-- `dpaa2_caam_enqueue(dev, req)`. The argument is `Except.error e` for an
error pointer `ERR_PTR(e)` and `Except.ok req` for a pointer to a request.
The result is `none` when `num_tx_queues` is `0`: the C code then divides by
zero in `smp_processor_id() % num_tx_queues`. -/
def dpaa2_caam_enqueue (priv : dpaa2_caam_priv) (env : Env)
    (preq : Except Int caam_request) : Option EnqueueResult :=
  match preq with
  | Except.error e => some ⟨e, Except.error e, []⟩
  | Except.ok req =>
    let t0 := if priv.cscn_mem then [Event.sync_for_cpu] else []
    if priv.cscn_mem && env.congested then some ⟨-EBUSY, Except.ok req, t0⟩
    else
      let req1 := { req with fd_flt1 := { req.fd_flt1 with flc := req.flc.flc_dma } }
      let fd_flt_dma := env.dma_map_single Buf.fd_flt FD_FLT_SIZE dma_data_direction.DMA_BIDIRECTIONAL
      let err_map := env.dma_mapping_error fd_flt_dma
      let req2 := { req1 with fd_flt_dma := fd_flt_dma }
      let t1 := t0 ++ [Event.map_single Buf.fd_flt FD_FLT_SIZE
                        dma_data_direction.DMA_BIDIRECTIONAL fd_flt_dma err_map]
      let err_out := Event.unmap_single fd_flt_dma FD_FLT_SIZE dma_data_direction.DMA_BIDIRECTIONAL
      if err_map then some ⟨- EIO, Except.ok req2, t1 ++ [err_out]⟩
      else if priv.num_tx_queues = 0 then none
      else
        let fd : dpaa2_fd :=
          ⟨dpaa2_fd_format.dpaa2_fd_list, fd_flt_dma, req2.fd_flt1.len, req2.flc.flc_dma⟩
        let id := env.cpu % priv.num_tx_queues
        let r := enqueue_loop env (priv.tx_fqid id) fd (2 * priv.num_tx_queues) 0 0
        if r.1 < 0 then some ⟨- EIO, Except.ok req2, t1 ++ r.2 ++ [err_out]⟩
        else some ⟨-EINPROGRESS, Except.ok req2, t1 ++ r.2⟩

/-! ## Kernel helpers the builders call -/

/-- The walk of `sg_nents_for_len`: `nents` entries seen so far, holding
`total` bytes. -/
def sg_nents_for_len_walk : List Nat → Nat → Nat → Nat → Except Int Nat
  | [], _, _, _ => Except.error (-EINVAL)
  | l :: ls, len, nents, total =>
    if total + l ≥ len then Except.ok (nents + 1)
    else sg_nents_for_len_walk ls len (nents + 1) (total + l)

/-- Modelled from the spec: `sg_nents_for_len` of lib/scatterlist.c, which is
not part of this file ("validating total length covers the logical span;
insufficient length is ShortBuffer"). It returns `0` for a length of `0`, the
number of leading entries needed to hold `len` bytes otherwise, and `-EINVAL`
when the whole list holds fewer than `len` bytes. -/
def sg_nents_for_len (sg : scatterlist) (len : Nat) : Except Int Nat :=
  if len = 0 then Except.ok 0 else sg_nents_for_len_walk sg.lens len 0 0

/-- `sg_dma_address(sg)`: the bus address of the first entry of a mapped
list. -/
def sg_dma_address (mapped : List sg_seg) : Nat :=
  match mapped with
  | [] => 0
  | s :: _ => s.dma_address

/-- A zeroed table entry (the pool buffer comes from `kmem_cache_zalloc`). -/
def dpaa2_sg_entry.zero : dpaa2_sg_entry := ⟨0, 0, false, 0⟩

/-- Store `e` at index `idx` of a table of which `t` are the leading entries
written so far; entries in between stay zero. -/
def table_set (t : List dpaa2_sg_entry) (idx : Nat) (e : dpaa2_sg_entry) :
    List dpaa2_sg_entry :=
  if idx < t.length then t.set idx e
  else t ++ List.replicate (idx - t.length) dpaa2_sg_entry.zero ++ [e]

/-- Modelled from the spec: `dma_to_qm_sg_one` of sg_sw_qm2.h, which is not
part of this file: it fills one table entry with a bus address, a length and
an offset and clears its final flag ("a scatter/gather table of (bus-address,
length, flags) entries"). -/
def dma_to_qm_sg_one (t : List dpaa2_sg_entry) (idx : Nat) (dma len offset : Nat) :
    List dpaa2_sg_entry :=
  table_set t idx ⟨dma, len, false, offset⟩

/-- Modelled from the spec: `sg_to_qm_sg` of sg_sw_qm2.h, which is not part of
this file: `while (sg_count && sg)` it writes one table entry per mapped
segment, from index `idx` on. The result is the table and the index after the
last entry written. -/
def sg_to_qm_sg : List sg_seg → Nat → List dpaa2_sg_entry → Nat → Nat →
    List dpaa2_sg_entry × Nat
  | [], _, t, idx, _ => (t, idx)
  | _ :: _, 0, t, idx, _ => (t, idx)
  | s :: rest, n + 1, t, idx, offset =>
    sg_to_qm_sg rest n (dma_to_qm_sg_one t idx s.dma_address s.dma_len offset) (idx + 1) offset

/-- `dpaa2_sg_set_final(&table[idx], true)`. -/
def table_set_final (t : List dpaa2_sg_entry) (idx : Nat) : List dpaa2_sg_entry :=
  table_set t idx { t.getD idx dpaa2_sg_entry.zero with final := true }

/-- Modelled from the spec: `sg_to_qm_sg_last` of sg_sw_qm2.h, which is not
part of this file: `sg_to_qm_sg`, then the final flag is set on the entry
before the returned position (the last one written; when none was written,
the entry that precedes `idx`, and nothing inside the table when `idx` is
`0`). -/
def sg_to_qm_sg_last (sg : List sg_seg) (sg_count : Nat) (t : List dpaa2_sg_entry)
    (idx offset : Nat) : List dpaa2_sg_entry :=
  let r := sg_to_qm_sg sg sg_count t idx offset
  if r.2 = 0 then r.1 else table_set_final r.1 (r.2 - 1)

/-! ## Teardown: `caam_unmap` -/

/-- `caam_unmap(dev, src, dst, src_nents, dst_nents, iv_dma, ivsize, op_type,
qm_sg_dma, qm_sg_bytes)`. -/
def caam_unmap (src dst : scatterlist) (src_nents dst_nents : Nat) (iv_dma ivsize : Nat)
    (op_type : optype) (qm_sg_dma qm_sg_bytes : Nat) : List Event :=
  (if dst ≠ src then
    (if src_nents ≠ 0 then
      [Event.unmap_sg src src_nents dma_data_direction.DMA_TO_DEVICE] else []) ++
    [Event.unmap_sg dst dst_nents dma_data_direction.DMA_FROM_DEVICE]
   else [Event.unmap_sg src src_nents dma_data_direction.DMA_BIDIRECTIONAL]) ++
  (if iv_dma ≠ 0 then
    [Event.unmap_single iv_dma ivsize
      (if op_type = optype.GIVENCRYPT then dma_data_direction.DMA_FROM_DEVICE
       else dma_data_direction.DMA_TO_DEVICE)]
   else []) ++
  (if qm_sg_bytes ≠ 0 then
    [Event.unmap_single qm_sg_dma qm_sg_bytes dma_data_direction.DMA_TO_DEVICE]
   else [])

/-! ## Sessions, algorithms, requests -/

/-- Where a `struct alginfo` says its key is: the union of `key_dma` (a bus
address) and `key_virt` (a pointer into `ctx->key`, kept as the byte offset
from `ctx->key`). -/
inductive alginfo_key where
  | key_dma (addr : Nat)
  | key_virt (off : Nat)
  deriving DecidableEq, Repr

/-- `struct alginfo`: `algtype`, `keylen`, `keylen_pad`, the key location and
`key_inline`. -/
structure alginfo where
  algtype : Nat
  keylen : Nat
  keylen_pad : Nat
  key : alginfo_key
  key_inline : Bool
  deriving DecidableEq, Repr

/-- A zeroed `struct alginfo`. -/
def alginfo.zero : alginfo := ⟨0, 0, 0, alginfo_key.key_dma 0, false⟩

/-- `struct caam_ctx`: the flow contexts `flc[NUM_OP]`, the bus address of the
key, the tag length, the key bytes `key[]` and the algorithm details `adata`
and `cdata`. The request path reads the first three only. -/
structure caam_ctx where
  flc : optype → caam_flc
  key_dma : Nat
  authsize : Nat
  key : List Nat := []
  adata : alginfo := alginfo.zero
  cdata : alginfo := alginfo.zero

/-- One entry of `driver_aeads[]`: `cra_name`, `cra_blocksize`, `ivsize` and
the `caam.rfc3686` and `caam.geniv` flags. -/
structure caam_aead_alg where
  cra_name : String
  cra_blocksize : Nat
  ivsize : Nat
  rfc3686 : Bool
  geniv : Bool
  deriving DecidableEq, Repr

/-- The table `driver_aeads[]`, in source order: `cra_name`, `cra_blocksize`,
`ivsize` (`AES_BLOCK_SIZE` is 16, `DES_BLOCK_SIZE`, `DES3_EDE_BLOCK_SIZE` and
`CTR_RFC3686_IV_SIZE` are 8), `caam.rfc3686`, `caam.geniv`. -/
def driver_aeads : List caam_aead_alg := [
  ⟨"rfc4106(gcm(aes))", 1, 8, false, false⟩,
  ⟨"rfc4543(gcm(aes))", 1, 8, false, false⟩,
  ⟨"gcm(aes)", 1, 12, false, false⟩,
  ⟨"authenc(hmac(md5),cbc(aes))", 16, 16, false, false⟩,
  ⟨"echainiv(authenc(hmac(md5),cbc(aes)))", 16, 16, false, true⟩,
  ⟨"authenc(hmac(sha1),cbc(aes))", 16, 16, false, false⟩,
  ⟨"echainiv(authenc(hmac(sha1),cbc(aes)))", 16, 16, false, true⟩,
  ⟨"authenc(hmac(sha224),cbc(aes))", 16, 16, false, false⟩,
  ⟨"echainiv(authenc(hmac(sha224),cbc(aes)))", 16, 16, false, true⟩,
  ⟨"authenc(hmac(sha256),cbc(aes))", 16, 16, false, false⟩,
  ⟨"echainiv(authenc(hmac(sha256),cbc(aes)))", 16, 16, false, true⟩,
  ⟨"authenc(hmac(sha384),cbc(aes))", 16, 16, false, false⟩,
  ⟨"echainiv(authenc(hmac(sha384),cbc(aes)))", 16, 16, false, true⟩,
  ⟨"authenc(hmac(sha512),cbc(aes))", 16, 16, false, false⟩,
  ⟨"echainiv(authenc(hmac(sha512),cbc(aes)))", 16, 16, false, true⟩,
  ⟨"authenc(hmac(md5),cbc(des3_ede))", 8, 8, false, false⟩,
  ⟨"echainiv(authenc(hmac(md5),cbc(des3_ede)))", 8, 8, false, true⟩,
  ⟨"authenc(hmac(sha1),cbc(des3_ede))", 8, 8, false, false⟩,
  ⟨"echainiv(authenc(hmac(sha1),cbc(des3_ede)))", 8, 8, false, true⟩,
  ⟨"authenc(hmac(sha224),cbc(des3_ede))", 8, 8, false, false⟩,
  ⟨"echainiv(authenc(hmac(sha224),cbc(des3_ede)))", 8, 8, false, true⟩,
  ⟨"authenc(hmac(sha256),cbc(des3_ede))", 8, 8, false, false⟩,
  ⟨"echainiv(authenc(hmac(sha256),cbc(des3_ede)))", 8, 8, false, true⟩,
  ⟨"authenc(hmac(sha384),cbc(des3_ede))", 8, 8, false, false⟩,
  ⟨"echainiv(authenc(hmac(sha384),cbc(des3_ede)))", 8, 8, false, true⟩,
  ⟨"authenc(hmac(sha512),cbc(des3_ede))", 8, 8, false, false⟩,
  ⟨"echainiv(authenc(hmac(sha512),cbc(des3_ede)))", 8, 8, false, true⟩,
  ⟨"authenc(hmac(md5),cbc(des))", 8, 8, false, false⟩,
  ⟨"echainiv(authenc(hmac(md5),cbc(des)))", 8, 8, false, true⟩,
  ⟨"authenc(hmac(sha1),cbc(des))", 8, 8, false, false⟩,
  ⟨"echainiv(authenc(hmac(sha1),cbc(des)))", 8, 8, false, true⟩,
  ⟨"authenc(hmac(sha224),cbc(des))", 8, 8, false, false⟩,
  ⟨"echainiv(authenc(hmac(sha224),cbc(des)))", 8, 8, false, true⟩,
  ⟨"authenc(hmac(sha256),cbc(des))", 8, 8, false, false⟩,
  ⟨"echainiv(authenc(hmac(sha256),cbc(des)))", 8, 8, false, true⟩,
  ⟨"authenc(hmac(sha384),cbc(des))", 8, 8, false, false⟩,
  ⟨"echainiv(authenc(hmac(sha384),cbc(des)))", 8, 8, false, true⟩,
  ⟨"authenc(hmac(sha512),cbc(des))", 8, 8, false, false⟩,
  ⟨"echainiv(authenc(hmac(sha512),cbc(des)))", 8, 8, false, true⟩,
  ⟨"authenc(hmac(md5),rfc3686(ctr(aes)))", 1, 8, true, false⟩,
  ⟨"seqiv(authenc(hmac(md5),rfc3686(ctr(aes))))", 1, 8, true, true⟩,
  ⟨"authenc(hmac(sha1),rfc3686(ctr(aes)))", 1, 8, true, false⟩,
  ⟨"seqiv(authenc(hmac(sha1),rfc3686(ctr(aes))))", 1, 8, true, true⟩,
  ⟨"authenc(hmac(sha224),rfc3686(ctr(aes)))", 1, 8, true, false⟩,
  ⟨"seqiv(authenc(hmac(sha224),rfc3686(ctr(aes))))", 1, 8, true, true⟩,
  ⟨"authenc(hmac(sha256),rfc3686(ctr(aes)))", 1, 8, true, false⟩,
  ⟨"seqiv(authenc(hmac(sha256),rfc3686(ctr(aes))))", 1, 8, true, true⟩,
  ⟨"authenc(hmac(sha384),rfc3686(ctr(aes)))", 1, 8, true, false⟩,
  ⟨"seqiv(authenc(hmac(sha384),rfc3686(ctr(aes))))", 1, 8, true, true⟩,
  ⟨"authenc(hmac(sha512),rfc3686(ctr(aes)))", 1, 8, true, false⟩,
  ⟨"seqiv(authenc(hmac(sha512),rfc3686(ctr(aes))))", 1, 8, true, true⟩,
  ⟨"tls10(hmac(sha1),cbc(aes))", 16, 16, false, false⟩]

/-- The table-size ceilings of caamalg_qi2.h, which is not part of this file;
they are parameters of the embedding. -/
structure Limits where
  CAAM_QI_MAX_AEAD_SG : Nat
  CAAM_QI_MAX_ABLKCIPHER_SG : Nat

/-- A `struct aead_request`: `base.flags`, `assoclen`, `cryptlen`, `src`,
`dst`. -/
structure aead_request where
  flags : Nat
  assoclen : Nat
  cryptlen : Nat
  src : scatterlist
  dst : scatterlist
  deriving DecidableEq, Repr

/-- `struct aead_edesc`; `sgt` holds the table entries written so far. -/
structure aead_edesc where
  src_nents : Nat
  dst_nents : Nat
  iv_dma : Nat
  qm_sg_bytes : Nat
  qm_sg_dma : Nat
  assoclen_dma : Nat
  sgt : List dpaa2_sg_entry
  deriving DecidableEq, Repr

/-- What a builder leaves behind: the descriptor or `ERR_PTR(e)`, the request
context (its frame list is rewritten on success only) and the side effects. -/
structure Built (ε : Type) where
  ret : Except Int ε
  req_ctx : caam_request
  trace : List Event

/-- The locals of a builder once source and destination are mapped:
`src_nents`, `dst_nents`, the DMA view of the mapped source segments
(`mapped_src_nents` is its length), the DMA view of the destination list, the
local `mapped_dst_nents` (the length of the destination view; in place the
view is empty and the count `0`, except in the generated-IV builder, which
sets the count to `src_nents` and reads the destination through the source
list), the destination list that was mapped, and the trace so far. -/
structure MappedBufs where
  src_nents : Nat
  dst_nents : Nat
  mapped_src : List sg_seg
  mapped_dst : List sg_seg
  mapped_dst_nents : Nat
  dst : scatterlist
  trace : List Event

/-- `flags = (req->base.flags & mask) ? GFP_KERNEL : GFP_ATOMIC`. -/
def gfp_flags (flags mask : Nat) : gfp_t :=
  if flags &&& mask ≠ 0 then gfp_t.GFP_KERNEL else gfp_t.GFP_ATOMIC

/-! ## Builder: `aead_edesc_alloc` -/

/-- Does `aead_edesc_alloc` map the IV:
`(alg->caam.rfc3686 && encrypt) || !alg->caam.geniv`. -/
def aead_map_iv (alg : caam_aead_alg) (encrypt : Bool) : Bool :=
  (alg.rfc3686 && encrypt) || !alg.geniv

/-- The local `ivsize` of `aead_edesc_alloc`: `crypto_aead_ivsize(aead)` when
the IV is mapped, `0` otherwise. -/
def aead_ivsize (alg : caam_aead_alg) (encrypt : Bool) : Nat :=
  if aead_map_iv alg encrypt then alg.ivsize else 0

/-- The local `iv_dma` of `aead_edesc_alloc`: the address `dma_map_single`
returned when the IV is mapped, `0` otherwise. -/
def aead_iv_dma (env : Env) (alg : caam_aead_alg) (encrypt : Bool) : Nat :=
  if aead_map_iv alg encrypt then
    env.dma_map_single Buf.iv (aead_ivsize alg encrypt) dma_data_direction.DMA_TO_DEVICE
  else 0

/-- The IV mapping call of `aead_edesc_alloc`, if it is made. -/
def aead_iv_events (env : Env) (alg : caam_aead_alg) (encrypt : Bool) : List Event :=
  if aead_map_iv alg encrypt then
    [Event.map_single Buf.iv (aead_ivsize alg encrypt) dma_data_direction.DMA_TO_DEVICE
      (aead_iv_dma env alg encrypt) (env.dma_mapping_error (aead_iv_dma env alg encrypt))]
  else []

/-- `qm_sg_nents = 1 + !!ivsize + mapped_src_nents +
(mapped_dst_nents > 1 ? mapped_dst_nents : 0)`. -/
def aead_qm_sg_nents (ivsize mapped_src_nents mapped_dst_nents : Nat) : Nat :=
  1 + (if ivsize ≠ 0 then 1 else 0) + mapped_src_nents +
    (if mapped_dst_nents > 1 then mapped_dst_nents else 0)

/-- The table `aead_edesc_alloc` writes: the length word at index `0`, the IV
`if (ivsize)`, the source segments and, `if (mapped_dst_nents > 1)`, the
destination segments. -/
def aead_sg_table (assoclen_dma iv_dma ivsize : Nat) (mapped_src mapped_dst : List sg_seg) :
    List dpaa2_sg_entry :=
  let sg0 := dma_to_qm_sg_one [] 0 assoclen_dma 4 0
  let sg1 := if ivsize ≠ 0 then dma_to_qm_sg_one sg0 1 iv_dma ivsize 0 else sg0
  let idx1 := if ivsize ≠ 0 then 2 else 1
  let sg2 := sg_to_qm_sg_last mapped_src mapped_src.length sg1 idx1 0
  if mapped_dst.length > 1 then
    sg_to_qm_sg_last mapped_dst mapped_dst.length sg2 (idx1 + mapped_src.length) 0
  else sg2

/-- The output frame list entry of `aead_edesc_alloc`; `qm_sg_index` is
`1 + !!ivsize + mapped_src_nents`. -/
def aead_out_fle (in_place : Bool) (qm_sg_dma ivsize out_len : Nat)
    (mapped_src mapped_dst : List sg_seg) : dpaa2_fl_entry :=
  if in_place then
    if mapped_src.length = 1 then
      ⟨sg_dma_address mapped_src, out_len, dpaa2_fl_format.dpaa2_fl_single, false, 0⟩
    else
      ⟨u64 (qm_sg_dma + (1 + (if ivsize ≠ 0 then 1 else 0)) * SG_ENTRY_SIZE), out_len,
        dpaa2_fl_format.dpaa2_fl_sg, false, 0⟩
  else if mapped_dst.length = 1 then
    ⟨sg_dma_address mapped_dst, out_len, dpaa2_fl_format.dpaa2_fl_single, false, 0⟩
  else
    ⟨u64 (qm_sg_dma + ((if ivsize ≠ 0 then 2 else 1) + mapped_src.length) * SG_ENTRY_SIZE),
      out_len, dpaa2_fl_format.dpaa2_fl_sg, false, 0⟩

/-- `out_len = req->assoclen + req->cryptlen +
(encrypt ? ctx->authsize : (-ctx->authsize))`, in `unsigned int`. -/
def aead_out_len (ctx : caam_ctx) (req : aead_request) (encrypt : Bool) : Nat :=
  u32 (req.assoclen + req.cryptlen + (if encrypt then ctx.authsize else u32_neg ctx.authsize))

/-- `in_len = 4 + ivsize + req->assoclen + req->cryptlen`, in `unsigned int`. -/
def aead_in_len (req : aead_request) (ivsize : Nat) : Nat :=
  u32 (4 + ivsize + req.assoclen + req.cryptlen)

/-- The part of `aead_edesc_alloc` after source and destination are mapped:
IV mapping, ceiling check, length-word mapping, table construction, table
mapping, frame list. -/
def aead_edesc_alloc_table (env : Env) (lim : Limits) (ctx : caam_ctx) (alg : caam_aead_alg)
    (req : aead_request) (req_ctx : caam_request) (encrypt : Bool) (st : MappedBufs) :
    Built aead_edesc :=
  let op_type := if encrypt then optype.ENCRYPT else optype.DECRYPT
  let ivsize := aead_ivsize alg encrypt
  let iv_dma := aead_iv_dma env alg encrypt
  let qm_sg_nents := aead_qm_sg_nents ivsize st.mapped_src.length st.mapped_dst.length
  let qm_sg_bytes := qm_sg_nents * SG_ENTRY_SIZE
  let assoclen_dma := env.dma_map_single Buf.assoclen 4 dma_data_direction.DMA_TO_DEVICE
  let qm_sg_dma := env.dma_map_single Buf.sg_table qm_sg_bytes dma_data_direction.DMA_TO_DEVICE
  if aead_map_iv alg encrypt && env.dma_mapping_error iv_dma then
    ⟨Except.error (-ENOMEM), req_ctx,
      st.trace ++ aead_iv_events env alg encrypt ++
        caam_unmap req.src req.dst st.src_nents st.dst_nents 0 0 op_type 0 0 ++ [Event.free]⟩
  else if qm_sg_nents > lim.CAAM_QI_MAX_AEAD_SG then
    ⟨Except.error (-ENOMEM), req_ctx,
      st.trace ++ aead_iv_events env alg encrypt ++
        caam_unmap req.src req.dst st.src_nents st.dst_nents iv_dma ivsize op_type 0 0 ++
        [Event.free]⟩
  else if env.dma_mapping_error assoclen_dma then
    ⟨Except.error (-ENOMEM), req_ctx,
      st.trace ++ aead_iv_events env alg encrypt ++
        [Event.map_single Buf.assoclen 4 dma_data_direction.DMA_TO_DEVICE assoclen_dma true] ++
        caam_unmap req.src req.dst st.src_nents st.dst_nents iv_dma ivsize op_type 0 0 ++
        [Event.free]⟩
  else if env.dma_mapping_error qm_sg_dma then
    ⟨Except.error (-ENOMEM), req_ctx,
      st.trace ++ aead_iv_events env alg encrypt ++
        [Event.map_single Buf.assoclen 4 dma_data_direction.DMA_TO_DEVICE assoclen_dma false,
         Event.map_single Buf.sg_table qm_sg_bytes dma_data_direction.DMA_TO_DEVICE qm_sg_dma
           true,
         Event.unmap_single assoclen_dma 4 dma_data_direction.DMA_TO_DEVICE] ++
        caam_unmap req.src req.dst st.src_nents st.dst_nents iv_dma ivsize op_type 0 0 ++
        [Event.free]⟩
  else
    ⟨Except.ok ⟨st.src_nents, st.dst_nents, iv_dma, qm_sg_bytes, qm_sg_dma, assoclen_dma,
        aead_sg_table assoclen_dma iv_dma ivsize st.mapped_src st.mapped_dst⟩,
      { req_ctx with
        fd_flt0 := aead_out_fle (req.dst = req.src) qm_sg_dma ivsize
          (aead_out_len ctx req encrypt) st.mapped_src st.mapped_dst,
        fd_flt1 := ⟨qm_sg_dma, aead_in_len req ivsize, dpaa2_fl_format.dpaa2_fl_sg, true, 0⟩ },
      st.trace ++ aead_iv_events env alg encrypt ++
        [Event.map_single Buf.assoclen 4 dma_data_direction.DMA_TO_DEVICE assoclen_dma false,
         Event.map_single Buf.sg_table qm_sg_bytes dma_data_direction.DMA_TO_DEVICE qm_sg_dma
           false]⟩

/-- The first part of `aead_edesc_alloc`: pool allocation, segment counts,
mapping of source and destination. The result is the early return of the
builder or the locals it continues with. -/
def aead_map_src_dst (env : Env) (ctx : caam_ctx) (req : aead_request)
    (req_ctx : caam_request) (encrypt : Bool) : Except (Built aead_edesc) MappedBufs :=
  let flags := gfp_flags req.flags CRYPTO_TFM_REQ_MAY_SLEEP
  let authsize := ctx.authsize
  if env.qi_cache_zalloc flags = false then
    Except.error ⟨Except.error (-ENOMEM), req_ctx, [Event.alloc flags false]⟩
  else if req.dst ≠ req.src then
    match sg_nents_for_len req.src (u32 (req.assoclen + req.cryptlen)) with
    | Except.error e =>
      Except.error ⟨Except.error e, req_ctx, [Event.alloc flags true, Event.free]⟩
    | Except.ok src_nents =>
    match sg_nents_for_len req.dst (u32 (req.assoclen + req.cryptlen +
        (if encrypt then authsize else u32_neg authsize))) with
    | Except.error e =>
      Except.error ⟨Except.error e, req_ctx, [Event.alloc flags true, Event.free]⟩
    | Except.ok dst_nents =>
      if src_nents ≠ 0 ∧
          (env.dma_map_sg req.src src_nents dma_data_direction.DMA_TO_DEVICE).length = 0 then
        Except.error ⟨Except.error (-ENOMEM), req_ctx,
          [Event.alloc flags true,
           Event.map_sg req.src src_nents dma_data_direction.DMA_TO_DEVICE 0, Event.free]⟩
      else if (env.dma_map_sg req.dst dst_nents
          dma_data_direction.DMA_FROM_DEVICE).length = 0 then
        Except.error ⟨Except.error (-ENOMEM), req_ctx,
          [Event.alloc flags true] ++
          (if src_nents ≠ 0 then
            [Event.map_sg req.src src_nents dma_data_direction.DMA_TO_DEVICE
              (env.dma_map_sg req.src src_nents dma_data_direction.DMA_TO_DEVICE).length]
           else []) ++
          [Event.map_sg req.dst dst_nents dma_data_direction.DMA_FROM_DEVICE 0,
           Event.unmap_sg req.src src_nents dma_data_direction.DMA_TO_DEVICE, Event.free]⟩
      else
        Except.ok ⟨src_nents, dst_nents,
          if src_nents ≠ 0 then
            env.dma_map_sg req.src src_nents dma_data_direction.DMA_TO_DEVICE else [],
          env.dma_map_sg req.dst dst_nents dma_data_direction.DMA_FROM_DEVICE,
          (env.dma_map_sg req.dst dst_nents dma_data_direction.DMA_FROM_DEVICE).length,
          req.dst,
          [Event.alloc flags true] ++
          (if src_nents ≠ 0 then
            [Event.map_sg req.src src_nents dma_data_direction.DMA_TO_DEVICE
              (env.dma_map_sg req.src src_nents dma_data_direction.DMA_TO_DEVICE).length]
           else []) ++
          [Event.map_sg req.dst dst_nents dma_data_direction.DMA_FROM_DEVICE
            (env.dma_map_sg req.dst dst_nents dma_data_direction.DMA_FROM_DEVICE).length]⟩
  else
    match sg_nents_for_len req.src (u32 (req.assoclen + req.cryptlen +
        (if encrypt then authsize else 0))) with
    | Except.error e =>
      Except.error ⟨Except.error e, req_ctx, [Event.alloc flags true, Event.free]⟩
    | Except.ok src_nents =>
      if (env.dma_map_sg req.src src_nents
          dma_data_direction.DMA_BIDIRECTIONAL).length = 0 then
        Except.error ⟨Except.error (-ENOMEM), req_ctx,
          [Event.alloc flags true,
           Event.map_sg req.src src_nents dma_data_direction.DMA_BIDIRECTIONAL 0,
           Event.free]⟩
      else
        Except.ok ⟨src_nents, 0,
          env.dma_map_sg req.src src_nents dma_data_direction.DMA_BIDIRECTIONAL, [], 0,
          req.dst,
          [Event.alloc flags true,
           Event.map_sg req.src src_nents dma_data_direction.DMA_BIDIRECTIONAL
            (env.dma_map_sg req.src src_nents dma_data_direction.DMA_BIDIRECTIONAL).length]⟩

/-- `aead_edesc_alloc(req, encrypt)`. -/
def aead_edesc_alloc (env : Env) (lim : Limits) (ctx : caam_ctx) (alg : caam_aead_alg)
    (req : aead_request) (req_ctx : caam_request) (encrypt : Bool) : Built aead_edesc :=
  match aead_map_src_dst env ctx req req_ctx encrypt with
  | Except.error b => b
  | Except.ok st => aead_edesc_alloc_table env lim ctx alg req req_ctx encrypt st

/-- `aead_unmap(dev, edesc, req)`: `ivsize` is `crypto_aead_ivsize(aead)` and
`op_type` is read from the request context. -/
def aead_unmap (alg : caam_aead_alg) (edesc : aead_edesc) (req : aead_request)
    (caam_req : caam_request) : List Event :=
  caam_unmap req.src req.dst edesc.src_nents edesc.dst_nents edesc.iv_dma alg.ivsize
    caam_req.op_type edesc.qm_sg_dma edesc.qm_sg_bytes ++
  [Event.unmap_single edesc.assoclen_dma 4 dma_data_direction.DMA_TO_DEVICE]

/-- Is the event a bus mapping call (`dma_map_sg`, `dma_map_single`). -/
def Event.is_map : Event → Bool
  | Event.map_sg _ _ _ _ => true
  | Event.map_single _ _ _ _ _ => true
  | _ => false

/-- Is the event a bus unmapping call (`dma_unmap_sg`, `dma_unmap_single`). -/
def Event.is_unmap : Event → Bool
  | Event.unmap_sg _ _ _ => true
  | Event.unmap_single _ _ _ => true
  | _ => false

/-- Is the event a hardware enqueue attempt. -/
def Event.is_enqueue : Event → Bool
  | Event.enqueue _ _ _ => true
  | _ => false

/-! ## Builder: `ablkcipher_edesc_alloc` -/

/-- A `struct ablkcipher_request`: `base.flags`, `nbytes`, `src`, `dst`. -/
structure ablkcipher_request where
  flags : Nat
  nbytes : Nat
  src : scatterlist
  dst : scatterlist
  deriving DecidableEq, Repr

/-- `struct ablkcipher_edesc`; `sgt` holds the table entries written so far. -/
structure ablkcipher_edesc where
  src_nents : Nat
  dst_nents : Nat
  iv_dma : Nat
  qm_sg_bytes : Nat
  qm_sg_dma : Nat
  sgt : List dpaa2_sg_entry
  deriving DecidableEq, Repr

/-- `in_contig`: `mapped_src_nents == 1 && iv_dma + ivsize ==
sg_dma_address(req->src)`. -/
def ablkcipher_in_contig (iv_dma ivsize : Nat) (mapped_src : List sg_seg) : Bool :=
  mapped_src.length = 1 && u64 (iv_dma + ivsize) = sg_dma_address mapped_src

/-- `dst_sg_idx` of `ablkcipher_edesc_alloc`: `0` on the contiguous path,
`1 + mapped_src_nents` otherwise. -/
def ablkcipher_dst_sg_idx (iv_dma ivsize : Nat) (mapped_src : List sg_seg) : Nat :=
  if ablkcipher_in_contig iv_dma ivsize mapped_src then 0 else 1 + mapped_src.length

/-- `qm_sg_ents` of `ablkcipher_edesc_alloc`. -/
def ablkcipher_qm_sg_ents (iv_dma ivsize : Nat) (mapped_src mapped_dst : List sg_seg) : Nat :=
  ablkcipher_dst_sg_idx iv_dma ivsize mapped_src +
    (if mapped_dst.length > 1 then mapped_dst.length else 0)

/-- The table `ablkcipher_edesc_alloc` writes: `if (!in_contig)` the IV and the
source segments, `if (mapped_dst_nents > 1)` the destination segments from
index `dst_sg_idx` on. -/
def ablkcipher_sg_table (iv_dma ivsize : Nat) (mapped_src mapped_dst : List sg_seg) :
    List dpaa2_sg_entry :=
  let sg1 := if ablkcipher_in_contig iv_dma ivsize mapped_src then []
    else sg_to_qm_sg_last mapped_src mapped_src.length
      (dma_to_qm_sg_one [] 0 iv_dma ivsize 0) 1 0
  if mapped_dst.length > 1 then
    sg_to_qm_sg_last mapped_dst mapped_dst.length sg1
      (ablkcipher_dst_sg_idx iv_dma ivsize mapped_src) 0
  else sg1

/-- The input frame list entry of `ablkcipher_edesc_alloc`. -/
def ablkcipher_in_fle (req : ablkcipher_request) (iv_dma ivsize qm_sg_dma : Nat)
    (mapped_src : List sg_seg) : dpaa2_fl_entry :=
  if ablkcipher_in_contig iv_dma ivsize mapped_src then
    ⟨iv_dma, u32 (req.nbytes + ivsize), dpaa2_fl_format.dpaa2_fl_single, true, 0⟩
  else
    ⟨qm_sg_dma, u32 (req.nbytes + ivsize), dpaa2_fl_format.dpaa2_fl_sg, true, 0⟩

/-- The output frame list entry of `ablkcipher_edesc_alloc`. -/
def ablkcipher_out_fle (req : ablkcipher_request) (iv_dma ivsize qm_sg_dma : Nat)
    (mapped_src mapped_dst : List sg_seg) : dpaa2_fl_entry :=
  if req.src = req.dst then
    if ablkcipher_in_contig iv_dma ivsize mapped_src then
      ⟨sg_dma_address mapped_src, req.nbytes, dpaa2_fl_format.dpaa2_fl_single, false, 0⟩
    else
      ⟨u64 (qm_sg_dma + SG_ENTRY_SIZE), req.nbytes, dpaa2_fl_format.dpaa2_fl_sg, false, 0⟩
  else if mapped_dst.length > 1 then
    ⟨u64 (qm_sg_dma + ablkcipher_dst_sg_idx iv_dma ivsize mapped_src * SG_ENTRY_SIZE),
      req.nbytes, dpaa2_fl_format.dpaa2_fl_sg, false, 0⟩
  else
    ⟨sg_dma_address mapped_dst, req.nbytes, dpaa2_fl_format.dpaa2_fl_single, false, 0⟩

/-- The part of `ablkcipher_edesc_alloc` after source and destination are
mapped: IV mapping, contiguity test, ceiling check, pool allocation, table
construction, table mapping, frame list. `ivsize` is
`crypto_ablkcipher_ivsize(ablkcipher)`. -/
def ablkcipher_edesc_alloc_table (env : Env) (lim : Limits) (ivsize : Nat)
    (req : ablkcipher_request) (req_ctx : caam_request) (encrypt : Bool) (st : MappedBufs) :
    Built ablkcipher_edesc :=
  let op_type := if encrypt then optype.ENCRYPT else optype.DECRYPT
  let flags := gfp_flags req.flags CRYPTO_TFM_REQ_MAY_SLEEP
  let iv_dma := env.dma_map_single Buf.iv ivsize dma_data_direction.DMA_TO_DEVICE
  let qm_sg_ents := ablkcipher_qm_sg_ents iv_dma ivsize st.mapped_src st.mapped_dst
  let qm_sg_bytes := qm_sg_ents * SG_ENTRY_SIZE
  let qm_sg_dma := env.dma_map_single Buf.sg_table qm_sg_bytes dma_data_direction.DMA_TO_DEVICE
  if env.dma_mapping_error iv_dma then
    ⟨Except.error (-ENOMEM), req_ctx,
      st.trace ++
        [Event.map_single Buf.iv ivsize dma_data_direction.DMA_TO_DEVICE iv_dma true] ++
        caam_unmap req.src req.dst st.src_nents st.dst_nents 0 0 optype.ENCRYPT 0 0⟩
  else if qm_sg_ents > lim.CAAM_QI_MAX_ABLKCIPHER_SG then
    ⟨Except.error (-ENOMEM), req_ctx,
      st.trace ++
        [Event.map_single Buf.iv ivsize dma_data_direction.DMA_TO_DEVICE iv_dma false] ++
        caam_unmap req.src req.dst st.src_nents st.dst_nents iv_dma ivsize op_type 0 0⟩
  else if env.qi_cache_zalloc flags = false then
    ⟨Except.error (-ENOMEM), req_ctx,
      st.trace ++
        [Event.map_single Buf.iv ivsize dma_data_direction.DMA_TO_DEVICE iv_dma false,
         Event.alloc flags false] ++
        caam_unmap req.src req.dst st.src_nents st.dst_nents iv_dma ivsize op_type 0 0⟩
  else if env.dma_mapping_error qm_sg_dma then
    ⟨Except.error (-ENOMEM), req_ctx,
      st.trace ++
        [Event.map_single Buf.iv ivsize dma_data_direction.DMA_TO_DEVICE iv_dma false,
         Event.alloc flags true,
         Event.map_single Buf.sg_table qm_sg_bytes dma_data_direction.DMA_TO_DEVICE
           qm_sg_dma true] ++
        caam_unmap req.src req.dst st.src_nents st.dst_nents iv_dma ivsize op_type 0 0 ++
        [Event.free]⟩
  else
    ⟨Except.ok ⟨st.src_nents, st.dst_nents, iv_dma, qm_sg_bytes, qm_sg_dma,
        ablkcipher_sg_table iv_dma ivsize st.mapped_src st.mapped_dst⟩,
      { req_ctx with
        fd_flt0 := ablkcipher_out_fle req iv_dma ivsize qm_sg_dma st.mapped_src st.mapped_dst,
        fd_flt1 := ablkcipher_in_fle req iv_dma ivsize qm_sg_dma st.mapped_src },
      st.trace ++
        [Event.map_single Buf.iv ivsize dma_data_direction.DMA_TO_DEVICE iv_dma false,
         Event.alloc flags true,
         Event.map_single Buf.sg_table qm_sg_bytes dma_data_direction.DMA_TO_DEVICE
           qm_sg_dma false]⟩

/-- The first part of `ablkcipher_edesc_alloc` and of
`ablkcipher_giv_edesc_alloc`: segment counts, mapping of source and
destination. `giv` tells the generated-IV builder, which in place sets
`dst_nents = src_nents; mapped_dst_nents = src_nents;`. -/
def ablkcipher_map_src_dst (env : Env) (req : ablkcipher_request)
    (req_ctx : caam_request) (giv : Bool) : Except (Built ablkcipher_edesc) MappedBufs :=
  match sg_nents_for_len req.src req.nbytes with
  | Except.error e => Except.error ⟨Except.error e, req_ctx, []⟩
  | Except.ok src_nents =>
    if req.dst ≠ req.src then
      match sg_nents_for_len req.dst req.nbytes with
      | Except.error e => Except.error ⟨Except.error e, req_ctx, []⟩
      | Except.ok dst_nents =>
        if (env.dma_map_sg req.src src_nents dma_data_direction.DMA_TO_DEVICE).length = 0 then
          Except.error ⟨Except.error (-ENOMEM), req_ctx,
            [Event.map_sg req.src src_nents dma_data_direction.DMA_TO_DEVICE 0]⟩
        else if (env.dma_map_sg req.dst dst_nents
            dma_data_direction.DMA_FROM_DEVICE).length = 0 then
          Except.error ⟨Except.error (-ENOMEM), req_ctx,
            [Event.map_sg req.src src_nents dma_data_direction.DMA_TO_DEVICE
              (env.dma_map_sg req.src src_nents dma_data_direction.DMA_TO_DEVICE).length,
             Event.map_sg req.dst dst_nents dma_data_direction.DMA_FROM_DEVICE 0,
             Event.unmap_sg req.src src_nents dma_data_direction.DMA_TO_DEVICE]⟩
        else
          Except.ok ⟨src_nents, dst_nents,
            env.dma_map_sg req.src src_nents dma_data_direction.DMA_TO_DEVICE,
            env.dma_map_sg req.dst dst_nents dma_data_direction.DMA_FROM_DEVICE,
            (env.dma_map_sg req.dst dst_nents dma_data_direction.DMA_FROM_DEVICE).length,
            req.dst,
            [Event.map_sg req.src src_nents dma_data_direction.DMA_TO_DEVICE
              (env.dma_map_sg req.src src_nents dma_data_direction.DMA_TO_DEVICE).length,
             Event.map_sg req.dst dst_nents dma_data_direction.DMA_FROM_DEVICE
              (env.dma_map_sg req.dst dst_nents dma_data_direction.DMA_FROM_DEVICE).length]⟩
    else
      if (env.dma_map_sg req.src src_nents
          dma_data_direction.DMA_BIDIRECTIONAL).length = 0 then
        Except.error ⟨Except.error (-ENOMEM), req_ctx,
          [Event.map_sg req.src src_nents dma_data_direction.DMA_BIDIRECTIONAL 0]⟩
      else
        Except.ok ⟨src_nents, if giv then src_nents else 0,
          env.dma_map_sg req.src src_nents dma_data_direction.DMA_BIDIRECTIONAL,
          if giv then env.dma_map_sg req.src src_nents dma_data_direction.DMA_BIDIRECTIONAL
          else [],
          if giv then src_nents else 0,
          req.dst,
          [Event.map_sg req.src src_nents dma_data_direction.DMA_BIDIRECTIONAL
            (env.dma_map_sg req.src src_nents dma_data_direction.DMA_BIDIRECTIONAL).length]⟩

/-- `ablkcipher_edesc_alloc(req, encrypt)`. -/
def ablkcipher_edesc_alloc (env : Env) (lim : Limits) (ivsize : Nat)
    (req : ablkcipher_request) (req_ctx : caam_request) (encrypt : Bool) :
    Built ablkcipher_edesc :=
  match ablkcipher_map_src_dst env req req_ctx false with
  | Except.error b => b
  | Except.ok st => ablkcipher_edesc_alloc_table env lim ivsize req req_ctx encrypt st

/-- `ablkcipher_unmap(dev, edesc, req)`: `ivsize` is
`crypto_ablkcipher_ivsize(ablkcipher)` and `op_type` is read from the request
context. -/
def ablkcipher_unmap (ivsize : Nat) (edesc : ablkcipher_edesc) (req : ablkcipher_request)
    (caam_req : caam_request) : List Event :=
  caam_unmap req.src req.dst edesc.src_nents edesc.dst_nents edesc.iv_dma ivsize
    caam_req.op_type edesc.qm_sg_dma edesc.qm_sg_bytes

/-! ## Builder: `ablkcipher_giv_edesc_alloc` -/

/-- `out_contig`: `mapped_dst_nents == 1 && iv_dma + ivsize ==
sg_dma_address(req->dst)`. -/
def giv_out_contig (iv_dma ivsize mapped_dst_nents : Nat) (dst_view : List sg_seg) : Bool :=
  mapped_dst_nents = 1 && u64 (iv_dma + ivsize) = sg_dma_address dst_view

/-- `dst_sg_idx` of `ablkcipher_giv_edesc_alloc`:
`mapped_src_nents > 1 ? mapped_src_nents : 0`. -/
def giv_dst_sg_idx (mapped_src : List sg_seg) : Nat :=
  if mapped_src.length > 1 then mapped_src.length else 0

/-- `qm_sg_ents` of `ablkcipher_giv_edesc_alloc`. -/
def giv_qm_sg_ents (iv_dma ivsize mapped_dst_nents : Nat) (mapped_src dst_view : List sg_seg) :
    Nat :=
  giv_dst_sg_idx mapped_src +
    (if giv_out_contig iv_dma ivsize mapped_dst_nents dst_view then 0
     else 1 + mapped_dst_nents)

/-- The table `ablkcipher_giv_edesc_alloc` writes: `if (mapped_src_nents > 1)`
the source segments, `if (!out_contig)` the IV at `dst_sg_idx` followed by the
destination segments. -/
def giv_sg_table (iv_dma ivsize mapped_dst_nents : Nat) (mapped_src dst_view : List sg_seg) :
    List dpaa2_sg_entry :=
  let sg1 := if mapped_src.length > 1 then
      sg_to_qm_sg_last mapped_src mapped_src.length [] 0 0 else []
  if giv_out_contig iv_dma ivsize mapped_dst_nents dst_view then sg1
  else
    sg_to_qm_sg_last dst_view mapped_dst_nents
      (dma_to_qm_sg_one sg1 (giv_dst_sg_idx mapped_src) iv_dma ivsize 0)
      (giv_dst_sg_idx mapped_src + 1) 0

/-- The input frame list entry of `ablkcipher_giv_edesc_alloc`. -/
def giv_in_fle (req : ablkcipher_request) (qm_sg_dma : Nat) (mapped_src : List sg_seg) :
    dpaa2_fl_entry :=
  if mapped_src.length > 1 then
    ⟨qm_sg_dma, req.nbytes, dpaa2_fl_format.dpaa2_fl_sg, true, 0⟩
  else
    ⟨sg_dma_address mapped_src, req.nbytes, dpaa2_fl_format.dpaa2_fl_single, true, 0⟩

/-- The output frame list entry of `ablkcipher_giv_edesc_alloc`. -/
def giv_out_fle (req : ablkcipher_request) (iv_dma ivsize qm_sg_dma mapped_dst_nents : Nat)
    (mapped_src dst_view : List sg_seg) : dpaa2_fl_entry :=
  if giv_out_contig iv_dma ivsize mapped_dst_nents dst_view then
    ⟨sg_dma_address dst_view, u32 (ivsize + req.nbytes), dpaa2_fl_format.dpaa2_fl_single,
      false, 0⟩
  else
    ⟨u64 (qm_sg_dma + giv_dst_sg_idx mapped_src * SG_ENTRY_SIZE), u32 (ivsize + req.nbytes),
      dpaa2_fl_format.dpaa2_fl_sg, false, 0⟩

/-- The part of `ablkcipher_giv_edesc_alloc` after source and destination are
mapped: IV mapping, contiguity test, ceiling check, pool allocation, table
construction, table mapping, frame list. -/
def ablkcipher_giv_edesc_alloc_table (env : Env) (lim : Limits) (ivsize : Nat)
    (req : ablkcipher_request) (req_ctx : caam_request) (st : MappedBufs) :
    Built ablkcipher_edesc :=
  let flags := gfp_flags req.flags CRYPTO_TFM_REQ_MAY_SLEEP
  let iv_dma := env.dma_map_single Buf.giv ivsize dma_data_direction.DMA_FROM_DEVICE
  let qm_sg_ents := giv_qm_sg_ents iv_dma ivsize st.mapped_dst_nents st.mapped_src st.mapped_dst
  let qm_sg_bytes := qm_sg_ents * SG_ENTRY_SIZE
  let qm_sg_dma := env.dma_map_single Buf.sg_table qm_sg_bytes dma_data_direction.DMA_TO_DEVICE
  if env.dma_mapping_error iv_dma then
    ⟨Except.error (-ENOMEM), req_ctx,
      st.trace ++
        [Event.map_single Buf.giv ivsize dma_data_direction.DMA_FROM_DEVICE iv_dma true] ++
        caam_unmap req.src req.dst st.src_nents st.dst_nents 0 0 optype.ENCRYPT 0 0⟩
  else if qm_sg_ents > lim.CAAM_QI_MAX_ABLKCIPHER_SG then
    ⟨Except.error (-ENOMEM), req_ctx,
      st.trace ++
        [Event.map_single Buf.giv ivsize dma_data_direction.DMA_FROM_DEVICE iv_dma false] ++
        caam_unmap req.src req.dst st.src_nents st.dst_nents iv_dma ivsize
          optype.GIVENCRYPT 0 0⟩
  else if env.qi_cache_zalloc flags = false then
    ⟨Except.error (-ENOMEM), req_ctx,
      st.trace ++
        [Event.map_single Buf.giv ivsize dma_data_direction.DMA_FROM_DEVICE iv_dma false,
         Event.alloc flags false] ++
        caam_unmap req.src req.dst st.src_nents st.dst_nents iv_dma ivsize
          optype.GIVENCRYPT 0 0⟩
  else if env.dma_mapping_error qm_sg_dma then
    ⟨Except.error (-ENOMEM), req_ctx,
      st.trace ++
        [Event.map_single Buf.giv ivsize dma_data_direction.DMA_FROM_DEVICE iv_dma false,
         Event.alloc flags true,
         Event.map_single Buf.sg_table qm_sg_bytes dma_data_direction.DMA_TO_DEVICE
           qm_sg_dma true] ++
        caam_unmap req.src req.dst st.src_nents st.dst_nents iv_dma ivsize
          optype.GIVENCRYPT 0 0 ++
        [Event.free]⟩
  else
    ⟨Except.ok ⟨st.src_nents, st.dst_nents, iv_dma, qm_sg_bytes, qm_sg_dma,
        giv_sg_table iv_dma ivsize st.mapped_dst_nents st.mapped_src st.mapped_dst⟩,
      { req_ctx with
        fd_flt0 := giv_out_fle req iv_dma ivsize qm_sg_dma st.mapped_dst_nents st.mapped_src
          st.mapped_dst,
        fd_flt1 := giv_in_fle req qm_sg_dma st.mapped_src },
      st.trace ++
        [Event.map_single Buf.giv ivsize dma_data_direction.DMA_FROM_DEVICE iv_dma false,
         Event.alloc flags true,
         Event.map_single Buf.sg_table qm_sg_bytes dma_data_direction.DMA_TO_DEVICE
           qm_sg_dma false]⟩

/-- `ablkcipher_giv_edesc_alloc(greq)`; `req` is `greq->creq`. -/
def ablkcipher_giv_edesc_alloc (env : Env) (lim : Limits) (ivsize : Nat)
    (req : ablkcipher_request) (req_ctx : caam_request) : Built ablkcipher_edesc :=
  match ablkcipher_map_src_dst env req req_ctx true with
  | Except.error b => b
  | Except.ok st => ablkcipher_giv_edesc_alloc_table env lim ivsize req req_ctx st

/-! ## Builder: `tls_edesc_alloc` -/

/-- `struct tls_edesc`; `dst` is the destination list the builder mapped. -/
structure tls_edesc where
  src_nents : Nat
  dst_nents : Nat
  iv_dma : Nat
  qm_sg_bytes : Nat
  qm_sg_dma : Nat
  dst : scatterlist
  sgt : List dpaa2_sg_entry
  deriving DecidableEq, Repr

/-- The walk of `scatterwalk_ffwd` over the entry lengths, `ptr` being the
pointer to the current entry (`sg_next` is the next pointer value). -/
def scatterwalk_ffwd_walk (tmp : Nat) : List Nat → Nat → Nat → Option scatterlist
  | [], ptr, len => if len = 0 then some ⟨ptr, []⟩ else none
  | l :: rest, ptr, len =>
    if len = 0 then some ⟨ptr, l :: rest⟩
    else if l > len then some ⟨tmp, (l - len) :: rest⟩
    else scatterwalk_ffwd_walk tmp rest (ptr + 1) (len - l)

/-- Modelled from the spec: `scatterwalk_ffwd` of crypto/scatterwalk.c, which
is not part of this file ("always maps destination starting at a
caller-supplied offset into the real destination (skipping the record
header)"). It skips `len` bytes: the list itself when `len` is `0`, the
remaining entries when `len` ends on an entry boundary, and otherwise the table
`tmp` whose first entry is the rest of the entry that `len` falls into. The
result is `none` when the list holds fewer than `len` bytes (the C code then
reads through a null pointer). -/
def scatterwalk_ffwd (tmp : Nat) (sg : scatterlist) (len : Nat) : Option scatterlist :=
  scatterwalk_ffwd_walk tmp sg.lens sg.ptr len

/-- The local `authsize` of `tls_edesc_alloc`: for encryption the tag length
plus `padsize = blocksize - ((req->cryptlen + ctx->authsize) % blocksize)`,
in `unsigned int`; for decryption the tag length. -/
def tls_authsize (ctx : caam_ctx) (blocksize : Nat) (req : aead_request) (encrypt : Bool) :
    Nat :=
  if encrypt then
    u32 (ctx.authsize + u32 (blocksize - u32 (req.cryptlen + ctx.authsize) % blocksize))
  else ctx.authsize

/-- `qm_sg_ents = 1 + mapped_src_nents +
(mapped_dst_nents > 1 ? mapped_dst_nents : 0)`. -/
def tls_qm_sg_ents (mapped_src_nents mapped_dst_nents : Nat) : Nat :=
  1 + mapped_src_nents + (if mapped_dst_nents > 1 then mapped_dst_nents else 0)

/-- The table `tls_edesc_alloc` writes: the IV at index `0`, the source
segments and, `if (mapped_dst_nents > 1)`, the destination segments. -/
def tls_sg_table (iv_dma ivsize : Nat) (mapped_src mapped_dst : List sg_seg) :
    List dpaa2_sg_entry :=
  let sg1 := sg_to_qm_sg_last mapped_src mapped_src.length
    (dma_to_qm_sg_one [] 0 iv_dma ivsize 0) 1 0
  if mapped_dst.length > 1 then
    sg_to_qm_sg_last mapped_dst mapped_dst.length sg1 (1 + mapped_src.length) 0
  else sg1

/-- `(sg_nents_for_len(req->src, req->assoclen) + 1) * sizeof(*sg_table)` as
the `unsigned long` added to `qm_sg_dma`; a negative count wraps. -/
def tls_out_offset (req : aead_request) : Nat :=
  match sg_nents_for_len req.src req.assoclen with
  | Except.ok n => (n + 1) * SG_ENTRY_SIZE
  | Except.error e => ((e + 1) * (SG_ENTRY_SIZE : Int) % 18446744073709551616).toNat

/-- The output frame list entry of `tls_edesc_alloc`. -/
def tls_out_fle (req : aead_request) (qm_sg_dma out_len : Nat)
    (mapped_src mapped_dst : List sg_seg) : dpaa2_fl_entry :=
  if req.dst = req.src then
    ⟨u64 (qm_sg_dma + tls_out_offset req), out_len, dpaa2_fl_format.dpaa2_fl_sg, false, 0⟩
  else if mapped_dst.length = 1 then
    ⟨sg_dma_address mapped_dst, out_len, dpaa2_fl_format.dpaa2_fl_single, false, 0⟩
  else
    ⟨u64 (qm_sg_dma + (1 + mapped_src.length) * SG_ENTRY_SIZE), out_len,
      dpaa2_fl_format.dpaa2_fl_sg, false, 0⟩

/-- The part of `tls_edesc_alloc` after source and destination are mapped: IV
mapping, table construction, table mapping, frame list. `authsize` is the
local (padded) tag length. -/
def tls_edesc_alloc_table (env : Env) (alg : caam_aead_alg)
    (req : aead_request) (req_ctx : caam_request) (encrypt : Bool) (authsize : Nat)
    (st : MappedBufs) : Built tls_edesc :=
  let op_type := if encrypt then optype.ENCRYPT else optype.DECRYPT
  let ivsize := alg.ivsize
  let iv_dma := env.dma_map_single Buf.iv ivsize dma_data_direction.DMA_TO_DEVICE
  let qm_sg_bytes := tls_qm_sg_ents st.mapped_src.length st.mapped_dst.length * SG_ENTRY_SIZE
  let qm_sg_dma := env.dma_map_single Buf.sg_table qm_sg_bytes dma_data_direction.DMA_TO_DEVICE
  if env.dma_mapping_error iv_dma then
    ⟨Except.error (-ENOMEM), req_ctx,
      st.trace ++
        [Event.map_single Buf.iv ivsize dma_data_direction.DMA_TO_DEVICE iv_dma true] ++
        caam_unmap req.src st.dst st.src_nents st.dst_nents 0 0 op_type 0 0 ++ [Event.free]⟩
  else if env.dma_mapping_error qm_sg_dma then
    ⟨Except.error (-ENOMEM), req_ctx,
      st.trace ++
        [Event.map_single Buf.iv ivsize dma_data_direction.DMA_TO_DEVICE iv_dma false,
         Event.map_single Buf.sg_table qm_sg_bytes dma_data_direction.DMA_TO_DEVICE
           qm_sg_dma true] ++
        caam_unmap req.src st.dst st.src_nents st.dst_nents iv_dma ivsize op_type 0 0 ++
        [Event.free]⟩
  else
    ⟨Except.ok ⟨st.src_nents, st.dst_nents, iv_dma, qm_sg_bytes, qm_sg_dma, st.dst,
        tls_sg_table iv_dma ivsize st.mapped_src st.mapped_dst⟩,
      { req_ctx with
        fd_flt0 := tls_out_fle req qm_sg_dma
          (u32 (req.cryptlen + (if encrypt then authsize else 0))) st.mapped_src st.mapped_dst,
        fd_flt1 := ⟨qm_sg_dma, u32 (ivsize + req.assoclen + req.cryptlen),
          dpaa2_fl_format.dpaa2_fl_sg, true, 0⟩ },
      st.trace ++
        [Event.map_single Buf.iv ivsize dma_data_direction.DMA_TO_DEVICE iv_dma false,
         Event.map_single Buf.sg_table qm_sg_bytes dma_data_direction.DMA_TO_DEVICE
           qm_sg_dma false]⟩

/-- The first part of `tls_edesc_alloc`: pool allocation, segment counts,
mapping of source and destination (the destination `assoclen` bytes in when
the buffers are distinct). `tmp` is the address of `edesc->tmp`. The result
is `none` when `scatterwalk_ffwd` faults. -/
def tls_map_src_dst (env : Env) (tmp : Nat) (req : aead_request) (req_ctx : caam_request)
    (encrypt : Bool) (authsize : Nat) : Option (Except (Built tls_edesc) MappedBufs) :=
  let flags := gfp_flags req.flags (CRYPTO_TFM_REQ_MAY_BACKLOG ||| CRYPTO_TFM_REQ_MAY_SLEEP)
  if env.qi_cache_zalloc flags = false then
    some (Except.error ⟨Except.error (-ENOMEM), req_ctx, [Event.alloc flags false]⟩)
  else if req.src = req.dst then
    match sg_nents_for_len req.src (u32 (req.assoclen + req.cryptlen +
        (if encrypt then authsize else 0))) with
    | Except.error e =>
      some (Except.error ⟨Except.error e, req_ctx, [Event.alloc flags true, Event.free]⟩)
    | Except.ok src_nents =>
      if (env.dma_map_sg req.src src_nents
          dma_data_direction.DMA_BIDIRECTIONAL).length = 0 then
        some (Except.error ⟨Except.error (-ENOMEM), req_ctx,
          [Event.alloc flags true,
           Event.map_sg req.src src_nents dma_data_direction.DMA_BIDIRECTIONAL 0,
           Event.free]⟩)
      else
        some (Except.ok ⟨src_nents, 0,
          env.dma_map_sg req.src src_nents dma_data_direction.DMA_BIDIRECTIONAL, [], 0,
          req.dst,
          [Event.alloc flags true,
           Event.map_sg req.src src_nents dma_data_direction.DMA_BIDIRECTIONAL
            (env.dma_map_sg req.src src_nents dma_data_direction.DMA_BIDIRECTIONAL).length]⟩)
  else
    match sg_nents_for_len req.src (u32 (req.assoclen + req.cryptlen)) with
    | Except.error e =>
      some (Except.error ⟨Except.error e, req_ctx, [Event.alloc flags true, Event.free]⟩)
    | Except.ok src_nents =>
    match scatterwalk_ffwd tmp req.dst req.assoclen with
    | none => none
    | some dst =>
    match sg_nents_for_len dst (u32 (req.cryptlen + (if encrypt then authsize else 0))) with
    | Except.error e =>
      some (Except.error ⟨Except.error e, req_ctx, [Event.alloc flags true, Event.free]⟩)
    | Except.ok dst_nents =>
      if src_nents ≠ 0 ∧
          (env.dma_map_sg req.src src_nents dma_data_direction.DMA_TO_DEVICE).length = 0 then
        some (Except.error ⟨Except.error (-ENOMEM), req_ctx,
          [Event.alloc flags true,
           Event.map_sg req.src src_nents dma_data_direction.DMA_TO_DEVICE 0, Event.free]⟩)
      else if (env.dma_map_sg dst dst_nents dma_data_direction.DMA_FROM_DEVICE).length = 0 then
        some (Except.error ⟨Except.error (-ENOMEM), req_ctx,
          [Event.alloc flags true] ++
          (if src_nents ≠ 0 then
            [Event.map_sg req.src src_nents dma_data_direction.DMA_TO_DEVICE
              (env.dma_map_sg req.src src_nents dma_data_direction.DMA_TO_DEVICE).length]
           else []) ++
          [Event.map_sg dst dst_nents dma_data_direction.DMA_FROM_DEVICE 0,
           Event.unmap_sg req.src src_nents dma_data_direction.DMA_TO_DEVICE, Event.free]⟩)
      else
        some (Except.ok ⟨src_nents, dst_nents,
          if src_nents ≠ 0 then
            env.dma_map_sg req.src src_nents dma_data_direction.DMA_TO_DEVICE else [],
          env.dma_map_sg dst dst_nents dma_data_direction.DMA_FROM_DEVICE,
          (env.dma_map_sg dst dst_nents dma_data_direction.DMA_FROM_DEVICE).length,
          dst,
          [Event.alloc flags true] ++
          (if src_nents ≠ 0 then
            [Event.map_sg req.src src_nents dma_data_direction.DMA_TO_DEVICE
              (env.dma_map_sg req.src src_nents dma_data_direction.DMA_TO_DEVICE).length]
           else []) ++
          [Event.map_sg dst dst_nents dma_data_direction.DMA_FROM_DEVICE
            (env.dma_map_sg dst dst_nents dma_data_direction.DMA_FROM_DEVICE).length]⟩)

/-- `tls_edesc_alloc(req, encrypt)`. `tmp` is the address of `edesc->tmp`. The
result is `none` where the C code faults: a block size of `0` on encryption
(division by zero) and a destination shorter than `assoclen` (null pointer in
`scatterwalk_ffwd`). -/
def tls_edesc_alloc (env : Env) (ctx : caam_ctx) (alg : caam_aead_alg) (tmp : Nat)
    (req : aead_request) (req_ctx : caam_request) (encrypt : Bool) :
    Option (Built tls_edesc) :=
  if encrypt && alg.cra_blocksize = 0 then none
  else
    match tls_map_src_dst env tmp req req_ctx encrypt
        (tls_authsize ctx alg.cra_blocksize req encrypt) with
    | none => none
    | some (Except.error b) => some b
    | some (Except.ok st) =>
      some (tls_edesc_alloc_table env alg req req_ctx encrypt
        (tls_authsize ctx alg.cra_blocksize req encrypt) st)

/-- `tls_unmap(dev, edesc, req)`: the destination is `edesc->dst`. -/
def tls_unmap (alg : caam_aead_alg) (edesc : tls_edesc) (req : aead_request)
    (caam_req : caam_request) : List Event :=
  caam_unmap req.src edesc.dst edesc.src_nents edesc.dst_nents edesc.iv_dma alg.ivsize
    caam_req.op_type edesc.qm_sg_dma edesc.qm_sg_bytes

/-! ## Entry points -/

/-- `caam_req->flc = ...; caam_req->op_type = ...; caam_req->cbk = ...`: the
request context as an entry point prepares it for submission. -/
def caam_req_init (req_ctx : caam_request) (flc : caam_flc) (op_type : optype)
    (cbk : cbk_fn) : caam_request :=
  { req_ctx with flc := flc, op_type := op_type, cbk := cbk }

/-- What a mapping holds and an unmapping releases: a scatter list with a
segment count and a direction, or a single buffer given by bus address, size
and direction. -/
inductive Resource where
  | sg (sg : scatterlist) (nents : Nat) (dir : dma_data_direction)
  | single (addr : Nat) (size : Nat) (dir : dma_data_direction)
  deriving DecidableEq, Repr

/-- The resource a successful mapping call created; a failed call created
none. -/
def Event.mapped : Event → Option Resource
  | Event.map_sg sg nents dir mapped =>
    if mapped = 0 then none else some (Resource.sg sg nents dir)
  | Event.map_single _ size dir addr err =>
    if err then none else some (Resource.single addr size dir)
  | _ => none

/-- The resource an unmapping call names. -/
def Event.unmapped : Event → Option Resource
  | Event.unmap_sg sg nents dir => some (Resource.sg sg nents dir)
  | Event.unmap_single addr size dir => some (Resource.single addr size dir)
  | _ => none

/-- The resources created by the successful mapping calls of a trace. -/
def mappings (tr : List Event) : List Resource := tr.filterMap Event.mapped

/-- The resources named by the unmapping calls of a trace. -/
def unmappings (tr : List Event) : List Resource := tr.filterMap Event.unmapped

/-- Is the event a mapping call for the scatter/gather table. -/
def Event.is_table_map : Event → Bool
  | Event.map_single Buf.sg_table _ _ _ _ => true
  | _ => false

/-- Is the event a pool allocation call. -/
def Event.is_alloc : Event → Bool
  | Event.alloc _ _ => true
  | _ => false

/-- The job-ring status constants of regs.h, which is not part of this file;
they are parameters of the embedding. -/
structure Regs where
  JRSTA_CCBERR_ERRID_MASK : Nat
  JRSTA_CCBERR_ERRID_ICVCHK : Nat

/-- The `ecode` of `aead_encrypt_done`, `tls_encrypt_done` and
`ablkcipher_done`: `int ecode = 0; if (unlikely(status)) ecode = -EIO;`. -/
def encrypt_done_ecode (status : Nat) : Int :=
  if status ≠ 0 then - EIO else 0

/-- The `ecode` of `aead_decrypt_done` and `tls_decrypt_done`:
`if (unlikely(status)) { if ((status & JRSTA_CCBERR_ERRID_MASK) ==
JRSTA_CCBERR_ERRID_ICVCHK) ecode = -EBADMSG; else ecode = -EIO; }`. -/
def decrypt_done_ecode (regs : Regs) (status : Nat) : Int :=
  if status ≠ 0 then
    if status &&& regs.JRSTA_CCBERR_ERRID_MASK = regs.JRSTA_CCBERR_ERRID_ICVCHK then -EBADMSG
    else - EIO
  else 0

/-- `aead_encrypt_done(cbk_ctx, status)`: the descriptor is `req_ctx->edesc`;
the callback unmaps, releases the descriptor and completes the request. -/
def aead_encrypt_done (alg : caam_aead_alg) (edesc : aead_edesc) (req : aead_request)
    (req_ctx : caam_request) (status : Nat) : List Event :=
  aead_unmap alg edesc req req_ctx ++
    [Event.free, Event.complete (encrypt_done_ecode status)]

/-- `aead_decrypt_done(cbk_ctx, status)`. -/
def aead_decrypt_done (regs : Regs) (alg : caam_aead_alg) (edesc : aead_edesc)
    (req : aead_request) (req_ctx : caam_request) (status : Nat) : List Event :=
  aead_unmap alg edesc req req_ctx ++
    [Event.free, Event.complete (decrypt_done_ecode regs status)]

/-- `tls_encrypt_done(cbk_ctx, status)`. -/
def tls_encrypt_done (alg : caam_aead_alg) (edesc : tls_edesc) (req : aead_request)
    (req_ctx : caam_request) (status : Nat) : List Event :=
  tls_unmap alg edesc req req_ctx ++
    [Event.free, Event.complete (encrypt_done_ecode status)]

/-- `tls_decrypt_done(cbk_ctx, status)`. -/
def tls_decrypt_done (regs : Regs) (alg : caam_aead_alg) (edesc : tls_edesc)
    (req : aead_request) (req_ctx : caam_request) (status : Nat) : List Event :=
  tls_unmap alg edesc req req_ctx ++
    [Event.free, Event.complete (decrypt_done_ecode regs status)]

/-- `ablkcipher_done(cbk_ctx, status)`: after the release of the descriptor the
last `ivsize` bytes of the destination are copied into `req->info`
(`req->nbytes - ivsize` is an `unsigned int` difference). -/
def ablkcipher_done (ivsize : Nat) (edesc : ablkcipher_edesc) (req : ablkcipher_request)
    (req_ctx : caam_request) (status : Nat) : List Event :=
  ablkcipher_unmap ivsize edesc req req_ctx ++
    [Event.free,
     Event.scatterwalk_map_and_copy (u32 (req.nbytes + u32_neg ivsize)) ivsize,
     Event.complete (encrypt_done_ecode status)]

/-- The error codes handed to the completion of the crypto API by a trace. -/
def completions (tr : List Event) : List Int :=
  tr.filterMap (fun e => match e with
    | Event.complete ecode => some ecode
    | _ => none)

/-! ## Response path: `dpaa2_dpseci_poll` -/

/-- A dequeue entry `struct dpaa2_dq` holding a frame descriptor: the fields
`dpaa2_caam_enqueue` filled in, the frame context word `FRC` (the status of the
job) and the control word `CTRL` (the error bits). -/
structure dpaa2_dq where
  fd : dpaa2_fd
  frc : Nat
  ctrl : Nat
  deriving DecidableEq, Repr

/-- What the software portal answers next: the return values of the coming
calls of `dpaa2_io_service_pull_fq`, the answers of the coming calls of
`dpaa2_io_store_next` (the entry or `NULL`, and `is_last`) and the return
value of `dpaa2_io_service_rearm`. -/
structure Portal where
  pulls : List Int
  store : List (Option dpaa2_dq × Bool)
  rearm : Int

/-- `dpaa2_caam_process_fd(priv, fd)`; `iova_to_virt` is
`dpaa2_caam_iova_to_virt(priv, .)`, the request a frame address stands for.
The call `req->cbk(req->ctx, frc)` is recorded as an event. -/
def dpaa2_caam_process_fd (iova_to_virt : Nat → caam_request) (dq : dpaa2_dq) : List Event :=
  if dq.fd.format ≠ dpaa2_fd_format.dpaa2_fd_list then []
  else
    [Event.unmap_single (iova_to_virt dq.fd.addr).fd_flt_dma FD_FLT_SIZE
       dma_data_direction.DMA_BIDIRECTIONAL,
     Event.cbk (iova_to_virt dq.fd.addr).cbk dq.frc]

/-- `dpaa2_caam_pull_fq(ppriv)`:
`do { err = dpaa2_io_service_pull_fq(...); } while (err == -EBUSY); return err;`
over the answers the portal still has to give. The result is the return
value, the answers left and the trace; `none` when the answers run out before
one differs from `-EBUSY`. -/
def dpaa2_caam_pull_fq : List Int → Option (Int × List Int × List Event)
  | [] => none
  | err :: rest =>
    if err = -EBUSY then
      match dpaa2_caam_pull_fq rest with
      | none => none
      | some (e, r, tr) => some (e, r, Event.pull_fq err :: tr)
    else some (err, rest, [Event.pull_fq err])

/-- `dpaa2_caam_store_consume(ppriv)`, `cleaned` being the count so far:
`do { dq = dpaa2_io_store_next(store, &is_last);
      if (!dq) { if (!is_last) continue; break; }
      dpaa2_caam_process_fd(priv, dpaa2_dq_fd(dq)); cleaned++;
} while (!is_last); return cleaned;`.
The result is the count, the answers left and the trace; `none` when the
answers run out before one is flagged last. -/
def dpaa2_caam_store_consume (iova_to_virt : Nat → caam_request) :
    List (Option dpaa2_dq × Bool) → Nat →
    Option (Nat × List (Option dpaa2_dq × Bool) × List Event)
  | [], _ => none
  | (none, is_last) :: rest, cleaned =>
    if is_last then some (cleaned, rest, [])
    else dpaa2_caam_store_consume iova_to_virt rest cleaned
  | (some dq, is_last) :: rest, cleaned =>
    if is_last then some (cleaned + 1, rest, dpaa2_caam_process_fd iova_to_virt dq)
    else
      match dpaa2_caam_store_consume iova_to_virt rest (cleaned + 1) with
      | none => none
      | some (c, r, tr) => some (c, r, dpaa2_caam_process_fd iova_to_virt dq ++ tr)

/-- The drain loop of `dpaa2_dpseci_poll`:
`do { store_cleaned = dpaa2_caam_store_consume(ppriv); cleaned += store_cleaned;
      if (store_cleaned == 0 || cleaned > budget - DPAA2_CAAM_STORE_SIZE) break;
      err = dpaa2_caam_pull_fq(ppriv); if (unlikely(err)) break;
} while (1);`.
`fuel` bounds the number of iterations; `store_size` is
`DPAA2_CAAM_STORE_SIZE` of caamalg_qi2.h, which is not part of this file. -/
def dpaa2_dpseci_poll_loop (iova_to_virt : Nat → caam_request) (store_size : Nat)
    (budget : Int) : Nat → Portal → Nat → Option (Nat × Portal × List Event)
  | 0, _, _ => none
  | fuel + 1, st, cleaned =>
    match dpaa2_caam_store_consume iova_to_virt st.store 0 with
    | none => none
    | some (store_cleaned, store1, tr1) =>
      if store_cleaned = 0 ∨ ((cleaned + store_cleaned : Nat) : Int) > budget - store_size then
        some (cleaned + store_cleaned, ⟨st.pulls, store1, st.rearm⟩, tr1)
      else
        match dpaa2_caam_pull_fq st.pulls with
        | none => none
        | some (err, pulls1, tr2) =>
          if err ≠ 0 then
            some (cleaned + store_cleaned, ⟨pulls1, store1, st.rearm⟩, tr1 ++ tr2)
          else
            match dpaa2_dpseci_poll_loop iova_to_virt store_size budget fuel
                ⟨pulls1, store1, st.rearm⟩ (cleaned + store_cleaned) with
            | none => none
            | some (c, st2, tr3) => some (c, st2, tr1 ++ tr2 ++ tr3)

/-- What `dpaa2_dpseci_poll` leaves behind: its return value, the answers the
portal still has to give and the side effects. -/
structure PollResult where
  ret : Nat
  portal : Portal
  trace : List Event

/-- `dpaa2_dpseci_poll(napi, budget)`. Every iteration of the drain loop takes
at least one answer of the store, so `store.length + 1` iterations are enough
fuel; the result is `none` when the answers of the portal run out. -/
def dpaa2_dpseci_poll (iova_to_virt : Nat → caam_request) (store_size : Nat)
    (st : Portal) (budget : Int) : Option PollResult :=
  match dpaa2_caam_pull_fq st.pulls with
  | none => none
  | some (err, pulls1, tr0) =>
    if err ≠ 0 then some ⟨0, ⟨pulls1, st.store, st.rearm⟩, tr0⟩
    else
      match dpaa2_dpseci_poll_loop iova_to_virt store_size budget (st.store.length + 1)
          ⟨pulls1, st.store, st.rearm⟩ 0 with
      | none => none
      | some (cleaned, st1, tr) =>
        if (cleaned : Int) < budget then
          some ⟨cleaned, st1,
            tr0 ++ tr ++ [Event.napi_complete_done cleaned, Event.rearm st.rearm]⟩
        else some ⟨cleaned, st1, tr0 ++ tr⟩

/-- Is the event the completion signal `napi_complete_done`. -/
def Event.is_napi_complete : Event → Bool
  | Event.napi_complete_done _ => true
  | _ => false

/-- Is the event a re-arming of the queue notification. -/
def Event.is_rearm : Event → Bool
  | Event.rearm _ => true
  | _ => false

/-- Is the event the call of a stored callback. -/
def Event.is_cbk : Event → Bool
  | Event.cbk _ _ => true
  | _ => false

/-! ## Sessions: flow descriptors -/

/-- The descriptor length names of caamalg_desc.h, which is not part of this
file, as the rebuild functions use them. -/
inductive desc_len_id where
  | DESC_QI_AEAD_ENC_LEN
  | DESC_QI_AEAD_GIVENC_LEN
  | DESC_QI_AEAD_DEC_LEN
  | DESC_AEAD_CTR_RFC3686_LEN
  | DESC_TLS10_ENC_LEN
  | DESC_QI_GCM_ENC_LEN
  | DESC_QI_GCM_DEC_LEN
  | DESC_QI_RFC4106_ENC_LEN
  | DESC_QI_RFC4106_DEC_LEN
  | DESC_QI_RFC4543_ENC_LEN
  | DESC_QI_RFC4543_DEC_LEN
  deriving DecidableEq, Repr

/-- A call of a shared descriptor constructor `cnstr_shdsc_*` of
caamalg_desc.c, which is not part of this file, with the arguments the call
passes (`nonce` is the offset of the nonce in `ctx->key`, or `none` for
`NULL`). -/
inductive shdsc where
  | aead_encap (cdata adata : alginfo) (ivsize icvsize : Nat) (is_rfc3686 : Bool)
      (nonce : Option Nat) (ctx1_iv_off : Nat) (is_qi : Bool)
  | aead_givencap (cdata adata : alginfo) (ivsize icvsize : Nat) (is_rfc3686 : Bool)
      (nonce : Option Nat) (ctx1_iv_off : Nat) (is_qi : Bool)
  | aead_decap (cdata adata : alginfo) (ivsize icvsize : Nat) (geniv is_rfc3686 : Bool)
      (nonce : Option Nat) (ctx1_iv_off : Nat) (is_qi : Bool)
  | tls_encap (cdata adata : alginfo) (assoclen ivsize authsize blocksize : Nat)
  | tls_decap (cdata adata : alginfo) (assoclen ivsize authsize blocksize : Nat)
  | gcm_encap (cdata : alginfo) (ivsize icvsize : Nat) (is_qi : Bool)
  | gcm_decap (cdata : alginfo) (ivsize icvsize : Nat) (is_qi : Bool)
  | rfc4106_encap (cdata : alginfo) (ivsize icvsize : Nat) (is_qi : Bool)
  | rfc4106_decap (cdata : alginfo) (ivsize icvsize : Nat) (is_qi : Bool)
  | rfc4543_encap (cdata : alginfo) (ivsize icvsize : Nat) (is_qi : Bool)
  | rfc4543_decap (cdata : alginfo) (ivsize icvsize : Nat) (is_qi : Bool)
  | xts_ablkcipher_encap (cdata : alginfo)
  | xts_ablkcipher_decap (cdata : alginfo)
  deriving DecidableEq, Repr

/-- What the headers and helpers that are not part of this file (desc.h,
desc_constr.h, caamalg_desc.h, caamalg_desc.c, ctr.h) contribute to the
rebuild of a flow descriptor; they are parameters of the embedding.

* `OP_ALG_AAI_MASK`, `OP_ALG_AAI_CTR_MOD128`, `CTR_RFC3686_NONCE_SIZE` : the
  constants of these names;
* `desc_inline_query sd data_len` : the return value of
  `desc_inline_query(sd_base_len, DESC_JOB_IO_LEN, data_len, &inl_mask, 2)` and
  the mask it stores, `sd` being the length names added up for `sd_base_len`;
* `rem_bytes_ge keylen m` : the test `rem_bytes >= m` for
  `rem_bytes = CAAM_DESC_BYTES_MAX - DESC_JOB_IO_LEN - keylen`;
* `cnstr_shdsc call key` : the words the constructor writes into `desc`, the
  key bytes being `key` (an inline key is read through `key_virt`);
  `desc_len(desc)` is their number and `desc_bytes(desc)` four times that. -/
structure DescEnv where
  OP_ALG_AAI_MASK : Nat
  OP_ALG_AAI_CTR_MOD128 : Nat
  CTR_RFC3686_NONCE_SIZE : Nat
  desc_inline_query : List desc_len_id → List Nat → Int × Nat
  rem_bytes_ge : Nat → desc_len_id → Bool
  cnstr_shdsc : shdsc → List Nat → List Nat

/-- Size in bytes of `flc->flc`, the sixteen flow context words of `struct
caam_flc`; the structure is declared in caamalg_qi2.h, which is not part of
this file. -/
def FLC_WORDS_SIZE : Nat := 64

/-- What a session operation leaves behind: its return value, the session and
the side effects. -/
structure SetResult where
  ret : Int
  ctx : caam_ctx
  trace : List Event

/-- Store `v` in word `idx` of the flow context words; missing words are
zero. -/
def flc_set_word (words : List Nat) (idx v : Nat) : List Nat :=
  if idx < words.length then words.set idx v
  else words ++ List.replicate (idx - words.length) 0 ++ [v]

/-- The bus address `dma_map_single(dev, flc, sizeof(flc->flc) +
desc_bytes(desc), DMA_TO_DEVICE)` returns for the flow context of `op`. -/
def flc_dma_of (env : Env) (op : optype) (desc : List Nat) : Nat :=
  env.dma_map_single (Buf.flc op) (FLC_WORDS_SIZE + 4 * desc.length)
    dma_data_direction.DMA_TO_DEVICE

/-- The flow context after a constructor wrote `desc` into `flc->sh_desc` (the
words behind the new program keep what they held), `flc->flc[1] =
desc_len(desc)` and `flc->flc_dma = dma_map_single(...)`. -/
def flc_rebuilt (env : Env) (op : optype) (flc : caam_flc) (desc : List Nat) : caam_flc :=
  ⟨flc_set_word flc.flc 1 desc.length, desc ++ flc.sh_desc.drop desc.length,
    flc_dma_of env op desc⟩

/-- The mapping call of a rebuilt flow context, as an event. -/
def flc_map_event (env : Env) (op : optype) (desc : List Nat) : Event :=
  Event.map_single (Buf.flc op) (FLC_WORDS_SIZE + 4 * desc.length)
    dma_data_direction.DMA_TO_DEVICE (flc_dma_of env op desc)
    (env.dma_mapping_error (flc_dma_of env op desc))

/-- The session with the flow context of `op` replaced (`ctx->flc[op]`). -/
def caam_ctx.set_flc (ctx : caam_ctx) (op : optype) (flc : caam_flc) : caam_ctx :=
  { ctx with flc := fun o => if o = op then flc else ctx.flc o }

/-- The key locations after a successful `desc_inline_query`:
`if (inl_mask & 1) adata.key_virt = ctx->key; else adata.key_dma = ctx->key_dma;
if (inl_mask & 2) cdata.key_virt = ctx->key + adata.keylen_pad;
else cdata.key_dma = ctx->key_dma + adata.keylen_pad;
adata.key_inline = !!(inl_mask & 1); cdata.key_inline = !!(inl_mask & 2);`. -/
def caam_ctx.set_inline (ctx : caam_ctx) (inl_mask : Nat) : caam_ctx :=
  { ctx with
    adata := { ctx.adata with
      key := if inl_mask &&& 1 ≠ 0 then alginfo_key.key_virt 0
             else alginfo_key.key_dma ctx.key_dma,
      key_inline := decide (inl_mask &&& 1 ≠ 0) },
    cdata := { ctx.cdata with
      key := if inl_mask &&& 2 ≠ 0 then alginfo_key.key_virt ctx.adata.keylen_pad
             else alginfo_key.key_dma (u64 (ctx.key_dma + ctx.adata.keylen_pad)),
      key_inline := decide (inl_mask &&& 2 ≠ 0) } }

/-- The second half of a rebuild, shared by the five `*_set_sh_desc`: the
decryption program `desc` is written into `ctx->flc[DECRYPT]` and mapped;
`tr` is the trace so far. -/
def set_sh_desc_decrypt (env : Env) (ctx : caam_ctx) (desc : List Nat) (tr : List Event) :
    SetResult :=
  if env.dma_mapping_error (flc_dma_of env optype.DECRYPT desc) then
    ⟨-ENOMEM,
      ctx.set_flc optype.DECRYPT (flc_rebuilt env optype.DECRYPT (ctx.flc optype.DECRYPT) desc),
      tr ++ [flc_map_event env optype.DECRYPT desc]⟩
  else
    ⟨0,
      ctx.set_flc optype.DECRYPT (flc_rebuilt env optype.DECRYPT (ctx.flc optype.DECRYPT) desc),
      tr ++ [flc_map_event env optype.DECRYPT desc]⟩

/-- The encryption program of `aead_set_sh_desc`:
`cnstr_shdsc_aead_givencap` for a `geniv` algorithm, `cnstr_shdsc_aead_encap`
otherwise. -/
def aead_enc_call (alg : caam_aead_alg) (ctx : caam_ctx) (nonce : Option Nat)
    (ctx1_iv_off : Nat) : shdsc :=
  if alg.geniv then
    shdsc.aead_givencap ctx.cdata ctx.adata alg.ivsize ctx.authsize alg.rfc3686 nonce
      ctx1_iv_off true
  else
    shdsc.aead_encap ctx.cdata ctx.adata alg.ivsize ctx.authsize alg.rfc3686 nonce
      ctx1_iv_off true

/-- The local `ctx1_iv_off` of `aead_set_sh_desc`: `16` in counter mode,
`16 + CTR_RFC3686_NONCE_SIZE` for RFC3686, `0` otherwise. -/
def aead_ctx1_iv_off (denv : DescEnv) (alg : caam_aead_alg) (ctx : caam_ctx) : Nat :=
  if alg.rfc3686 then 16 + denv.CTR_RFC3686_NONCE_SIZE
  else if ctx.cdata.algtype &&& denv.OP_ALG_AAI_MASK = denv.OP_ALG_AAI_CTR_MOD128 then 16
  else 0

/-- The local `nonce` of `aead_set_sh_desc`: for RFC3686 the address
`ctx->key + ctx->adata.keylen_pad + ctx->cdata.keylen - CTR_RFC3686_NONCE_SIZE`,
`NULL` otherwise. -/
def aead_nonce (denv : DescEnv) (alg : caam_aead_alg) (ctx : caam_ctx) : Option Nat :=
  if alg.rfc3686 then
    some (ctx.adata.keylen_pad + ctx.cdata.keylen - denv.CTR_RFC3686_NONCE_SIZE)
  else none

/-- The `sd_base_len` of the first `desc_inline_query` of `aead_set_sh_desc`:
`(alg->caam.geniv ? DESC_QI_AEAD_GIVENC_LEN : DESC_QI_AEAD_ENC_LEN) +
(is_rfc3686 ? DESC_AEAD_CTR_RFC3686_LEN : 0)`, as the names added up. -/
def aead_enc_sd_len (alg : caam_aead_alg) : List desc_len_id :=
  [if alg.geniv then desc_len_id.DESC_QI_AEAD_GIVENC_LEN
   else desc_len_id.DESC_QI_AEAD_ENC_LEN] ++
  (if alg.rfc3686 then [desc_len_id.DESC_AEAD_CTR_RFC3686_LEN] else [])

/-- The `sd_base_len` of the second `desc_inline_query` of `aead_set_sh_desc`:
`DESC_QI_AEAD_DEC_LEN + (is_rfc3686 ? DESC_AEAD_CTR_RFC3686_LEN : 0)`. -/
def aead_dec_sd_len (alg : caam_aead_alg) : List desc_len_id :=
  [desc_len_id.DESC_QI_AEAD_DEC_LEN] ++
  (if alg.rfc3686 then [desc_len_id.DESC_AEAD_CTR_RFC3686_LEN] else [])

/-- `aead_set_sh_desc(aead)`. -/
def aead_set_sh_desc (denv : DescEnv) (env : Env) (alg : caam_aead_alg) (ctx : caam_ctx) :
    SetResult :=
  if ctx.cdata.keylen = 0 ∨ ctx.authsize = 0 then ⟨0, ctx, []⟩
  else
    let data_len := [ctx.adata.keylen_pad, ctx.cdata.keylen]
    let q1 := denv.desc_inline_query (aead_enc_sd_len alg) data_len
    if q1.1 < 0 then ⟨-EINVAL, ctx, []⟩
    else
      let ctx1 := ctx.set_inline q1.2
      let desc1 := denv.cnstr_shdsc
        (aead_enc_call alg ctx1 (aead_nonce denv alg ctx) (aead_ctx1_iv_off denv alg ctx))
        ctx1.key
      let ctx2 := ctx1.set_flc optype.ENCRYPT
        (flc_rebuilt env optype.ENCRYPT (ctx1.flc optype.ENCRYPT) desc1)
      if env.dma_mapping_error (flc_dma_of env optype.ENCRYPT desc1) then
        ⟨-ENOMEM, ctx2, [flc_map_event env optype.ENCRYPT desc1]⟩
      else
        let q2 := denv.desc_inline_query (aead_dec_sd_len alg) data_len
        if q2.1 < 0 then ⟨-EINVAL, ctx2, [flc_map_event env optype.ENCRYPT desc1]⟩
        else
          let ctx3 := ctx2.set_inline q2.2
          set_sh_desc_decrypt env ctx3
            (denv.cnstr_shdsc
              (shdsc.aead_decap ctx3.cdata ctx3.adata alg.ivsize ctx3.authsize alg.geniv
                alg.rfc3686 (aead_nonce denv alg ctx) (aead_ctx1_iv_off denv alg ctx) true)
              ctx3.key)
            [flc_map_event env optype.ENCRYPT desc1]

/-- `aead_setauthsize(authenc, authsize)`:
`ctx->authsize = authsize; aead_set_sh_desc(authenc); return 0;`. -/
def aead_setauthsize (denv : DescEnv) (env : Env) (alg : caam_aead_alg) (ctx : caam_ctx)
    (authsize : Nat) : SetResult :=
  ⟨0, (aead_set_sh_desc denv env alg { ctx with authsize := authsize }).ctx,
    (aead_set_sh_desc denv env alg { ctx with authsize := authsize }).trace⟩

/-- The key locations of the TLS decryption program:
`ctx->adata.key_dma = ctx->key_dma;
ctx->cdata.key_dma = ctx->key_dma + ctx->adata.keylen_pad;`. -/
def caam_ctx.set_key_dma (ctx : caam_ctx) : caam_ctx :=
  { ctx with
    adata := { ctx.adata with key := alginfo_key.key_dma ctx.key_dma },
    cdata := { ctx.cdata with
      key := alginfo_key.key_dma (u64 (ctx.key_dma + ctx.adata.keylen_pad)) } }

/-- `tls_set_sh_desc(tls)`; `assoclen` is always 13 bytes for TLS. -/
def tls_set_sh_desc (denv : DescEnv) (env : Env) (alg : caam_aead_alg) (ctx : caam_ctx) :
    SetResult :=
  if ctx.cdata.keylen = 0 ∨ ctx.authsize = 0 then ⟨0, ctx, []⟩
  else
    let q1 := denv.desc_inline_query [desc_len_id.DESC_TLS10_ENC_LEN]
      [ctx.adata.keylen_pad, ctx.cdata.keylen]
    if q1.1 < 0 then ⟨-EINVAL, ctx, []⟩
    else
      let ctx1 := ctx.set_inline q1.2
      let desc1 := denv.cnstr_shdsc
        (shdsc.tls_encap ctx1.cdata ctx1.adata 13 alg.ivsize ctx1.authsize alg.cra_blocksize)
        ctx1.key
      let ctx2 := ctx1.set_flc optype.ENCRYPT
        (flc_rebuilt env optype.ENCRYPT (ctx1.flc optype.ENCRYPT) desc1)
      if env.dma_mapping_error (flc_dma_of env optype.ENCRYPT desc1) then
        ⟨-ENOMEM, ctx2, [flc_map_event env optype.ENCRYPT desc1]⟩
      else
        let ctx3 := ctx2.set_key_dma
        set_sh_desc_decrypt env ctx3
          (denv.cnstr_shdsc
            (shdsc.tls_decap ctx3.cdata ctx3.adata 13 alg.ivsize ctx3.authsize
              alg.cra_blocksize)
            ctx3.key)
          [flc_map_event env optype.ENCRYPT desc1]

/-- `tls_setauthsize(tls, authsize)`:
`ctx->authsize = authsize; tls_set_sh_desc(tls); return 0;`. -/
def tls_setauthsize (denv : DescEnv) (env : Env) (alg : caam_aead_alg) (ctx : caam_ctx)
    (authsize : Nat) : SetResult :=
  ⟨0, (tls_set_sh_desc denv env alg { ctx with authsize := authsize }).ctx,
    (tls_set_sh_desc denv env alg { ctx with authsize := authsize }).trace⟩

/-- The key location `gcm_set_sh_desc` chooses before it builds a program:
`if (rem_bytes >= m) { cdata.key_inline = true; cdata.key_virt = ctx->key; }
else { cdata.key_inline = false; cdata.key_dma = ctx->key_dma; }`. -/
def caam_ctx.gcm_key (denv : DescEnv) (ctx : caam_ctx) (keylen : Nat) (m : desc_len_id) :
    caam_ctx :=
  if denv.rem_bytes_ge keylen m then
    { ctx with cdata := { ctx.cdata with key_inline := true, key := alginfo_key.key_virt 0 } }
  else
    { ctx with cdata := { ctx.cdata with
        key_inline := false, key := alginfo_key.key_dma ctx.key_dma } }

/-- The key location `rfc4106_set_sh_desc` and `rfc4543_set_sh_desc` choose
before they build a program:
`if (rem_bytes >= m) { cdata.key_inline = true; }
else { cdata.key_inline = false; cdata.key_dma = ctx->key_dma; }`. -/
def caam_ctx.rfc_key (denv : DescEnv) (ctx : caam_ctx) (keylen : Nat) (m : desc_len_id) :
    caam_ctx :=
  if denv.rem_bytes_ge keylen m then
    { ctx with cdata := { ctx.cdata with key_inline := true } }
  else
    { ctx with cdata := { ctx.cdata with
        key_inline := false, key := alginfo_key.key_dma ctx.key_dma } }

/-- `gcm_set_sh_desc(aead)`; `rem_bytes` is computed from the key length the
session has on entry. -/
def gcm_set_sh_desc (denv : DescEnv) (env : Env) (alg : caam_aead_alg) (ctx : caam_ctx) :
    SetResult :=
  if ctx.cdata.keylen = 0 ∨ ctx.authsize = 0 then ⟨0, ctx, []⟩
  else
    let ctx1 := ctx.gcm_key denv ctx.cdata.keylen desc_len_id.DESC_QI_GCM_ENC_LEN
    let desc1 := denv.cnstr_shdsc
      (shdsc.gcm_encap ctx1.cdata alg.ivsize ctx1.authsize true) ctx1.key
    let ctx2 := ctx1.set_flc optype.ENCRYPT
      (flc_rebuilt env optype.ENCRYPT (ctx1.flc optype.ENCRYPT) desc1)
    if env.dma_mapping_error (flc_dma_of env optype.ENCRYPT desc1) then
      ⟨-ENOMEM, ctx2, [flc_map_event env optype.ENCRYPT desc1]⟩
    else
      let ctx3 := ctx2.gcm_key denv ctx.cdata.keylen desc_len_id.DESC_QI_GCM_DEC_LEN
      set_sh_desc_decrypt env ctx3
        (denv.cnstr_shdsc (shdsc.gcm_decap ctx3.cdata alg.ivsize ctx3.authsize true) ctx3.key)
        [flc_map_event env optype.ENCRYPT desc1]

/-- `gcm_setauthsize(authenc, authsize)`:
`ctx->authsize = authsize; gcm_set_sh_desc(authenc); return 0;`. -/
def gcm_setauthsize (denv : DescEnv) (env : Env) (alg : caam_aead_alg) (ctx : caam_ctx)
    (authsize : Nat) : SetResult :=
  ⟨0, (gcm_set_sh_desc denv env alg { ctx with authsize := authsize }).ctx,
    (gcm_set_sh_desc denv env alg { ctx with authsize := authsize }).trace⟩

/-- The session after `ctx->cdata.key_virt = ctx->key;`. -/
def caam_ctx.set_key_virt (ctx : caam_ctx) : caam_ctx :=
  { ctx with cdata := { ctx.cdata with key := alginfo_key.key_virt 0 } }

/-- `rfc4106_set_sh_desc(aead)`. -/
def rfc4106_set_sh_desc (denv : DescEnv) (env : Env) (alg : caam_aead_alg) (ctx : caam_ctx) :
    SetResult :=
  if ctx.cdata.keylen = 0 ∨ ctx.authsize = 0 then ⟨0, ctx, []⟩
  else
    let ctx1 := ctx.set_key_virt.rfc_key denv ctx.cdata.keylen
      desc_len_id.DESC_QI_RFC4106_ENC_LEN
    let desc1 := denv.cnstr_shdsc
      (shdsc.rfc4106_encap ctx1.cdata alg.ivsize ctx1.authsize true) ctx1.key
    let ctx2 := ctx1.set_flc optype.ENCRYPT
      (flc_rebuilt env optype.ENCRYPT (ctx1.flc optype.ENCRYPT) desc1)
    if env.dma_mapping_error (flc_dma_of env optype.ENCRYPT desc1) then
      ⟨-ENOMEM, ctx2, [flc_map_event env optype.ENCRYPT desc1]⟩
    else
      let ctx3 := ctx2.rfc_key denv ctx.cdata.keylen desc_len_id.DESC_QI_RFC4106_DEC_LEN
      set_sh_desc_decrypt env ctx3
        (denv.cnstr_shdsc (shdsc.rfc4106_decap ctx3.cdata alg.ivsize ctx3.authsize true)
          ctx3.key)
        [flc_map_event env optype.ENCRYPT desc1]

/-- `rfc4106_setauthsize(authenc, authsize)`:
`ctx->authsize = authsize; rfc4106_set_sh_desc(authenc); return 0;`. -/
def rfc4106_setauthsize (denv : DescEnv) (env : Env) (alg : caam_aead_alg) (ctx : caam_ctx)
    (authsize : Nat) : SetResult :=
  ⟨0, (rfc4106_set_sh_desc denv env alg { ctx with authsize := authsize }).ctx,
    (rfc4106_set_sh_desc denv env alg { ctx with authsize := authsize }).trace⟩

/-- `rfc4543_set_sh_desc(aead)`. -/
def rfc4543_set_sh_desc (denv : DescEnv) (env : Env) (alg : caam_aead_alg) (ctx : caam_ctx) :
    SetResult :=
  if ctx.cdata.keylen = 0 ∨ ctx.authsize = 0 then ⟨0, ctx, []⟩
  else
    let ctx1 := ctx.set_key_virt.rfc_key denv ctx.cdata.keylen
      desc_len_id.DESC_QI_RFC4543_ENC_LEN
    let desc1 := denv.cnstr_shdsc
      (shdsc.rfc4543_encap ctx1.cdata alg.ivsize ctx1.authsize true) ctx1.key
    let ctx2 := ctx1.set_flc optype.ENCRYPT
      (flc_rebuilt env optype.ENCRYPT (ctx1.flc optype.ENCRYPT) desc1)
    if env.dma_mapping_error (flc_dma_of env optype.ENCRYPT desc1) then
      ⟨-ENOMEM, ctx2, [flc_map_event env optype.ENCRYPT desc1]⟩
    else
      let ctx3 := ctx2.rfc_key denv ctx.cdata.keylen desc_len_id.DESC_QI_RFC4543_DEC_LEN
      set_sh_desc_decrypt env ctx3
        (denv.cnstr_shdsc (shdsc.rfc4543_decap ctx3.cdata alg.ivsize ctx3.authsize true)
          ctx3.key)
        [flc_map_event env optype.ENCRYPT desc1]

/-- `rfc4543_setauthsize(authenc, authsize)`:
`ctx->authsize = authsize; rfc4543_set_sh_desc(authenc); return 0;`. -/
def rfc4543_setauthsize (denv : DescEnv) (env : Env) (alg : caam_aead_alg) (ctx : caam_ctx)
    (authsize : Nat) : SetResult :=
  ⟨0, (rfc4543_set_sh_desc denv env alg { ctx with authsize := authsize }).ctx,
    (rfc4543_set_sh_desc denv env alg { ctx with authsize := authsize }).trace⟩

/-! ## Sessions: `xts_ablkcipher_setkey` -/

/-- Modelled from the spec: `AES_MIN_KEY_SIZE` of include/crypto/aes.h, which
is not among the sources; the claims give `2 * AES_MIN_KEY_SIZE` as 32. -/
def AES_MIN_KEY_SIZE : Nat := 16
/-- Modelled from the spec: `AES_MAX_KEY_SIZE` of include/crypto/aes.h, which
is not among the sources; the claims give `2 * AES_MAX_KEY_SIZE` as 64. -/
def AES_MAX_KEY_SIZE : Nat := 32
/-- Modelled from the spec: the result flag `CRYPTO_TFM_RES_BAD_KEY_LEN`, the
bad-key-length flag of the spec's BadKeyLength; the bit is that of
include/linux/crypto.h, which is not among the sources. -/
def CRYPTO_TFM_RES_BAD_KEY_LEN : Nat := 0x200000

/-- `memcpy(dst, src, n)` on byte lists: the first `n` bytes of `dst` are
replaced by those of `src`. -/
def memcpy (dst src : List Nat) (n : Nat) : List Nat :=
  src.take n ++ dst.drop n

/-- What a key installation leaves behind: its return value, the session, the
flags `crt_flags` of the transform and the side effects. -/
structure SetkeyResult where
  ret : Int
  ctx : caam_ctx
  crt_flags : Nat
  trace : List Event

/-- `xts_ablkcipher_setkey(ablkcipher, key, keylen)`; `crt_flags` are the flags
of the transform, to which `crypto_ablkcipher_set_flags` adds. -/
def xts_ablkcipher_setkey (denv : DescEnv) (env : Env) (ctx : caam_ctx) (crt_flags : Nat)
    (key : List Nat) (keylen : Nat) : SetkeyResult :=
  if keylen ≠ 2 * AES_MIN_KEY_SIZE ∧ keylen ≠ 2 * AES_MAX_KEY_SIZE then
    ⟨-EINVAL, ctx, crt_flags ||| CRYPTO_TFM_RES_BAD_KEY_LEN, []⟩
  else
    let key_dma := env.dma_map_single Buf.key keylen dma_data_direction.DMA_TO_DEVICE
    let ev_key := Event.map_single Buf.key keylen dma_data_direction.DMA_TO_DEVICE key_dma
      (env.dma_mapping_error key_dma)
    let ctx1 : caam_ctx := { ctx with key := memcpy ctx.key key keylen, key_dma := key_dma }
    if env.dma_mapping_error key_dma then ⟨-ENOMEM, ctx1, crt_flags, [ev_key]⟩
    else
      let ctx2 : caam_ctx := { ctx1 with
        cdata := { ctx1.cdata with
          keylen := keylen, key := alginfo_key.key_virt 0, key_inline := true } }
      let desc1 := denv.cnstr_shdsc (shdsc.xts_ablkcipher_encap ctx2.cdata) ctx2.key
      let ctx3 := ctx2.set_flc optype.ENCRYPT
        (flc_rebuilt env optype.ENCRYPT (ctx2.flc optype.ENCRYPT) desc1)
      if env.dma_mapping_error (flc_dma_of env optype.ENCRYPT desc1) then
        ⟨-ENOMEM, ctx3, crt_flags, [ev_key, flc_map_event env optype.ENCRYPT desc1]⟩
      else
        let desc2 := denv.cnstr_shdsc (shdsc.xts_ablkcipher_decap ctx3.cdata) ctx3.key
        let ctx4 := ctx3.set_flc optype.DECRYPT
          (flc_rebuilt env optype.DECRYPT (ctx3.flc optype.DECRYPT) desc2)
        if env.dma_mapping_error (flc_dma_of env optype.DECRYPT desc2) then
          ⟨-ENOMEM, ctx4, crt_flags,
            [ev_key, flc_map_event env optype.ENCRYPT desc1,
             flc_map_event env optype.DECRYPT desc2]⟩
        else
          ⟨0, ctx4, crt_flags,
            [ev_key, flc_map_event env optype.ENCRYPT desc1,
             flc_map_event env optype.DECRYPT desc2]⟩

/-! ## Concrete inputs -/

/-- A zeroed request context. -/
def caam_request.zero : caam_request :=
  ⟨dpaa2_fl_entry.zero, dpaa2_fl_entry.zero, 0, ⟨[], [], 0⟩, optype.ENCRYPT, cbk_fn.none⟩

/-- An environment in which every kernel service succeeds: the pool always
hands out a buffer, scatter lists map one to one (entry `i` of the list at
pointer `p` gets bus address `p * 65536 + 256 * i`), single buffers get distinct
non-zero bus addresses, the queue is not congested and accepts the first
enqueue. -/
def Env.good : Env where
  qi_cache_zalloc := fun _ => true
  dma_map_sg := fun sg nents _ =>
    (List.range nents).map (fun i => ⟨sg.ptr * 65536 + 256 * i, sg.lens.getD i 0⟩)
  dma_map_single := fun buf _ _ =>
    match buf with
    | Buf.iv => 0x1000
    | Buf.giv => 0x2000
    | Buf.assoclen => 0x3000
    | Buf.sg_table => 0x4000
    | Buf.fd_flt => 0x5000
    | Buf.key => 0x6000
    | Buf.flc _ => 0x7000
  dma_mapping_error := fun _ => false
  congested := false
  cpu := 5
  enqueue_fq := fun _ _ => 0
  dma_map_sg_le := by intro sg nents dir; simp

/-- Example ceilings: 29 table entries for AEAD descriptors, 30 for block
cipher descriptors. -/
def Limits.example : Limits := ⟨29, 30⟩

/-- A session with tag length 20 and unmapped flow contexts. -/
def caam_ctx.example : caam_ctx :=
  { flc := fun _ => ⟨[], [], 0⟩, key_dma := 0, authsize := 20 }

/-- The entry `authenc(hmac(sha1),cbc(aes))` of `driver_aeads[]`. -/
def caam_aead_alg.authenc_sha1_cbc_aes : caam_aead_alg :=
  ⟨"authenc(hmac(sha1),cbc(aes))", 16, 16, false, false⟩

/-- An in-place AEAD request over a four segment buffer: 13 bytes of
associated data, 64 bytes of payload, room for a 20 byte tag. -/
def aead_request.in_place4 : aead_request :=
  ⟨0, 13, 64, ⟨1, [13, 32, 32, 20]⟩, ⟨1, [13, 32, 32, 20]⟩⟩

/-- The entry `tls10(hmac(sha1),cbc(aes))` of `driver_aeads[]`. -/
def caam_aead_alg.tls10_sha1_cbc_aes : caam_aead_alg :=
  ⟨"tls10(hmac(sha1),cbc(aes))", 16, 16, false, false⟩

/-- The good environment in which no scatter list can be mapped. -/
def Env.no_sg : Env :=
  { Env.good with
    dma_map_sg := fun _ _ _ => []
    dma_map_sg_le := by intro sg nents dir; simp }

/-- The good environment in which scatter lists are mapped right behind the
IV buffer: the IV is at bus address `0x1000` and is 16 bytes long, the first
segment of every list is at `0x1010`. -/
def Env.contig : Env :=
  { Env.good with
    dma_map_sg := fun sg nents _ =>
      (List.range nents).map (fun i => ⟨0x1010 + 256 * i, sg.lens.getD i 0⟩)
    dma_map_sg_le := by intro sg nents dir; simp }

/-- The good environment in which the IV buffers are mapped, successfully, at
bus address `0`. -/
def Env.iv_at_zero : Env :=
  { Env.good with
    dma_map_single := fun buf _ _ =>
      match buf with
      | Buf.iv => 0
      | Buf.giv => 0
      | Buf.assoclen => 0x3000
      | Buf.sg_table => 0x4000
      | Buf.fd_flt => 0x5000
      | Buf.key => 0x6000
      | Buf.flc _ => 0x7000 }

/-- An AEAD request with distinct buffers, no associated data and an empty
payload: the source has no segment to map, the destination takes the tag. -/
def aead_request.empty_payload : aead_request :=
  ⟨0, 0, 0, ⟨1, [16]⟩, ⟨2, [32]⟩⟩

/-- An AEAD request with distinct buffers whose `assoclen + cryptlen` is
`2^32`: the `unsigned int` sum is `0`. The source holds 16 bytes. -/
def aead_request.wrapped_span : aead_request :=
  ⟨0, 4294967295, 1, ⟨1, [16]⟩, ⟨2, [32]⟩⟩

/-- An in-place request over `n` segments of 16 bytes each, all of them
payload except the first `assoclen` bytes. -/
def aead_request.in_place_segments (n assoclen : Nat) : aead_request :=
  ⟨0, assoclen, 16 * n - assoclen, ⟨1, List.replicate n 16⟩, ⟨1, List.replicate n 16⟩⟩

/-- An in-place block cipher request over one segment of 64 bytes. -/
def ablkcipher_request.in_place1 : ablkcipher_request :=
  ⟨0, 64, ⟨1, [64]⟩, ⟨1, [64]⟩⟩

/-- A device with congestion notification and four transmit queues. -/
def dpaa2_caam_priv.four : dpaa2_caam_priv := ⟨true, 4, fun i => 100 + i⟩

/-- A descriptor environment in which every program fits with both keys inline
and consists of the three words `7, 7, 7`. -/
def DescEnv.example : DescEnv where
  OP_ALG_AAI_MASK := 0x1ff0
  OP_ALG_AAI_CTR_MOD128 := 0
  CTR_RFC3686_NONCE_SIZE := 4
  desc_inline_query := fun _ _ => (0, 3)
  rem_bytes_ge := fun _ _ => true
  cnstr_shdsc := fun _ _ => [7, 7, 7]

/-- The example descriptor environment in which the inline-fit query reports
that no program fits. -/
def DescEnv.no_fit : DescEnv :=
  { DescEnv.example with desc_inline_query := fun _ _ => (-1, 0) }

/-- A session with a key installed, tag length 20 and valid flow descriptors:
the programs `5, 5` of length 2, mapped at bus address `0x7100`. -/
def caam_ctx.keyed : caam_ctx :=
  { flc := fun _ => ⟨[0, 2], [5, 5], 0x7100⟩
    key_dma := 0x6000
    authsize := 20
    key := List.replicate 48 1
    adata := ⟨0x410000, 20, 32, alginfo_key.key_dma 0x6000, false⟩
    cdata := ⟨0x100100, 16, 16, alginfo_key.key_dma 0x6020, false⟩ }

/-- The good environment in which no flow context can be mapped: the address
`0x7000` they get is a mapping error. -/
def Env.no_flc : Env :=
  { Env.good with dma_mapping_error := fun a => decide (a = 0x7000) }

/-- The good environment in which the decryption flow context cannot be
mapped: it gets the address `0x8000`, which is a mapping error. -/
def Env.no_flc_decrypt : Env :=
  { Env.good with
    dma_map_single := fun buf _ _ =>
      match buf with
      | Buf.iv => 0x1000
      | Buf.giv => 0x2000
      | Buf.assoclen => 0x3000
      | Buf.sg_table => 0x4000
      | Buf.fd_flt => 0x5000
      | Buf.key => 0x6000
      | Buf.flc optype.DECRYPT => 0x8000
      | Buf.flc _ => 0x7000
    dma_mapping_error := fun a => decide (a = 0x8000) }

/-- The entry `gcm(aes)` of `driver_aeads[]`. -/
def caam_aead_alg.gcm_aes : caam_aead_alg := ⟨"gcm(aes)", 1, 12, false, false⟩

/-- What a rebuild that returns `-ENOMEM` leaves in the session `ctx` it was
called on, `r` being its result: the encryption flow context holds a rebuilt
program `desc1` (program words, length word) and the bus address the new
mapping returned, the flow context of `GIVENCRYPT` is untouched, and
* either that mapping is the one that failed, the decryption flow context is
  untouched and the only side effect is the failed mapping call,
* or that mapping succeeded (and is left in place) and the decryption flow
  context holds a rebuilt program `desc2` and the address of its failed
  mapping. -/
def rebuild_enomem_outcome (env : Env) (ctx : caam_ctx) (r : SetResult) : Prop :=
  ∃ desc1,
    r.ctx.flc optype.ENCRYPT =
      flc_rebuilt env optype.ENCRYPT (ctx.flc optype.ENCRYPT) desc1 ∧
    r.ctx.flc optype.GIVENCRYPT = ctx.flc optype.GIVENCRYPT ∧
    ((env.dma_mapping_error (flc_dma_of env optype.ENCRYPT desc1) = true ∧
        r.ctx.flc optype.DECRYPT = ctx.flc optype.DECRYPT ∧
        r.trace = [flc_map_event env optype.ENCRYPT desc1]) ∨
     (env.dma_mapping_error (flc_dma_of env optype.ENCRYPT desc1) = false ∧
        ∃ desc2,
          r.ctx.flc optype.DECRYPT =
            flc_rebuilt env optype.DECRYPT (ctx.flc optype.DECRYPT) desc2 ∧
          env.dma_mapping_error (flc_dma_of env optype.DECRYPT desc2) = true ∧
          r.trace = [flc_map_event env optype.ENCRYPT desc1,
                     flc_map_event env optype.DECRYPT desc2]))


/-- A dequeued frame in frame-list format at frame address `0x5000`, with
status word `frc` and control word `ctrl`. -/
def dpaa2_dq.list_fd (frc ctrl : Nat) : dpaa2_dq :=
  ⟨⟨dpaa2_fd_format.dpaa2_fd_list, 0x5000, 0, 0⟩, frc, ctrl⟩

/-- A dequeued frame in single-buffer format at frame address `0x5000`. -/
def dpaa2_dq.single_fd (frc ctrl : Nat) : dpaa2_dq :=
  ⟨⟨dpaa2_fd_format.dpaa2_fd_single, 0x5000, 0, 0⟩, frc, ctrl⟩

/-- The request every frame address stands for in the examples: its frame
list is mapped at `0x5000` and its callback is `aead_encrypt_done`. -/
def caam_request.in_flight : caam_request :=
  { caam_request.zero with fd_flt_dma := 0x5000, cbk := cbk_fn.aead_encrypt_done }


/-- An in-place decryption request whose payload is shorter than the tag of
the example session: 8 bytes of associated data, 4 bytes of payload, a tag
length of 20. -/
def aead_request.short_ciphertext : aead_request :=
  ⟨0, 8, 4, ⟨1, [16]⟩, ⟨1, [16]⟩⟩


/-- An in-place TLS record: 13 bytes of header, 64 bytes of payload and room
for a 20 byte tag padded to 32 bytes. -/
def aead_request.tls_record : aead_request :=
  ⟨0, 13, 64, ⟨1, [13, 64, 32]⟩, ⟨1, [13, 64, 32]⟩⟩


/-! ## The direction rule -/

/-- The direction rule for a scatter list `sg`: in place the list is the
source and the direction `DMA_BIDIRECTIONAL`; with distinct buffers the list
is the source with `DMA_TO_DEVICE` or the destination with
`DMA_FROM_DEVICE`. -/
def sg_dir_ok (in_place : Bool) (src dst sg : scatterlist) (dir : dma_data_direction) : Bool :=
  if in_place then decide (sg = src) && decide (dir = dma_data_direction.DMA_BIDIRECTIONAL)
  else (decide (sg = src) && decide (dir = dma_data_direction.DMA_TO_DEVICE)) ||
    (decide (sg = dst) && decide (dir = dma_data_direction.DMA_FROM_DEVICE))

/-- The direction rule for a single buffer: the IV of the generated-IV shape
(`greq->giv`) is `DMA_FROM_DEVICE`, the IV of every other shape (`req->iv`,
`req->info`) is `DMA_TO_DEVICE`, the scatter/gather table is `DMA_TO_DEVICE`.
The rule says nothing about the other buffers. -/
def buf_dir_ok (giv : Bool) (buf : Buf) (dir : dma_data_direction) : Bool :=
  match buf with
  | Buf.iv => !giv && decide (dir = dma_data_direction.DMA_TO_DEVICE)
  | Buf.giv => giv && decide (dir = dma_data_direction.DMA_FROM_DEVICE)
  | Buf.sg_table => decide (dir = dma_data_direction.DMA_TO_DEVICE)
  | _ => true

/-- Does a mapping or unmapping call of a scatter list, or a mapping call of a
single buffer, follow the direction rule, `src` and `dst` being the lists of
the request, `in_place` telling whether they are one buffer and `giv` telling
the generated-IV shape. -/
def Event.dir_ok (in_place giv : Bool) (src dst : scatterlist) : Event → Bool
  | Event.map_sg sg _ dir _ => sg_dir_ok in_place src dst sg dir
  | Event.unmap_sg sg _ dir => sg_dir_ok in_place src dst sg dir
  | Event.map_single buf _ dir _ _ => buf_dir_ok giv buf dir
  | _ => true

/-- Does an unmapping call of a single buffer name a resource of `mapped`:
the bus address, the size and the direction of a mapping. -/
def Event.single_unmap_ok (mapped : List Resource) : Event → Bool
  | Event.unmap_single addr size dir => decide (Resource.single addr size dir ∈ mapped)
  | _ => true

/-- A trace follows the direction rule: every call on a scatter list and every
mapping of a single buffer has the direction of the rule, and every unmapping
of a single buffer has the address, size and direction of a successful mapping
of the trace. -/
def trace_dir_ok (in_place giv : Bool) (src dst : scatterlist) (tr : List Event) : Prop :=
  ∀ e ∈ tr, e.dir_ok in_place giv src dst = true ∧ e.single_unmap_ok (mappings tr) = true

/-- Is the event a pool call or a call on a scatter list that follows the
direction rule; the first part of a builder makes no other call. -/
def Event.sg_ok (in_place : Bool) (src dst : scatterlist) : Event → Bool
  | Event.map_sg sg _ dir _ => sg_dir_ok in_place src dst sg dir
  | Event.unmap_sg sg _ dir => sg_dir_ok in_place src dst sg dir
  | Event.alloc _ _ => true
  | Event.free => true
  | _ => false

/-- The destination list `tls_edesc_alloc` maps: `req->dst` in place, the list
`scatterwalk_ffwd(edesc->tmp, req->dst, req->assoclen)` otherwise. -/
def tls_dst (tmp : Nat) (req : aead_request) : scatterlist :=
  if req.src = req.dst then req.dst
  else (scatterwalk_ffwd tmp req.dst req.assoclen).getD req.dst

/-- A TLS record whose source list is the tail of its destination list: the
destination is a 13-byte header entry followed by two 64-byte entries, the
source starts at the second entry of that list (`req->src != req->dst`), and
`assoclen` is the length of the header entry. -/
def aead_request.tls_tail : aead_request :=
  ⟨0, 13, 64, ⟨2, [64, 64]⟩, ⟨1, [13, 64, 64]⟩⟩

/-! ## Reading the TLS destination -/

/-- Spec side of "the list starts `n` bytes into `sg`": the entries of `r`
are what is left of the entries of `sg` once the first `n` bytes are skipped.
Either the `n` bytes end on an entry boundary and `r` is the rest of the list
itself (the pointer to the entry behind the skipped ones), or they end inside
an entry and `r` is the table `tmp`, whose first entry is the rest of that
entry and which continues with the entries behind it. -/
def starts_bytes_into (tmp : Nat) (sg : scatterlist) (n : Nat) (r : scatterlist) : Prop :=
  ∃ pre rest,
    (sg.lens = pre ++ rest ∧ pre.sum = n ∧ r = ⟨sg.ptr + pre.length, rest⟩) ∨
    (∃ l, sg.lens = pre ++ l :: rest ∧ pre.sum < n ∧ n < pre.sum + l ∧
      r = ⟨tmp, (pre.sum + l - n) :: rest⟩)

/-- A TLS record with distinct buffers whose 13-byte header ends inside the
first destination entry. -/
def aead_request.tls_distinct : aead_request :=
  ⟨0, 13, 64, ⟨1, [13, 64]⟩, ⟨5, [20, 100]⟩⟩


/-- The good environment in which scatter lists are mapped right behind the
generated-IV buffer: the buffer is at bus address `0x2000` and is 16 bytes
long, the first segment of every list is at `0x2010`. -/
def Env.giv_contig : Env :=
  { Env.good with
    dma_map_sg := fun sg nents _ =>
      (List.range nents).map (fun i => ⟨0x2010 + 256 * i, sg.lens.getD i 0⟩)
    dma_map_sg_le := by intro sg nents dir; simp }


/-- An in-place block cipher request over one segment of `2^32 - 16` bytes. -/
def ablkcipher_request.in_place_huge : ablkcipher_request :=
  ⟨0, 4294967280, ⟨1, [4294967280]⟩, ⟨1, [4294967280]⟩⟩

/-! ## Sessions: `gcm_setkey` and `caam_exit_common` -/

/-- `gcm_setkey(aead, key, keylen)`:
`memcpy(ctx->key, key, keylen);
ctx->key_dma = dma_map_single(dev, ctx->key, keylen, DMA_TO_DEVICE);
if (dma_mapping_error(dev, ctx->key_dma)) return -ENOMEM;
ctx->cdata.keylen = keylen;
ret = gcm_set_sh_desc(aead);
if (ret) dma_unmap_single(dev, ctx->key_dma, ctx->cdata.keylen, DMA_TO_DEVICE);
return ret;`. -/
def gcm_setkey (denv : DescEnv) (env : Env) (alg : caam_aead_alg) (ctx : caam_ctx)
    (key : List Nat) (keylen : Nat) : SetResult :=
  let key_dma := env.dma_map_single Buf.key keylen dma_data_direction.DMA_TO_DEVICE
  let ev_key := Event.map_single Buf.key keylen dma_data_direction.DMA_TO_DEVICE key_dma
    (env.dma_mapping_error key_dma)
  let ctx1 : caam_ctx := { ctx with key := memcpy ctx.key key keylen, key_dma := key_dma }
  if env.dma_mapping_error key_dma then ⟨-ENOMEM, ctx1, [ev_key]⟩
  else
    let ctx2 : caam_ctx := { ctx1 with cdata := { ctx1.cdata with keylen := keylen } }
    let r := gcm_set_sh_desc denv env alg ctx2
    if r.ret ≠ 0 then
      ⟨r.ret, r.ctx,
        [ev_key] ++ r.trace ++
          [Event.unmap_single r.ctx.key_dma r.ctx.cdata.keylen
            dma_data_direction.DMA_TO_DEVICE]⟩
    else ⟨r.ret, r.ctx, [ev_key] ++ r.trace⟩

/-- `desc_bytes(flc->sh_desc)`: four bytes per word of the program, whose
length `desc_len` reads from the program header. The embedding keeps programs
as undecoded words and takes the length from `flc->flc[1]`, where every
rebuild stores `desc_len(desc)`; a flow context that was never built is zeroed
and has length `0`. -/
def caam_flc.desc_bytes (flc : caam_flc) : Nat := 4 * flc.flc.getD 1 0

/-- `caam_exit_common(ctx)`: for each of the `NUM_OP` flow contexts whose
`flc_dma` is not zero, `dma_unmap_single(dev, flc_dma, sizeof(flc->flc) +
desc_bytes(sh_desc), DMA_TO_DEVICE)`; then, `if (ctx->key_dma)`,
`dma_unmap_single(dev, key_dma, cdata.keylen + adata.keylen_pad,
DMA_TO_DEVICE)`. -/
def caam_exit_common (ctx : caam_ctx) : List Event :=
  ([optype.ENCRYPT, optype.DECRYPT, optype.GIVENCRYPT].filterMap (fun op =>
    if (ctx.flc op).flc_dma = 0 then none
    else some (Event.unmap_single (ctx.flc op).flc_dma
      (FLC_WORDS_SIZE + (ctx.flc op).desc_bytes) dma_data_direction.DMA_TO_DEVICE))) ++
  (if ctx.key_dma ≠ 0 then
    [Event.unmap_single ctx.key_dma (u32 (ctx.cdata.keylen + ctx.adata.keylen_pad))
      dma_data_direction.DMA_TO_DEVICE]
   else [])

/-- A session right after `caam_cra_init`: zeroed, with the tag length 16
already set. -/
def caam_ctx.fresh : caam_ctx :=
  { flc := fun _ => ⟨[], [], 0⟩, key_dma := 0, authsize := 16 }

/-- The good environment in which the two flow contexts are mapped at distinct
bus addresses, `0x7000` for encryption and `0x8000` for decryption. -/
def Env.flc_apart : Env :=
  { Env.good with
    dma_map_single := fun buf _ _ =>
      match buf with
      | Buf.iv => 0x1000
      | Buf.giv => 0x2000
      | Buf.assoclen => 0x3000
      | Buf.sg_table => 0x4000
      | Buf.fd_flt => 0x5000
      | Buf.key => 0x6000
      | Buf.flc optype.DECRYPT => 0x8000
      | Buf.flc _ => 0x7000 }


/-- The example descriptor environment (every program fits with both keys
inline, the mask is 3) whose TLS decryption constructor writes, as its
program, the two `key_inline` flags it is given: that of `adata`, then that
of `cdata`. -/
def DescEnv.show_inline : DescEnv :=
  { DescEnv.example with
    cnstr_shdsc := fun call _ =>
      match call with
      | shdsc.tls_decap cdata adata _ _ _ _ =>
        [if adata.key_inline then 1 else 0, if cdata.key_inline then 1 else 0]
      | _ => [7, 7, 7] }

/-! ## Reading the drain loop -/

/-- Does a drain of the store answers `s` yield at most `store_size` entries
(a drain that finds no answer flagged last yields none). -/
def drain_le (iova_to_virt : Nat → caam_request) (store_size : Nat)
    (s : List (Option dpaa2_dq × Bool)) : Bool :=
  match dpaa2_caam_store_consume iova_to_virt s 0 with
  | none => true
  | some (c, _, _) => decide (c ≤ store_size)


/-- An in-place TLS record of 13 header bytes and 64 payload bytes in one
segment of 128 bytes. -/
def aead_request.tls_one_segment : aead_request :=
  ⟨0, 13, 64, ⟨1, [128]⟩, ⟨1, [128]⟩⟩

/-! ## Setup: `dpaa2_dpseci_dpio_setup` -/

/-- The fields of `struct dpaa2_caam_priv_per_cpu` that
`dpaa2_dpseci_dpio_setup` tests on its error path: whether `nctx.cb` is set
and whether `store` is not `NULL`. -/
structure dpaa2_caam_priv_per_cpu where
  nctx_cb : Bool
  store : Bool
  deriving DecidableEq, Repr

/-- What the DPIO service answers: the return value of
`dpaa2_io_service_register` for the notification context of a CPU, and whether
`dpaa2_io_store_create` returns a store for it. Both functions are outside
this file. -/
structure DpioEnv where
  service_register : Nat → Int
  store_create : Nat → Bool

/-- The calls `dpaa2_dpseci_dpio_setup` makes, per CPU. -/
inductive dpio_event where
  | service_register (cpu : Nat) (err : Int)
  | store_create (cpu : Nat) (created : Bool)
  | service_deregister (cpu : Nat)
  | store_destroy (cpu : Nat)
  deriving DecidableEq, Repr

/-- The per-CPU data with the entry of `cpu` replaced. -/
def ppriv_set (pp : Nat → dpaa2_caam_priv_per_cpu) (cpu : Nat)
    (v : dpaa2_caam_priv_per_cpu) : Nat → dpaa2_caam_priv_per_cpu :=
  fun c => if c = cpu then v else pp c

/-- The first loop of `dpaa2_dpseci_dpio_setup` over the online CPUs still to
visit, `i` being the count of CPUs set up so far:
`nctx->cb = dpaa2_caam_fqdan_cb; err = dpaa2_io_service_register(NULL, nctx);
if (err) { nctx->cb = NULL; goto err; }
ppriv->store = dpaa2_io_store_create(DPAA2_CAAM_STORE_SIZE, dev);
if (!ppriv->store) goto err;
if (++i == priv->num_pairs) break;`.
The result is `some err` on `goto err`, with the value the local `err` holds
there, and `none` when the loop ends (`return 0`). -/
def dpaa2_dpseci_dpio_setup_loop (io : DpioEnv) (num_pairs : Nat) :
    List Nat → Nat → (Nat → dpaa2_caam_priv_per_cpu) → List dpio_event →
    Option Int × (Nat → dpaa2_caam_priv_per_cpu) × List dpio_event
  | [], _, pp, tr => (none, pp, tr)
  | cpu :: rest, i, pp, tr =>
    let err := io.service_register cpu
    if err ≠ 0 then
      (some err, ppriv_set pp cpu { pp cpu with nctx_cb := false },
        tr ++ [dpio_event.service_register cpu err])
    else
      let created := io.store_create cpu
      let pp1 := ppriv_set pp cpu ⟨true, created⟩
      let tr1 := tr ++ [dpio_event.service_register cpu err,
        dpio_event.store_create cpu created]
      if created = false then (some err, pp1, tr1)
      else if i + 1 = num_pairs then (none, pp1, tr1)
      else dpaa2_dpseci_dpio_setup_loop io num_pairs rest (i + 1) pp1 tr1

/-- The error path of `dpaa2_dpseci_dpio_setup`: over the online CPUs,
deregister until the first CPU whose `nctx.cb` is not set, then destroy the
stores until the first CPU without a store. -/
def dpaa2_dpseci_dpio_setup_unwind (online : List Nat)
    (pp : Nat → dpaa2_caam_priv_per_cpu) : List dpio_event :=
  (online.takeWhile (fun cpu => (pp cpu).nctx_cb)).map dpio_event.service_deregister ++
  (online.takeWhile (fun cpu => (pp cpu).store)).map dpio_event.store_destroy

/-- What `dpaa2_dpseci_dpio_setup` leaves behind: its return value, the
per-CPU data and the calls it made. -/
structure DpioSetupResult where
  ret : Int
  ppriv : Nat → dpaa2_caam_priv_per_cpu
  trace : List dpio_event

/-- `dpaa2_dpseci_dpio_setup(priv)`: `online` are the online CPUs in the order
of `for_each_online_cpu`, `pp` the per-CPU data on entry. -/
def dpaa2_dpseci_dpio_setup (io : DpioEnv) (num_pairs : Nat) (online : List Nat)
    (pp : Nat → dpaa2_caam_priv_per_cpu) : DpioSetupResult :=
  match dpaa2_dpseci_dpio_setup_loop io num_pairs online 0 pp [] with
  | (none, pp1, tr) => ⟨0, pp1, tr⟩
  | (some err, pp1, tr) => ⟨err, pp1, tr ++ dpaa2_dpseci_dpio_setup_unwind online pp1⟩

/-- Per-CPU data right after allocation: no callback, no store. -/
def ppriv_zero : Nat → dpaa2_caam_priv_per_cpu := fun _ => ⟨false, false⟩

/-- A DPIO service that registers every notification and creates the store of
CPU 0 only. -/
def DpioEnv.no_store_on_cpu1 : DpioEnv := ⟨fun _ => 0, fun cpu => decide (cpu = 0)⟩

/-- A DPIO service that registers the notification of CPU 0 only (the others
fail with `-ENOMEM`) and creates every store. -/
def DpioEnv.no_register_on_cpu1 : DpioEnv :=
  ⟨fun cpu => if cpu = 0 then 0 else -ENOMEM, fun _ => true⟩

/-- Is the event a mapping call of a flow context (`dma_map_single(dev, flc,
sizeof(flc->flc) + desc_bytes(desc), DMA_TO_DEVICE)`) whose result
`dma_mapping_error` reports as an error. -/
def Event.is_failed_flc_map : Event → Bool
  | Event.map_single (Buf.flc _) _ _ _ failed => failed
  | _ => false

/-! ## Theorems -/

/-- The retry loop with at least one iteration left: it makes `m + 1` attempts
for some `m` below the bound, all on the same queue, every attempt before the
last answered busy, and it stops before the bound only on an answer other
than busy. -/
theorem enqueue_loop_spec (env : Env) (fqid : Nat) (fd : dpaa2_fd) (fuel s : Nat) (e0 : Int) :
    ∃ m, m < fuel + 1 ∧ (∀ i, i < m → env.enqueue_fq fqid (s + i) = -EBUSY) ∧
      (m + 1 < fuel + 1 → env.enqueue_fq fqid (s + m) ≠ -EBUSY) ∧
      enqueue_loop env fqid fd (fuel + 1) s e0 =
        (env.enqueue_fq fqid (s + m),
         (List.range (m + 1)).map
           (fun i => Event.enqueue fqid fd (env.enqueue_fq fqid (s + i)))) := by
  induction fuel generalizing s e0 with
  | zero =>
    refine ⟨0, by omega, by intro i hi; omega, by intro h; omega, ?_⟩
    by_cases h : env.enqueue_fq fqid s = -EBUSY
    · simp [enqueue_loop, h, List.range_succ]
    · simp [enqueue_loop, h, List.range_succ]
  | succ n ih =>
    by_cases h : env.enqueue_fq fqid s = -EBUSY
    · obtain ⟨m, hm, hb, hs, heq⟩ := ih (s + 1) (-EBUSY)
      refine ⟨m + 1, by omega, ?_, ?_, ?_⟩
      · intro i hi
        cases i with
        | zero => simpa using h
        | succ j =>
          have := hb j (by omega)
          simpa [Nat.add_assoc, Nat.add_comm 1 j] using this
      · intro hlt
        have := hs (by omega)
        simpa [Nat.add_assoc, Nat.add_comm 1 m] using this
      · rw [enqueue_loop]
        simp only [h, ne_eq, not_true_eq_false, if_false]
        rw [heq]
        rw [List.range_succ_eq_map (m + 1)]
        simp [Function.comp_def, Nat.add_assoc, Nat.add_comm 1, h]
    · refine ⟨0, by omega, by intro i hi; omega, by intro _; simpa using h, ?_⟩
      rw [enqueue_loop]
      simp [h, List.range_succ]

/-- C1: while congestion-notification memory is configured and the congestion
state reads CONGESTED, `dpaa2_caam_enqueue` on a request returns `-EBUSY`; the
only side effect is the cache synchronisation of the congestion record: no bus
mapping, no hardware enqueue attempt, and the request (its frame list
included) is left as it was. -/
theorem dpaa2_caam_enqueue_congested (priv : dpaa2_caam_priv) (env : Env)
    (req : caam_request) (hmem : priv.cscn_mem = true) (hcong : env.congested = true) :
    ∃ r, dpaa2_caam_enqueue priv env (Except.ok req) = some r ∧
      r.ret = -EBUSY ∧ r.req = Except.ok req ∧
      r.trace = [Event.sync_for_cpu] ∧
      (∀ ev ∈ r.trace, ev.is_map = false ∧ ev.is_enqueue = false) := by
  refine ⟨⟨-EBUSY, Except.ok req, [Event.sync_for_cpu]⟩, ?_, rfl, rfl, rfl, ?_⟩
  · simp [dpaa2_caam_enqueue, hmem, hcong]
  · intro ev hev
    simp at hev
    subst hev
    exact ⟨rfl, rfl⟩

/-- Witness of C1: a congested device with four queues. -/
theorem dpaa2_caam_enqueue_congested_witness :
    ∃ r, dpaa2_caam_enqueue dpaa2_caam_priv.four { Env.good with congested := true }
        (Except.ok caam_request.zero) = some r ∧
      r.ret = -EBUSY ∧ r.req = Except.ok caam_request.zero ∧
      r.trace = [Event.sync_for_cpu] ∧
      (∀ ev ∈ r.trace, ev.is_map = false ∧ ev.is_enqueue = false) :=
  dpaa2_caam_enqueue_congested dpaa2_caam_priv.four { Env.good with congested := true }
    caam_request.zero rfl rfl

/-- C2: for a request, not congested, `num_tx_queues > 0` and the frame-list
mapping succeeding, `dpaa2_caam_enqueue` returns and its side effects are, in
order: the frame-list mapping, then `m + 1 <= 2 * num_tx_queues` enqueue
attempts, all on the queue of index `cpu % num_tx_queues`, every attempt before
the last answered busy and the last one being the first answer other than busy
unless the bound was reached; then, iff the last answer is negative, exactly
one unmapping of the frame-list mapping. The return value is `-EIO` when the
last answer is negative and `-EINPROGRESS` otherwise; it is never `0`. -/
theorem dpaa2_caam_enqueue_retry (priv : dpaa2_caam_priv) (env : Env) (req : caam_request)
    (hcong : (priv.cscn_mem && env.congested) = false)
    (hn : 0 < priv.num_tx_queues)
    (hmap : env.dma_mapping_error
      (env.dma_map_single Buf.fd_flt FD_FLT_SIZE dma_data_direction.DMA_BIDIRECTIONAL) = false) :
    ∃ r m fd, dpaa2_caam_enqueue priv env (Except.ok req) = some r ∧
      m + 1 ≤ 2 * priv.num_tx_queues ∧
      (∀ i, i < m →
        env.enqueue_fq (priv.tx_fqid (env.cpu % priv.num_tx_queues)) i = -EBUSY) ∧
      (m + 1 < 2 * priv.num_tx_queues →
        env.enqueue_fq (priv.tx_fqid (env.cpu % priv.num_tx_queues)) m ≠ -EBUSY) ∧
      r.trace =
        (if priv.cscn_mem then [Event.sync_for_cpu] else []) ++
        [Event.map_single Buf.fd_flt FD_FLT_SIZE dma_data_direction.DMA_BIDIRECTIONAL
          (env.dma_map_single Buf.fd_flt FD_FLT_SIZE dma_data_direction.DMA_BIDIRECTIONAL)
          false] ++
        (List.range (m + 1)).map (fun i =>
          Event.enqueue (priv.tx_fqid (env.cpu % priv.num_tx_queues)) fd
            (env.enqueue_fq (priv.tx_fqid (env.cpu % priv.num_tx_queues)) i)) ++
        (if env.enqueue_fq (priv.tx_fqid (env.cpu % priv.num_tx_queues)) m < 0 then
          [Event.unmap_single
            (env.dma_map_single Buf.fd_flt FD_FLT_SIZE dma_data_direction.DMA_BIDIRECTIONAL)
            FD_FLT_SIZE dma_data_direction.DMA_BIDIRECTIONAL]
         else []) ∧
      r.ret = (if env.enqueue_fq (priv.tx_fqid (env.cpu % priv.num_tx_queues)) m < 0
               then - EIO else -EINPROGRESS) ∧
      r.ret ≠ 0 := by
  obtain ⟨k, hk⟩ : ∃ k, 2 * priv.num_tx_queues = k + 1 := ⟨2 * priv.num_tx_queues - 1, by omega⟩
  have hn0 : priv.num_tx_queues ≠ 0 := by omega
  generalize hfd : (⟨dpaa2_fd_format.dpaa2_fd_list,
      env.dma_map_single Buf.fd_flt FD_FLT_SIZE dma_data_direction.DMA_BIDIRECTIONAL,
      req.fd_flt1.len, req.flc.flc_dma⟩ : dpaa2_fd) = fd
  obtain ⟨m, hm, hb, hs, heq⟩ :=
    enqueue_loop_spec env (priv.tx_fqid (env.cpu % priv.num_tx_queues)) fd k 0 0
  simp only [Nat.zero_add] at hb hs heq
  have hres : dpaa2_caam_enqueue priv env (Except.ok req) =
      if env.enqueue_fq (priv.tx_fqid (env.cpu % priv.num_tx_queues)) m < 0 then
        some ⟨- EIO,
          Except.ok { req with
            fd_flt1 := { req.fd_flt1 with flc := req.flc.flc_dma },
            fd_flt_dma := env.dma_map_single Buf.fd_flt FD_FLT_SIZE
              dma_data_direction.DMA_BIDIRECTIONAL },
          (if priv.cscn_mem then [Event.sync_for_cpu] else []) ++
            [Event.map_single Buf.fd_flt FD_FLT_SIZE dma_data_direction.DMA_BIDIRECTIONAL
              (env.dma_map_single Buf.fd_flt FD_FLT_SIZE dma_data_direction.DMA_BIDIRECTIONAL)
              false] ++
            (List.range (m + 1)).map (fun i =>
              Event.enqueue (priv.tx_fqid (env.cpu % priv.num_tx_queues)) fd
                (env.enqueue_fq (priv.tx_fqid (env.cpu % priv.num_tx_queues)) i)) ++
            [Event.unmap_single
              (env.dma_map_single Buf.fd_flt FD_FLT_SIZE dma_data_direction.DMA_BIDIRECTIONAL)
              FD_FLT_SIZE dma_data_direction.DMA_BIDIRECTIONAL]⟩
      else
        some ⟨-EINPROGRESS,
          Except.ok { req with
            fd_flt1 := { req.fd_flt1 with flc := req.flc.flc_dma },
            fd_flt_dma := env.dma_map_single Buf.fd_flt FD_FLT_SIZE
              dma_data_direction.DMA_BIDIRECTIONAL },
          (if priv.cscn_mem then [Event.sync_for_cpu] else []) ++
            [Event.map_single Buf.fd_flt FD_FLT_SIZE dma_data_direction.DMA_BIDIRECTIONAL
              (env.dma_map_single Buf.fd_flt FD_FLT_SIZE dma_data_direction.DMA_BIDIRECTIONAL)
              false] ++
            (List.range (m + 1)).map (fun i =>
              Event.enqueue (priv.tx_fqid (env.cpu % priv.num_tx_queues)) fd
                (env.enqueue_fq (priv.tx_fqid (env.cpu % priv.num_tx_queues)) i))⟩ := by
    simp only [dpaa2_caam_enqueue, hcong, hmap, hn0, hfd, hk, heq]
    simp
  by_cases hneg : env.enqueue_fq (priv.tx_fqid (env.cpu % priv.num_tx_queues)) m < 0
  · rw [if_pos hneg] at hres
    refine ⟨_, m, fd, hres, by omega, hb, by rw [hk]; exact hs, ?_, ?_, ?_⟩
    · simp [hneg]
    · simp [hneg]
    · simp [ EIO]
  · rw [if_neg hneg] at hres
    refine ⟨_, m, fd, hres, by omega, hb, by rw [hk]; exact hs, ?_, ?_, ?_⟩
    · simp [hneg]
    · simp [hneg]
    · simp [EINPROGRESS]

/-- Witness of C2: four queues, CPU 5, the first enqueue accepted. -/
theorem dpaa2_caam_enqueue_retry_witness :
    ∃ r, dpaa2_caam_enqueue dpaa2_caam_priv.four Env.good (Except.ok caam_request.zero) = some r ∧
      r.ret ≠ 0 := by
  obtain ⟨r, _, _, h, _, _, _, _, _, h0⟩ :=
    dpaa2_caam_enqueue_retry dpaa2_caam_priv.four Env.good caam_request.zero rfl
      (by decide) rfl
  exact ⟨r, h, h0⟩

/-! ### The generic AEAD builder -/

/-- The table part of the AEAD builder succeeds only when no mapping failed and
the ceiling holds; the descriptor and the trace are then the ones of its last
branch. -/
theorem aead_edesc_alloc_table_ok (env : Env) (lim : Limits) (ctx : caam_ctx)
    (alg : caam_aead_alg) (req : aead_request) (req_ctx : caam_request) (encrypt : Bool)
    (st : MappedBufs) (edesc : aead_edesc)
    (hok : (aead_edesc_alloc_table env lim ctx alg req req_ctx encrypt st).ret
      = Except.ok edesc) :
    (aead_map_iv alg encrypt = true →
      env.dma_mapping_error (aead_iv_dma env alg encrypt) = false) ∧
    aead_qm_sg_nents (aead_ivsize alg encrypt) st.mapped_src.length st.mapped_dst.length
      ≤ lim.CAAM_QI_MAX_AEAD_SG ∧
    env.dma_mapping_error
      (env.dma_map_single Buf.assoclen 4 dma_data_direction.DMA_TO_DEVICE) = false ∧
    env.dma_mapping_error
      (env.dma_map_single Buf.sg_table
        (aead_qm_sg_nents (aead_ivsize alg encrypt) st.mapped_src.length st.mapped_dst.length
          * SG_ENTRY_SIZE)
        dma_data_direction.DMA_TO_DEVICE) = false ∧
    edesc = ⟨st.src_nents, st.dst_nents, aead_iv_dma env alg encrypt,
      aead_qm_sg_nents (aead_ivsize alg encrypt) st.mapped_src.length st.mapped_dst.length
        * SG_ENTRY_SIZE,
      env.dma_map_single Buf.sg_table
        (aead_qm_sg_nents (aead_ivsize alg encrypt) st.mapped_src.length st.mapped_dst.length
          * SG_ENTRY_SIZE)
        dma_data_direction.DMA_TO_DEVICE,
      env.dma_map_single Buf.assoclen 4 dma_data_direction.DMA_TO_DEVICE,
      aead_sg_table (env.dma_map_single Buf.assoclen 4 dma_data_direction.DMA_TO_DEVICE)
        (aead_iv_dma env alg encrypt) (aead_ivsize alg encrypt) st.mapped_src st.mapped_dst⟩ ∧
    (aead_edesc_alloc_table env lim ctx alg req req_ctx encrypt st).trace =
      st.trace ++ aead_iv_events env alg encrypt ++
        [Event.map_single Buf.assoclen 4 dma_data_direction.DMA_TO_DEVICE
          (env.dma_map_single Buf.assoclen 4 dma_data_direction.DMA_TO_DEVICE) false,
         Event.map_single Buf.sg_table
          (aead_qm_sg_nents (aead_ivsize alg encrypt) st.mapped_src.length
            st.mapped_dst.length * SG_ENTRY_SIZE)
          dma_data_direction.DMA_TO_DEVICE
          (env.dma_map_single Buf.sg_table
            (aead_qm_sg_nents (aead_ivsize alg encrypt) st.mapped_src.length
              st.mapped_dst.length * SG_ENTRY_SIZE)
            dma_data_direction.DMA_TO_DEVICE) false] := by
  unfold aead_edesc_alloc_table at hok ⊢
  simp only at hok ⊢
  split_ifs at hok ⊢ with h1 h2 h3 h4
  simp only [Except.ok.injEq] at hok
  subst hok
  refine ⟨?_, by omega, by simpa using h3, by simpa using h4, rfl, rfl⟩
  intro hiv
  simpa [hiv] using h1

/-- The first part of the AEAD builder hands over only after the pool gave a
buffer and source and destination were mapped: with distinct buffers (the
source mapped only when it has segments) or in place. -/
theorem aead_map_src_dst_ok (env : Env) (ctx : caam_ctx) (req : aead_request)
    (req_ctx : caam_request) (encrypt : Bool) (st : MappedBufs)
    (hok : aead_map_src_dst env ctx req req_ctx encrypt = Except.ok st) :
    (req.dst ≠ req.src ∧
      sg_nents_for_len req.src (u32 (req.assoclen + req.cryptlen)) = Except.ok st.src_nents ∧
      sg_nents_for_len req.dst (u32 (req.assoclen + req.cryptlen +
        (if encrypt then ctx.authsize else u32_neg ctx.authsize))) = Except.ok st.dst_nents ∧
      st.mapped_src = (if st.src_nents ≠ 0 then
        env.dma_map_sg req.src st.src_nents dma_data_direction.DMA_TO_DEVICE else []) ∧
      (st.src_nents ≠ 0 → st.mapped_src.length ≠ 0) ∧
      st.mapped_dst = env.dma_map_sg req.dst st.dst_nents dma_data_direction.DMA_FROM_DEVICE ∧
      st.mapped_dst.length ≠ 0 ∧
      st.trace = [Event.alloc (gfp_flags req.flags CRYPTO_TFM_REQ_MAY_SLEEP) true] ++
        (if st.src_nents ≠ 0 then
          [Event.map_sg req.src st.src_nents dma_data_direction.DMA_TO_DEVICE
            st.mapped_src.length] else []) ++
        [Event.map_sg req.dst st.dst_nents dma_data_direction.DMA_FROM_DEVICE
          st.mapped_dst.length]) ∨
    (req.dst = req.src ∧
      sg_nents_for_len req.src (u32 (req.assoclen + req.cryptlen +
        (if encrypt then ctx.authsize else 0))) = Except.ok st.src_nents ∧
      st.dst_nents = 0 ∧
      st.mapped_src = env.dma_map_sg req.src st.src_nents
        dma_data_direction.DMA_BIDIRECTIONAL ∧
      st.mapped_src.length ≠ 0 ∧ st.mapped_dst = [] ∧
      st.trace = [Event.alloc (gfp_flags req.flags CRYPTO_TFM_REQ_MAY_SLEEP) true,
        Event.map_sg req.src st.src_nents dma_data_direction.DMA_BIDIRECTIONAL
          st.mapped_src.length]) := by
  by_cases h0 : env.qi_cache_zalloc (gfp_flags req.flags CRYPTO_TFM_REQ_MAY_SLEEP) = false
  · simp [aead_map_src_dst, h0] at hok
  by_cases h1 : req.dst = req.src
  · cases hsn : sg_nents_for_len req.src (u32 (req.assoclen + req.cryptlen +
        (if encrypt then ctx.authsize else 0))) with
    | error e => simp [aead_map_src_dst, h0, h1, hsn] at hok
    | ok sn =>
      by_cases h2 : env.dma_map_sg req.src sn dma_data_direction.DMA_BIDIRECTIONAL = []
      · simp [aead_map_src_dst, h0, h1, hsn, h2] at hok
      · simp [aead_map_src_dst, h0, h1, hsn, h2] at hok
        subst hok
        exact Or.inr ⟨h1, rfl, rfl, rfl, by simpa using h2, rfl, rfl⟩
  · cases hsn : sg_nents_for_len req.src (u32 (req.assoclen + req.cryptlen)) with
    | error e => simp [aead_map_src_dst, h0, h1, hsn] at hok
    | ok sn =>
      cases hdn : sg_nents_for_len req.dst (u32 (req.assoclen + req.cryptlen +
          (if encrypt then ctx.authsize else u32_neg ctx.authsize))) with
      | error e => simp [aead_map_src_dst, h0, h1, hsn, hdn] at hok
      | ok dn =>
        by_cases h3 : env.dma_map_sg req.dst dn dma_data_direction.DMA_FROM_DEVICE = []
        · simp [aead_map_src_dst, h0, h1, hsn, hdn, h3] at hok
          split_ifs at hok
        by_cases hne : sn = 0
        · simp [aead_map_src_dst, h0, h1, hsn, hdn, h3, hne] at hok
          subst hok
          refine Or.inl ⟨h1, ?_, rfl, ?_, ?_, rfl, by simpa using h3, ?_⟩
          · simp [hne]
          · simp
          · simp
          · simp
        · by_cases h2 : env.dma_map_sg req.src sn dma_data_direction.DMA_TO_DEVICE = []
          · simp [aead_map_src_dst, h0, h1, hsn, hdn, h2, hne] at hok
          · simp [aead_map_src_dst, h0, h1, hsn, hdn, h3, hne, h2] at hok
            subst hok
            refine Or.inl ⟨h1, rfl, rfl, ?_, ?_, rfl, by simpa using h3, ?_⟩
            · simp [hne]
            · intro _; simpa using h2
            · simp [hne]

/-- Once source and destination are mapped, the mappings made so far are the
ones `caam_unmap` releases for these counts when it is given no IV and no
table, and nothing has been unmapped yet. -/
theorem aead_map_src_dst_mappings (env : Env) (ctx : caam_ctx) (req : aead_request)
    (req_ctx : caam_request) (encrypt : Bool) (st : MappedBufs) (op : optype)
    (hok : aead_map_src_dst env ctx req req_ctx encrypt = Except.ok st) :
    mappings st.trace =
      unmappings (caam_unmap req.src req.dst st.src_nents st.dst_nents 0 0 op 0 0) ∧
    unmappings st.trace = [] := by
  rcases aead_map_src_dst_ok env ctx req req_ctx encrypt st hok with
    ⟨hne, _, _, _, hmsl, _, hmdl, htr⟩ | ⟨heq, _, _, _, hmsl, _, htr⟩
  · rw [htr]
    by_cases hz : st.src_nents = 0
    · simp [mappings, unmappings, caam_unmap, Event.mapped, Event.unmapped, hne, hz, hmdl]
    · simp [mappings, unmappings, caam_unmap, Event.mapped, Event.unmapped, hne, hz, hmdl,
        hmsl hz]
  · rw [htr]
    simp [mappings, unmappings, caam_unmap, Event.mapped, Event.unmapped, heq, hmsl]

/-- An early return of the AEAD builder is an error return. -/
theorem aead_map_src_dst_error (env : Env) (ctx : caam_ctx) (req : aead_request)
    (req_ctx : caam_request) (encrypt : Bool) (b : Built aead_edesc)
    (hst : aead_map_src_dst env ctx req req_ctx encrypt = Except.error b) :
    ∃ e, b.ret = Except.error e := by
  by_cases h0 : env.qi_cache_zalloc (gfp_flags req.flags CRYPTO_TFM_REQ_MAY_SLEEP) = false
  · simp [aead_map_src_dst, h0] at hst
    subst hst
    exact ⟨_, rfl⟩
  by_cases h1 : req.dst = req.src
  · cases hsn : sg_nents_for_len req.src (u32 (req.assoclen + req.cryptlen +
        (if encrypt then ctx.authsize else 0))) with
    | error e =>
      simp [aead_map_src_dst, h0, h1, hsn] at hst
      subst hst
      exact ⟨_, rfl⟩
    | ok sn =>
      by_cases h2 : env.dma_map_sg req.src sn dma_data_direction.DMA_BIDIRECTIONAL = []
      · simp [aead_map_src_dst, h0, h1, hsn, h2] at hst
        subst hst
        exact ⟨_, rfl⟩
      · simp [aead_map_src_dst, h0, h1, hsn, h2] at hst
  · cases hsn : sg_nents_for_len req.src (u32 (req.assoclen + req.cryptlen)) with
    | error e =>
      simp [aead_map_src_dst, h0, h1, hsn] at hst
      subst hst
      exact ⟨_, rfl⟩
    | ok sn =>
      cases hdn : sg_nents_for_len req.dst (u32 (req.assoclen + req.cryptlen +
          (if encrypt then ctx.authsize else u32_neg ctx.authsize))) with
      | error e =>
        simp [aead_map_src_dst, h0, h1, hsn, hdn] at hst
        subst hst
        exact ⟨_, rfl⟩
      | ok dn =>
        by_cases h2 : sn ≠ 0 ∧ env.dma_map_sg req.src sn dma_data_direction.DMA_TO_DEVICE = []
        · simp [aead_map_src_dst, h0, h1, hsn, hdn, h2.1, h2.2] at hst
          subst hst
          exact ⟨_, rfl⟩
        by_cases h3 : env.dma_map_sg req.dst dn dma_data_direction.DMA_FROM_DEVICE = []
        · simp [aead_map_src_dst, h0, h1, hsn, hdn, h3] at hst
          rw [if_neg (by simpa using h2)] at hst
          simp only [Except.error.injEq] at hst
          subst hst
          exact ⟨_, rfl⟩
        · simp [aead_map_src_dst, h0, h1, hsn, hdn, h3] at hst
          rw [if_neg (by simpa using h2)] at hst
          simp at hst

/-- `aead_edesc_alloc` succeeds only through its table part. -/
theorem aead_edesc_alloc_ok (env : Env) (lim : Limits) (ctx : caam_ctx)
    (alg : caam_aead_alg) (req : aead_request) (req_ctx : caam_request) (encrypt : Bool)
    (edesc : aead_edesc)
    (hok : (aead_edesc_alloc env lim ctx alg req req_ctx encrypt).ret = Except.ok edesc) :
    ∃ st, aead_map_src_dst env ctx req req_ctx encrypt = Except.ok st ∧
      aead_edesc_alloc env lim ctx alg req req_ctx encrypt =
        aead_edesc_alloc_table env lim ctx alg req req_ctx encrypt st := by
  unfold aead_edesc_alloc at hok ⊢
  cases hst : aead_map_src_dst env ctx req req_ctx encrypt with
  | ok st => exact ⟨st, rfl, rfl⟩
  | error b =>
    rw [hst] at hok
    obtain ⟨e, he⟩ := aead_map_src_dst_error env ctx req req_ctx encrypt b hst
    simp only at hok
    rw [he] at hok
    simp at hok

/-- The table of a successful AEAD build has at least one entry, so its byte
size is not zero. -/
theorem aead_qm_sg_bytes_ne_zero (ivsize a b : Nat) :
    aead_qm_sg_nents ivsize a b * SG_ENTRY_SIZE ≠ 0 := by
  unfold aead_qm_sg_nents SG_ENTRY_SIZE
  omega

/-- What `aead_unmap` names beyond the scatter lists is, once each, the IV
when it is recorded with a non-zero address, the table, and the length
word. -/
theorem aead_iv_mappings (env : Env) (alg : caam_aead_alg) (encrypt : Bool)
    (hnz : ∀ buf size dir, env.dma_mapping_error (env.dma_map_single buf size dir) = false →
      env.dma_map_single buf size dir ≠ 0)
    (hiv : aead_map_iv alg encrypt = true →
      env.dma_mapping_error (aead_iv_dma env alg encrypt) = false) :
    (if aead_iv_dma env alg encrypt ≠ 0 then
      [Resource.single (aead_iv_dma env alg encrypt) alg.ivsize
        dma_data_direction.DMA_TO_DEVICE] else []) =
    mappings (aead_iv_events env alg encrypt) := by
  by_cases hm : aead_map_iv alg encrypt = true
  · have h1 := hiv hm
    have h2 : aead_iv_dma env alg encrypt ≠ 0 := by
      have := hnz Buf.iv (aead_ivsize alg encrypt) dma_data_direction.DMA_TO_DEVICE
      simp only [aead_iv_dma, hm, if_true] at h1 ⊢
      exact this h1
    simp [aead_iv_events, mappings, Event.mapped, hm, h1, h2, aead_ivsize]
  · simp [aead_iv_events, mappings, Event.mapped, hm, aead_iv_dma]

/-- C5: for every generic-AEAD request on which `aead_edesc_alloc` succeeds,
assuming successful mappings yield non-zero bus addresses, the unmapping calls
of a following `aead_unmap` (with the operation type the entry point stored)
are, up to order, exactly the successful mapping calls of the builder: source,
destination if distinct, IV if mapped, length word and table are each named
once, with the segment count, size and direction they were mapped with, and
nothing else is unmapped. -/
theorem aead_unmap_releases_build (env : Env) (lim : Limits) (ctx : caam_ctx)
    (alg : caam_aead_alg) (req : aead_request) (req_ctx : caam_request) (encrypt : Bool)
    (edesc : aead_edesc) (flc : caam_flc) (cbk : cbk_fn)
    (hnz : ∀ buf size dir, env.dma_mapping_error (env.dma_map_single buf size dir) = false →
      env.dma_map_single buf size dir ≠ 0)
    (hok : (aead_edesc_alloc env lim ctx alg req req_ctx encrypt).ret = Except.ok edesc) :
    (unmappings (aead_unmap alg edesc req
      (caam_req_init (aead_edesc_alloc env lim ctx alg req req_ctx encrypt).req_ctx flc
        (if encrypt then optype.ENCRYPT else optype.DECRYPT) cbk))).Perm
      (mappings (aead_edesc_alloc env lim ctx alg req req_ctx encrypt).trace) := by
  obtain ⟨st, hst, heq⟩ := aead_edesc_alloc_ok env lim ctx alg req req_ctx encrypt edesc hok
  rw [heq] at hok ⊢
  obtain ⟨hiv, _, hal, htb, hed, htr⟩ :=
    aead_edesc_alloc_table_ok env lim ctx alg req req_ctx encrypt st edesc hok
  obtain ⟨hmap, _⟩ :=
    aead_map_src_dst_mappings env ctx req req_ctx encrypt st optype.ENCRYPT hst
  rw [htr, hed]
  have hbytes := aead_qm_sg_bytes_ne_zero (aead_ivsize alg encrypt) st.mapped_src.length
    st.mapped_dst.length
  have hop : (if (if encrypt then optype.ENCRYPT else optype.DECRYPT) = optype.GIVENCRYPT
      then dma_data_direction.DMA_FROM_DEVICE else dma_data_direction.DMA_TO_DEVICE) =
      dma_data_direction.DMA_TO_DEVICE := by
    cases encrypt <;> simp
  have hivpart := aead_iv_mappings env alg encrypt hnz hiv
  simp only [mappings, List.filterMap_append] at hmap hivpart ⊢
  rw [hmap, ← hivpart]
  simp only [aead_unmap, caam_unmap, caam_req_init, hop, unmappings,
    List.filterMap_append, List.filterMap_cons, List.filterMap_nil, Event.mapped,
    Event.unmapped, hbytes, ne_eq, not_false_eq_true, if_true, Bool.false_eq_true, if_false,
    apply_ite (List.filterMap Event.unmapped), not_true_eq_false, List.append_nil]
  rw [← Multiset.coe_eq_coe]
  simp only [← Multiset.cons_coe, ← Multiset.singleton_add, ← Multiset.coe_add]
  ac_rfl

/-- Writing right behind the entries written so far appends the entry. -/
theorem table_set_length (t : List dpaa2_sg_entry) (e : dpaa2_sg_entry) :
    table_set t t.length e = t ++ [e] := by
  simp [table_set]

/-- Writing the mapped segments right behind the entries written so far
appends one entry per segment, in order. -/
theorem sg_to_qm_sg_append (L : List sg_seg) (t : List dpaa2_sg_entry) (off : Nat) :
    sg_to_qm_sg L L.length t t.length off =
      (t ++ L.map (fun s => ⟨s.dma_address, s.dma_len, false, off⟩), t.length + L.length) := by
  induction L generalizing t with
  | nil => simp [sg_to_qm_sg]
  | cons s rest ih =>
    simp only [sg_to_qm_sg, List.length_cons, dma_to_qm_sg_one, table_set_length]
    have h := ih (t ++ [⟨s.dma_address, s.dma_len, false, off⟩])
    simp only [List.length_append, List.length_singleton] at h
    rw [h]
    simp [Nat.add_assoc, Nat.add_comm 1]

/-- Setting the final flag of an entry inside the table changes no address, no
length and no entry count. -/
theorem table_set_final_proj (t : List dpaa2_sg_entry) (i : Nat) (hi : i < t.length) :
    (table_set_final t i).map (fun e => (e.addr, e.len)) = t.map (fun e => (e.addr, e.len)) := by
  unfold table_set_final table_set
  rw [if_pos hi]
  apply List.ext_getElem
  · simp
  · intro n h1 h2
    simp only [List.getElem_map, List.getElem_set]
    split
    · rename_i hin
      subst hin
      simp [List.getD_eq_getElem?_getD, List.getElem?_eq_getElem hi]
    · rfl

/-- Address and length of the entries `sg_to_qm_sg_last` leaves, when it writes
right behind a non-empty table. -/
theorem sg_to_qm_sg_last_proj (L : List sg_seg) (t : List dpaa2_sg_entry) (off : Nat)
    (ht : t ≠ []) :
    (sg_to_qm_sg_last L L.length t t.length off).map (fun e => (e.addr, e.len)) =
      t.map (fun e => (e.addr, e.len)) ++ L.map (fun s => (s.dma_address, s.dma_len)) := by
  have hpos : 0 < t.length := List.length_pos.mpr ht
  unfold sg_to_qm_sg_last
  simp only [sg_to_qm_sg_append]
  rw [if_neg (by omega)]
  rw [table_set_final_proj _ _ (by simp; omega)]
  simp [Function.comp_def]

/-- The table the AEAD builder writes: the length word, the IV iff `ivsize` is
not zero, the source segments, the destination segments iff there are more
than one. -/
theorem aead_sg_table_proj (assoclen_dma iv_dma ivsize : Nat) (ms md : List sg_seg) :
    (aead_sg_table assoclen_dma iv_dma ivsize ms md).map (fun e => (e.addr, e.len)) =
      [(assoclen_dma, 4)] ++ (if ivsize ≠ 0 then [(iv_dma, ivsize)] else []) ++
      ms.map (fun s => (s.dma_address, s.dma_len)) ++
      (if md.length > 1 then md.map (fun s => (s.dma_address, s.dma_len)) else []) := by
  have h0 : dma_to_qm_sg_one [] 0 assoclen_dma 4 0 = [⟨assoclen_dma, 4, false, 0⟩] := by
    simp [dma_to_qm_sg_one, table_set]
  have h1 : dma_to_qm_sg_one [⟨assoclen_dma, 4, false, 0⟩] 1 iv_dma ivsize 0 =
      [⟨assoclen_dma, 4, false, 0⟩, ⟨iv_dma, ivsize, false, 0⟩] := by
    simp [dma_to_qm_sg_one, table_set]
  unfold aead_sg_table
  simp only [h0]
  by_cases hiv : ivsize = 0
  · simp only [hiv, ne_eq, not_true_eq_false, if_false]
    have e1 := sg_to_qm_sg_last_proj ms [⟨assoclen_dma, 4, false, 0⟩] 0 (by simp)
    simp only [List.length_singleton] at e1
    split_ifs with hmd
    · have hlen : 1 + ms.length =
          (sg_to_qm_sg_last ms ms.length [⟨assoclen_dma, 4, false, 0⟩] 1 0).length := by
        have := congrArg List.length e1
        simp at this
        omega
      rw [hlen, sg_to_qm_sg_last_proj md _ 0 (by
        intro hnil
        rw [hnil] at hlen
        simp at hlen), e1]
      simp
    · rw [e1]
      simp
  · simp only [hiv, ne_eq, not_false_eq_true, if_true, h1]
    have e1 := sg_to_qm_sg_last_proj ms
      [⟨assoclen_dma, 4, false, 0⟩, ⟨iv_dma, ivsize, false, 0⟩] 0 (by simp)
    simp only [List.length_cons, List.length_singleton, List.length_nil] at e1
    split_ifs with hmd
    · have hlen : 2 + ms.length =
          (sg_to_qm_sg_last ms ms.length
            [⟨assoclen_dma, 4, false, 0⟩, ⟨iv_dma, ivsize, false, 0⟩] 2 0).length := by
        have := congrArg List.length e1
        simp at this
        omega
      rw [hlen, sg_to_qm_sg_last_proj md _ 0 (by
        intro hnil
        rw [hnil] at hlen
        simp at hlen), e1]
      simp
    · rw [e1]
      simp

/-- Every algorithm of `driver_aeads[]` has an IV of 8, 12 or 16 bytes. -/
theorem driver_aeads_ivsize_pos : ∀ alg ∈ driver_aeads, 0 < alg.ivsize := by
  decide

/-- C10: for every generic-AEAD request (an algorithm of `driver_aeads[]`) on
which `aead_edesc_alloc` succeeds, with `st.mapped_src` the mapped source
segments and `st.mapped_dst` the mapped destination segments (none when in
place): the table holds, in this order, the entry of the 4-byte length word,
the entry of the IV iff the builder mapped an IV, one entry per mapped source
segment, and one entry per mapped destination segment iff the destination is
distinct and maps to more than one segment. The entry count is
`1 + (IV ? 1 : 0) + mapped_src + (mapped_dst > 1 ? mapped_dst : 0)` and
`qm_sg_bytes` is that count times the entry size. In particular an in-place
request with an IV whose buffer maps to 4 segments has exactly 6 entries. -/
theorem aead_edesc_alloc_table_layout (env : Env) (lim : Limits) (ctx : caam_ctx)
    (alg : caam_aead_alg) (req : aead_request) (req_ctx : caam_request) (encrypt : Bool)
    (edesc : aead_edesc) (halg : alg ∈ driver_aeads)
    (hok : (aead_edesc_alloc env lim ctx alg req req_ctx encrypt).ret = Except.ok edesc) :
    ∃ st, aead_map_src_dst env ctx req req_ctx encrypt = Except.ok st ∧
      (req.dst ≠ req.src →
        st.mapped_src = (if st.src_nents ≠ 0 then
          env.dma_map_sg req.src st.src_nents dma_data_direction.DMA_TO_DEVICE else []) ∧
        st.mapped_dst =
          env.dma_map_sg req.dst st.dst_nents dma_data_direction.DMA_FROM_DEVICE) ∧
      (req.dst = req.src →
        st.mapped_src =
          env.dma_map_sg req.src st.src_nents dma_data_direction.DMA_BIDIRECTIONAL ∧
        st.mapped_dst = []) ∧
      (aead_map_iv alg encrypt = true ↔
        Event.map_single Buf.iv alg.ivsize dma_data_direction.DMA_TO_DEVICE edesc.iv_dma false ∈
          (aead_edesc_alloc env lim ctx alg req req_ctx encrypt).trace) ∧
      edesc.sgt.map (fun e => (e.addr, e.len)) =
        [(edesc.assoclen_dma, 4)] ++
        (if aead_map_iv alg encrypt then [(edesc.iv_dma, alg.ivsize)] else []) ++
        st.mapped_src.map (fun s => (s.dma_address, s.dma_len)) ++
        (if req.dst ≠ req.src ∧ st.mapped_dst.length > 1 then
          st.mapped_dst.map (fun s => (s.dma_address, s.dma_len)) else []) ∧
      edesc.sgt.length = 1 + (if aead_map_iv alg encrypt then 1 else 0) +
        st.mapped_src.length +
        (if st.mapped_dst.length > 1 then st.mapped_dst.length else 0) ∧
      edesc.qm_sg_bytes = edesc.sgt.length * SG_ENTRY_SIZE ∧
      (req.dst = req.src → aead_map_iv alg encrypt = true → st.mapped_src.length = 4 →
        edesc.sgt.length = 6) := by
  have hivpos := driver_aeads_ivsize_pos alg halg
  obtain ⟨st, hst, heq⟩ := aead_edesc_alloc_ok env lim ctx alg req req_ctx encrypt edesc hok
  have hcase := aead_map_src_dst_ok env ctx req req_ctx encrypt st hst
  rw [heq] at hok ⊢
  obtain ⟨hiv, _, hal, htb, hed, htr⟩ :=
    aead_edesc_alloc_table_ok env lim ctx alg req req_ctx encrypt st edesc hok
  have hproj := aead_sg_table_proj
    (env.dma_map_single Buf.assoclen 4 dma_data_direction.DMA_TO_DEVICE)
    (aead_iv_dma env alg encrypt) (aead_ivsize alg encrypt) st.mapped_src st.mapped_dst
  have hivsz : (aead_ivsize alg encrypt ≠ 0) ↔ aead_map_iv alg encrypt = true := by
    unfold aead_ivsize
    by_cases hm : aead_map_iv alg encrypt = true
    · simp [hm]; omega
    · simp [hm]
  have hmd : req.dst = req.src → st.mapped_dst = [] := by
    intro h
    rcases hcase with ⟨hne, _⟩ | ⟨_, _, _, _, _, hmd, _⟩
    · exact absurd h hne
    · exact hmd
  have hproj2 : edesc.sgt.map (fun e => (e.addr, e.len)) =
      [(edesc.assoclen_dma, 4)] ++
      (if aead_map_iv alg encrypt then [(edesc.iv_dma, alg.ivsize)] else []) ++
      st.mapped_src.map (fun s => (s.dma_address, s.dma_len)) ++
      (if req.dst ≠ req.src ∧ st.mapped_dst.length > 1 then
        st.mapped_dst.map (fun s => (s.dma_address, s.dma_len)) else []) := by
    rw [hed]
    simp only [hproj]
    by_cases hm : aead_map_iv alg encrypt = true
    · have h1 : aead_ivsize alg encrypt ≠ 0 := hivsz.mpr hm
      have h2 : aead_ivsize alg encrypt = alg.ivsize := by simp [aead_ivsize, hm]
      have h3 : alg.ivsize ≠ 0 := by omega
      by_cases hd : req.dst = req.src
      · simp [hm, h2, h3, hd, hmd hd]
      · simp [hm, h2, h3, hd]
    · have h1 : aead_ivsize alg encrypt = 0 := by simp [aead_ivsize, hm]
      by_cases hd : req.dst = req.src
      · simp [hm, h1, hd, hmd hd]
      · simp [hm, h1, hd]
  have hlen : edesc.sgt.length = 1 + (if aead_map_iv alg encrypt then 1 else 0) +
      st.mapped_src.length +
      (if st.mapped_dst.length > 1 then st.mapped_dst.length else 0) := by
    have := congrArg List.length hproj2
    simp only [List.length_map, List.length_append, List.length_singleton] at this
    rw [this]
    by_cases hm : aead_map_iv alg encrypt = true <;> by_cases hd : req.dst = req.src <;>
      by_cases hl : st.mapped_dst.length > 1 <;> simp [hm, hd, hl, hmd]
  refine ⟨st, hst, ?_, ?_, ?_, hproj2, hlen, ?_, ?_⟩
  · intro hne
    rcases hcase with ⟨_, _, _, c, _, e, _, _⟩ | ⟨a, _⟩
    · exact ⟨c, e⟩
    · exact absurd a hne
  · intro hd
    rcases hcase with ⟨a, _⟩ | ⟨_, _, _, c, _, d, _⟩
    · exact absurd hd a
    · exact ⟨c, d⟩
  · rw [htr, hed]
    constructor
    · intro hm
      have := hiv hm
      simp [aead_iv_events, hm, this, aead_ivsize]
    · intro hmem
      by_contra hm
      have htr_no : ∀ ev ∈ st.trace, ∀ sz a, ev ≠ Event.map_single Buf.iv sz
          dma_data_direction.DMA_TO_DEVICE a false := by
        rcases hcase with ⟨_, _, _, _, _, _, _, htr2⟩ | ⟨_, _, _, _, _, _, htr2⟩
        · intro ev hev sz a
          rw [htr2] at hev
          simp at hev
          rcases hev with rfl | hev | rfl
          · simp
          · rw [hev.2]; simp
          · simp
        · intro ev hev sz a
          rw [htr2] at hev
          simp at hev
          rcases hev with rfl | rfl <;> simp
      simp only [aead_iv_events, hm, Bool.false_eq_true, if_false, List.append_nil,
        List.mem_append, List.mem_cons, List.mem_singleton, Event.map_single.injEq,
        reduceCtorEq, false_and, or_false, and_false, List.mem_nil_iff] at hmem
      exact htr_no _ hmem _ _ rfl
  · rw [hlen, hed]
    simp only
    unfold aead_qm_sg_nents
    by_cases hm : aead_map_iv alg encrypt = true
    · have h1 : aead_ivsize alg encrypt ≠ 0 := hivsz.mpr hm
      simp [hm, h1]
    · have h1 : aead_ivsize alg encrypt = 0 := by simp [aead_ivsize, hm]
      simp [hm, h1]
  · intro hd hm h4
    rw [hlen, hmd hd, h4]
    simp [hm]

/-- Witness of C5: the in-place request over four segments, every mapping
succeeding. -/
theorem aead_unmap_releases_build_witness :
    ∃ edesc, (aead_edesc_alloc Env.good Limits.example caam_ctx.example
        caam_aead_alg.authenc_sha1_cbc_aes aead_request.in_place4 caam_request.zero
        true).ret = Except.ok edesc ∧
      (unmappings (aead_unmap caam_aead_alg.authenc_sha1_cbc_aes edesc aead_request.in_place4
        (caam_req_init (aead_edesc_alloc Env.good Limits.example caam_ctx.example
          caam_aead_alg.authenc_sha1_cbc_aes aead_request.in_place4 caam_request.zero
          true).req_ctx ⟨[], [], 0⟩ optype.ENCRYPT cbk_fn.aead_encrypt_done))).Perm
        (mappings (aead_edesc_alloc Env.good Limits.example caam_ctx.example
          caam_aead_alg.authenc_sha1_cbc_aes aead_request.in_place4 caam_request.zero
          true).trace) :=
  ⟨_, rfl, aead_unmap_releases_build Env.good Limits.example caam_ctx.example
    caam_aead_alg.authenc_sha1_cbc_aes aead_request.in_place4 caam_request.zero true _
    ⟨[], [], 0⟩ cbk_fn.aead_encrypt_done
    (fun buf _ _ _ => by cases buf <;> simp [Env.good]) rfl⟩

/-- Witness of C10: the in-place encryption of a four segment buffer with a
13-byte header and an explicit IV yields a table of exactly 6 entries. -/
theorem aead_edesc_alloc_table_layout_witness :
    ∃ edesc, (aead_edesc_alloc Env.good Limits.example caam_ctx.example
        caam_aead_alg.authenc_sha1_cbc_aes aead_request.in_place4 caam_request.zero
        true).ret = Except.ok edesc ∧ edesc.sgt.length = 6 := by
  refine ⟨_, rfl, ?_⟩
  obtain ⟨st, hst, _, hin, _, _, _, _, h6⟩ :=
    aead_edesc_alloc_table_layout Env.good Limits.example caam_ctx.example
      caam_aead_alg.authenc_sha1_cbc_aes aead_request.in_place4 caam_request.zero true _
      (by decide) rfl
  apply h6 rfl rfl
  have hsn := aead_map_src_dst_ok Env.good caam_ctx.example aead_request.in_place4
    caam_request.zero true st hst
  rcases hsn with ⟨hne, _⟩ | ⟨_, hs, _, hms, _⟩
  · exact absurd rfl hne
  · have h4 : st.src_nents = 4 := by
      have : sg_nents_for_len aead_request.in_place4.src
          (u32 (aead_request.in_place4.assoclen + aead_request.in_place4.cryptlen +
            (if true = true then caam_ctx.example.authsize else 0))) = Except.ok 4 := by
        rfl
      rw [this] at hs
      injection hs with hs
      exact hs.symm
    rw [hms, h4]
    rfl

/-! ### Short buffers -/

/-- The walk over a list that holds too few bytes ends in `-EINVAL`. -/
theorem sg_nents_for_len_walk_short (ls : List Nat) (len n total : Nat)
    (h : total + ls.sum < len) :
    sg_nents_for_len_walk ls len n total = Except.error (-EINVAL) := by
  induction ls generalizing n total with
  | nil => rfl
  | cons l rest ih =>
    simp only [List.sum_cons] at h
    unfold sg_nents_for_len_walk
    rw [if_neg (by omega)]
    exact ih (n + 1) (total + l) (by omega)

/-- `sg_nents_for_len` on a list that holds fewer than `len` bytes is
`-EINVAL`. -/
theorem sg_nents_for_len_short (sg : scatterlist) (len : Nat) (h : sg.lens.sum < len) :
    sg_nents_for_len sg len = Except.error (-EINVAL) := by
  unfold sg_nents_for_len
  rw [if_neg (by omega)]
  exact sg_nents_for_len_walk_short sg.lens len 0 0 (by omega)

/-- C9, as stated, fails where the 32-bit sum wraps: with `assoclen = 2^32 - 1`
and `cryptlen = 1` the source holds 16 bytes, fewer than `assoclen + cryptlen`,
yet the builder does not return the short-buffer error: it maps the
destination and succeeds. -/
theorem aead_edesc_alloc_wrapped_span_succeeds :
    aead_request.wrapped_span.dst ≠ aead_request.wrapped_span.src ∧
    aead_request.wrapped_span.src.lens.sum <
      aead_request.wrapped_span.assoclen + aead_request.wrapped_span.cryptlen ∧
    (aead_edesc_alloc Env.good Limits.example caam_ctx.example
      caam_aead_alg.authenc_sha1_cbc_aes aead_request.wrapped_span caam_request.zero
      true).ret ≠ Except.error (-EINVAL) ∧
    mappings (aead_edesc_alloc Env.good Limits.example caam_ctx.example
      caam_aead_alg.authenc_sha1_cbc_aes aead_request.wrapped_span caam_request.zero
      true).trace =
      [Resource.sg ⟨2, [32]⟩ 1 dma_data_direction.DMA_FROM_DEVICE,
       Resource.single 4096 16 dma_data_direction.DMA_TO_DEVICE,
       Resource.single 12288 4 dma_data_direction.DMA_TO_DEVICE,
       Resource.single 16384 32 dma_data_direction.DMA_TO_DEVICE] := by
  refine ⟨by decide, by decide, ?_, rfl⟩
  intro h
  have h2 : (aead_edesc_alloc Env.good Limits.example caam_ctx.example
      caam_aead_alg.authenc_sha1_cbc_aes aead_request.wrapped_span caam_request.zero
      true).ret = Except.ok ⟨0, 1, 4096, 32, 16384, 12288,
        [⟨12288, 4, false, 0⟩, ⟨4096, 16, true, 0⟩]⟩ := rfl
  rw [h2] at h
  cases h

/-- C9, amended: when the pool hands out a buffer and the source scatter list
holds fewer bytes than the span the code computes in `unsigned int`
(`assoclen + cryptlen` with a distinct destination, `assoclen + cryptlen +
authsize` for in-place encryption, `assoclen + cryptlen` for in-place
decryption), or the distinct destination holds fewer than `assoclen + cryptlen
+ authsize` (encryption) or `assoclen + cryptlen - authsize` (decryption), all
modulo `2^32`, then `aead_edesc_alloc` returns `-EINVAL`, its only side
effects are the pool allocation and the release of that buffer (no bus
mapping), and the request context is untouched. -/
theorem aead_edesc_alloc_short_buffer (env : Env) (lim : Limits) (ctx : caam_ctx)
    (alg : caam_aead_alg) (req : aead_request) (req_ctx : caam_request) (encrypt : Bool)
    (halloc : env.qi_cache_zalloc (gfp_flags req.flags CRYPTO_TFM_REQ_MAY_SLEEP) = true)
    (hshort :
      (req.dst ≠ req.src ∧
        (req.src.lens.sum < u32 (req.assoclen + req.cryptlen) ∨
         req.dst.lens.sum < u32 (req.assoclen + req.cryptlen +
          (if encrypt then ctx.authsize else u32_neg ctx.authsize)))) ∨
      (req.dst = req.src ∧
        req.src.lens.sum < u32 (req.assoclen + req.cryptlen +
          (if encrypt then ctx.authsize else 0)))) :
    (aead_edesc_alloc env lim ctx alg req req_ctx encrypt).ret = Except.error (-EINVAL) ∧
    (aead_edesc_alloc env lim ctx alg req req_ctx encrypt).trace =
      [Event.alloc (gfp_flags req.flags CRYPTO_TFM_REQ_MAY_SLEEP) true, Event.free] ∧
    (∀ ev ∈ (aead_edesc_alloc env lim ctx alg req req_ctx encrypt).trace, ev.is_map = false) ∧
    (aead_edesc_alloc env lim ctx alg req req_ctx encrypt).req_ctx = req_ctx := by
  have key : aead_edesc_alloc env lim ctx alg req req_ctx encrypt =
      ⟨Except.error (-EINVAL), req_ctx,
        [Event.alloc (gfp_flags req.flags CRYPTO_TFM_REQ_MAY_SLEEP) true, Event.free]⟩ := by
    rcases hshort with ⟨hne, hs | hd⟩ | ⟨heq, hs⟩
    · have := sg_nents_for_len_short _ _ hs
      simp [aead_edesc_alloc, aead_map_src_dst, halloc, hne, this]
    · have := sg_nents_for_len_short _ _ hd
      cases hsn : sg_nents_for_len req.src (u32 (req.assoclen + req.cryptlen)) with
      | error e =>
        have he : e = -EINVAL := by
          unfold sg_nents_for_len at hsn
          split_ifs at hsn
          have : ∀ ls n t, sg_nents_for_len_walk ls (u32 (req.assoclen + req.cryptlen)) n t
              = Except.error e → e = -EINVAL := by
            intro ls
            induction ls with
            | nil =>
              intro n t h
              simp [sg_nents_for_len_walk] at h
              exact h.symm
            | cons l rest ih =>
              intro n t h
              unfold sg_nents_for_len_walk at h
              split_ifs at h
              exact ih _ _ h
          exact this _ _ _ hsn
        simp [aead_edesc_alloc, aead_map_src_dst, halloc, hne, hsn, he]
      | ok sn =>
        simp [aead_edesc_alloc, aead_map_src_dst, halloc, hne, hsn, this]
    · have := sg_nents_for_len_short _ _ hs
      simp [aead_edesc_alloc, aead_map_src_dst, halloc, heq, this]
  rw [key]
  refine ⟨rfl, rfl, ?_, rfl⟩
  intro ev hev
  simp at hev
  rcases hev with rfl | rfl <;> rfl

/-- Witness of C9 amended: an in-place encryption whose four segment buffer
holds 97 bytes while 13 + 100 + 20 are needed. -/
theorem aead_edesc_alloc_short_buffer_witness :
    (aead_edesc_alloc Env.good Limits.example caam_ctx.example
      caam_aead_alg.authenc_sha1_cbc_aes { aead_request.in_place4 with cryptlen := 100 }
      caam_request.zero true).ret = Except.error (-EINVAL) :=
  (aead_edesc_alloc_short_buffer Env.good Limits.example caam_ctx.example
    caam_aead_alg.authenc_sha1_cbc_aes { aead_request.in_place4 with cryptlen := 100 }
    caam_request.zero true rfl (Or.inr ⟨rfl, by decide⟩)).1

/-! ### Defects found by evaluation -/

/-- C4 at its failing input: distinct buffers, `assoclen = cryptlen = 0` (the
source has no segment and is not mapped) and the destination mapping failing.
`aead_edesc_alloc` and `tls_edesc_alloc` return `-ENOMEM` having made no
successful mapping, and yet each has called `dma_unmap_sg` on the source, with
`0` segments: one unmapping call against zero successful mapping calls. -/
theorem edesc_alloc_unmaps_unmapped_source :
    (aead_edesc_alloc Env.no_sg Limits.example caam_ctx.example
      caam_aead_alg.authenc_sha1_cbc_aes aead_request.empty_payload caam_request.zero
      true).ret = Except.error (-ENOMEM) ∧
    (aead_edesc_alloc Env.no_sg Limits.example caam_ctx.example
      caam_aead_alg.authenc_sha1_cbc_aes aead_request.empty_payload caam_request.zero
      true).trace =
      [Event.alloc gfp_t.GFP_ATOMIC true,
       Event.map_sg ⟨2, [32]⟩ 1 dma_data_direction.DMA_FROM_DEVICE 0,
       Event.unmap_sg ⟨1, [16]⟩ 0 dma_data_direction.DMA_TO_DEVICE,
       Event.free] ∧
    mappings (aead_edesc_alloc Env.no_sg Limits.example caam_ctx.example
      caam_aead_alg.authenc_sha1_cbc_aes aead_request.empty_payload caam_request.zero
      true).trace = [] ∧
    unmappings (aead_edesc_alloc Env.no_sg Limits.example caam_ctx.example
      caam_aead_alg.authenc_sha1_cbc_aes aead_request.empty_payload caam_request.zero
      true).trace = [Resource.sg ⟨1, [16]⟩ 0 dma_data_direction.DMA_TO_DEVICE] ∧
    (tls_edesc_alloc Env.no_sg caam_ctx.example caam_aead_alg.tls10_sha1_cbc_aes 7
      aead_request.empty_payload caam_request.zero true).map (fun b => b.trace) =
      some [Event.alloc gfp_t.GFP_ATOMIC true,
       Event.map_sg ⟨2, [32]⟩ 1 dma_data_direction.DMA_FROM_DEVICE 0,
       Event.unmap_sg ⟨1, [16]⟩ 0 dma_data_direction.DMA_TO_DEVICE,
       Event.free] := by
  refine ⟨rfl, rfl, rfl, rfl, rfl⟩

/-- C6 at its failing input: an in-place request whose single source segment
is mapped right behind the IV (the contiguous fast path). The builder succeeds
with an empty table and has made three successful mapping calls: the source,
the IV and the table, the last one with a size of `0` bytes.
`ablkcipher_unmap` names the source and the IV only: the table mapping is
never unmapped. -/
theorem ablkcipher_contig_table_mapping_not_unmapped :
    (ablkcipher_edesc_alloc Env.contig Limits.example 16 ablkcipher_request.in_place1
      caam_request.zero true).ret = Except.ok ⟨1, 0, 4096, 0, 16384, []⟩ ∧
    (ablkcipher_edesc_alloc Env.contig Limits.example 16 ablkcipher_request.in_place1
      caam_request.zero true).req_ctx.fd_flt1 =
      ⟨4096, 80, dpaa2_fl_format.dpaa2_fl_single, true, 0⟩ ∧
    mappings (ablkcipher_edesc_alloc Env.contig Limits.example 16
      ablkcipher_request.in_place1 caam_request.zero true).trace =
      [Resource.sg ⟨1, [64]⟩ 1 dma_data_direction.DMA_BIDIRECTIONAL,
       Resource.single 4096 16 dma_data_direction.DMA_TO_DEVICE,
       Resource.single 16384 0 dma_data_direction.DMA_TO_DEVICE] ∧
    unmappings (ablkcipher_unmap 16 ⟨1, 0, 4096, 0, 16384, []⟩ ablkcipher_request.in_place1
      (caam_req_init (ablkcipher_edesc_alloc Env.contig Limits.example 16
        ablkcipher_request.in_place1 caam_request.zero true).req_ctx ⟨[], [], 0⟩
        optype.ENCRYPT cbk_fn.ablkcipher_done)) =
      [Resource.sg ⟨1, [64]⟩ 1 dma_data_direction.DMA_BIDIRECTIONAL,
       Resource.single 4096 16 dma_data_direction.DMA_TO_DEVICE] := by
  refine ⟨rfl, rfl, rfl, rfl⟩

/-- C8 at its failing input: an in-place TLS decryption over 29 segments. With
the ceiling at 29 entries the generic AEAD builder rejects the request (it
needs `1 + 1 + 29` entries), while `tls_edesc_alloc`, which has no ceiling
check, succeeds and has written `1 + 29 = 30` entries, one more than the
ceiling. -/
theorem tls_edesc_alloc_exceeds_ceiling :
    Limits.example.CAAM_QI_MAX_AEAD_SG = 29 ∧
    (tls_edesc_alloc Env.good caam_ctx.example caam_aead_alg.tls10_sha1_cbc_aes 7
      (aead_request.in_place_segments 29 13) caam_request.zero false).map
      (fun b => b.ret.toOption.map (fun e => (e.sgt.length, e.qm_sg_bytes))) =
      some (some (30, 30 * SG_ENTRY_SIZE)) ∧
    (aead_edesc_alloc Env.good Limits.example caam_ctx.example
      caam_aead_alg.tls10_sha1_cbc_aes (aead_request.in_place_segments 29 13)
      caam_request.zero false).ret = Except.error (-ENOMEM) := by
  refine ⟨rfl, ?_, ?_⟩
  · decide
  · rfl

/-! ### Table-size ceilings -/

/-- What `caam_unmap` names: the scatter lists, then the IV when its address is
not zero, then the table when its size is not zero. -/
theorem caam_unmap_unmappings (src dst : scatterlist) (sn dn iv ivsize : Nat) (op : optype)
    (tdma tbytes : Nat) :
    unmappings (caam_unmap src dst sn dn iv ivsize op tdma tbytes) =
      unmappings (caam_unmap src dst sn dn 0 0 optype.ENCRYPT 0 0) ++
      (if iv ≠ 0 then
        [Resource.single iv ivsize (if op = optype.GIVENCRYPT
          then dma_data_direction.DMA_FROM_DEVICE else dma_data_direction.DMA_TO_DEVICE)]
       else []) ++
      (if tbytes ≠ 0 then [Resource.single tdma tbytes dma_data_direction.DMA_TO_DEVICE]
       else []) := by
  unfold caam_unmap unmappings
  by_cases h1 : dst = src <;> by_cases h2 : sn = 0 <;> by_cases h3 : iv = 0 <;>
    by_cases h4 : tbytes = 0 <;> simp [h1, h2, h3, h4, Event.unmapped]

/-- `caam_unmap` makes no mapping, maps no table and allocates nothing. -/
theorem caam_unmap_no_map (src dst : scatterlist) (sn dn iv ivsize : Nat) (op : optype)
    (tdma tbytes : Nat) :
    mappings (caam_unmap src dst sn dn iv ivsize op tdma tbytes) = [] ∧
    (caam_unmap src dst sn dn iv ivsize op tdma tbytes).filter Event.is_table_map = [] ∧
    (caam_unmap src dst sn dn iv ivsize op tdma tbytes).filter Event.is_alloc = [] := by
  unfold caam_unmap mappings
  by_cases h1 : dst = src <;> by_cases h2 : sn = 0 <;> by_cases h3 : iv = 0 <;>
    by_cases h4 : tbytes = 0 <;>
    simp [h1, h2, h3, h4, Event.mapped, Event.is_table_map, Event.is_alloc]

/-- The first part of the AEAD builder maps no table. -/
theorem aead_map_src_dst_no_table (env : Env) (ctx : caam_ctx) (req : aead_request)
    (req_ctx : caam_request) (encrypt : Bool) (st : MappedBufs)
    (hok : aead_map_src_dst env ctx req req_ctx encrypt = Except.ok st) :
    st.trace.filter Event.is_table_map = [] := by
  rcases aead_map_src_dst_ok env ctx req req_ctx encrypt st hok with
    ⟨_, _, _, _, _, _, _, htr⟩ | ⟨_, _, _, _, _, _, htr⟩
  · rw [htr]
    by_cases hz : st.src_nents = 0 <;> simp [hz, Event.is_table_map]
  · rw [htr]
    simp [Event.is_table_map]

/-- The first part of the block cipher builders hands over only after source
and destination were mapped; the mappings made so far are the ones
`caam_unmap` releases for these counts, nothing was unmapped, no table was
mapped and the pool was not asked. -/
theorem ablkcipher_map_src_dst_mappings (env : Env) (req : ablkcipher_request)
    (req_ctx : caam_request) (giv : Bool) (st : MappedBufs) (op : optype)
    (hok : ablkcipher_map_src_dst env req req_ctx giv = Except.ok st) :
    mappings st.trace =
      unmappings (caam_unmap req.src req.dst st.src_nents st.dst_nents 0 0 op 0 0) ∧
    unmappings st.trace = [] ∧
    st.trace.filter Event.is_table_map = [] ∧
    st.trace.filter Event.is_alloc = [] := by
  unfold ablkcipher_map_src_dst at hok
  cases hsn : sg_nents_for_len req.src req.nbytes with
  | error e => simp [hsn] at hok
  | ok sn =>
    by_cases h1 : req.dst = req.src
    · by_cases h2 : env.dma_map_sg req.src sn dma_data_direction.DMA_BIDIRECTIONAL = []
      · simp [hsn, h1, h2] at hok
      · simp [hsn, h1, h2] at hok
        subst hok
        simp [mappings, unmappings, caam_unmap, Event.mapped, Event.unmapped, h1, h2,
          Event.is_table_map, Event.is_alloc]
    · cases hdn : sg_nents_for_len req.dst req.nbytes with
      | error e => simp [hsn, h1, hdn] at hok
      | ok dn =>
        by_cases h2 : env.dma_map_sg req.src sn dma_data_direction.DMA_TO_DEVICE = []
        · simp [hsn, h1, hdn, h2] at hok
        by_cases h3 : env.dma_map_sg req.dst dn dma_data_direction.DMA_FROM_DEVICE = []
        · simp [hsn, h1, hdn, h2, h3] at hok
        · simp [hsn, h1, hdn, h2, h3] at hok
          subst hok
          have hle := env.dma_map_sg_le req.src sn dma_data_direction.DMA_TO_DEVICE
          have hsn0 : sn ≠ 0 := by
            intro h0
            rw [h0] at hle h2
            apply h2
            exact List.length_eq_zero.mp (by omega)
          simp [mappings, unmappings, caam_unmap, Event.mapped, Event.unmapped, h1, h2, h3,
            Event.is_table_map, Event.is_alloc, hsn0]

/-- The AEAD builder past the IV mapping with a table over the ceiling: it
returns `-ENOMEM` after `caam_unmap` with the IV and the release of the pool
buffer. -/
theorem aead_edesc_alloc_over_ceiling (env : Env) (lim : Limits) (ctx : caam_ctx)
    (alg : caam_aead_alg) (req : aead_request) (req_ctx : caam_request) (encrypt : Bool)
    (st : MappedBufs)
    (hst : aead_map_src_dst env ctx req req_ctx encrypt = Except.ok st)
    (hiv : aead_map_iv alg encrypt = true →
      env.dma_mapping_error (aead_iv_dma env alg encrypt) = false)
    (hcount : aead_qm_sg_nents (aead_ivsize alg encrypt) st.mapped_src.length
      st.mapped_dst.length > lim.CAAM_QI_MAX_AEAD_SG) :
    aead_edesc_alloc env lim ctx alg req req_ctx encrypt =
      ⟨Except.error (-ENOMEM), req_ctx,
        st.trace ++ aead_iv_events env alg encrypt ++
          caam_unmap req.src req.dst st.src_nents st.dst_nents (aead_iv_dma env alg encrypt)
            (aead_ivsize alg encrypt) (if encrypt then optype.ENCRYPT else optype.DECRYPT)
            0 0 ++ [Event.free]⟩ := by
  have h1 : (aead_map_iv alg encrypt && env.dma_mapping_error (aead_iv_dma env alg encrypt))
      = false := by
    by_cases hm : aead_map_iv alg encrypt = true
    · simp [hm, hiv hm]
    · simp [hm]
  simp only [aead_edesc_alloc, hst, aead_edesc_alloc_table, h1, Bool.false_eq_true, if_false]
  rw [if_pos hcount]

/-- The AEAD builder past the IV mapping with a table within the ceiling
succeeds when the length word and the table can be mapped. -/
theorem aead_edesc_alloc_within_ceiling (env : Env) (lim : Limits) (ctx : caam_ctx)
    (alg : caam_aead_alg) (req : aead_request) (req_ctx : caam_request) (encrypt : Bool)
    (st : MappedBufs)
    (hst : aead_map_src_dst env ctx req req_ctx encrypt = Except.ok st)
    (hiv : aead_map_iv alg encrypt = true →
      env.dma_mapping_error (aead_iv_dma env alg encrypt) = false)
    (hcount : aead_qm_sg_nents (aead_ivsize alg encrypt) st.mapped_src.length
      st.mapped_dst.length ≤ lim.CAAM_QI_MAX_AEAD_SG)
    (hal : env.dma_mapping_error
      (env.dma_map_single Buf.assoclen 4 dma_data_direction.DMA_TO_DEVICE) = false)
    (htb : env.dma_mapping_error
      (env.dma_map_single Buf.sg_table
        (aead_qm_sg_nents (aead_ivsize alg encrypt) st.mapped_src.length st.mapped_dst.length
          * SG_ENTRY_SIZE)
        dma_data_direction.DMA_TO_DEVICE) = false) :
    ∃ edesc, (aead_edesc_alloc env lim ctx alg req req_ctx encrypt).ret = Except.ok edesc ∧
      edesc.qm_sg_bytes = aead_qm_sg_nents (aead_ivsize alg encrypt) st.mapped_src.length
        st.mapped_dst.length * SG_ENTRY_SIZE := by
  have h1 : (aead_map_iv alg encrypt && env.dma_mapping_error (aead_iv_dma env alg encrypt))
      = false := by
    by_cases hm : aead_map_iv alg encrypt = true
    · simp [hm, hiv hm]
    · simp [hm]
  simp only [aead_edesc_alloc, hst, aead_edesc_alloc_table, h1, Bool.false_eq_true, if_false,
    hal, htb]
  rw [if_neg (by omega)]
  exact ⟨_, rfl, rfl⟩

/-- The block cipher builder past the IV mapping with a table over the
ceiling: it returns `-ENOMEM` after `caam_unmap` with the IV. -/
theorem ablkcipher_edesc_alloc_over_ceiling (env : Env) (lim : Limits) (ivsize : Nat)
    (req : ablkcipher_request) (req_ctx : caam_request) (encrypt : Bool) (st : MappedBufs)
    (hst : ablkcipher_map_src_dst env req req_ctx false = Except.ok st)
    (hiv : env.dma_mapping_error
      (env.dma_map_single Buf.iv ivsize dma_data_direction.DMA_TO_DEVICE) = false)
    (hcount : ablkcipher_qm_sg_ents
      (env.dma_map_single Buf.iv ivsize dma_data_direction.DMA_TO_DEVICE) ivsize
      st.mapped_src st.mapped_dst > lim.CAAM_QI_MAX_ABLKCIPHER_SG) :
    ablkcipher_edesc_alloc env lim ivsize req req_ctx encrypt =
      ⟨Except.error (-ENOMEM), req_ctx,
        st.trace ++
          [Event.map_single Buf.iv ivsize dma_data_direction.DMA_TO_DEVICE
            (env.dma_map_single Buf.iv ivsize dma_data_direction.DMA_TO_DEVICE) false] ++
          caam_unmap req.src req.dst st.src_nents st.dst_nents
            (env.dma_map_single Buf.iv ivsize dma_data_direction.DMA_TO_DEVICE) ivsize
            (if encrypt then optype.ENCRYPT else optype.DECRYPT) 0 0⟩ := by
  simp only [ablkcipher_edesc_alloc, hst, ablkcipher_edesc_alloc_table, hiv,
    Bool.false_eq_true, if_false]
  rw [if_pos hcount]

/-- The block cipher builder past the IV mapping with a table within the
ceiling succeeds when the pool hands out a buffer and the table can be
mapped. -/
theorem ablkcipher_edesc_alloc_within_ceiling (env : Env) (lim : Limits) (ivsize : Nat)
    (req : ablkcipher_request) (req_ctx : caam_request) (encrypt : Bool) (st : MappedBufs)
    (hst : ablkcipher_map_src_dst env req req_ctx false = Except.ok st)
    (hiv : env.dma_mapping_error
      (env.dma_map_single Buf.iv ivsize dma_data_direction.DMA_TO_DEVICE) = false)
    (hcount : ablkcipher_qm_sg_ents
      (env.dma_map_single Buf.iv ivsize dma_data_direction.DMA_TO_DEVICE) ivsize
      st.mapped_src st.mapped_dst ≤ lim.CAAM_QI_MAX_ABLKCIPHER_SG)
    (halloc : env.qi_cache_zalloc (gfp_flags req.flags CRYPTO_TFM_REQ_MAY_SLEEP) = true)
    (htb : env.dma_mapping_error
      (env.dma_map_single Buf.sg_table
        (ablkcipher_qm_sg_ents
          (env.dma_map_single Buf.iv ivsize dma_data_direction.DMA_TO_DEVICE) ivsize
          st.mapped_src st.mapped_dst * SG_ENTRY_SIZE)
        dma_data_direction.DMA_TO_DEVICE) = false) :
    ∃ edesc, (ablkcipher_edesc_alloc env lim ivsize req req_ctx encrypt).ret
        = Except.ok edesc ∧
      edesc.qm_sg_bytes = ablkcipher_qm_sg_ents
        (env.dma_map_single Buf.iv ivsize dma_data_direction.DMA_TO_DEVICE) ivsize
        st.mapped_src st.mapped_dst * SG_ENTRY_SIZE := by
  simp only [ablkcipher_edesc_alloc, hst, ablkcipher_edesc_alloc_table, hiv,
    Bool.false_eq_true, if_false, halloc, htb]
  rw [if_neg (by omega)]
  exact ⟨_, rfl, rfl⟩

/-- The generated-IV builder past the IV mapping with a table over the
ceiling: it returns `-ENOMEM` after `caam_unmap` with the IV. -/
theorem ablkcipher_giv_edesc_alloc_over_ceiling (env : Env) (lim : Limits) (ivsize : Nat)
    (req : ablkcipher_request) (req_ctx : caam_request) (st : MappedBufs)
    (hst : ablkcipher_map_src_dst env req req_ctx true = Except.ok st)
    (hiv : env.dma_mapping_error
      (env.dma_map_single Buf.giv ivsize dma_data_direction.DMA_FROM_DEVICE) = false)
    (hcount : giv_qm_sg_ents
      (env.dma_map_single Buf.giv ivsize dma_data_direction.DMA_FROM_DEVICE) ivsize
      st.mapped_dst_nents st.mapped_src st.mapped_dst > lim.CAAM_QI_MAX_ABLKCIPHER_SG) :
    ablkcipher_giv_edesc_alloc env lim ivsize req req_ctx =
      ⟨Except.error (-ENOMEM), req_ctx,
        st.trace ++
          [Event.map_single Buf.giv ivsize dma_data_direction.DMA_FROM_DEVICE
            (env.dma_map_single Buf.giv ivsize dma_data_direction.DMA_FROM_DEVICE) false] ++
          caam_unmap req.src req.dst st.src_nents st.dst_nents
            (env.dma_map_single Buf.giv ivsize dma_data_direction.DMA_FROM_DEVICE) ivsize
            optype.GIVENCRYPT 0 0⟩ := by
  simp only [ablkcipher_giv_edesc_alloc, hst, ablkcipher_giv_edesc_alloc_table, hiv,
    Bool.false_eq_true, if_false]
  rw [if_pos hcount]

/-- The generated-IV builder past the IV mapping with a table within the
ceiling succeeds when the pool hands out a buffer and the table can be
mapped. -/
theorem ablkcipher_giv_edesc_alloc_within_ceiling (env : Env) (lim : Limits) (ivsize : Nat)
    (req : ablkcipher_request) (req_ctx : caam_request) (st : MappedBufs)
    (hst : ablkcipher_map_src_dst env req req_ctx true = Except.ok st)
    (hiv : env.dma_mapping_error
      (env.dma_map_single Buf.giv ivsize dma_data_direction.DMA_FROM_DEVICE) = false)
    (hcount : giv_qm_sg_ents
      (env.dma_map_single Buf.giv ivsize dma_data_direction.DMA_FROM_DEVICE) ivsize
      st.mapped_dst_nents st.mapped_src st.mapped_dst ≤ lim.CAAM_QI_MAX_ABLKCIPHER_SG)
    (halloc : env.qi_cache_zalloc (gfp_flags req.flags CRYPTO_TFM_REQ_MAY_SLEEP) = true)
    (htb : env.dma_mapping_error
      (env.dma_map_single Buf.sg_table
        (giv_qm_sg_ents
          (env.dma_map_single Buf.giv ivsize dma_data_direction.DMA_FROM_DEVICE) ivsize
          st.mapped_dst_nents st.mapped_src st.mapped_dst * SG_ENTRY_SIZE)
        dma_data_direction.DMA_TO_DEVICE) = false) :
    ∃ edesc, (ablkcipher_giv_edesc_alloc env lim ivsize req req_ctx).ret = Except.ok edesc ∧
      edesc.qm_sg_bytes = giv_qm_sg_ents
        (env.dma_map_single Buf.giv ivsize dma_data_direction.DMA_FROM_DEVICE) ivsize
        st.mapped_dst_nents st.mapped_src st.mapped_dst * SG_ENTRY_SIZE := by
  simp only [ablkcipher_giv_edesc_alloc, hst, ablkcipher_giv_edesc_alloc_table, hiv,
    Bool.false_eq_true, if_false, halloc, htb]
  rw [if_neg (by omega)]
  exact ⟨_, rfl, rfl⟩

/-- The IV mapping call of the AEAD builder unmaps nothing, maps no table, and
what it maps is what `caam_unmap` names for the local `iv_dma` and `ivsize`. -/
theorem aead_iv_events_facts (env : Env) (alg : caam_aead_alg) (encrypt : Bool) (op : optype)
    (hop : op ≠ optype.GIVENCRYPT)
    (hnz : ∀ buf size dir, env.dma_mapping_error (env.dma_map_single buf size dir) = false →
      env.dma_map_single buf size dir ≠ 0)
    (hiv : aead_map_iv alg encrypt = true →
      env.dma_mapping_error (aead_iv_dma env alg encrypt) = false) :
    unmappings (aead_iv_events env alg encrypt) = [] ∧
    (aead_iv_events env alg encrypt).filter Event.is_table_map = [] ∧
    mappings (aead_iv_events env alg encrypt) =
      (if aead_iv_dma env alg encrypt ≠ 0 then
        [Resource.single (aead_iv_dma env alg encrypt) (aead_ivsize alg encrypt)
          (if op = optype.GIVENCRYPT then dma_data_direction.DMA_FROM_DEVICE
           else dma_data_direction.DMA_TO_DEVICE)] else []) := by
  by_cases hm : aead_map_iv alg encrypt = true
  · have h1 := hiv hm
    have h2 : aead_iv_dma env alg encrypt ≠ 0 := by
      have := hnz Buf.iv (aead_ivsize alg encrypt) dma_data_direction.DMA_TO_DEVICE
      simp only [aead_iv_dma, hm, if_true] at h1 ⊢
      exact this h1
    simp [aead_iv_events, mappings, unmappings, Event.mapped, Event.unmapped,
      Event.is_table_map, hm, h1, h2, hop]
  · simp [aead_iv_events, mappings, unmappings, Event.mapped, Event.unmapped,
      Event.is_table_map, hm, aead_iv_dma]

/-- C7, amended: assuming successful mappings yield non-zero bus addresses,
for the generic AEAD builder (ceiling `CAAM_QI_MAX_AEAD_SG`) and the block
cipher and generated-IV builders (ceiling `CAAM_QI_MAX_ABLKCIPHER_SG`), once
source, destination and IV are mapped: a request whose table needs
`ceiling + 1` entries is rejected with `-ENOMEM`, the request context is
untouched, the unmapping calls made are exactly the successful mapping calls
made so far, and no table was mapped (the AEAD builder ends by releasing the
pool buffer, the other two have not asked the pool yet); a request whose table
needs exactly `ceiling` entries passes the check and the builder succeeds when
the remaining allocation and mappings succeed. -/
theorem table_ceiling_boundary (env : Env) (lim : Limits)
    (hnz : ∀ buf size dir, env.dma_mapping_error (env.dma_map_single buf size dir) = false →
      env.dma_map_single buf size dir ≠ 0) :
    (∀ ctx alg req req_ctx encrypt st,
      aead_map_src_dst env ctx req req_ctx encrypt = Except.ok st →
      (aead_map_iv alg encrypt = true →
        env.dma_mapping_error (aead_iv_dma env alg encrypt) = false) →
      (aead_qm_sg_nents (aead_ivsize alg encrypt) st.mapped_src.length st.mapped_dst.length
          = lim.CAAM_QI_MAX_AEAD_SG + 1 →
        (aead_edesc_alloc env lim ctx alg req req_ctx encrypt).ret
          = Except.error (-ENOMEM) ∧
        (aead_edesc_alloc env lim ctx alg req req_ctx encrypt).req_ctx = req_ctx ∧
        (unmappings (aead_edesc_alloc env lim ctx alg req req_ctx encrypt).trace).Perm
          (mappings (aead_edesc_alloc env lim ctx alg req req_ctx encrypt).trace) ∧
        (aead_edesc_alloc env lim ctx alg req req_ctx encrypt).trace.filter
          Event.is_table_map = [] ∧
        (aead_edesc_alloc env lim ctx alg req req_ctx encrypt).trace.getLast?
          = some Event.free) ∧
      (aead_qm_sg_nents (aead_ivsize alg encrypt) st.mapped_src.length st.mapped_dst.length
          = lim.CAAM_QI_MAX_AEAD_SG →
        env.dma_mapping_error
          (env.dma_map_single Buf.assoclen 4 dma_data_direction.DMA_TO_DEVICE) = false →
        env.dma_mapping_error
          (env.dma_map_single Buf.sg_table (lim.CAAM_QI_MAX_AEAD_SG * SG_ENTRY_SIZE)
            dma_data_direction.DMA_TO_DEVICE) = false →
        ∃ edesc, (aead_edesc_alloc env lim ctx alg req req_ctx encrypt).ret
            = Except.ok edesc ∧
          edesc.qm_sg_bytes = lim.CAAM_QI_MAX_AEAD_SG * SG_ENTRY_SIZE)) ∧
    (∀ ivsize req req_ctx encrypt st,
      ablkcipher_map_src_dst env req req_ctx false = Except.ok st →
      env.dma_mapping_error
        (env.dma_map_single Buf.iv ivsize dma_data_direction.DMA_TO_DEVICE) = false →
      (ablkcipher_qm_sg_ents
          (env.dma_map_single Buf.iv ivsize dma_data_direction.DMA_TO_DEVICE) ivsize
          st.mapped_src st.mapped_dst = lim.CAAM_QI_MAX_ABLKCIPHER_SG + 1 →
        (ablkcipher_edesc_alloc env lim ivsize req req_ctx encrypt).ret
          = Except.error (-ENOMEM) ∧
        (ablkcipher_edesc_alloc env lim ivsize req req_ctx encrypt).req_ctx = req_ctx ∧
        (unmappings (ablkcipher_edesc_alloc env lim ivsize req req_ctx encrypt).trace).Perm
          (mappings (ablkcipher_edesc_alloc env lim ivsize req req_ctx encrypt).trace) ∧
        (ablkcipher_edesc_alloc env lim ivsize req req_ctx encrypt).trace.filter
          Event.is_table_map = [] ∧
        (ablkcipher_edesc_alloc env lim ivsize req req_ctx encrypt).trace.filter
          Event.is_alloc = []) ∧
      (ablkcipher_qm_sg_ents
          (env.dma_map_single Buf.iv ivsize dma_data_direction.DMA_TO_DEVICE) ivsize
          st.mapped_src st.mapped_dst = lim.CAAM_QI_MAX_ABLKCIPHER_SG →
        env.qi_cache_zalloc (gfp_flags req.flags CRYPTO_TFM_REQ_MAY_SLEEP) = true →
        env.dma_mapping_error
          (env.dma_map_single Buf.sg_table (lim.CAAM_QI_MAX_ABLKCIPHER_SG * SG_ENTRY_SIZE)
            dma_data_direction.DMA_TO_DEVICE) = false →
        ∃ edesc, (ablkcipher_edesc_alloc env lim ivsize req req_ctx encrypt).ret
            = Except.ok edesc ∧
          edesc.qm_sg_bytes = lim.CAAM_QI_MAX_ABLKCIPHER_SG * SG_ENTRY_SIZE)) ∧
    (∀ ivsize req req_ctx st,
      ablkcipher_map_src_dst env req req_ctx true = Except.ok st →
      env.dma_mapping_error
        (env.dma_map_single Buf.giv ivsize dma_data_direction.DMA_FROM_DEVICE) = false →
      (giv_qm_sg_ents
          (env.dma_map_single Buf.giv ivsize dma_data_direction.DMA_FROM_DEVICE) ivsize
          st.mapped_dst_nents st.mapped_src st.mapped_dst
          = lim.CAAM_QI_MAX_ABLKCIPHER_SG + 1 →
        (ablkcipher_giv_edesc_alloc env lim ivsize req req_ctx).ret
          = Except.error (-ENOMEM) ∧
        (ablkcipher_giv_edesc_alloc env lim ivsize req req_ctx).req_ctx = req_ctx ∧
        (unmappings (ablkcipher_giv_edesc_alloc env lim ivsize req req_ctx).trace).Perm
          (mappings (ablkcipher_giv_edesc_alloc env lim ivsize req req_ctx).trace) ∧
        (ablkcipher_giv_edesc_alloc env lim ivsize req req_ctx).trace.filter
          Event.is_table_map = [] ∧
        (ablkcipher_giv_edesc_alloc env lim ivsize req req_ctx).trace.filter
          Event.is_alloc = []) ∧
      (giv_qm_sg_ents
          (env.dma_map_single Buf.giv ivsize dma_data_direction.DMA_FROM_DEVICE) ivsize
          st.mapped_dst_nents st.mapped_src st.mapped_dst = lim.CAAM_QI_MAX_ABLKCIPHER_SG →
        env.qi_cache_zalloc (gfp_flags req.flags CRYPTO_TFM_REQ_MAY_SLEEP) = true →
        env.dma_mapping_error
          (env.dma_map_single Buf.sg_table (lim.CAAM_QI_MAX_ABLKCIPHER_SG * SG_ENTRY_SIZE)
            dma_data_direction.DMA_TO_DEVICE) = false →
        ∃ edesc, (ablkcipher_giv_edesc_alloc env lim ivsize req req_ctx).ret
            = Except.ok edesc ∧
          edesc.qm_sg_bytes = lim.CAAM_QI_MAX_ABLKCIPHER_SG * SG_ENTRY_SIZE)) := by
  refine ⟨?_, ?_, ?_⟩
  · intro ctx alg req req_ctx encrypt st hst hiv
    constructor
    · intro hcount
      have hop : (if encrypt then optype.ENCRYPT else optype.DECRYPT) ≠ optype.GIVENCRYPT := by
        cases encrypt <;> simp
      rw [aead_edesc_alloc_over_ceiling env lim ctx alg req req_ctx encrypt st hst hiv
        (by omega)]
      obtain ⟨hm, hu⟩ := aead_map_src_dst_mappings env ctx req req_ctx encrypt st
        optype.ENCRYPT hst
      have ht := aead_map_src_dst_no_table env ctx req req_ctx encrypt st hst
      obtain ⟨i1, i2, i3⟩ := aead_iv_events_facts env alg encrypt _ hop hnz hiv
      obtain ⟨c1, c2, _⟩ := caam_unmap_no_map req.src req.dst st.src_nents st.dst_nents
        (aead_iv_dma env alg encrypt) (aead_ivsize alg encrypt)
        (if encrypt then optype.ENCRYPT else optype.DECRYPT) 0 0
      have c3 := caam_unmap_unmappings req.src req.dst st.src_nents st.dst_nents
        (aead_iv_dma env alg encrypt) (aead_ivsize alg encrypt)
        (if encrypt then optype.ENCRYPT else optype.DECRYPT) 0 0
      refine ⟨rfl, rfl, ?_, ?_, ?_⟩
      · simp only [mappings, unmappings, List.filterMap_append] at hm hu i1 i3 c1 c3 ⊢
        rw [hu, i1, c3, hm, i3, c1]
        simp [Event.mapped, Event.unmapped]
      · simp only [List.filter_append, ht, i2, c2]
        simp [Event.is_table_map]
      · simp
    · intro hcount hal htb
      obtain ⟨edesc, h1, h2⟩ := aead_edesc_alloc_within_ceiling env lim ctx alg req req_ctx
        encrypt st hst hiv (by omega) hal (by rw [hcount]; exact htb)
      exact ⟨edesc, h1, by rw [h2, hcount]⟩
  · intro ivsize req req_ctx encrypt st hst hiv
    constructor
    · intro hcount
      have hivnz := hnz _ _ _ hiv
      have hop : (if encrypt then optype.ENCRYPT else optype.DECRYPT) ≠ optype.GIVENCRYPT := by
        cases encrypt <;> simp
      rw [ablkcipher_edesc_alloc_over_ceiling env lim ivsize req req_ctx encrypt st hst hiv
        (by omega)]
      obtain ⟨hm, hu, ht, ha⟩ := ablkcipher_map_src_dst_mappings env req req_ctx false st
        optype.ENCRYPT hst
      obtain ⟨c1, c2, c4⟩ := caam_unmap_no_map req.src req.dst st.src_nents st.dst_nents
        (env.dma_map_single Buf.iv ivsize dma_data_direction.DMA_TO_DEVICE) ivsize
        (if encrypt then optype.ENCRYPT else optype.DECRYPT) 0 0
      have c3 := caam_unmap_unmappings req.src req.dst st.src_nents st.dst_nents
        (env.dma_map_single Buf.iv ivsize dma_data_direction.DMA_TO_DEVICE) ivsize
        (if encrypt then optype.ENCRYPT else optype.DECRYPT) 0 0
      refine ⟨rfl, rfl, ?_, ?_, ?_⟩
      · simp only [mappings, unmappings, List.filterMap_append] at hm hu c1 c3 ⊢
        rw [hu, c3, hm, c1]
        simp [Event.mapped, Event.unmapped, hivnz, hop]
      · simp only [List.filter_append, ht, c2]
        simp [Event.is_table_map]
      · simp only [List.filter_append, ha, c4]
        simp [Event.is_alloc]
    · intro hcount halloc htb
      obtain ⟨edesc, h1, h2⟩ := ablkcipher_edesc_alloc_within_ceiling env lim ivsize req
        req_ctx encrypt st hst hiv (by omega) halloc (by rw [hcount]; exact htb)
      exact ⟨edesc, h1, by rw [h2, hcount]⟩
  · intro ivsize req req_ctx st hst hiv
    constructor
    · intro hcount
      have hivnz := hnz _ _ _ hiv
      rw [ablkcipher_giv_edesc_alloc_over_ceiling env lim ivsize req req_ctx st hst hiv
        (by omega)]
      obtain ⟨hm, hu, ht, ha⟩ := ablkcipher_map_src_dst_mappings env req req_ctx true st
        optype.ENCRYPT hst
      obtain ⟨c1, c2, c4⟩ := caam_unmap_no_map req.src req.dst st.src_nents st.dst_nents
        (env.dma_map_single Buf.giv ivsize dma_data_direction.DMA_FROM_DEVICE) ivsize
        optype.GIVENCRYPT 0 0
      have c3 := caam_unmap_unmappings req.src req.dst st.src_nents st.dst_nents
        (env.dma_map_single Buf.giv ivsize dma_data_direction.DMA_FROM_DEVICE) ivsize
        optype.GIVENCRYPT 0 0
      refine ⟨rfl, rfl, ?_, ?_, ?_⟩
      · simp only [mappings, unmappings, List.filterMap_append] at hm hu c1 c3 ⊢
        rw [hu, c3, hm, c1]
        simp [Event.mapped, Event.unmapped, hivnz]
      · simp only [List.filter_append, ht, c2]
        simp [Event.is_table_map]
      · simp only [List.filter_append, ha, c4]
        simp [Event.is_alloc]
    · intro hcount halloc htb
      obtain ⟨edesc, h1, h2⟩ := ablkcipher_giv_edesc_alloc_within_ceiling env lim ivsize req
        req_ctx st hst hiv (by omega) halloc (by rw [hcount]; exact htb)
      exact ⟨edesc, h1, by rw [h2, hcount]⟩

/-- C7, as stated, fails where a successful mapping has bus address `0`: an
in-place decryption over 28 segments needs `1 + 1 + 28 = 30` entries, one more
than the ceiling of 29, and is rejected with `-ENOMEM`; the builder had mapped
the source and the IV (successfully, at bus address `0`) but unmaps the source
only, because `caam_unmap` takes an `iv_dma` of `0` for "no IV". -/
theorem aead_edesc_alloc_over_ceiling_keeps_iv_at_zero :
    (∃ st, aead_map_src_dst Env.iv_at_zero caam_ctx.example
        (aead_request.in_place_segments 28 16) caam_request.zero false = Except.ok st ∧
      aead_qm_sg_nents (aead_ivsize caam_aead_alg.authenc_sha1_cbc_aes false)
        st.mapped_src.length st.mapped_dst.length
        = Limits.example.CAAM_QI_MAX_AEAD_SG + 1) ∧
    Env.iv_at_zero.dma_mapping_error
      (Env.iv_at_zero.dma_map_single Buf.iv 16 dma_data_direction.DMA_TO_DEVICE) = false ∧
    (aead_edesc_alloc Env.iv_at_zero Limits.example caam_ctx.example
      caam_aead_alg.authenc_sha1_cbc_aes (aead_request.in_place_segments 28 16)
      caam_request.zero false).ret = Except.error (-ENOMEM) ∧
    mappings (aead_edesc_alloc Env.iv_at_zero Limits.example caam_ctx.example
      caam_aead_alg.authenc_sha1_cbc_aes (aead_request.in_place_segments 28 16)
      caam_request.zero false).trace =
      [Resource.sg ⟨1, List.replicate 28 16⟩ 28 dma_data_direction.DMA_BIDIRECTIONAL,
       Resource.single 0 16 dma_data_direction.DMA_TO_DEVICE] ∧
    unmappings (aead_edesc_alloc Env.iv_at_zero Limits.example caam_ctx.example
      caam_aead_alg.authenc_sha1_cbc_aes (aead_request.in_place_segments 28 16)
      caam_request.zero false).trace =
      [Resource.sg ⟨1, List.replicate 28 16⟩ 28 dma_data_direction.DMA_BIDIRECTIONAL] := by
  refine ⟨⟨_, rfl, rfl⟩, rfl, rfl, rfl, rfl⟩

/-- Witness of C7 amended: with every mapping succeeding at a non-zero address
and a ceiling of 29 entries, the in-place decryption over 28 segments (30
entries) is rejected and the one over 27 segments (29 entries) succeeds. -/
theorem table_ceiling_boundary_witness :
    (aead_edesc_alloc Env.good Limits.example caam_ctx.example
      caam_aead_alg.authenc_sha1_cbc_aes (aead_request.in_place_segments 28 16)
      caam_request.zero false).ret = Except.error (-ENOMEM) ∧
    ∃ edesc, (aead_edesc_alloc Env.good Limits.example caam_ctx.example
      caam_aead_alg.authenc_sha1_cbc_aes (aead_request.in_place_segments 27 16)
      caam_request.zero false).ret = Except.ok edesc ∧
      edesc.qm_sg_bytes = Limits.example.CAAM_QI_MAX_AEAD_SG * SG_ENTRY_SIZE := by
  have h := (table_ceiling_boundary Env.good Limits.example
    (fun buf _ _ _ => by cases buf <;> simp [Env.good])).1
  exact ⟨((h caam_ctx.example caam_aead_alg.authenc_sha1_cbc_aes
      (aead_request.in_place_segments 28 16) caam_request.zero false _ rfl
      (fun _ => rfl)).1 rfl).1,
    (h caam_ctx.example caam_aead_alg.authenc_sha1_cbc_aes
      (aead_request.in_place_segments 27 16) caam_request.zero false _ rfl
      (fun _ => rfl)).2 rfl rfl rfl⟩

/-! ### Entry points -/

/-- The unmap routine completes no request. -/
theorem completions_caam_unmap (src dst : scatterlist) (sn dn iv ivsize : Nat) (op : optype)
    (qdma qbytes : Nat) :
    completions (caam_unmap src dst sn dn iv ivsize op qdma qbytes) = [] := by
  unfold caam_unmap completions
  split_ifs <;> rfl

/-- What the decryption callbacks hand to the completion: `0` exactly for a
status of `0`, `-EBADMSG` exactly for a non-zero status whose error
identifier is the ICV check, `-EIO` for every other non-zero status. -/
theorem decrypt_done_ecode_spec (regs : Regs) (status : Nat) :
    (decrypt_done_ecode regs status = 0 ↔ status = 0) ∧
    (decrypt_done_ecode regs status = -EBADMSG ↔
      status ≠ 0 ∧ status &&& regs.JRSTA_CCBERR_ERRID_MASK = regs.JRSTA_CCBERR_ERRID_ICVCHK) ∧
    (status ≠ 0 → status &&& regs.JRSTA_CCBERR_ERRID_MASK ≠ regs.JRSTA_CCBERR_ERRID_ICVCHK →
      decrypt_done_ecode regs status = - EIO) := by
  unfold decrypt_done_ecode
  by_cases h0 : status = 0
  · simp [h0, EBADMSG]
  · by_cases h1 : status &&& regs.JRSTA_CCBERR_ERRID_MASK = regs.JRSTA_CCBERR_ERRID_ICVCHK
    · simp [h0, h1, EBADMSG]
    · simp [h0, h1, EBADMSG, EIO]

/-- C11: for every status word, `aead_decrypt_done` and `tls_decrypt_done`
complete the request exactly once, with an error code that is `0` iff the
status is `0`, `-EBADMSG` iff the status is non-zero and
`status & JRSTA_CCBERR_ERRID_MASK` equals `JRSTA_CCBERR_ERRID_ICVCHK`, and
`-EIO` for every other non-zero status; `aead_encrypt_done`,
`tls_encrypt_done` and `ablkcipher_done` complete the request exactly once,
with `-EIO` for every non-zero status (and `0` for the status `0`). -/
theorem done_status_mapping (regs : Regs) (alg : caam_aead_alg) (ae : aead_edesc)
    (te : tls_edesc) (be : ablkcipher_edesc) (req : aead_request) (breq : ablkcipher_request)
    (ivsize : Nat) (req_ctx : caam_request) (status : Nat) :
    (∃ ecode,
      completions (aead_decrypt_done regs alg ae req req_ctx status) = [ecode] ∧
      completions (tls_decrypt_done regs alg te req req_ctx status) = [ecode] ∧
      (ecode = 0 ↔ status = 0) ∧
      (ecode = -EBADMSG ↔
        status ≠ 0 ∧
          status &&& regs.JRSTA_CCBERR_ERRID_MASK = regs.JRSTA_CCBERR_ERRID_ICVCHK) ∧
      (status ≠ 0 →
        status &&& regs.JRSTA_CCBERR_ERRID_MASK ≠ regs.JRSTA_CCBERR_ERRID_ICVCHK →
        ecode = - EIO)) ∧
    (∃ ecode,
      completions (aead_encrypt_done alg ae req req_ctx status) = [ecode] ∧
      completions (tls_encrypt_done alg te req req_ctx status) = [ecode] ∧
      completions (ablkcipher_done ivsize be breq req_ctx status) = [ecode] ∧
      (status ≠ 0 → ecode = - EIO) ∧ (status = 0 → ecode = 0)) := by
  have hc := completions_caam_unmap
  refine ⟨⟨decrypt_done_ecode regs status, ?_, ?_, decrypt_done_ecode_spec regs status⟩,
    ⟨encrypt_done_ecode status, ?_, ?_, ?_, ?_, ?_⟩⟩
  · simp only [aead_decrypt_done, aead_unmap, completions, List.filterMap_append] at hc ⊢
    rw [hc]; rfl
  · simp only [tls_decrypt_done, tls_unmap, completions, List.filterMap_append] at hc ⊢
    rw [hc]; rfl
  · simp only [aead_encrypt_done, aead_unmap, completions, List.filterMap_append] at hc ⊢
    rw [hc]; rfl
  · simp only [tls_encrypt_done, tls_unmap, completions, List.filterMap_append] at hc ⊢
    rw [hc]; rfl
  · simp only [ablkcipher_done, ablkcipher_unmap, completions, List.filterMap_append] at hc ⊢
    rw [hc]; rfl
  · intro h; simp [encrypt_done_ecode, h]
  · intro h; simp [encrypt_done_ecode, h]


/-! ### Teardown called twice -/

/-- Every event of `caam_unmap` is an unmapping call and at least one scatter
list is unmapped, whatever the arguments. -/
theorem caam_unmap_unmaps (src dst : scatterlist) (sn dn iv ivsize : Nat) (op : optype)
    (qdma qbytes : Nat) :
    (∀ e ∈ caam_unmap src dst sn dn iv ivsize op qdma qbytes, e.is_unmap = true) ∧
    unmappings (caam_unmap src dst sn dn iv ivsize op qdma qbytes) ≠ [] := by
  unfold caam_unmap unmappings
  constructor
  · intro e he
    split_ifs at he <;> simp at he <;> (try casesm* _ ∨ _) <;> subst_vars <;> rfl
  · split_ifs <;> simp [Event.unmapped]

/-- C12, as stated, fails: the descriptor built for the in-place request over
four segments, torn down by `aead_unmap` and handed to `aead_unmap` a second
time. The second call is not a no-op, it issues the four unmapping calls of
the first call again. -/
theorem aead_unmap_twice_unmaps_twice :
    (aead_edesc_alloc Env.good Limits.example caam_ctx.example
      caam_aead_alg.authenc_sha1_cbc_aes aead_request.in_place4 caam_request.zero true).ret =
      Except.ok ⟨4, 0, 4096, 96, 16384, 12288,
        [⟨12288, 4, false, 0⟩, ⟨4096, 16, false, 0⟩, ⟨65536, 13, false, 0⟩,
         ⟨65792, 32, false, 0⟩, ⟨66048, 32, false, 0⟩, ⟨66304, 20, true, 0⟩]⟩ ∧
    unmappings
      (aead_unmap caam_aead_alg.authenc_sha1_cbc_aes
        ⟨4, 0, 4096, 96, 16384, 12288,
          [⟨12288, 4, false, 0⟩, ⟨4096, 16, false, 0⟩, ⟨65536, 13, false, 0⟩,
           ⟨65792, 32, false, 0⟩, ⟨66048, 32, false, 0⟩, ⟨66304, 20, true, 0⟩]⟩
        aead_request.in_place4 caam_request.zero ++
       aead_unmap caam_aead_alg.authenc_sha1_cbc_aes
        ⟨4, 0, 4096, 96, 16384, 12288,
          [⟨12288, 4, false, 0⟩, ⟨4096, 16, false, 0⟩, ⟨65536, 13, false, 0⟩,
           ⟨65792, 32, false, 0⟩, ⟨66048, 32, false, 0⟩, ⟨66304, 20, true, 0⟩]⟩
        aead_request.in_place4 caam_request.zero) =
      [Resource.sg ⟨1, [13, 32, 32, 20]⟩ 4 dma_data_direction.DMA_BIDIRECTIONAL,
       Resource.single 4096 16 dma_data_direction.DMA_TO_DEVICE,
       Resource.single 16384 96 dma_data_direction.DMA_TO_DEVICE,
       Resource.single 12288 4 dma_data_direction.DMA_TO_DEVICE,
       Resource.sg ⟨1, [13, 32, 32, 20]⟩ 4 dma_data_direction.DMA_BIDIRECTIONAL,
       Resource.single 4096 16 dma_data_direction.DMA_TO_DEVICE,
       Resource.single 16384 96 dma_data_direction.DMA_TO_DEVICE,
       Resource.single 12288 4 dma_data_direction.DMA_TO_DEVICE] := by
  refine ⟨rfl, rfl⟩

/-- C12, amended: teardown is not idempotent. The unmap routines take the
descriptor and the request and give back nothing but their unmapping calls
(they change neither), so a call on a descriptor that was torn down before
does what the first call did. For every descriptor, every request and every
request context, each call of `aead_unmap`, `tls_unmap` and
`ablkcipher_unmap` consists of unmapping calls only and makes at least one:
the scatter lists are unmapped unconditionally. -/
theorem unmap_repeats_unmapping (alg : caam_aead_alg) (ae : aead_edesc) (te : tls_edesc)
    (be : ablkcipher_edesc) (req : aead_request) (breq : ablkcipher_request) (ivsize : Nat)
    (caam_req : caam_request) :
    ((∀ e ∈ aead_unmap alg ae req caam_req, e.is_unmap = true) ∧
      unmappings (aead_unmap alg ae req caam_req) ≠ []) ∧
    ((∀ e ∈ tls_unmap alg te req caam_req, e.is_unmap = true) ∧
      unmappings (tls_unmap alg te req caam_req) ≠ []) ∧
    ((∀ e ∈ ablkcipher_unmap ivsize be breq caam_req, e.is_unmap = true) ∧
      unmappings (ablkcipher_unmap ivsize be breq caam_req) ≠ []) := by
  refine ⟨⟨?_, ?_⟩, caam_unmap_unmaps _ _ _ _ _ _ _ _ _, caam_unmap_unmaps _ _ _ _ _ _ _ _ _⟩
  · intro e he
    simp only [aead_unmap, List.mem_append, List.mem_singleton] at he
    rcases he with h | h
    · exact (caam_unmap_unmaps _ _ _ _ _ _ _ _ _).1 e h
    · subst h; rfl
  · simp [aead_unmap, unmappings, Event.unmapped]


/-! ### Sessions -/

/-- C13 at its failing input: a session with a key, the tag length set to 16
and no flow context mappable. Every rebuild returns `-ENOMEM` (and `-EINVAL`
when the inline-fit query reports that the program does not fit), yet every
setter returns `0`: each of them calls the rebuild, discards what it returns
and ends in `return 0;`, whatever its arguments. -/
theorem setauthsize_discards_rebuild_error :
    (aead_set_sh_desc DescEnv.example Env.no_flc caam_aead_alg.authenc_sha1_cbc_aes
      { caam_ctx.keyed with authsize := 16 }).ret = -ENOMEM ∧
    (aead_setauthsize DescEnv.example Env.no_flc caam_aead_alg.authenc_sha1_cbc_aes
      caam_ctx.keyed 16).ret = 0 ∧
    (aead_set_sh_desc DescEnv.no_fit Env.good caam_aead_alg.authenc_sha1_cbc_aes
      { caam_ctx.keyed with authsize := 16 }).ret = -EINVAL ∧
    (aead_setauthsize DescEnv.no_fit Env.good caam_aead_alg.authenc_sha1_cbc_aes
      caam_ctx.keyed 16).ret = 0 ∧
    (tls_set_sh_desc DescEnv.example Env.no_flc caam_aead_alg.tls10_sha1_cbc_aes
      { caam_ctx.keyed with authsize := 16 }).ret = -ENOMEM ∧
    (tls_setauthsize DescEnv.example Env.no_flc caam_aead_alg.tls10_sha1_cbc_aes
      caam_ctx.keyed 16).ret = 0 ∧
    (gcm_set_sh_desc DescEnv.example Env.no_flc caam_aead_alg.gcm_aes
      { caam_ctx.keyed with authsize := 16 }).ret = -ENOMEM ∧
    (gcm_setauthsize DescEnv.example Env.no_flc caam_aead_alg.gcm_aes
      caam_ctx.keyed 16).ret = 0 ∧
    (rfc4106_set_sh_desc DescEnv.example Env.no_flc caam_aead_alg.gcm_aes
      { caam_ctx.keyed with authsize := 16 }).ret = -ENOMEM ∧
    (rfc4106_setauthsize DescEnv.example Env.no_flc caam_aead_alg.gcm_aes
      caam_ctx.keyed 16).ret = 0 ∧
    (rfc4543_set_sh_desc DescEnv.example Env.no_flc caam_aead_alg.gcm_aes
      { caam_ctx.keyed with authsize := 16 }).ret = -ENOMEM ∧
    (rfc4543_setauthsize DescEnv.example Env.no_flc caam_aead_alg.gcm_aes
      caam_ctx.keyed 16).ret = 0 ∧
    (∀ (denv : DescEnv) (env : Env) (alg : caam_aead_alg) (ctx : caam_ctx) (authsize : Nat),
      (aead_setauthsize denv env alg ctx authsize).ret = 0 ∧
      (tls_setauthsize denv env alg ctx authsize).ret = 0 ∧
      (gcm_setauthsize denv env alg ctx authsize).ret = 0 ∧
      (rfc4106_setauthsize denv env alg ctx authsize).ret = 0 ∧
      (rfc4543_setauthsize denv env alg ctx authsize).ret = 0) := by
  refine ⟨rfl, rfl, rfl, rfl, rfl, rfl, rfl, rfl, rfl, rfl, rfl, rfl, ?_⟩
  intro denv env alg ctx authsize
  exact ⟨rfl, rfl, rfl, rfl, rfl⟩


/-- Replacing a flow context changes that flow context. -/
theorem caam_ctx.set_flc_same (ctx : caam_ctx) (op : optype) (flc : caam_flc) :
    (ctx.set_flc op flc).flc op = flc := by
  simp [caam_ctx.set_flc]

/-- Replacing a flow context leaves the other flow contexts alone. -/
theorem caam_ctx.set_flc_other (ctx : caam_ctx) (op o : optype) (flc : caam_flc)
    (h : o ≠ op) : (ctx.set_flc op flc).flc o = ctx.flc o := by
  simp [caam_ctx.set_flc, h]

/-- The key location chosen by `gcm_set_sh_desc` leaves the flow contexts
alone. -/
theorem caam_ctx.gcm_key_flc (denv : DescEnv) (ctx : caam_ctx) (keylen : Nat)
    (m : desc_len_id) : (ctx.gcm_key denv keylen m).flc = ctx.flc := by
  unfold caam_ctx.gcm_key
  split_ifs <;> rfl

/-- The key location chosen by the RFC rebuilds leaves the flow contexts
alone. -/
theorem caam_ctx.rfc_key_flc (denv : DescEnv) (ctx : caam_ctx) (keylen : Nat)
    (m : desc_len_id) : (ctx.rfc_key denv keylen m).flc = ctx.flc := by
  unfold caam_ctx.rfc_key
  split_ifs <;> rfl

/-- The second half of a rebuild: it returns `-ENOMEM` exactly when the
mapping of the decryption flow context fails, and it always leaves the
rebuilt program and the new address in that flow context. -/
theorem set_sh_desc_decrypt_spec (env : Env) (ctx : caam_ctx) (desc : List Nat)
    (tr : List Event) :
    ((set_sh_desc_decrypt env ctx desc tr).ret = -ENOMEM ↔
      env.dma_mapping_error (flc_dma_of env optype.DECRYPT desc) = true) ∧
    (set_sh_desc_decrypt env ctx desc tr).ctx =
      ctx.set_flc optype.DECRYPT
        (flc_rebuilt env optype.DECRYPT (ctx.flc optype.DECRYPT) desc) ∧
    (set_sh_desc_decrypt env ctx desc tr).trace =
      tr ++ [flc_map_event env optype.DECRYPT desc] := by
  unfold set_sh_desc_decrypt
  by_cases h : env.dma_mapping_error (flc_dma_of env optype.DECRYPT desc) = true
  · simp [h]
  · simp [h, ENOMEM]

/-- The outcome of a rebuild whose encryption mapping failed. -/
theorem rebuild_enomem_outcome_encrypt (env : Env) (ctx ctx1 : caam_ctx) (desc1 : List Nat)
    (hflc : ctx1.flc = ctx.flc)
    (herr : env.dma_mapping_error (flc_dma_of env optype.ENCRYPT desc1) = true) :
    rebuild_enomem_outcome env ctx
      ⟨-ENOMEM,
        ctx1.set_flc optype.ENCRYPT
          (flc_rebuilt env optype.ENCRYPT (ctx1.flc optype.ENCRYPT) desc1),
        [flc_map_event env optype.ENCRYPT desc1]⟩ := by
  refine ⟨desc1, ?_, ?_, Or.inl ⟨herr, ?_, rfl⟩⟩
  · simp [caam_ctx.set_flc, hflc]
  · simp [caam_ctx.set_flc, hflc]
  · simp [caam_ctx.set_flc, hflc]

/-- The outcome of a rebuild whose decryption mapping failed after the
encryption flow context was rebuilt and mapped. -/
theorem rebuild_enomem_outcome_decrypt (env : Env) (ctx ctx1 ctx3 : caam_ctx)
    (desc1 desc2 : List Nat) (hflc : ctx1.flc = ctx.flc)
    (hflc3 : ctx3.flc = (ctx1.set_flc optype.ENCRYPT
      (flc_rebuilt env optype.ENCRYPT (ctx1.flc optype.ENCRYPT) desc1)).flc)
    (hok : env.dma_mapping_error (flc_dma_of env optype.ENCRYPT desc1) = false)
    (h : (set_sh_desc_decrypt env ctx3 desc2 [flc_map_event env optype.ENCRYPT desc1]).ret
      = -ENOMEM) :
    rebuild_enomem_outcome env ctx
      (set_sh_desc_decrypt env ctx3 desc2 [flc_map_event env optype.ENCRYPT desc1]) := by
  obtain ⟨hret, hctx, htr⟩ :=
    set_sh_desc_decrypt_spec env ctx3 desc2 [flc_map_event env optype.ENCRYPT desc1]
  have herr := hret.1 h
  refine ⟨desc1, ?_, ?_, Or.inr ⟨hok, desc2, ?_, herr, ?_⟩⟩
  · rw [hctx]; simp [caam_ctx.set_flc, hflc3, hflc]
  · rw [hctx]; simp [caam_ctx.set_flc, hflc3, hflc]
  · rw [hctx]; simp [caam_ctx.set_flc, hflc3, hflc]
  · rw [htr]; rfl

/-- What `aead_set_sh_desc` leaves behind when it returns `-ENOMEM`. -/
theorem aead_set_sh_desc_enomem (denv : DescEnv) (env : Env) (alg : caam_aead_alg)
    (ctx : caam_ctx) (h : (aead_set_sh_desc denv env alg ctx).ret = -ENOMEM) :
    rebuild_enomem_outcome env ctx (aead_set_sh_desc denv env alg ctx) := by
  unfold aead_set_sh_desc at h ⊢
  by_cases h0 : ctx.cdata.keylen = 0 ∨ ctx.authsize = 0
  · simp [h0, ENOMEM] at h
  · simp only [h0, if_false] at h ⊢
    split_ifs at h ⊢ with hq1 he hq2
    · simp [EINVAL, ENOMEM] at h
    · exact rebuild_enomem_outcome_encrypt env ctx _ _ rfl he
    · simp [EINVAL, ENOMEM] at h
    · exact rebuild_enomem_outcome_decrypt env ctx _ _ _ _ rfl rfl (by simpa using he) h

/-- What `tls_set_sh_desc` leaves behind when it returns `-ENOMEM`. -/
theorem tls_set_sh_desc_enomem (denv : DescEnv) (env : Env) (alg : caam_aead_alg)
    (ctx : caam_ctx) (h : (tls_set_sh_desc denv env alg ctx).ret = -ENOMEM) :
    rebuild_enomem_outcome env ctx (tls_set_sh_desc denv env alg ctx) := by
  unfold tls_set_sh_desc at h ⊢
  by_cases h0 : ctx.cdata.keylen = 0 ∨ ctx.authsize = 0
  · simp [h0, ENOMEM] at h
  · simp only [h0, if_false] at h ⊢
    split_ifs at h ⊢ with hq1 he
    · simp [EINVAL, ENOMEM] at h
    · exact rebuild_enomem_outcome_encrypt env ctx _ _ rfl he
    · exact rebuild_enomem_outcome_decrypt env ctx _ _ _ _ rfl rfl (by simpa using he) h

/-- What `gcm_set_sh_desc` leaves behind when it returns `-ENOMEM`. -/
theorem gcm_set_sh_desc_enomem (denv : DescEnv) (env : Env) (alg : caam_aead_alg)
    (ctx : caam_ctx) (h : (gcm_set_sh_desc denv env alg ctx).ret = -ENOMEM) :
    rebuild_enomem_outcome env ctx (gcm_set_sh_desc denv env alg ctx) := by
  unfold gcm_set_sh_desc at h ⊢
  by_cases h0 : ctx.cdata.keylen = 0 ∨ ctx.authsize = 0
  · simp [h0, ENOMEM] at h
  · simp only [h0, if_false] at h ⊢
    split_ifs at h ⊢ with he
    · exact rebuild_enomem_outcome_encrypt env ctx _ _ (caam_ctx.gcm_key_flc _ _ _ _) he
    · exact rebuild_enomem_outcome_decrypt env ctx _ _ _ _ (caam_ctx.gcm_key_flc _ _ _ _)
        (caam_ctx.gcm_key_flc _ _ _ _) (by simpa using he) h

/-- What `rfc4106_set_sh_desc` leaves behind when it returns `-ENOMEM`. -/
theorem rfc4106_set_sh_desc_enomem (denv : DescEnv) (env : Env) (alg : caam_aead_alg)
    (ctx : caam_ctx) (h : (rfc4106_set_sh_desc denv env alg ctx).ret = -ENOMEM) :
    rebuild_enomem_outcome env ctx (rfc4106_set_sh_desc denv env alg ctx) := by
  unfold rfc4106_set_sh_desc at h ⊢
  by_cases h0 : ctx.cdata.keylen = 0 ∨ ctx.authsize = 0
  · simp [h0, ENOMEM] at h
  · simp only [h0, if_false] at h ⊢
    split_ifs at h ⊢ with he
    · exact rebuild_enomem_outcome_encrypt env ctx _ _
        (by rw [caam_ctx.rfc_key_flc]; rfl) he
    · exact rebuild_enomem_outcome_decrypt env ctx _ _ _ _
        (by rw [caam_ctx.rfc_key_flc]; rfl)
        (caam_ctx.rfc_key_flc _ _ _ _) (by simpa using he) h

/-- What `rfc4543_set_sh_desc` leaves behind when it returns `-ENOMEM`. -/
theorem rfc4543_set_sh_desc_enomem (denv : DescEnv) (env : Env) (alg : caam_aead_alg)
    (ctx : caam_ctx) (h : (rfc4543_set_sh_desc denv env alg ctx).ret = -ENOMEM) :
    rebuild_enomem_outcome env ctx (rfc4543_set_sh_desc denv env alg ctx) := by
  unfold rfc4543_set_sh_desc at h ⊢
  by_cases h0 : ctx.cdata.keylen = 0 ∨ ctx.authsize = 0
  · simp [h0, ENOMEM] at h
  · simp only [h0, if_false] at h ⊢
    split_ifs at h ⊢ with he
    · exact rebuild_enomem_outcome_encrypt env ctx _ _
        (by rw [caam_ctx.rfc_key_flc]; rfl) he
    · exact rebuild_enomem_outcome_decrypt env ctx _ _ _ _
        (by rw [caam_ctx.rfc_key_flc]; rfl)
        (caam_ctx.rfc_key_flc _ _ _ _) (by simpa using he) h

/-- After a rebuild that returned `-ENOMEM` a session whose flow descriptors
were valid has lost one of them: the flow context whose mapping failed holds
an address that is a mapping error. -/
theorem rebuild_enomem_outcome_changed (env : Env) (ctx : caam_ctx) (r : SetResult)
    (h : rebuild_enomem_outcome env ctx r)
    (he : env.dma_mapping_error (ctx.flc optype.ENCRYPT).flc_dma = false)
    (hd : env.dma_mapping_error (ctx.flc optype.DECRYPT).flc_dma = false) :
    r.ctx.flc optype.ENCRYPT ≠ ctx.flc optype.ENCRYPT ∨
    r.ctx.flc optype.DECRYPT ≠ ctx.flc optype.DECRYPT := by
  obtain ⟨desc1, h1, _, h2 | ⟨_, desc2, h3, h4, _⟩⟩ := h
  · left
    intro heq
    rw [h1] at heq
    have : (ctx.flc optype.ENCRYPT).flc_dma = flc_dma_of env optype.ENCRYPT desc1 := by
      rw [← heq]; rfl
    rw [this, h2.1] at he
    exact Bool.noConfusion he
  · right
    intro heq
    rw [h3] at heq
    have : (ctx.flc optype.DECRYPT).flc_dma = flc_dma_of env optype.DECRYPT desc2 := by
      rw [← heq]; rfl
    rw [this, h4] at hd
    exact Bool.noConfusion hd

/-- `aead_set_sh_desc` returns `-ENOMEM` exactly when a mapping call of a
rebuilt flow context failed, that of the encryption or that of the decryption
flow context. -/
theorem aead_set_sh_desc_failed_iff (denv : DescEnv) (env : Env) (alg : caam_aead_alg)
    (ctx : caam_ctx) :
    (∃ e ∈ (aead_set_sh_desc denv env alg ctx).trace, e.is_failed_flc_map = true) ↔
      (aead_set_sh_desc denv env alg ctx).ret = -ENOMEM := by
  unfold aead_set_sh_desc set_sh_desc_decrypt
  simp only
  split_ifs <;> simp_all [flc_map_event, Event.is_failed_flc_map, ENOMEM, EINVAL]

/-- `tls_set_sh_desc` returns `-ENOMEM` exactly when a mapping call of a
rebuilt flow context failed. -/
theorem tls_set_sh_desc_failed_iff (denv : DescEnv) (env : Env) (alg : caam_aead_alg)
    (ctx : caam_ctx) :
    (∃ e ∈ (tls_set_sh_desc denv env alg ctx).trace, e.is_failed_flc_map = true) ↔
      (tls_set_sh_desc denv env alg ctx).ret = -ENOMEM := by
  unfold tls_set_sh_desc set_sh_desc_decrypt
  simp only
  split_ifs <;> simp_all [flc_map_event, Event.is_failed_flc_map, ENOMEM, EINVAL]

/-- `gcm_set_sh_desc` returns `-ENOMEM` exactly when a mapping call of a
rebuilt flow context failed. -/
theorem gcm_set_sh_desc_failed_iff (denv : DescEnv) (env : Env) (alg : caam_aead_alg)
    (ctx : caam_ctx) :
    (∃ e ∈ (gcm_set_sh_desc denv env alg ctx).trace, e.is_failed_flc_map = true) ↔
      (gcm_set_sh_desc denv env alg ctx).ret = -ENOMEM := by
  unfold gcm_set_sh_desc set_sh_desc_decrypt
  simp only
  split_ifs <;> simp_all [flc_map_event, Event.is_failed_flc_map, ENOMEM, EINVAL]

/-- `rfc4106_set_sh_desc` returns `-ENOMEM` exactly when a mapping call of a
rebuilt flow context failed. -/
theorem rfc4106_set_sh_desc_failed_iff (denv : DescEnv) (env : Env) (alg : caam_aead_alg)
    (ctx : caam_ctx) :
    (∃ e ∈ (rfc4106_set_sh_desc denv env alg ctx).trace, e.is_failed_flc_map = true) ↔
      (rfc4106_set_sh_desc denv env alg ctx).ret = -ENOMEM := by
  unfold rfc4106_set_sh_desc set_sh_desc_decrypt
  simp only
  split_ifs <;> simp_all [flc_map_event, Event.is_failed_flc_map, ENOMEM, EINVAL]

/-- `rfc4543_set_sh_desc` returns `-ENOMEM` exactly when a mapping call of a
rebuilt flow context failed. -/
theorem rfc4543_set_sh_desc_failed_iff (denv : DescEnv) (env : Env) (alg : caam_aead_alg)
    (ctx : caam_ctx) :
    (∃ e ∈ (rfc4543_set_sh_desc denv env alg ctx).trace, e.is_failed_flc_map = true) ↔
      (rfc4543_set_sh_desc denv env alg ctx).ret = -ENOMEM := by
  unfold rfc4543_set_sh_desc set_sh_desc_decrypt
  simp only
  split_ifs <;> simp_all [flc_map_event, Event.is_failed_flc_map, ENOMEM, EINVAL]

/-- C14, as stated, fails: a session with valid flow descriptors (programs
`5, 5`, mapped at `0x7100`) whose rebuild cannot map a flow context.
`aead_set_sh_desc` returns `-ENOMEM` and the encryption flow descriptor is not
what it was: it holds the new program `7, 7, 7`, the new length word `3` and
the address `0x7000` of the failed mapping. -/
theorem aead_set_sh_desc_failed_mapping_overwrites :
    Env.no_flc.dma_mapping_error (caam_ctx.keyed.flc optype.ENCRYPT).flc_dma = false ∧
    Env.no_flc.dma_mapping_error (caam_ctx.keyed.flc optype.DECRYPT).flc_dma = false ∧
    caam_ctx.keyed.flc optype.ENCRYPT = ⟨[0, 2], [5, 5], 0x7100⟩ ∧
    (aead_set_sh_desc DescEnv.example Env.no_flc caam_aead_alg.authenc_sha1_cbc_aes
      caam_ctx.keyed).ret = -ENOMEM ∧
    (aead_set_sh_desc DescEnv.example Env.no_flc caam_aead_alg.authenc_sha1_cbc_aes
      caam_ctx.keyed).ctx.flc optype.ENCRYPT = ⟨[0, 3], [7, 7, 7], 0x7000⟩ ∧
    Env.no_flc.dma_mapping_error 0x7000 = true := by
  refine ⟨rfl, rfl, rfl, rfl, rfl, rfl⟩

/-- C14, amended: a rebuild (`aead_set_sh_desc`, `tls_set_sh_desc`,
`gcm_set_sh_desc`, `rfc4106_set_sh_desc`, `rfc4543_set_sh_desc`) returns
`-ENOMEM` exactly when a mapping call of a rebuilt flow descriptor failed, be
it the mapping of the encryption or of the decryption flow descriptor. When
one failed, the call returns `-ENOMEM` and the session is not restored. The
encryption flow descriptor holds the rebuilt program (program words, length
word) and the bus address its new mapping returned; when that mapping is the
one that failed the decryption flow descriptor is unchanged, otherwise the
decryption flow descriptor holds its rebuilt program and the address of the
failed mapping. In a session whose flow descriptors were valid, at least one
of the two is changed. -/
theorem set_sh_desc_failed_mapping (denv : DescEnv) (env : Env) (alg : caam_aead_alg)
    (ctx : caam_ctx) (r : SetResult)
    (hr : r = aead_set_sh_desc denv env alg ctx ∨ r = tls_set_sh_desc denv env alg ctx ∨
      r = gcm_set_sh_desc denv env alg ctx ∨ r = rfc4106_set_sh_desc denv env alg ctx ∨
      r = rfc4543_set_sh_desc denv env alg ctx) :
    ((∃ e ∈ r.trace, e.is_failed_flc_map = true) ↔ r.ret = -ENOMEM) ∧
    ((∃ e ∈ r.trace, e.is_failed_flc_map = true) →
      r.ret = -ENOMEM ∧
      rebuild_enomem_outcome env ctx r ∧
      (env.dma_mapping_error (ctx.flc optype.ENCRYPT).flc_dma = false →
        env.dma_mapping_error (ctx.flc optype.DECRYPT).flc_dma = false →
        r.ctx.flc optype.ENCRYPT ≠ ctx.flc optype.ENCRYPT ∨
        r.ctx.flc optype.DECRYPT ≠ ctx.flc optype.DECRYPT)) := by
  have hiff : (∃ e ∈ r.trace, e.is_failed_flc_map = true) ↔ r.ret = -ENOMEM := by
    rcases hr with hr | hr | hr | hr | hr <;> subst hr
    · exact aead_set_sh_desc_failed_iff denv env alg ctx
    · exact tls_set_sh_desc_failed_iff denv env alg ctx
    · exact gcm_set_sh_desc_failed_iff denv env alg ctx
    · exact rfc4106_set_sh_desc_failed_iff denv env alg ctx
    · exact rfc4543_set_sh_desc_failed_iff denv env alg ctx
  refine ⟨hiff, fun hfail => ?_⟩
  have h : r.ret = -ENOMEM := hiff.mp hfail
  have hout : rebuild_enomem_outcome env ctx r := by
    rcases hr with hr | hr | hr | hr | hr <;> subst hr
    · exact aead_set_sh_desc_enomem denv env alg ctx h
    · exact tls_set_sh_desc_enomem denv env alg ctx h
    · exact gcm_set_sh_desc_enomem denv env alg ctx h
    · exact rfc4106_set_sh_desc_enomem denv env alg ctx h
    · exact rfc4543_set_sh_desc_enomem denv env alg ctx h
  exact ⟨h, hout, rebuild_enomem_outcome_changed env ctx r hout⟩

/-- Witness of C14: the rebuild of the example session when the decryption
flow context cannot be mapped (`gcm_set_sh_desc`), and when no flow context
can be mapped, so that the encryption mapping is the one that fails
(`aead_set_sh_desc`). Both return `-ENOMEM`. -/
theorem set_sh_desc_failed_mapping_witness :
    ((gcm_set_sh_desc DescEnv.example Env.no_flc_decrypt caam_aead_alg.gcm_aes
      caam_ctx.keyed).trace.map Event.is_failed_flc_map = [false, true] ∧
     (gcm_set_sh_desc DescEnv.example Env.no_flc_decrypt caam_aead_alg.gcm_aes
      caam_ctx.keyed).ret = -ENOMEM ∧
     rebuild_enomem_outcome Env.no_flc_decrypt caam_ctx.keyed
      (gcm_set_sh_desc DescEnv.example Env.no_flc_decrypt caam_aead_alg.gcm_aes
        caam_ctx.keyed)) ∧
    ((aead_set_sh_desc DescEnv.example Env.no_flc caam_aead_alg.authenc_sha1_cbc_aes
      caam_ctx.keyed).trace.map Event.is_failed_flc_map = [true] ∧
     (aead_set_sh_desc DescEnv.example Env.no_flc caam_aead_alg.authenc_sha1_cbc_aes
      caam_ctx.keyed).ret = -ENOMEM ∧
     rebuild_enomem_outcome Env.no_flc caam_ctx.keyed
      (aead_set_sh_desc DescEnv.example Env.no_flc caam_aead_alg.authenc_sha1_cbc_aes
        caam_ctx.keyed)) :=
  ⟨⟨rfl,
    ((set_sh_desc_failed_mapping DescEnv.example Env.no_flc_decrypt caam_aead_alg.gcm_aes
      caam_ctx.keyed _ (Or.inr (Or.inr (Or.inl rfl)))).2 (by decide)).1,
    ((set_sh_desc_failed_mapping DescEnv.example Env.no_flc_decrypt caam_aead_alg.gcm_aes
      caam_ctx.keyed _ (Or.inr (Or.inr (Or.inl rfl)))).2 (by decide)).2.1⟩,
   ⟨rfl,
    ((set_sh_desc_failed_mapping DescEnv.example Env.no_flc
      caam_aead_alg.authenc_sha1_cbc_aes caam_ctx.keyed _ (Or.inl rfl)).2 (by decide)).1,
    ((set_sh_desc_failed_mapping DescEnv.example Env.no_flc
      caam_aead_alg.authenc_sha1_cbc_aes caam_ctx.keyed _ (Or.inl rfl)).2 (by decide)).2.1⟩⟩


/-- C15: `xts_ablkcipher_setkey` returns `-EINVAL` if and only if `keylen` is
neither `2 * AES_MIN_KEY_SIZE` (32) nor `2 * AES_MAX_KEY_SIZE` (64); in that
case the bad-key-length flag is set in the flags of the transform, no side
effect is performed (no bus mapping) and the session (key bytes, key length,
flow descriptors) is what it was. -/
theorem xts_ablkcipher_setkey_bad_keylen (denv : DescEnv) (env : Env) (ctx : caam_ctx)
    (crt_flags : Nat) (key : List Nat) (keylen : Nat) :
    2 * AES_MIN_KEY_SIZE = 32 ∧ 2 * AES_MAX_KEY_SIZE = 64 ∧
    ((xts_ablkcipher_setkey denv env ctx crt_flags key keylen).ret = -EINVAL ↔
      (keylen ≠ 32 ∧ keylen ≠ 64)) ∧
    ((keylen ≠ 32 ∧ keylen ≠ 64) →
      (xts_ablkcipher_setkey denv env ctx crt_flags key keylen).crt_flags =
        crt_flags ||| CRYPTO_TFM_RES_BAD_KEY_LEN ∧
      (xts_ablkcipher_setkey denv env ctx crt_flags key keylen).trace = [] ∧
      (∀ e ∈ (xts_ablkcipher_setkey denv env ctx crt_flags key keylen).trace,
        e.is_map = false) ∧
      (xts_ablkcipher_setkey denv env ctx crt_flags key keylen).ctx = ctx) := by
  refine ⟨rfl, rfl, ?_, ?_⟩
  · by_cases hbad : keylen ≠ 32 ∧ keylen ≠ 64
    · simp [xts_ablkcipher_setkey, AES_MIN_KEY_SIZE, AES_MAX_KEY_SIZE, hbad]
    · have hbad2 : ¬(keylen ≠ 2 * AES_MIN_KEY_SIZE ∧ keylen ≠ 2 * AES_MAX_KEY_SIZE) := by
        simpa [AES_MIN_KEY_SIZE, AES_MAX_KEY_SIZE] using hbad
      simp only [hbad, iff_false]
      unfold xts_ablkcipher_setkey
      simp only [hbad2, if_false]
      split_ifs <;> simp [EINVAL, ENOMEM]
  · intro hbad
    have hbad2 : keylen ≠ 2 * AES_MIN_KEY_SIZE ∧ keylen ≠ 2 * AES_MAX_KEY_SIZE := by
      simpa [AES_MIN_KEY_SIZE, AES_MAX_KEY_SIZE] using hbad
    simp [xts_ablkcipher_setkey, hbad2]


/-! ### Response path -/

/-- C16 at its failing input: the first pull command fails with an error
other than busy. `dpaa2_dpseci_poll` returns `0` at once, which is smaller
than every positive budget, and its only side effect is the pull command:
neither `napi_complete_done` nor the re-arming of the notification. On the
sibling path, a pull command that fails inside the drain loop, the poll does
both before it returns. -/
theorem dpaa2_dpseci_poll_first_pull_error :
    (∀ (iova_to_virt : Nat → caam_request) (store_size : Nat)
        (store : List (Option dpaa2_dq × Bool)) (rearm : Int) (budget : Int),
      dpaa2_dpseci_poll iova_to_virt store_size ⟨[- EIO], store, rearm⟩ budget =
        some ⟨0, ⟨[], store, rearm⟩, [Event.pull_fq (- EIO)]⟩) ∧
    (∀ e ∈ [Event.pull_fq (- EIO)], e.is_napi_complete = false ∧ e.is_rearm = false) ∧
    ((0 : Nat) : Int) < 64 ∧
    (dpaa2_dpseci_poll (fun _ => caam_request.in_flight) 16
        ⟨[0, - EIO], [(some (dpaa2_dq.list_fd 0 0), true)], 0⟩ 64).map
        (fun r => (r.ret, r.trace)) =
      some (1,
        [Event.pull_fq 0,
         Event.unmap_single 0x5000 FD_FLT_SIZE dma_data_direction.DMA_BIDIRECTIONAL,
         Event.cbk cbk_fn.aead_encrypt_done 0,
         Event.pull_fq (- EIO),
         Event.napi_complete_done 1,
         Event.rearm 0]) := by
  refine ⟨?_, ?_, by decide, ?_⟩
  · intro v ss store rearm budget
    simp [dpaa2_dpseci_poll, dpaa2_caam_pull_fq, EIO, EBUSY]
  · intro e he
    simp at he
    subst he
    exact ⟨rfl, rfl⟩
  · rfl


/-- What `dpaa2_caam_store_consume` does with the answers of the store: it
takes a prefix of them, counts the entries of that prefix and runs
`dpaa2_caam_process_fd` on each of them, once and in order. -/
theorem dpaa2_caam_store_consume_spec (iova_to_virt : Nat → caam_request)
    (store : List (Option dpaa2_dq × Bool)) :
    ∀ (c0 c : Nat) (rest : List (Option dpaa2_dq × Bool)) (tr : List Event),
      dpaa2_caam_store_consume iova_to_virt store c0 = some (c, rest, tr) →
      ∃ pre, store = pre ++ rest ∧ c = c0 + (pre.filterMap Prod.fst).length ∧
        tr = ((pre.filterMap Prod.fst).map (dpaa2_caam_process_fd iova_to_virt)).flatten := by
  induction store with
  | nil => intro c0 c rest tr h; simp [dpaa2_caam_store_consume] at h
  | cons a store ih =>
    intro c0 c rest tr h
    obtain ⟨dq, is_last⟩ := a
    cases dq with
    | none =>
      by_cases hl : is_last = true
      · simp [dpaa2_caam_store_consume, hl] at h
        obtain ⟨h1, h2, h3⟩ := h
        subst h1 h2 h3
        exact ⟨[(none, is_last)], by simp, by simp, by simp⟩
      · simp [dpaa2_caam_store_consume, hl] at h
        obtain ⟨pre, hp, hc, ht⟩ := ih c0 c rest tr h
        exact ⟨(none, is_last) :: pre, by simp [hp], by simpa using hc, by simpa using ht⟩
    | some d =>
      by_cases hl : is_last = true
      · simp [dpaa2_caam_store_consume, hl] at h
        obtain ⟨h1, h2, h3⟩ := h
        subst h1 h2 h3
        exact ⟨[(some d, is_last)], by simp, by simp, by simp⟩
      · simp only [dpaa2_caam_store_consume, hl] at h
        cases hrec : dpaa2_caam_store_consume iova_to_virt store (c0 + 1) with
        | none => simp [hrec] at h
        | some r =>
          obtain ⟨c1, rest1, tr1⟩ := r
          simp [hrec] at h
          obtain ⟨h1, h2, h3⟩ := h
          subst h1 h2 h3
          obtain ⟨pre, hp, hc, ht⟩ := ih (c0 + 1) c1 rest1 tr1 hrec
          refine ⟨(some d, is_last) :: pre, by simp [hp], ?_, ?_⟩
          · simp [hc]; omega
          · simp [ht]

/-- C17, as stated, fails: a store holding one frame that is not in frame-list
format. `dpaa2_caam_store_consume` counts the entry as cleaned, and
`dpaa2_caam_process_fd` has neither unmapped a frame list nor called a
callback for it. -/
theorem dpaa2_caam_store_consume_counts_unprocessed_fd :
    dpaa2_caam_store_consume (fun _ => caam_request.in_flight)
      [(some (dpaa2_dq.single_fd 0 0), true)] 0 = some (1, [], []) ∧
    dpaa2_caam_process_fd (fun _ => caam_request.in_flight) (dpaa2_dq.single_fd 0 0) = [] := by
  refine ⟨rfl, rfl⟩

/-- C17, amended: `dpaa2_caam_store_consume` counts as cleaned exactly the
entries it dequeues and hands each of them to `dpaa2_caam_process_fd` once, in
order. For an entry whose frame is in frame-list format, whatever its status
word and its error bits, `dpaa2_caam_process_fd` unmaps the frame-list mapping
of the request once and then calls the stored callback of the request once,
with the status word (FRC) of the frame; for an entry of any other format it
does nothing (no unmapping, no callback). -/
theorem dpaa2_caam_process_fd_per_entry (iova_to_virt : Nat → caam_request)
    (store rest : List (Option dpaa2_dq × Bool)) (c : Nat) (tr : List Event)
    (h : dpaa2_caam_store_consume iova_to_virt store 0 = some (c, rest, tr)) :
    ∃ pre, store = pre ++ rest ∧ c = (pre.filterMap Prod.fst).length ∧
      tr = ((pre.filterMap Prod.fst).map (dpaa2_caam_process_fd iova_to_virt)).flatten ∧
      ∀ dq ∈ pre.filterMap Prod.fst,
        (dq.fd.format = dpaa2_fd_format.dpaa2_fd_list →
          dpaa2_caam_process_fd iova_to_virt dq =
            [Event.unmap_single (iova_to_virt dq.fd.addr).fd_flt_dma FD_FLT_SIZE
               dma_data_direction.DMA_BIDIRECTIONAL,
             Event.cbk (iova_to_virt dq.fd.addr).cbk dq.frc]) ∧
        (dq.fd.format ≠ dpaa2_fd_format.dpaa2_fd_list →
          dpaa2_caam_process_fd iova_to_virt dq = []) := by
  obtain ⟨pre, hp, hc, ht⟩ := dpaa2_caam_store_consume_spec iova_to_virt store 0 c rest tr h
  refine ⟨pre, hp, by simpa using hc, ht, ?_⟩
  intro dq _
  constructor
  · intro hf; simp [dpaa2_caam_process_fd, hf]
  · intro hf; simp [dpaa2_caam_process_fd, hf]

/-- Witness of C17: an empty answer, a frame-list frame with status `0x40000006`
and error bits set, then a single-buffer frame flagged last. Two entries are
counted, one is unmapped and called back. -/
theorem dpaa2_caam_process_fd_per_entry_witness :
    dpaa2_caam_store_consume (fun _ => caam_request.in_flight)
      [(none, false), (some (dpaa2_dq.list_fd 0x40000006 0xff), false),
       (some (dpaa2_dq.single_fd 0 0), true)] 0 =
      some (2, [],
        [Event.unmap_single 0x5000 FD_FLT_SIZE dma_data_direction.DMA_BIDIRECTIONAL,
         Event.cbk cbk_fn.aead_encrypt_done 0x40000006]) ∧
    ∃ pre, [(none, false), (some (dpaa2_dq.list_fd 0x40000006 0xff), false),
       (some (dpaa2_dq.single_fd 0 0), true)] = pre ++ [] ∧
      2 = (pre.filterMap Prod.fst).length :=
  ⟨rfl,
    let ⟨pre, hp, hc, _⟩ := dpaa2_caam_process_fd_per_entry (fun _ => caam_request.in_flight)
      [(none, false), (some (dpaa2_dq.list_fd 0x40000006 0xff), false),
       (some (dpaa2_dq.single_fd 0 0), true)] [] 2
      [Event.unmap_single 0x5000 FD_FLT_SIZE dma_data_direction.DMA_BIDIRECTIONAL,
       Event.cbk cbk_fn.aead_encrypt_done 0x40000006] rfl
    ⟨pre, hp, hc⟩⟩


/-! ### Frame list lengths -/

/-- The frame list a successful table part of the AEAD builder leaves in the
request context. -/
theorem aead_edesc_alloc_table_req_ctx (env : Env) (lim : Limits) (ctx : caam_ctx)
    (alg : caam_aead_alg) (req : aead_request) (req_ctx : caam_request) (encrypt : Bool)
    (st : MappedBufs) (edesc : aead_edesc)
    (hok : (aead_edesc_alloc_table env lim ctx alg req req_ctx encrypt st).ret
      = Except.ok edesc) :
    (aead_edesc_alloc_table env lim ctx alg req req_ctx encrypt st).req_ctx.fd_flt1 =
      ⟨edesc.qm_sg_dma, aead_in_len req (aead_ivsize alg encrypt),
        dpaa2_fl_format.dpaa2_fl_sg, true, 0⟩ ∧
    (aead_edesc_alloc_table env lim ctx alg req req_ctx encrypt st).req_ctx.fd_flt0.len =
      aead_out_len ctx req encrypt := by
  unfold aead_edesc_alloc_table at hok ⊢
  simp only at hok ⊢
  split_ifs at hok ⊢ with h1 h2 h3 h4
  simp only [Except.ok.injEq] at hok
  subst hok
  refine ⟨rfl, ?_⟩
  simp only [aead_out_fle]
  split_ifs <;> rfl

/-- C19, as stated, fails: the in-place decryption of 8 bytes of associated
data and 4 bytes of payload with a tag length of 20. The builder succeeds and
the output frame entry has length `4294967288`, which is not
`assoclen + cryptlen - authsize = -8` (and not `0`): the difference is taken
in `unsigned int`. -/
theorem aead_edesc_alloc_short_ciphertext_out_len :
    (∃ edesc, (aead_edesc_alloc Env.good Limits.example caam_ctx.example
      caam_aead_alg.authenc_sha1_cbc_aes aead_request.short_ciphertext caam_request.zero
      false).ret = Except.ok edesc) ∧
    (aead_edesc_alloc Env.good Limits.example caam_ctx.example
      caam_aead_alg.authenc_sha1_cbc_aes aead_request.short_ciphertext caam_request.zero
      false).req_ctx.fd_flt0.len = 4294967288 ∧
    (aead_request.short_ciphertext.assoclen : Int) + aead_request.short_ciphertext.cryptlen
      - caam_ctx.example.authsize = -8 := by
  refine ⟨⟨_, rfl⟩, rfl, by decide⟩

/-- C19, amended: for every generic-AEAD request on which `aead_edesc_alloc`
succeeds, the input frame entry has the final flag set and its length is
`4 + ivsize + assoclen + cryptlen` reduced modulo `2^32` (`ivsize = 0` when no
IV is mapped); the length of the output frame entry is
`assoclen + cryptlen + authsize` modulo `2^32` for encryption and
`assoclen + cryptlen - authsize` modulo `2^32` for decryption, which are the
plain sum and the plain difference when they lie in `[0, 2^32)`.
Consequently decrypting a request whose `cryptlen` is an encryption's
`cryptlen + authsize` yields that encryption's `assoclen + cryptlen` modulo
`2^32` as output length. -/
theorem aead_edesc_alloc_frame_lengths (env : Env) (lim : Limits) (ctx : caam_ctx)
    (alg : caam_aead_alg) (req : aead_request) (req_ctx : caam_request) (encrypt : Bool)
    (edesc : aead_edesc)
    (hok : (aead_edesc_alloc env lim ctx alg req req_ctx encrypt).ret = Except.ok edesc) :
    (aead_edesc_alloc env lim ctx alg req req_ctx encrypt).req_ctx.fd_flt1.final = true ∧
    (aead_edesc_alloc env lim ctx alg req req_ctx encrypt).req_ctx.fd_flt1.len =
      (4 + (if aead_map_iv alg encrypt then alg.ivsize else 0) + req.assoclen + req.cryptlen)
        % 4294967296 ∧
    (encrypt = true →
      (aead_edesc_alloc env lim ctx alg req req_ctx encrypt).req_ctx.fd_flt0.len =
        (req.assoclen + req.cryptlen + ctx.authsize) % 4294967296) ∧
    (encrypt = false →
      (((aead_edesc_alloc env lim ctx alg req req_ctx encrypt).req_ctx.fd_flt0.len : Nat) : Int)
        = ((req.assoclen : Int) + req.cryptlen - ctx.authsize) % 4294967296) ∧
    (encrypt = true → req.assoclen + req.cryptlen + ctx.authsize < 4294967296 →
      (aead_edesc_alloc env lim ctx alg req req_ctx encrypt).req_ctx.fd_flt0.len =
        req.assoclen + req.cryptlen + ctx.authsize) ∧
    (encrypt = false → ctx.authsize ≤ req.assoclen + req.cryptlen →
      req.assoclen + req.cryptlen < 4294967296 →
      (aead_edesc_alloc env lim ctx alg req req_ctx encrypt).req_ctx.fd_flt0.len =
        req.assoclen + req.cryptlen - ctx.authsize) ∧
    (encrypt = false → ∀ c, req.cryptlen = c + ctx.authsize →
      (aead_edesc_alloc env lim ctx alg req req_ctx encrypt).req_ctx.fd_flt0.len =
        (req.assoclen + c) % 4294967296) := by
  obtain ⟨st, _, heq⟩ := aead_edesc_alloc_ok env lim ctx alg req req_ctx encrypt edesc hok
  rw [heq] at hok ⊢
  obtain ⟨h1, h0⟩ := aead_edesc_alloc_table_req_ctx env lim ctx alg req req_ctx encrypt st
    edesc hok
  rw [h1, h0]
  refine ⟨rfl, ?_, ?_, ?_, ?_, ?_, ?_⟩
  · simp [aead_in_len, aead_ivsize, u32]
  · intro he; simp [aead_out_len, he, u32]
  · intro he
    simp only [aead_out_len, he, u32, u32_neg]
    push_cast
    omega
  · intro he hlt
    simp only [aead_out_len, he, u32]
    simp
    omega
  · intro he hle hlt
    simp only [aead_out_len, he, u32, u32_neg]
    simp
    omega
  · intro he c hc
    simp only [aead_out_len, he, u32, u32_neg, hc]
    simp
    omega

/-- Witness of C19: the in-place encryption over four segments; the input
entry has the final flag and length `4 + 16 + 13 + 64`, the output entry has
length `13 + 64 + 20`. -/
theorem aead_edesc_alloc_frame_lengths_witness :
    (∃ edesc, (aead_edesc_alloc Env.good Limits.example caam_ctx.example
      caam_aead_alg.authenc_sha1_cbc_aes aead_request.in_place4 caam_request.zero
      true).ret = Except.ok edesc) ∧
    (aead_edesc_alloc Env.good Limits.example caam_ctx.example
      caam_aead_alg.authenc_sha1_cbc_aes aead_request.in_place4 caam_request.zero
      true).req_ctx.fd_flt1.final = true ∧
    (aead_edesc_alloc Env.good Limits.example caam_ctx.example
      caam_aead_alg.authenc_sha1_cbc_aes aead_request.in_place4 caam_request.zero
      true).req_ctx.fd_flt1.len = 97 ∧
    (aead_edesc_alloc Env.good Limits.example caam_ctx.example
      caam_aead_alg.authenc_sha1_cbc_aes aead_request.in_place4 caam_request.zero
      true).req_ctx.fd_flt0.len = 97 :=
  ⟨⟨_, rfl⟩,
   (aead_edesc_alloc_frame_lengths Env.good Limits.example caam_ctx.example
      caam_aead_alg.authenc_sha1_cbc_aes aead_request.in_place4 caam_request.zero true _
      rfl).1, rfl, rfl⟩


/-- The first part of the TLS builder returns early with an error only. -/
theorem tls_map_src_dst_error (env : Env) (tmp : Nat) (req : aead_request)
    (req_ctx : caam_request) (encrypt : Bool) (authsize : Nat) (b : Built tls_edesc)
    (h : tls_map_src_dst env tmp req req_ctx encrypt authsize = some (Except.error b)) :
    ∃ e, b.ret = Except.error e := by
  unfold tls_map_src_dst at h
  simp only at h
  split at h
  · simp at h; subst h; exact ⟨_, rfl⟩
  · split at h
    · split at h
      · simp at h; subst h; exact ⟨_, rfl⟩
      · split at h
        · simp at h; subst h; exact ⟨_, rfl⟩
        · simp at h
    · split at h
      · simp at h; subst h; exact ⟨_, rfl⟩
      · split at h
        · simp at h
        · split at h
          · simp at h; subst h; exact ⟨_, rfl⟩
          · split at h
            · simp at h; subst h; exact ⟨_, rfl⟩
            · split at h
              · simp at h; subst h; exact ⟨_, rfl⟩
              · simp at h

/-- The mappings of a trace are those of its parts. -/
theorem mappings_append (a b : List Event) : mappings (a ++ b) = mappings a ++ mappings b := by
  simp [mappings]

/-- The calls of `caam_unmap` follow the direction rule, in place being
`src == dst`: scatter lists by the rule; the IV, when its address is not zero,
with `DMA_FROM_DEVICE` for `GIVENCRYPT` and `DMA_TO_DEVICE` otherwise; the
table, when its size is not zero, with `DMA_TO_DEVICE`. Given that these two
resources are among `mapped`, every unmapping names a mapped resource. -/
theorem caam_unmap_dir_ok (src dst : scatterlist) (sn dn iv ivsize : Nat) (op : optype)
    (qdma qbytes : Nat) (giv : Bool) (mapped : List Resource)
    (hiv : iv ≠ 0 → Resource.single iv ivsize
      (if op = optype.GIVENCRYPT then dma_data_direction.DMA_FROM_DEVICE
       else dma_data_direction.DMA_TO_DEVICE) ∈ mapped)
    (hq : qbytes ≠ 0 → Resource.single qdma qbytes dma_data_direction.DMA_TO_DEVICE ∈ mapped) :
    ∀ e ∈ caam_unmap src dst sn dn iv ivsize op qdma qbytes,
      e.dir_ok (decide (src = dst)) giv src dst = true ∧ e.single_unmap_ok mapped = true := by
  unfold caam_unmap
  by_cases hd : dst = src
  · subst hd
    by_cases h1 : iv = 0 <;> by_cases h2 : qbytes = 0 <;>
      simp [h1, h2, Event.dir_ok, Event.single_unmap_ok, sg_dir_ok]
    · exact hq h2
    · exact hiv h1
    · exact ⟨hiv h1, hq h2⟩
  · have hd2 : ¬ src = dst := fun h => hd h.symm
    by_cases h0 : sn = 0 <;> by_cases h1 : iv = 0 <;> by_cases h2 : qbytes = 0 <;>
      simp [hd, hd2, h0, h1, h2, Event.dir_ok, Event.single_unmap_ok, sg_dir_ok]
    · exact hq h2
    · exact hiv h1
    · exact ⟨hiv h1, hq h2⟩
    · exact hq h2
    · exact hiv h1
    · exact ⟨hiv h1, hq h2⟩

/-- Pool calls and rule-abiding scatter list calls follow the direction rule,
whatever was mapped. -/
theorem dir_ok_of_sg_ok (in_place giv : Bool) (src dst : scatterlist) (mapped : List Resource)
    (e : Event) (h : e.sg_ok in_place src dst = true) :
    e.dir_ok in_place giv src dst = true ∧ e.single_unmap_ok mapped = true := by
  cases e <;> simp_all [Event.sg_ok, Event.dir_ok, Event.single_unmap_ok]

/-- Every call of the first part of the AEAD builder is a pool call or a
rule-abiding call on a scatter list. -/
theorem aead_map_src_dst_sg_ok (env : Env) (ctx : caam_ctx) (req : aead_request)
    (req_ctx : caam_request) (encrypt : Bool) :
    ∀ e ∈ (match aead_map_src_dst env ctx req req_ctx encrypt with
      | Except.error b => b.trace
      | Except.ok st => st.trace),
      e.sg_ok (decide (req.src = req.dst)) req.src req.dst = true := by
  by_cases h0 : env.qi_cache_zalloc (gfp_flags req.flags CRYPTO_TFM_REQ_MAY_SLEEP) = false
  · simp [aead_map_src_dst, h0, Event.sg_ok]
  by_cases h1 : req.dst = req.src
  · have h1s : req.src = req.dst := h1.symm
    cases hsn : sg_nents_for_len req.src (u32 (req.assoclen + req.cryptlen +
        (if encrypt then ctx.authsize else 0))) with
    | error e => simp [aead_map_src_dst, h0, h1, hsn, Event.sg_ok]
    | ok sn =>
      by_cases h2 : env.dma_map_sg req.src sn dma_data_direction.DMA_BIDIRECTIONAL = []
      · simp [aead_map_src_dst, h0, h1, hsn, h2, Event.sg_ok, sg_dir_ok]
      · simp [aead_map_src_dst, h0, h1, hsn, h2, Event.sg_ok, sg_dir_ok]
  · have h1s : ¬ req.src = req.dst := fun h => h1 h.symm
    cases hsn : sg_nents_for_len req.src (u32 (req.assoclen + req.cryptlen)) with
    | error e => simp [aead_map_src_dst, h0, h1, hsn, Event.sg_ok]
    | ok sn =>
      cases hdn : sg_nents_for_len req.dst (u32 (req.assoclen + req.cryptlen +
          (if encrypt then ctx.authsize else u32_neg ctx.authsize))) with
      | error e => simp [aead_map_src_dst, h0, h1, hsn, hdn, Event.sg_ok]
      | ok dn =>
        by_cases hne : sn = 0 <;>
        by_cases h2 : env.dma_map_sg req.src sn dma_data_direction.DMA_TO_DEVICE = [] <;>
        by_cases h3 : env.dma_map_sg req.dst dn dma_data_direction.DMA_FROM_DEVICE = [] <;>
        simp [aead_map_src_dst, h0, h1, h1s, hsn, hdn, hne, h2, h3, Event.sg_ok, sg_dir_ok]

/-- The AEAD builder maps its IV with `DMA_TO_DEVICE`: when the recorded
address is not zero and the mapping did not fail, the IV is among the
mappings of the IV step. -/
theorem aead_iv_mapped (env : Env) (alg : caam_aead_alg) (encrypt : Bool)
    (hc : ¬(aead_map_iv alg encrypt = true ∧
      env.dma_mapping_error (aead_iv_dma env alg encrypt) = true))
    (hne : aead_iv_dma env alg encrypt ≠ 0) :
    Resource.single (aead_iv_dma env alg encrypt) (aead_ivsize alg encrypt)
      dma_data_direction.DMA_TO_DEVICE ∈ mappings (aead_iv_events env alg encrypt) := by
  by_cases hm : aead_map_iv alg encrypt = true
  · have he : env.dma_mapping_error (aead_iv_dma env alg encrypt) = false := by
      cases h : env.dma_mapping_error (aead_iv_dma env alg encrypt) with
      | false => rfl
      | true => exact absurd ⟨hm, h⟩ hc
    simp [aead_iv_events, mappings, Event.mapped, hm, he]
  · simp [aead_iv_dma, hm] at hne

/-- The IV step of the AEAD builder follows the direction rule. -/
theorem aead_iv_events_dir_ok (env : Env) (alg : caam_aead_alg) (encrypt : Bool)
    (in_place : Bool) (src dst : scatterlist) (mapped : List Resource) :
    ∀ e ∈ aead_iv_events env alg encrypt,
      e.dir_ok in_place false src dst = true ∧ e.single_unmap_ok mapped = true := by
  unfold aead_iv_events
  split_ifs <;> simp [Event.dir_ok, Event.single_unmap_ok, buf_dir_ok]

/-- The table part of the AEAD builder follows the direction rule on every
path, given that the first part did. -/
theorem aead_edesc_alloc_table_dir_ok (env : Env) (lim : Limits) (ctx : caam_ctx)
    (alg : caam_aead_alg) (req : aead_request) (req_ctx : caam_request) (encrypt : Bool)
    (st : MappedBufs)
    (hst : ∀ e ∈ st.trace, e.sg_ok (decide (req.src = req.dst)) req.src req.dst = true) :
    trace_dir_ok (decide (req.src = req.dst)) false req.src req.dst
      (aead_edesc_alloc_table env lim ctx alg req req_ctx encrypt st).trace := by
  have hop : ∀ (d1 d2 : dma_data_direction),
      (if (if encrypt then optype.ENCRYPT else optype.DECRYPT) = optype.GIVENCRYPT
       then d1 else d2) = d2 := by
    intro d1 d2; cases encrypt <;> simp
  unfold trace_dir_ok aead_edesc_alloc_table
  simp only
  by_cases h1 : aead_map_iv alg encrypt = true ∧
      env.dma_mapping_error (aead_iv_dma env alg encrypt) = true
  · simp only [h1, Bool.and_self, if_true]
    generalize hM : mappings _ = M
    intro e he
    simp only [List.mem_append, List.mem_singleton] at he
    rcases he with ((he | he) | he) | he
    · exact dir_ok_of_sg_ok _ _ _ _ _ _ (hst e he)
    · exact aead_iv_events_dir_ok env alg encrypt _ _ _ _ e he
    · exact caam_unmap_dir_ok _ _ _ _ _ _ _ _ _ _ _ (by simp) (by simp) e he
    · subst he; exact ⟨rfl, rfl⟩
  have h1b : (aead_map_iv alg encrypt && env.dma_mapping_error (aead_iv_dma env alg encrypt))
      = false := by
    cases ha : aead_map_iv alg encrypt <;>
      cases hb : env.dma_mapping_error (aead_iv_dma env alg encrypt) <;> simp_all
  simp only [h1b, Bool.false_eq_true, if_false]
  by_cases h2 : aead_qm_sg_nents (aead_ivsize alg encrypt) st.mapped_src.length
      st.mapped_dst.length > lim.CAAM_QI_MAX_AEAD_SG
  · simp only [h2, if_true]
    intro e he
    have hiv : aead_iv_dma env alg encrypt ≠ 0 →
        Resource.single (aead_iv_dma env alg encrypt) (aead_ivsize alg encrypt)
          (if (if encrypt then optype.ENCRYPT else optype.DECRYPT) = optype.GIVENCRYPT
           then dma_data_direction.DMA_FROM_DEVICE else dma_data_direction.DMA_TO_DEVICE) ∈
        mappings (st.trace ++ aead_iv_events env alg encrypt ++
          caam_unmap req.src req.dst st.src_nents st.dst_nents (aead_iv_dma env alg encrypt)
            (aead_ivsize alg encrypt) (if encrypt then optype.ENCRYPT else optype.DECRYPT) 0 0 ++
          [Event.free]) := by
      intro hne
      rw [hop]
      simp only [mappings_append, List.mem_append]
      exact Or.inl (Or.inl (Or.inr (aead_iv_mapped env alg encrypt h1 hne)))
    revert hiv
    generalize mappings _ = M
    intro hiv
    simp only [List.mem_append, List.mem_singleton] at he
    rcases he with ((he | he) | he) | he
    · exact dir_ok_of_sg_ok _ _ _ _ _ _ (hst e he)
    · exact aead_iv_events_dir_ok env alg encrypt _ _ _ _ e he
    · exact caam_unmap_dir_ok _ _ _ _ _ _ _ _ _ _ _ hiv (by simp) e he
    · subst he; exact ⟨rfl, rfl⟩
  simp only [h2, if_false]
  by_cases h3 : env.dma_mapping_error
      (env.dma_map_single Buf.assoclen 4 dma_data_direction.DMA_TO_DEVICE) = true
  · simp only [h3, if_true]
    intro e he
    have hiv : aead_iv_dma env alg encrypt ≠ 0 →
        Resource.single (aead_iv_dma env alg encrypt) (aead_ivsize alg encrypt)
          (if (if encrypt then optype.ENCRYPT else optype.DECRYPT) = optype.GIVENCRYPT
           then dma_data_direction.DMA_FROM_DEVICE else dma_data_direction.DMA_TO_DEVICE) ∈
        mappings (st.trace ++ aead_iv_events env alg encrypt ++
          [Event.map_single Buf.assoclen 4 dma_data_direction.DMA_TO_DEVICE
            (env.dma_map_single Buf.assoclen 4 dma_data_direction.DMA_TO_DEVICE) true] ++
          caam_unmap req.src req.dst st.src_nents st.dst_nents (aead_iv_dma env alg encrypt)
            (aead_ivsize alg encrypt) (if encrypt then optype.ENCRYPT else optype.DECRYPT) 0 0 ++
          [Event.free]) := by
      intro hne
      rw [hop]
      simp only [mappings_append, List.mem_append]
      exact Or.inl (Or.inl (Or.inl (Or.inr (aead_iv_mapped env alg encrypt h1 hne))))
    revert hiv
    generalize mappings _ = M
    intro hiv
    simp only [List.mem_append, List.mem_singleton] at he
    rcases he with (((he | he) | he) | he) | he
    · exact dir_ok_of_sg_ok _ _ _ _ _ _ (hst e he)
    · exact aead_iv_events_dir_ok env alg encrypt _ _ _ _ e he
    · subst he; exact ⟨rfl, rfl⟩
    · exact caam_unmap_dir_ok _ _ _ _ _ _ _ _ _ _ _ hiv (by simp) e he
    · subst he; exact ⟨rfl, rfl⟩
  simp only [h3, Bool.false_eq_true, if_false]
  have h3f : env.dma_mapping_error
      (env.dma_map_single Buf.assoclen 4 dma_data_direction.DMA_TO_DEVICE) = false := by
    simpa using h3
  by_cases h4 : env.dma_mapping_error
      (env.dma_map_single Buf.sg_table
        (aead_qm_sg_nents (aead_ivsize alg encrypt) st.mapped_src.length st.mapped_dst.length
          * SG_ENTRY_SIZE) dma_data_direction.DMA_TO_DEVICE) = true
  · simp only [h4, if_true]
    intro e he
    have hiv : aead_iv_dma env alg encrypt ≠ 0 →
        Resource.single (aead_iv_dma env alg encrypt) (aead_ivsize alg encrypt)
          (if (if encrypt then optype.ENCRYPT else optype.DECRYPT) = optype.GIVENCRYPT
           then dma_data_direction.DMA_FROM_DEVICE else dma_data_direction.DMA_TO_DEVICE) ∈
        mappings (st.trace ++ aead_iv_events env alg encrypt ++
          [Event.map_single Buf.assoclen 4 dma_data_direction.DMA_TO_DEVICE
            (env.dma_map_single Buf.assoclen 4 dma_data_direction.DMA_TO_DEVICE) false,
           Event.map_single Buf.sg_table
            (aead_qm_sg_nents (aead_ivsize alg encrypt) st.mapped_src.length
              st.mapped_dst.length * SG_ENTRY_SIZE) dma_data_direction.DMA_TO_DEVICE
            (env.dma_map_single Buf.sg_table
              (aead_qm_sg_nents (aead_ivsize alg encrypt) st.mapped_src.length
                st.mapped_dst.length * SG_ENTRY_SIZE) dma_data_direction.DMA_TO_DEVICE) true,
           Event.unmap_single
            (env.dma_map_single Buf.assoclen 4 dma_data_direction.DMA_TO_DEVICE) 4
            dma_data_direction.DMA_TO_DEVICE] ++
          caam_unmap req.src req.dst st.src_nents st.dst_nents (aead_iv_dma env alg encrypt)
            (aead_ivsize alg encrypt) (if encrypt then optype.ENCRYPT else optype.DECRYPT) 0 0 ++
          [Event.free]) := by
      intro hne
      rw [hop]
      simp only [mappings_append, List.mem_append]
      exact Or.inl (Or.inl (Or.inl (Or.inr (aead_iv_mapped env alg encrypt h1 hne))))
    have hal : Resource.single
        (env.dma_map_single Buf.assoclen 4 dma_data_direction.DMA_TO_DEVICE) 4
        dma_data_direction.DMA_TO_DEVICE ∈
        mappings (st.trace ++ aead_iv_events env alg encrypt ++
          [Event.map_single Buf.assoclen 4 dma_data_direction.DMA_TO_DEVICE
            (env.dma_map_single Buf.assoclen 4 dma_data_direction.DMA_TO_DEVICE) false,
           Event.map_single Buf.sg_table
            (aead_qm_sg_nents (aead_ivsize alg encrypt) st.mapped_src.length
              st.mapped_dst.length * SG_ENTRY_SIZE) dma_data_direction.DMA_TO_DEVICE
            (env.dma_map_single Buf.sg_table
              (aead_qm_sg_nents (aead_ivsize alg encrypt) st.mapped_src.length
                st.mapped_dst.length * SG_ENTRY_SIZE) dma_data_direction.DMA_TO_DEVICE) true,
           Event.unmap_single
            (env.dma_map_single Buf.assoclen 4 dma_data_direction.DMA_TO_DEVICE) 4
            dma_data_direction.DMA_TO_DEVICE] ++
          caam_unmap req.src req.dst st.src_nents st.dst_nents (aead_iv_dma env alg encrypt)
            (aead_ivsize alg encrypt) (if encrypt then optype.ENCRYPT else optype.DECRYPT) 0 0 ++
          [Event.free]) := by
      simp only [mappings_append, List.mem_append]
      refine Or.inl (Or.inl (Or.inr ?_))
      simp [mappings, Event.mapped]
    revert hiv hal
    generalize mappings _ = M
    intro hiv hal
    simp only [List.mem_append, List.mem_singleton, List.mem_cons, List.mem_nil_iff,
      or_false] at he
    rcases he with (((he | he) | (he | he | he)) | he) | he
    · exact dir_ok_of_sg_ok _ _ _ _ _ _ (hst e he)
    · exact aead_iv_events_dir_ok env alg encrypt _ _ _ _ e he
    · subst he; exact ⟨rfl, rfl⟩
    · subst he; exact ⟨rfl, rfl⟩
    · subst he; exact ⟨rfl, by simpa [Event.single_unmap_ok] using hal⟩
    · exact caam_unmap_dir_ok _ _ _ _ _ _ _ _ _ _ _ hiv (by simp) e he
    · subst he; exact ⟨rfl, rfl⟩
  simp only [h4, Bool.false_eq_true, if_false]
  generalize mappings _ = M
  intro e he
  simp only [List.mem_append, List.mem_singleton, List.mem_cons, List.mem_nil_iff,
    or_false] at he
  rcases he with (he | he) | (he | he)
  · exact dir_ok_of_sg_ok _ _ _ _ _ _ (hst e he)
  · exact aead_iv_events_dir_ok env alg encrypt _ _ _ _ e he
  · subst he; exact ⟨rfl, rfl⟩
  · subst he; exact ⟨rfl, rfl⟩

/-- `aead_edesc_alloc` follows the direction rule on every path. -/
theorem aead_edesc_alloc_dir_ok (env : Env) (lim : Limits) (ctx : caam_ctx)
    (alg : caam_aead_alg) (req : aead_request) (req_ctx : caam_request) (encrypt : Bool) :
    trace_dir_ok (decide (req.src = req.dst)) false req.src req.dst
      (aead_edesc_alloc env lim ctx alg req req_ctx encrypt).trace := by
  have h := aead_map_src_dst_sg_ok env ctx req req_ctx encrypt
  unfold aead_edesc_alloc
  cases hst : aead_map_src_dst env ctx req req_ctx encrypt with
  | error b =>
    rw [hst] at h
    intro e he
    exact dir_ok_of_sg_ok _ _ _ _ _ _ (h e he)
  | ok st =>
    rw [hst] at h
    exact aead_edesc_alloc_table_dir_ok env lim ctx alg req req_ctx encrypt st h

/-- A resource mapped by a part of a trace is mapped by the trace. -/
theorem single_unmap_ok_mono (m1 m2 : List Resource) (e : Event)
    (hsub : ∀ r ∈ m1, r ∈ m2) (h : e.single_unmap_ok m1 = true) :
    e.single_unmap_ok m2 = true := by
  cases e <;> simp_all [Event.single_unmap_ok]

/-- The shape of every path of a builder after its first part: the calls
`pre` of the first part, then mapping and pool calls `mid`, then, on an error
path, `caam_unmap` for the lists of the request followed by the release `post`
of the descriptor. Such a trace follows the direction rule when `mid` does and
the IV handed to `caam_unmap` is one that `mid` mapped, with the direction of
the operation type. -/
theorem trace_dir_ok_unwind (giv : Bool) (src dst : scatterlist) (pre mid post : List Event)
    (sn dn iv ivsize : Nat) (op : optype)
    (hpre : ∀ e ∈ pre, e.sg_ok (decide (src = dst)) src dst = true)
    (hmid : ∀ e ∈ mid, e.dir_ok (decide (src = dst)) giv src dst = true ∧
      e.single_unmap_ok (mappings mid) = true)
    (hpost : ∀ e ∈ post, e = Event.free)
    (hiv : iv ≠ 0 → Resource.single iv ivsize
      (if op = optype.GIVENCRYPT then dma_data_direction.DMA_FROM_DEVICE
       else dma_data_direction.DMA_TO_DEVICE) ∈ mappings mid) :
    trace_dir_ok (decide (src = dst)) giv src dst
      (pre ++ mid ++ caam_unmap src dst sn dn iv ivsize op 0 0 ++ post) := by
  intro e he
  have hsub : ∀ r ∈ mappings mid,
      r ∈ mappings (pre ++ mid ++ caam_unmap src dst sn dn iv ivsize op 0 0 ++ post) := by
    intro r hr
    simp only [mappings_append, List.mem_append]
    exact Or.inl (Or.inl (Or.inr hr))
  simp only [List.mem_append] at he
  rcases he with ((he | he) | he) | he
  · exact dir_ok_of_sg_ok _ _ _ _ _ _ (hpre e he)
  · exact ⟨(hmid e he).1, single_unmap_ok_mono _ _ e hsub (hmid e he).2⟩
  · exact caam_unmap_dir_ok _ _ _ _ _ _ _ _ _ _ _ (fun h => hsub _ (hiv h)) (by simp) e he
  · rw [hpost e he]; exact ⟨rfl, rfl⟩

/-- The shape of the successful path of a builder: the calls `pre` of the
first part, then mapping and pool calls `mid`. -/
theorem trace_dir_ok_built (in_place giv : Bool) (src dst : scatterlist)
    (pre mid : List Event)
    (hpre : ∀ e ∈ pre, e.sg_ok in_place src dst = true)
    (hmid : ∀ e ∈ mid, e.dir_ok in_place giv src dst = true ∧
      e.single_unmap_ok (mappings mid) = true) :
    trace_dir_ok in_place giv src dst (pre ++ mid) := by
  intro e he
  have hsub : ∀ r ∈ mappings mid, r ∈ mappings (pre ++ mid) := by
    intro r hr
    simp only [mappings_append, List.mem_append]
    exact Or.inr hr
  simp only [List.mem_append] at he
  rcases he with he | he
  · exact dir_ok_of_sg_ok _ _ _ _ _ _ (hpre e he)
  · exact ⟨(hmid e he).1, single_unmap_ok_mono _ _ e hsub (hmid e he).2⟩

/-- Every call of the first part of the block cipher builders is a
rule-abiding call on a scatter list. -/
theorem ablkcipher_map_src_dst_sg_ok (env : Env) (req : ablkcipher_request)
    (req_ctx : caam_request) (giv : Bool) :
    ∀ e ∈ (match ablkcipher_map_src_dst env req req_ctx giv with
      | Except.error b => b.trace
      | Except.ok st => st.trace),
      e.sg_ok (decide (req.src = req.dst)) req.src req.dst = true := by
  cases hsn : sg_nents_for_len req.src req.nbytes with
  | error e => simp [ablkcipher_map_src_dst, hsn]
  | ok sn =>
    by_cases h1 : req.dst = req.src
    · have h1s : req.src = req.dst := h1.symm
      by_cases h2 : env.dma_map_sg req.src sn dma_data_direction.DMA_BIDIRECTIONAL = []
      · simp [ablkcipher_map_src_dst, hsn, h1, h2, Event.sg_ok, sg_dir_ok]
      · simp [ablkcipher_map_src_dst, hsn, h1, h2, Event.sg_ok, sg_dir_ok]
    · have h1s : ¬ req.src = req.dst := fun h => h1 h.symm
      cases hdn : sg_nents_for_len req.dst req.nbytes with
      | error e => simp [ablkcipher_map_src_dst, hsn, h1, hdn]
      | ok dn =>
        by_cases h2 : env.dma_map_sg req.src sn dma_data_direction.DMA_TO_DEVICE = [] <;>
        by_cases h3 : env.dma_map_sg req.dst dn dma_data_direction.DMA_FROM_DEVICE = [] <;>
        simp [ablkcipher_map_src_dst, hsn, h1, h1s, hdn, h2, h3, Event.sg_ok, sg_dir_ok]

/-- The table part of `ablkcipher_edesc_alloc` follows the direction rule on
every path, given that the first part did. -/
theorem ablkcipher_edesc_alloc_table_dir_ok (env : Env) (lim : Limits) (ivsize : Nat)
    (req : ablkcipher_request) (req_ctx : caam_request) (encrypt : Bool) (st : MappedBufs)
    (hst : ∀ e ∈ st.trace, e.sg_ok (decide (req.src = req.dst)) req.src req.dst = true) :
    trace_dir_ok (decide (req.src = req.dst)) false req.src req.dst
      (ablkcipher_edesc_alloc_table env lim ivsize req req_ctx encrypt st).trace := by
  have hop : ∀ (d1 d2 : dma_data_direction),
      (if (if encrypt then optype.ENCRYPT else optype.DECRYPT) = optype.GIVENCRYPT
       then d1 else d2) = d2 := by
    intro d1 d2; cases encrypt <;> simp
  unfold ablkcipher_edesc_alloc_table
  simp only
  by_cases h1 : env.dma_mapping_error
      (env.dma_map_single Buf.iv ivsize dma_data_direction.DMA_TO_DEVICE) = true
  · simp only [h1, if_true]
    have := trace_dir_ok_unwind false req.src req.dst st.trace
      [Event.map_single Buf.iv ivsize dma_data_direction.DMA_TO_DEVICE
        (env.dma_map_single Buf.iv ivsize dma_data_direction.DMA_TO_DEVICE) true] []
      st.src_nents st.dst_nents 0 0 optype.ENCRYPT hst
      (by simp [Event.dir_ok, Event.single_unmap_ok, buf_dir_ok]) (by simp) (by simp)
    simpa using this
  simp only [h1, Bool.false_eq_true, if_false]
  have h1f : env.dma_mapping_error
      (env.dma_map_single Buf.iv ivsize dma_data_direction.DMA_TO_DEVICE) = false := by
    simpa using h1
  by_cases h2 : ablkcipher_qm_sg_ents
      (env.dma_map_single Buf.iv ivsize dma_data_direction.DMA_TO_DEVICE) ivsize
      st.mapped_src st.mapped_dst > lim.CAAM_QI_MAX_ABLKCIPHER_SG
  · simp only [h2, if_true]
    have := trace_dir_ok_unwind false req.src req.dst st.trace
      [Event.map_single Buf.iv ivsize dma_data_direction.DMA_TO_DEVICE
        (env.dma_map_single Buf.iv ivsize dma_data_direction.DMA_TO_DEVICE) false] []
      st.src_nents st.dst_nents
      (env.dma_map_single Buf.iv ivsize dma_data_direction.DMA_TO_DEVICE) ivsize
      (if encrypt then optype.ENCRYPT else optype.DECRYPT) hst
      (by simp [Event.dir_ok, Event.single_unmap_ok, buf_dir_ok]) (by simp)
      (by intro _; rw [hop]; simp [mappings, Event.mapped])
    simpa using this
  simp only [h2, if_false]
  by_cases h3 : env.qi_cache_zalloc (gfp_flags req.flags CRYPTO_TFM_REQ_MAY_SLEEP) = false
  · simp only [h3, if_true]
    have := trace_dir_ok_unwind false req.src req.dst st.trace
      [Event.map_single Buf.iv ivsize dma_data_direction.DMA_TO_DEVICE
        (env.dma_map_single Buf.iv ivsize dma_data_direction.DMA_TO_DEVICE) false,
       Event.alloc (gfp_flags req.flags CRYPTO_TFM_REQ_MAY_SLEEP) false] []
      st.src_nents st.dst_nents
      (env.dma_map_single Buf.iv ivsize dma_data_direction.DMA_TO_DEVICE) ivsize
      (if encrypt then optype.ENCRYPT else optype.DECRYPT) hst
      (by simp [Event.dir_ok, Event.single_unmap_ok, buf_dir_ok]) (by simp)
      (by intro _; rw [hop]; simp [mappings, Event.mapped])
    simpa using this
  simp only [h3, if_false]
  by_cases h4 : env.dma_mapping_error
      (env.dma_map_single Buf.sg_table
        (ablkcipher_qm_sg_ents
          (env.dma_map_single Buf.iv ivsize dma_data_direction.DMA_TO_DEVICE) ivsize
          st.mapped_src st.mapped_dst * SG_ENTRY_SIZE)
        dma_data_direction.DMA_TO_DEVICE) = true
  · simp only [h4, if_true]
    exact trace_dir_ok_unwind false req.src req.dst st.trace _ [Event.free]
      st.src_nents st.dst_nents
      (env.dma_map_single Buf.iv ivsize dma_data_direction.DMA_TO_DEVICE) ivsize
      (if encrypt then optype.ENCRYPT else optype.DECRYPT) hst
      (by simp [Event.dir_ok, Event.single_unmap_ok, buf_dir_ok]) (by simp)
      (by intro _; rw [hop]; simp [mappings, Event.mapped])
  simp only [h4, Bool.false_eq_true, if_false]
  exact trace_dir_ok_built _ false req.src req.dst st.trace _ hst
    (by simp [Event.dir_ok, Event.single_unmap_ok, buf_dir_ok])

/-- `ablkcipher_edesc_alloc` follows the direction rule on every path. -/
theorem ablkcipher_edesc_alloc_dir_ok (env : Env) (lim : Limits) (ivsize : Nat)
    (req : ablkcipher_request) (req_ctx : caam_request) (encrypt : Bool) :
    trace_dir_ok (decide (req.src = req.dst)) false req.src req.dst
      (ablkcipher_edesc_alloc env lim ivsize req req_ctx encrypt).trace := by
  have h := ablkcipher_map_src_dst_sg_ok env req req_ctx false
  unfold ablkcipher_edesc_alloc
  cases hst : ablkcipher_map_src_dst env req req_ctx false with
  | error b =>
    rw [hst] at h
    intro e he
    exact dir_ok_of_sg_ok _ _ _ _ _ _ (h e he)
  | ok st =>
    rw [hst] at h
    exact ablkcipher_edesc_alloc_table_dir_ok env lim ivsize req req_ctx encrypt st h

/-- The table part of `ablkcipher_giv_edesc_alloc` follows the direction rule
of the generated-IV shape on every path, given that the first part did. -/
theorem ablkcipher_giv_edesc_alloc_table_dir_ok (env : Env) (lim : Limits) (ivsize : Nat)
    (req : ablkcipher_request) (req_ctx : caam_request) (st : MappedBufs)
    (hst : ∀ e ∈ st.trace, e.sg_ok (decide (req.src = req.dst)) req.src req.dst = true) :
    trace_dir_ok (decide (req.src = req.dst)) true req.src req.dst
      (ablkcipher_giv_edesc_alloc_table env lim ivsize req req_ctx st).trace := by
  unfold ablkcipher_giv_edesc_alloc_table
  simp only
  by_cases h1 : env.dma_mapping_error
      (env.dma_map_single Buf.giv ivsize dma_data_direction.DMA_FROM_DEVICE) = true
  · simp only [h1, if_true]
    have := trace_dir_ok_unwind true req.src req.dst st.trace
      [Event.map_single Buf.giv ivsize dma_data_direction.DMA_FROM_DEVICE
        (env.dma_map_single Buf.giv ivsize dma_data_direction.DMA_FROM_DEVICE) true] []
      st.src_nents st.dst_nents 0 0 optype.ENCRYPT hst
      (by simp [Event.dir_ok, Event.single_unmap_ok, buf_dir_ok]) (by simp) (by simp)
    simpa using this
  simp only [h1, Bool.false_eq_true, if_false]
  have h1f : env.dma_mapping_error
      (env.dma_map_single Buf.giv ivsize dma_data_direction.DMA_FROM_DEVICE) = false := by
    simpa using h1
  by_cases h2 : giv_qm_sg_ents
      (env.dma_map_single Buf.giv ivsize dma_data_direction.DMA_FROM_DEVICE) ivsize
      st.mapped_dst_nents st.mapped_src st.mapped_dst > lim.CAAM_QI_MAX_ABLKCIPHER_SG
  · simp only [h2, if_true]
    have := trace_dir_ok_unwind true req.src req.dst st.trace
      [Event.map_single Buf.giv ivsize dma_data_direction.DMA_FROM_DEVICE
        (env.dma_map_single Buf.giv ivsize dma_data_direction.DMA_FROM_DEVICE) false] []
      st.src_nents st.dst_nents
      (env.dma_map_single Buf.giv ivsize dma_data_direction.DMA_FROM_DEVICE) ivsize
      optype.GIVENCRYPT hst
      (by simp [Event.dir_ok, Event.single_unmap_ok, buf_dir_ok]) (by simp)
      (by intro _; simp [mappings, Event.mapped])
    simpa using this
  simp only [h2, if_false]
  by_cases h3 : env.qi_cache_zalloc (gfp_flags req.flags CRYPTO_TFM_REQ_MAY_SLEEP) = false
  · simp only [h3, if_true]
    have := trace_dir_ok_unwind true req.src req.dst st.trace
      [Event.map_single Buf.giv ivsize dma_data_direction.DMA_FROM_DEVICE
        (env.dma_map_single Buf.giv ivsize dma_data_direction.DMA_FROM_DEVICE) false,
       Event.alloc (gfp_flags req.flags CRYPTO_TFM_REQ_MAY_SLEEP) false] []
      st.src_nents st.dst_nents
      (env.dma_map_single Buf.giv ivsize dma_data_direction.DMA_FROM_DEVICE) ivsize
      optype.GIVENCRYPT hst
      (by simp [Event.dir_ok, Event.single_unmap_ok, buf_dir_ok]) (by simp)
      (by intro _; simp [mappings, Event.mapped])
    simpa using this
  simp only [h3, if_false]
  by_cases h4 : env.dma_mapping_error
      (env.dma_map_single Buf.sg_table
        (giv_qm_sg_ents
          (env.dma_map_single Buf.giv ivsize dma_data_direction.DMA_FROM_DEVICE) ivsize
          st.mapped_dst_nents st.mapped_src st.mapped_dst * SG_ENTRY_SIZE)
        dma_data_direction.DMA_TO_DEVICE) = true
  · simp only [h4, if_true]
    exact trace_dir_ok_unwind true req.src req.dst st.trace _ [Event.free]
      st.src_nents st.dst_nents
      (env.dma_map_single Buf.giv ivsize dma_data_direction.DMA_FROM_DEVICE) ivsize
      optype.GIVENCRYPT hst
      (by simp [Event.dir_ok, Event.single_unmap_ok, buf_dir_ok]) (by simp)
      (by intro _; simp [mappings, Event.mapped])
  simp only [h4, Bool.false_eq_true, if_false]
  exact trace_dir_ok_built _ true req.src req.dst st.trace _ hst
    (by simp [Event.dir_ok, Event.single_unmap_ok, buf_dir_ok])

/-- `ablkcipher_giv_edesc_alloc` follows the direction rule of the
generated-IV shape on every path. -/
theorem ablkcipher_giv_edesc_alloc_dir_ok (env : Env) (lim : Limits) (ivsize : Nat)
    (req : ablkcipher_request) (req_ctx : caam_request) :
    trace_dir_ok (decide (req.src = req.dst)) true req.src req.dst
      (ablkcipher_giv_edesc_alloc env lim ivsize req req_ctx).trace := by
  have h := ablkcipher_map_src_dst_sg_ok env req req_ctx true
  unfold ablkcipher_giv_edesc_alloc
  cases hst : ablkcipher_map_src_dst env req req_ctx true with
  | error b =>
    rw [hst] at h
    intro e he
    exact dir_ok_of_sg_ok _ _ _ _ _ _ (h e he)
  | ok st =>
    rw [hst] at h
    exact ablkcipher_giv_edesc_alloc_table_dir_ok env lim ivsize req req_ctx st h

/-- Every call of the first part of the TLS builder is a pool call or a
rule-abiding call on a scatter list, the destination being the list the
builder maps; that list is the one handed on to the table part. -/
theorem tls_map_src_dst_sg_ok (env : Env) (tmp : Nat) (req : aead_request)
    (req_ctx : caam_request) (encrypt : Bool) (authsize : Nat)
    (r : Except (Built tls_edesc) MappedBufs)
    (hr : tls_map_src_dst env tmp req req_ctx encrypt authsize = some r) :
    match r with
    | Except.error b =>
      ∀ e ∈ b.trace, e.sg_ok (decide (req.src = req.dst)) req.src (tls_dst tmp req) = true
    | Except.ok st => st.dst = tls_dst tmp req ∧
      ∀ e ∈ st.trace, e.sg_ok (decide (req.src = req.dst)) req.src (tls_dst tmp req) = true := by
  by_cases h0 : env.qi_cache_zalloc
      (gfp_flags req.flags (CRYPTO_TFM_REQ_MAY_BACKLOG ||| CRYPTO_TFM_REQ_MAY_SLEEP)) = false
  · simp [tls_map_src_dst, h0] at hr
    subst hr
    simp [Event.sg_ok]
  by_cases h1 : req.src = req.dst
  · have hdst : tls_dst tmp req = req.dst := by simp [tls_dst, h1]
    cases hsn : sg_nents_for_len req.src (u32 (req.assoclen + req.cryptlen +
        (if encrypt then authsize else 0))) with
    | error e =>
      simp [tls_map_src_dst, h0, if_pos h1, hsn] at hr
      subst hr
      simp [Event.sg_ok]
    | ok sn =>
      by_cases h2 : env.dma_map_sg req.src sn dma_data_direction.DMA_BIDIRECTIONAL = []
      · simp [tls_map_src_dst, h0, if_pos h1, hsn, h2] at hr
        subst hr
        simp [Event.sg_ok, sg_dir_ok, decide_eq_true h1]
      · simp [tls_map_src_dst, h0, if_pos h1, hsn, h2] at hr
        subst hr
        simp [Event.sg_ok, sg_dir_ok, decide_eq_true h1, hdst]
  · cases hsn : sg_nents_for_len req.src (u32 (req.assoclen + req.cryptlen)) with
    | error e =>
      simp [tls_map_src_dst, h0, h1, hsn] at hr
      subst hr
      simp [Event.sg_ok]
    | ok sn =>
      cases hf : scatterwalk_ffwd tmp req.dst req.assoclen with
      | none => simp [tls_map_src_dst, h0, h1, hsn, hf] at hr
      | some dst =>
        have hdst : tls_dst tmp req = dst := by simp [tls_dst, h1, hf]
        cases hdn : sg_nents_for_len dst (u32 (req.cryptlen +
            (if encrypt then authsize else 0))) with
        | error e =>
          simp [tls_map_src_dst, h0, h1, hsn, hf, hdn] at hr
          subst hr
          simp [Event.sg_ok]
        | ok dn =>
          by_cases hne : sn = 0 <;>
          by_cases h2 : env.dma_map_sg req.src sn dma_data_direction.DMA_TO_DEVICE = [] <;>
          by_cases h3 : env.dma_map_sg dst dn dma_data_direction.DMA_FROM_DEVICE = [] <;>
          simp [tls_map_src_dst, h0, h1, hsn, hf, hdn, hne, h2, h3] at hr <;>
          subst hr <;>
          simp [Event.sg_ok, sg_dir_ok, h1, hdst, hne]

/-- The table part of `tls_edesc_alloc` follows the direction rule on every
path, given that the first part did; in place means that the source is the
destination list the builder mapped. -/
theorem tls_edesc_alloc_table_dir_ok (env : Env) (alg : caam_aead_alg) (req : aead_request)
    (req_ctx : caam_request) (encrypt : Bool) (authsize : Nat) (st : MappedBufs)
    (hst : ∀ e ∈ st.trace, e.sg_ok (decide (req.src = st.dst)) req.src st.dst = true) :
    trace_dir_ok (decide (req.src = st.dst)) false req.src st.dst
      (tls_edesc_alloc_table env alg req req_ctx encrypt authsize st).trace := by
  have hop : ∀ (d1 d2 : dma_data_direction),
      (if (if encrypt then optype.ENCRYPT else optype.DECRYPT) = optype.GIVENCRYPT
       then d1 else d2) = d2 := by
    intro d1 d2; cases encrypt <;> simp
  unfold tls_edesc_alloc_table
  simp only
  by_cases h1 : env.dma_mapping_error
      (env.dma_map_single Buf.iv alg.ivsize dma_data_direction.DMA_TO_DEVICE) = true
  · simp only [h1, if_true]
    exact trace_dir_ok_unwind false req.src st.dst st.trace _ [Event.free]
      st.src_nents st.dst_nents 0 0 (if encrypt then optype.ENCRYPT else optype.DECRYPT) hst
      (by simp [Event.dir_ok, Event.single_unmap_ok, buf_dir_ok]) (by simp) (by simp)
  simp only [h1, Bool.false_eq_true, if_false]
  by_cases h2 : env.dma_mapping_error
      (env.dma_map_single Buf.sg_table
        (tls_qm_sg_ents st.mapped_src.length st.mapped_dst.length * SG_ENTRY_SIZE)
        dma_data_direction.DMA_TO_DEVICE) = true
  · simp only [h2, if_true]
    exact trace_dir_ok_unwind false req.src st.dst st.trace _ [Event.free]
      st.src_nents st.dst_nents
      (env.dma_map_single Buf.iv alg.ivsize dma_data_direction.DMA_TO_DEVICE) alg.ivsize
      (if encrypt then optype.ENCRYPT else optype.DECRYPT) hst
      (by simp [Event.dir_ok, Event.single_unmap_ok, buf_dir_ok]) (by simp)
      (by intro _; rw [hop]; simp [mappings, Event.mapped])
  simp only [h2, Bool.false_eq_true, if_false]
  exact trace_dir_ok_built _ false req.src st.dst st.trace _ hst
    (by simp [Event.dir_ok, Event.single_unmap_ok, buf_dir_ok])

/-- When distinct buffers do not alias, the TLS builder and `caam_unmap` agree
on what is in place. -/
theorem tls_dst_in_place (tmp : Nat) (req : aead_request)
    (hna : req.src ≠ req.dst → tls_dst tmp req ≠ req.src) :
    decide (req.src = tls_dst tmp req) = decide (req.src = req.dst) := by
  by_cases h1 : req.src = req.dst
  · simp [tls_dst, h1]
  · have := hna h1
    have h2 : ¬ req.src = tls_dst tmp req := fun h => this h.symm
    simp [h1, h2]

/-- `tls_edesc_alloc` follows the direction rule on every path, provided that
distinct buffers do not alias: the destination list the builder maps is not
the source list. -/
theorem tls_edesc_alloc_dir_ok (env : Env) (ctx : caam_ctx) (alg : caam_aead_alg) (tmp : Nat)
    (req : aead_request) (req_ctx : caam_request) (encrypt : Bool)
    (hna : req.src ≠ req.dst → tls_dst tmp req ≠ req.src)
    (b : Built tls_edesc) (hb : tls_edesc_alloc env ctx alg tmp req req_ctx encrypt = some b) :
    trace_dir_ok (decide (req.src = req.dst)) false req.src (tls_dst tmp req) b.trace ∧
    ∀ edesc, b.ret = Except.ok edesc → edesc.dst = tls_dst tmp req := by
  unfold tls_edesc_alloc at hb
  split_ifs at hb
  cases hst : tls_map_src_dst env tmp req req_ctx encrypt
      (tls_authsize ctx alg.cra_blocksize req encrypt) with
  | none => rw [hst] at hb; simp at hb
  | some r =>
    have h := tls_map_src_dst_sg_ok env tmp req req_ctx encrypt _ r hst
    rw [hst] at hb
    cases r with
    | error b1 =>
      simp only [Option.some.injEq] at hb
      subst hb
      simp only at h
      obtain ⟨e1, he1⟩ := tls_map_src_dst_error env tmp req req_ctx encrypt _ _ hst
      refine ⟨fun e he => dir_ok_of_sg_ok _ _ _ _ _ _ (h e he), ?_⟩
      intro edesc hok
      rw [he1] at hok
      simp at hok
    | ok st =>
      simp only [Option.some.injEq] at hb
      subst hb
      simp only at h
      obtain ⟨hd, hsg⟩ := h
      have hdec := tls_dst_in_place tmp req hna
      rw [← hd] at hdec hsg ⊢
      rw [← hdec] at hsg ⊢
      refine ⟨tls_edesc_alloc_table_dir_ok env alg req req_ctx encrypt _ st hsg, ?_⟩
      intro edesc hok
      unfold tls_edesc_alloc_table at hok
      simp only at hok
      split_ifs at hok <;>
        (simp only [Except.ok.injEq] at hok
         subst hok
         rfl)

/-- After a successful AEAD build, every unmapping call of `aead_unmap` (with
an operation type other than `GIVENCRYPT`, as the AEAD entry points store it)
names a resource the builder mapped: the same list and segment count, or the
same address and size, and the same direction. -/
theorem aead_unmap_in_build (env : Env) (lim : Limits) (ctx : caam_ctx)
    (alg : caam_aead_alg) (req : aead_request) (req_ctx : caam_request) (encrypt : Bool)
    (edesc : aead_edesc) (caam_req : caam_request)
    (hok : (aead_edesc_alloc env lim ctx alg req req_ctx encrypt).ret = Except.ok edesc)
    (hop : caam_req.op_type ≠ optype.GIVENCRYPT) :
    ∀ r ∈ unmappings (aead_unmap alg edesc req caam_req),
      r ∈ mappings (aead_edesc_alloc env lim ctx alg req req_ctx encrypt).trace := by
  obtain ⟨st, hst, heq⟩ := aead_edesc_alloc_ok env lim ctx alg req req_ctx encrypt edesc hok
  rw [heq] at hok ⊢
  obtain ⟨hiv, _, hal, htb, hed, htr⟩ :=
    aead_edesc_alloc_table_ok env lim ctx alg req req_ctx encrypt st edesc hok
  have hsg := (aead_map_src_dst_mappings env ctx req req_ctx encrypt st optype.ENCRYPT hst).1
  rw [htr]
  subst hed
  intro r hr
  simp only [aead_unmap, unmappings, List.filterMap_append] at hr
  rw [← unmappings, caam_unmap_unmappings, if_neg hop] at hr
  simp only [mappings_append, List.mem_append]
  simp only [List.mem_append] at hr
  rcases hr with ((hr | hr) | hr) | hr
  · left; left
    rw [hsg]
    exact hr
  · left; right
    by_cases hne : aead_iv_dma env alg encrypt = 0
    · simp [hne] at hr
    · have hc : ¬(aead_map_iv alg encrypt = true ∧
          env.dma_mapping_error (aead_iv_dma env alg encrypt) = true) := by
        intro hh
        have := hiv hh.1
        rw [this] at hh
        exact Bool.noConfusion hh.2
      have hm := aead_iv_mapped env alg encrypt hc hne
      have hiveq : aead_ivsize alg encrypt = alg.ivsize := by
        by_cases hmi : aead_map_iv alg encrypt = true
        · simp [aead_ivsize, hmi]
        · simp [aead_iv_dma, hmi] at hne
      simp only [ne_eq, hne, not_false_eq_true, if_true, List.mem_singleton] at hr
      rw [hr, ← hiveq]
      exact hm
  · right
    split_ifs at hr
    · simp only [List.mem_singleton] at hr
      rw [hr]
      simp [mappings, Event.mapped, htb]
    · simp at hr
  · right
    simp [Event.unmapped] at hr
    rw [hr]
    simp [mappings, Event.mapped, hal]

/-- The first part of the block cipher builders returns early with an error
only. -/
theorem ablkcipher_map_src_dst_error (env : Env) (req : ablkcipher_request)
    (req_ctx : caam_request) (giv : Bool) (b : Built ablkcipher_edesc)
    (h : ablkcipher_map_src_dst env req req_ctx giv = Except.error b) :
    ∃ e, b.ret = Except.error e := by
  cases hsn : sg_nents_for_len req.src req.nbytes with
  | error e =>
    simp [ablkcipher_map_src_dst, hsn] at h
    subst h; exact ⟨_, rfl⟩
  | ok sn =>
    by_cases h1 : req.dst = req.src
    · by_cases h2 : env.dma_map_sg req.src sn dma_data_direction.DMA_BIDIRECTIONAL = []
      · simp [ablkcipher_map_src_dst, hsn, h1, h2] at h
        subst h; exact ⟨_, rfl⟩
      · simp [ablkcipher_map_src_dst, hsn, h1, h2] at h
    · cases hdn : sg_nents_for_len req.dst req.nbytes with
      | error e =>
        simp [ablkcipher_map_src_dst, hsn, h1, hdn] at h
        subst h; exact ⟨_, rfl⟩
      | ok dn =>
        by_cases h2 : env.dma_map_sg req.src sn dma_data_direction.DMA_TO_DEVICE = [] <;>
        by_cases h3 : env.dma_map_sg req.dst dn dma_data_direction.DMA_FROM_DEVICE = [] <;>
        simp [ablkcipher_map_src_dst, hsn, h1, hdn, h2, h3] at h <;>
        (subst h; exact ⟨_, rfl⟩)

/-- The table part of `ablkcipher_edesc_alloc` succeeds only when no mapping
failed; the descriptor and the trace are then the ones of its last branch. -/
theorem ablkcipher_edesc_alloc_table_ok (env : Env) (lim : Limits) (ivsize : Nat)
    (req : ablkcipher_request) (req_ctx : caam_request) (encrypt : Bool) (st : MappedBufs)
    (edesc : ablkcipher_edesc)
    (hok : (ablkcipher_edesc_alloc_table env lim ivsize req req_ctx encrypt st).ret
      = Except.ok edesc) :
    env.dma_mapping_error
      (env.dma_map_single Buf.iv ivsize dma_data_direction.DMA_TO_DEVICE) = false ∧
    env.dma_mapping_error
      (env.dma_map_single Buf.sg_table
        (ablkcipher_qm_sg_ents
          (env.dma_map_single Buf.iv ivsize dma_data_direction.DMA_TO_DEVICE) ivsize
          st.mapped_src st.mapped_dst * SG_ENTRY_SIZE)
        dma_data_direction.DMA_TO_DEVICE) = false ∧
    edesc.src_nents = st.src_nents ∧ edesc.dst_nents = st.dst_nents ∧
    edesc.iv_dma = env.dma_map_single Buf.iv ivsize dma_data_direction.DMA_TO_DEVICE ∧
    edesc.qm_sg_bytes = ablkcipher_qm_sg_ents
      (env.dma_map_single Buf.iv ivsize dma_data_direction.DMA_TO_DEVICE) ivsize
      st.mapped_src st.mapped_dst * SG_ENTRY_SIZE ∧
    edesc.qm_sg_dma = env.dma_map_single Buf.sg_table
      (ablkcipher_qm_sg_ents
        (env.dma_map_single Buf.iv ivsize dma_data_direction.DMA_TO_DEVICE) ivsize
        st.mapped_src st.mapped_dst * SG_ENTRY_SIZE)
      dma_data_direction.DMA_TO_DEVICE ∧
    (ablkcipher_edesc_alloc_table env lim ivsize req req_ctx encrypt st).trace =
      st.trace ++
        [Event.map_single Buf.iv ivsize dma_data_direction.DMA_TO_DEVICE
          (env.dma_map_single Buf.iv ivsize dma_data_direction.DMA_TO_DEVICE) false,
         Event.alloc (gfp_flags req.flags CRYPTO_TFM_REQ_MAY_SLEEP) true,
         Event.map_single Buf.sg_table
          (ablkcipher_qm_sg_ents
            (env.dma_map_single Buf.iv ivsize dma_data_direction.DMA_TO_DEVICE) ivsize
            st.mapped_src st.mapped_dst * SG_ENTRY_SIZE)
          dma_data_direction.DMA_TO_DEVICE
          (env.dma_map_single Buf.sg_table
            (ablkcipher_qm_sg_ents
              (env.dma_map_single Buf.iv ivsize dma_data_direction.DMA_TO_DEVICE) ivsize
              st.mapped_src st.mapped_dst * SG_ENTRY_SIZE)
            dma_data_direction.DMA_TO_DEVICE) false] := by
  unfold ablkcipher_edesc_alloc_table at hok ⊢
  simp only at hok ⊢
  split_ifs at hok ⊢ with h1 h2 h3 h4
  simp only [Except.ok.injEq] at hok
  subst hok
  exact ⟨by simpa using h1, by simpa using h4, rfl, rfl, rfl, rfl, rfl, rfl⟩

/-- The table part of `ablkcipher_giv_edesc_alloc` succeeds only when no
mapping failed; the descriptor and the trace are then the ones of its last
branch. -/
theorem ablkcipher_giv_edesc_alloc_table_ok (env : Env) (lim : Limits) (ivsize : Nat)
    (req : ablkcipher_request) (req_ctx : caam_request) (st : MappedBufs)
    (edesc : ablkcipher_edesc)
    (hok : (ablkcipher_giv_edesc_alloc_table env lim ivsize req req_ctx st).ret
      = Except.ok edesc) :
    env.dma_mapping_error
      (env.dma_map_single Buf.giv ivsize dma_data_direction.DMA_FROM_DEVICE) = false ∧
    env.dma_mapping_error
      (env.dma_map_single Buf.sg_table
        (giv_qm_sg_ents
          (env.dma_map_single Buf.giv ivsize dma_data_direction.DMA_FROM_DEVICE) ivsize
          st.mapped_dst_nents st.mapped_src st.mapped_dst * SG_ENTRY_SIZE)
        dma_data_direction.DMA_TO_DEVICE) = false ∧
    edesc.src_nents = st.src_nents ∧ edesc.dst_nents = st.dst_nents ∧
    edesc.iv_dma = env.dma_map_single Buf.giv ivsize dma_data_direction.DMA_FROM_DEVICE ∧
    edesc.qm_sg_bytes = giv_qm_sg_ents
      (env.dma_map_single Buf.giv ivsize dma_data_direction.DMA_FROM_DEVICE) ivsize
      st.mapped_dst_nents st.mapped_src st.mapped_dst * SG_ENTRY_SIZE ∧
    edesc.qm_sg_dma = env.dma_map_single Buf.sg_table
      (giv_qm_sg_ents
        (env.dma_map_single Buf.giv ivsize dma_data_direction.DMA_FROM_DEVICE) ivsize
        st.mapped_dst_nents st.mapped_src st.mapped_dst * SG_ENTRY_SIZE)
      dma_data_direction.DMA_TO_DEVICE ∧
    (ablkcipher_giv_edesc_alloc_table env lim ivsize req req_ctx st).trace =
      st.trace ++
        [Event.map_single Buf.giv ivsize dma_data_direction.DMA_FROM_DEVICE
          (env.dma_map_single Buf.giv ivsize dma_data_direction.DMA_FROM_DEVICE) false,
         Event.alloc (gfp_flags req.flags CRYPTO_TFM_REQ_MAY_SLEEP) true,
         Event.map_single Buf.sg_table
          (giv_qm_sg_ents
            (env.dma_map_single Buf.giv ivsize dma_data_direction.DMA_FROM_DEVICE) ivsize
            st.mapped_dst_nents st.mapped_src st.mapped_dst * SG_ENTRY_SIZE)
          dma_data_direction.DMA_TO_DEVICE
          (env.dma_map_single Buf.sg_table
            (giv_qm_sg_ents
              (env.dma_map_single Buf.giv ivsize dma_data_direction.DMA_FROM_DEVICE) ivsize
              st.mapped_dst_nents st.mapped_src st.mapped_dst * SG_ENTRY_SIZE)
            dma_data_direction.DMA_TO_DEVICE) false] := by
  unfold ablkcipher_giv_edesc_alloc_table at hok ⊢
  simp only at hok ⊢
  split_ifs at hok ⊢ with h1 h2 h3 h4
  simp only [Except.ok.injEq] at hok
  subst hok
  exact ⟨by simpa using h1, by simpa using h4, rfl, rfl, rfl, rfl, rfl, rfl⟩

/-- What `caam_unmap` names was mapped, given that the scatter lists it names
are the mappings of `pre`, and that the IV and the table, when named, are among
the mappings of `mid`. -/
theorem caam_unmap_in_build (src dst : scatterlist) (sn dn iv ivsize : Nat) (op : optype)
    (qdma qbytes : Nat) (pre mid : List Event)
    (hpre : mappings pre = unmappings (caam_unmap src dst sn dn 0 0 optype.ENCRYPT 0 0))
    (hiv : iv ≠ 0 → Resource.single iv ivsize
      (if op = optype.GIVENCRYPT then dma_data_direction.DMA_FROM_DEVICE
       else dma_data_direction.DMA_TO_DEVICE) ∈ mappings mid)
    (hq : qbytes ≠ 0 →
      Resource.single qdma qbytes dma_data_direction.DMA_TO_DEVICE ∈ mappings mid) :
    ∀ r ∈ unmappings (caam_unmap src dst sn dn iv ivsize op qdma qbytes),
      r ∈ mappings (pre ++ mid) := by
  intro r hr
  rw [caam_unmap_unmappings] at hr
  simp only [mappings_append, List.mem_append]
  simp only [List.mem_append] at hr
  rcases hr with (hr | hr) | hr
  · left; rw [hpre]; exact hr
  · right
    by_cases h : iv = 0
    · simp [h] at hr
    · simp only [ne_eq, h, not_false_eq_true, if_true, List.mem_singleton] at hr
      rw [hr]; exact hiv h
  · right
    by_cases h : qbytes = 0
    · simp [h] at hr
    · simp only [ne_eq, h, not_false_eq_true, if_true, List.mem_singleton] at hr
      rw [hr]; exact hq h

/-- After a successful block cipher build, every unmapping call of
`ablkcipher_unmap` (with an operation type other than `GIVENCRYPT`, as
`ablkcipher_encrypt` and `ablkcipher_decrypt` store it) names a resource the
builder mapped, with the direction it was mapped with. -/
theorem ablkcipher_unmap_in_build (env : Env) (lim : Limits) (ivsize : Nat)
    (req : ablkcipher_request) (req_ctx : caam_request) (encrypt : Bool)
    (edesc : ablkcipher_edesc) (caam_req : caam_request)
    (hok : (ablkcipher_edesc_alloc env lim ivsize req req_ctx encrypt).ret = Except.ok edesc)
    (hop : caam_req.op_type ≠ optype.GIVENCRYPT) :
    ∀ r ∈ unmappings (ablkcipher_unmap ivsize edesc req caam_req),
      r ∈ mappings (ablkcipher_edesc_alloc env lim ivsize req req_ctx encrypt).trace := by
  unfold ablkcipher_edesc_alloc at hok ⊢
  cases hst : ablkcipher_map_src_dst env req req_ctx false with
  | error b =>
    rw [hst] at hok
    obtain ⟨e, he⟩ := ablkcipher_map_src_dst_error env req req_ctx false b hst
    simp only at hok
    rw [he] at hok
    simp at hok
  | ok st =>
    rw [hst] at hok
    simp only at hok ⊢
    obtain ⟨h1, h4, e1, e2, e3, e4, e5, htr⟩ :=
      ablkcipher_edesc_alloc_table_ok env lim ivsize req req_ctx encrypt st edesc hok
    have hsg := (ablkcipher_map_src_dst_mappings env req req_ctx false st optype.ENCRYPT hst).1
    rw [htr]
    unfold ablkcipher_unmap
    rw [e1, e2, e3, e4, e5]
    exact caam_unmap_in_build _ _ _ _ _ _ _ _ _ _ _ hsg
      (by intro _; rw [if_neg hop]; simp [mappings, Event.mapped, h1])
      (by intro _; simp [mappings, Event.mapped, h1, h4])

/-- After a successful generated-IV build, every unmapping call of
`ablkcipher_unmap` with the operation type `GIVENCRYPT`, as
`ablkcipher_givencrypt` stores it, names a resource the builder mapped, with
the direction it was mapped with. -/
theorem ablkcipher_giv_unmap_in_build (env : Env) (lim : Limits) (ivsize : Nat)
    (req : ablkcipher_request) (req_ctx : caam_request)
    (edesc : ablkcipher_edesc) (caam_req : caam_request)
    (hok : (ablkcipher_giv_edesc_alloc env lim ivsize req req_ctx).ret = Except.ok edesc)
    (hop : caam_req.op_type = optype.GIVENCRYPT) :
    ∀ r ∈ unmappings (ablkcipher_unmap ivsize edesc req caam_req),
      r ∈ mappings (ablkcipher_giv_edesc_alloc env lim ivsize req req_ctx).trace := by
  unfold ablkcipher_giv_edesc_alloc at hok ⊢
  cases hst : ablkcipher_map_src_dst env req req_ctx true with
  | error b =>
    rw [hst] at hok
    obtain ⟨e, he⟩ := ablkcipher_map_src_dst_error env req req_ctx true b hst
    simp only at hok
    rw [he] at hok
    simp at hok
  | ok st =>
    rw [hst] at hok
    simp only at hok ⊢
    obtain ⟨h1, h4, e1, e2, e3, e4, e5, htr⟩ :=
      ablkcipher_giv_edesc_alloc_table_ok env lim ivsize req req_ctx st edesc hok
    have hsg := (ablkcipher_map_src_dst_mappings env req req_ctx true st optype.ENCRYPT hst).1
    rw [htr]
    unfold ablkcipher_unmap
    rw [e1, e2, e3, e4, e5, hop]
    exact caam_unmap_in_build _ _ _ _ _ _ _ _ _ _ _ hsg
      (by intro _; simp [mappings, Event.mapped, h1])
      (by intro _; simp [mappings, Event.mapped, h1, h4])

/-- The first part of the TLS builder, on success, mapped exactly what
`caam_unmap` unmaps for the scatter lists, provided that distinct buffers do
not alias. -/
theorem tls_map_src_dst_mappings (env : Env) (tmp : Nat) (req : aead_request)
    (req_ctx : caam_request) (encrypt : Bool) (authsize : Nat) (st : MappedBufs)
    (hna : req.src ≠ req.dst → tls_dst tmp req ≠ req.src)
    (hok : tls_map_src_dst env tmp req req_ctx encrypt authsize = some (Except.ok st)) :
    mappings st.trace =
      unmappings (caam_unmap req.src st.dst st.src_nents st.dst_nents 0 0
        optype.ENCRYPT 0 0) := by
  by_cases h0 : env.qi_cache_zalloc
      (gfp_flags req.flags (CRYPTO_TFM_REQ_MAY_BACKLOG ||| CRYPTO_TFM_REQ_MAY_SLEEP)) = false
  · simp [tls_map_src_dst, h0] at hok
  by_cases h1 : req.src = req.dst
  · cases hsn : sg_nents_for_len req.src (u32 (req.assoclen + req.cryptlen +
        (if encrypt then authsize else 0))) with
    | error e => simp [tls_map_src_dst, h0, if_pos h1, hsn] at hok
    | ok sn =>
      by_cases h2 : env.dma_map_sg req.src sn dma_data_direction.DMA_BIDIRECTIONAL = []
      · simp [tls_map_src_dst, h0, if_pos h1, hsn, h2] at hok
      · simp [tls_map_src_dst, h0, if_pos h1, hsn, h2] at hok
        subst hok
        simp [mappings, unmappings, caam_unmap, Event.mapped, Event.unmapped, h1.symm, h2]
  · cases hsn : sg_nents_for_len req.src (u32 (req.assoclen + req.cryptlen)) with
    | error e => simp [tls_map_src_dst, h0, h1, hsn] at hok
    | ok sn =>
      cases hf : scatterwalk_ffwd tmp req.dst req.assoclen with
      | none => simp [tls_map_src_dst, h0, h1, hsn, hf] at hok
      | some dst =>
        have hdst : tls_dst tmp req = dst := by simp [tls_dst, h1, hf]
        have hne : dst ≠ req.src := by rw [← hdst]; exact hna h1
        cases hdn : sg_nents_for_len dst (u32 (req.cryptlen +
            (if encrypt then authsize else 0))) with
        | error e => simp [tls_map_src_dst, h0, h1, hsn, hf, hdn] at hok
        | ok dn =>
          by_cases hz : sn = 0 <;>
          by_cases h2 : env.dma_map_sg req.src sn dma_data_direction.DMA_TO_DEVICE = [] <;>
          by_cases h3 : env.dma_map_sg dst dn dma_data_direction.DMA_FROM_DEVICE = [] <;>
          simp [tls_map_src_dst, h0, h1, hsn, hf, hdn, hz, h2, h3] at hok <;>
          subst hok <;>
          simp [mappings, unmappings, caam_unmap, Event.mapped, Event.unmapped, hne, hz, h2, h3]

/-- The table part of `tls_edesc_alloc` succeeds only when no mapping failed;
the descriptor and the trace are then the ones of its last branch. -/
theorem tls_edesc_alloc_table_ok (env : Env) (alg : caam_aead_alg) (req : aead_request)
    (req_ctx : caam_request) (encrypt : Bool) (authsize : Nat) (st : MappedBufs)
    (edesc : tls_edesc)
    (hok : (tls_edesc_alloc_table env alg req req_ctx encrypt authsize st).ret
      = Except.ok edesc) :
    env.dma_mapping_error
      (env.dma_map_single Buf.iv alg.ivsize dma_data_direction.DMA_TO_DEVICE) = false ∧
    env.dma_mapping_error
      (env.dma_map_single Buf.sg_table
        (tls_qm_sg_ents st.mapped_src.length st.mapped_dst.length * SG_ENTRY_SIZE)
        dma_data_direction.DMA_TO_DEVICE) = false ∧
    edesc.src_nents = st.src_nents ∧ edesc.dst_nents = st.dst_nents ∧
    edesc.iv_dma = env.dma_map_single Buf.iv alg.ivsize dma_data_direction.DMA_TO_DEVICE ∧
    edesc.qm_sg_bytes =
      tls_qm_sg_ents st.mapped_src.length st.mapped_dst.length * SG_ENTRY_SIZE ∧
    edesc.qm_sg_dma = env.dma_map_single Buf.sg_table
      (tls_qm_sg_ents st.mapped_src.length st.mapped_dst.length * SG_ENTRY_SIZE)
      dma_data_direction.DMA_TO_DEVICE ∧
    edesc.dst = st.dst ∧
    (tls_edesc_alloc_table env alg req req_ctx encrypt authsize st).trace =
      st.trace ++
        [Event.map_single Buf.iv alg.ivsize dma_data_direction.DMA_TO_DEVICE
          (env.dma_map_single Buf.iv alg.ivsize dma_data_direction.DMA_TO_DEVICE) false,
         Event.map_single Buf.sg_table
          (tls_qm_sg_ents st.mapped_src.length st.mapped_dst.length * SG_ENTRY_SIZE)
          dma_data_direction.DMA_TO_DEVICE
          (env.dma_map_single Buf.sg_table
            (tls_qm_sg_ents st.mapped_src.length st.mapped_dst.length * SG_ENTRY_SIZE)
            dma_data_direction.DMA_TO_DEVICE) false] := by
  unfold tls_edesc_alloc_table at hok ⊢
  simp only at hok ⊢
  split_ifs at hok ⊢ with h1 h2 <;>
    (simp only [Except.ok.injEq] at hok
     subst hok
     exact ⟨by simpa using h1, by simpa using h2, rfl, rfl, rfl, rfl, rfl, rfl, rfl⟩)

/-- After a successful TLS build, every unmapping call of `tls_unmap` (with an
operation type other than `GIVENCRYPT`, as `tls_encrypt` and `tls_decrypt`
store it) names a resource the builder mapped, with the direction it was
mapped with, provided that distinct buffers do not alias. -/
theorem tls_unmap_in_build (env : Env) (ctx : caam_ctx) (alg : caam_aead_alg) (tmp : Nat)
    (req : aead_request) (req_ctx : caam_request) (encrypt : Bool)
    (hna : req.src ≠ req.dst → tls_dst tmp req ≠ req.src)
    (b : Built tls_edesc) (hb : tls_edesc_alloc env ctx alg tmp req req_ctx encrypt = some b)
    (edesc : tls_edesc) (hok : b.ret = Except.ok edesc) (caam_req : caam_request)
    (hop : caam_req.op_type ≠ optype.GIVENCRYPT) :
    ∀ r ∈ unmappings (tls_unmap alg edesc req caam_req), r ∈ mappings b.trace := by
  unfold tls_edesc_alloc at hb
  split_ifs at hb
  cases hst : tls_map_src_dst env tmp req req_ctx encrypt
      (tls_authsize ctx alg.cra_blocksize req encrypt) with
  | none => rw [hst] at hb; simp at hb
  | some r =>
    rw [hst] at hb
    cases r with
    | error b1 =>
      simp only [Option.some.injEq] at hb
      subst hb
      obtain ⟨e1, he1⟩ := tls_map_src_dst_error env tmp req req_ctx encrypt _ _ hst
      rw [he1] at hok
      simp at hok
    | ok st =>
      simp only [Option.some.injEq] at hb
      subst hb
      obtain ⟨h1, h4, e1, e2, e3, e4, e5, e6, htr⟩ :=
        tls_edesc_alloc_table_ok env alg req req_ctx encrypt _ st edesc hok
      have hsg := tls_map_src_dst_mappings env tmp req req_ctx encrypt _ st hna hst
      rw [htr]
      unfold tls_unmap
      rw [e1, e2, e3, e4, e5, e6]
      exact caam_unmap_in_build _ _ _ _ _ _ _ _ _ _ _ hsg
        (by intro _; rw [if_neg hop]; simp [mappings, Event.mapped, h1])
        (by intro _; simp [mappings, Event.mapped, h1, h4])

/-- C18 (code defect in the TLS teardown): `caam_unmap` and the builders follow
one direction rule. `caam_unmap` unmaps in-place lists `DMA_BIDIRECTIONAL`,
with distinct lists the source `DMA_TO_DEVICE` and the destination
`DMA_FROM_DEVICE`, the IV `DMA_FROM_DEVICE` for `GIVENCRYPT` and
`DMA_TO_DEVICE` otherwise, the table `DMA_TO_DEVICE`. The AEAD, block cipher
and generated-IV builders follow the rule on every path, and after a successful
build their teardown unmaps only what was mapped, with the direction it was
mapped with. The TLS builder and `tls_unmap` do so whenever the list the
builder maps as destination is not the source list. For a TLS record whose
source list is the tail of its destination list (`req->src != req->dst`) the
builder maps that list twice, `DMA_TO_DEVICE` and `DMA_FROM_DEVICE`, and
`tls_unmap` unmaps it once, `DMA_BIDIRECTIONAL`: a direction it was not mapped
with. -/
theorem dma_direction_rule_tls_tail_source :
    (∀ (src dst : scatterlist) (sn dn iv ivsize : Nat) (op : optype) (qdma qbytes : Nat),
      (∀ e ∈ caam_unmap src dst sn dn iv ivsize op qdma qbytes,
        e.dir_ok (decide (src = dst)) false src dst = true) ∧
      unmappings (caam_unmap src dst sn dn iv ivsize op qdma qbytes) =
        unmappings (caam_unmap src dst sn dn 0 0 optype.ENCRYPT 0 0) ++
        (if iv ≠ 0 then
          [Resource.single iv ivsize (if op = optype.GIVENCRYPT
            then dma_data_direction.DMA_FROM_DEVICE else dma_data_direction.DMA_TO_DEVICE)]
         else []) ++
        (if qbytes ≠ 0 then [Resource.single qdma qbytes dma_data_direction.DMA_TO_DEVICE]
         else [])) ∧
    (∀ (env : Env) (lim : Limits) (ctx : caam_ctx) (alg : caam_aead_alg)
        (req : aead_request) (req_ctx : caam_request) (encrypt : Bool),
      trace_dir_ok (decide (req.src = req.dst)) false req.src req.dst
        (aead_edesc_alloc env lim ctx alg req req_ctx encrypt).trace ∧
      ∀ (edesc : aead_edesc) (caam_req : caam_request),
        (aead_edesc_alloc env lim ctx alg req req_ctx encrypt).ret = Except.ok edesc →
        caam_req.op_type ≠ optype.GIVENCRYPT →
        ∀ r ∈ unmappings (aead_unmap alg edesc req caam_req),
          r ∈ mappings (aead_edesc_alloc env lim ctx alg req req_ctx encrypt).trace) ∧
    (∀ (env : Env) (lim : Limits) (ivsize : Nat) (req : ablkcipher_request)
        (req_ctx : caam_request) (encrypt : Bool),
      trace_dir_ok (decide (req.src = req.dst)) false req.src req.dst
        (ablkcipher_edesc_alloc env lim ivsize req req_ctx encrypt).trace ∧
      ∀ (edesc : ablkcipher_edesc) (caam_req : caam_request),
        (ablkcipher_edesc_alloc env lim ivsize req req_ctx encrypt).ret = Except.ok edesc →
        caam_req.op_type ≠ optype.GIVENCRYPT →
        ∀ r ∈ unmappings (ablkcipher_unmap ivsize edesc req caam_req),
          r ∈ mappings (ablkcipher_edesc_alloc env lim ivsize req req_ctx encrypt).trace) ∧
    (∀ (env : Env) (lim : Limits) (ivsize : Nat) (req : ablkcipher_request)
        (req_ctx : caam_request),
      trace_dir_ok (decide (req.src = req.dst)) true req.src req.dst
        (ablkcipher_giv_edesc_alloc env lim ivsize req req_ctx).trace ∧
      ∀ (edesc : ablkcipher_edesc) (caam_req : caam_request),
        (ablkcipher_giv_edesc_alloc env lim ivsize req req_ctx).ret = Except.ok edesc →
        caam_req.op_type = optype.GIVENCRYPT →
        ∀ r ∈ unmappings (ablkcipher_unmap ivsize edesc req caam_req),
          r ∈ mappings (ablkcipher_giv_edesc_alloc env lim ivsize req req_ctx).trace) ∧
    (∀ (env : Env) (ctx : caam_ctx) (alg : caam_aead_alg) (tmp : Nat) (req : aead_request)
        (req_ctx : caam_request) (encrypt : Bool) (b : Built tls_edesc),
      (req.src ≠ req.dst → tls_dst tmp req ≠ req.src) →
      tls_edesc_alloc env ctx alg tmp req req_ctx encrypt = some b →
      trace_dir_ok (decide (req.src = req.dst)) false req.src (tls_dst tmp req) b.trace ∧
      ∀ (edesc : tls_edesc) (caam_req : caam_request),
        b.ret = Except.ok edesc → caam_req.op_type ≠ optype.GIVENCRYPT →
        ∀ r ∈ unmappings (tls_unmap alg edesc req caam_req), r ∈ mappings b.trace) ∧
    aead_request.tls_tail.src ≠ aead_request.tls_tail.dst ∧
    tls_dst 7 aead_request.tls_tail = aead_request.tls_tail.src ∧
    (tls_edesc_alloc Env.good caam_ctx.example caam_aead_alg.tls10_sha1_cbc_aes 7
      aead_request.tls_tail caam_request.zero true).map
      (fun b => (mappings b.trace,
        b.ret.toOption.map (fun edesc =>
          unmappings (tls_unmap caam_aead_alg.tls10_sha1_cbc_aes edesc aead_request.tls_tail
            (caam_req_init b.req_ctx (caam_ctx.example.flc optype.ENCRYPT) optype.ENCRYPT
              cbk_fn.tls_encrypt_done))))) =
      some
        ([Resource.sg ⟨2, [64, 64]⟩ 2 dma_data_direction.DMA_TO_DEVICE,
          Resource.sg ⟨2, [64, 64]⟩ 2 dma_data_direction.DMA_FROM_DEVICE,
          Resource.single 4096 16 dma_data_direction.DMA_TO_DEVICE,
          Resource.single 16384 80 dma_data_direction.DMA_TO_DEVICE],
         some
          [Resource.sg ⟨2, [64, 64]⟩ 2 dma_data_direction.DMA_BIDIRECTIONAL,
           Resource.single 4096 16 dma_data_direction.DMA_TO_DEVICE,
           Resource.single 16384 80 dma_data_direction.DMA_TO_DEVICE]) := by
  refine ⟨?_, ?_, ?_, ?_, ?_, by decide, rfl, rfl⟩
  · intro src dst sn dn iv ivsize op qdma qbytes
    refine ⟨fun e he => ?_, caam_unmap_unmappings src dst sn dn iv ivsize op qdma qbytes⟩
    exact (caam_unmap_dir_ok src dst sn dn iv ivsize op qdma qbytes false
      [Resource.single iv ivsize
        (if op = optype.GIVENCRYPT then dma_data_direction.DMA_FROM_DEVICE
         else dma_data_direction.DMA_TO_DEVICE),
       Resource.single qdma qbytes dma_data_direction.DMA_TO_DEVICE]
      (fun _ => by simp) (fun _ => by simp) e he).1
  · intro env lim ctx alg req req_ctx encrypt
    exact ⟨aead_edesc_alloc_dir_ok env lim ctx alg req req_ctx encrypt,
      fun edesc caam_req hok hop =>
        aead_unmap_in_build env lim ctx alg req req_ctx encrypt edesc caam_req hok hop⟩
  · intro env lim ivsize req req_ctx encrypt
    exact ⟨ablkcipher_edesc_alloc_dir_ok env lim ivsize req req_ctx encrypt,
      fun edesc caam_req hok hop =>
        ablkcipher_unmap_in_build env lim ivsize req req_ctx encrypt edesc caam_req hok hop⟩
  · intro env lim ivsize req req_ctx
    exact ⟨ablkcipher_giv_edesc_alloc_dir_ok env lim ivsize req req_ctx,
      fun edesc caam_req hok hop =>
        ablkcipher_giv_unmap_in_build env lim ivsize req req_ctx edesc caam_req hok hop⟩
  · intro env ctx alg tmp req req_ctx encrypt b hna hb
    exact ⟨(tls_edesc_alloc_dir_ok env ctx alg tmp req req_ctx encrypt hna b hb).1,
      fun edesc caam_req hok hop =>
        tls_unmap_in_build env ctx alg tmp req req_ctx encrypt hna b hb edesc hok caam_req hop⟩


/-! ### The destination of the TLS builder -/

/-- The walk of `scatterwalk_ffwd` returns the list that starts `len` bytes
into the entries it walks. -/
theorem scatterwalk_ffwd_walk_spec (tmp : Nat) (lens : List Nat) :
    ∀ (ptr len : Nat) (r : scatterlist),
      scatterwalk_ffwd_walk tmp lens ptr len = some r →
      starts_bytes_into tmp ⟨ptr, lens⟩ len r := by
  induction lens with
  | nil =>
    intro ptr len r h
    by_cases h0 : len = 0
    · simp [scatterwalk_ffwd_walk, h0] at h
      subst h
      exact ⟨[], [], Or.inl ⟨rfl, by simp [h0], rfl⟩⟩
    · simp [scatterwalk_ffwd_walk, h0] at h
  | cons l rest ih =>
    intro ptr len r h
    by_cases h0 : len = 0
    · simp [scatterwalk_ffwd_walk, h0] at h
      subst h
      exact ⟨[], l :: rest, Or.inl ⟨rfl, by simp [h0], rfl⟩⟩
    · by_cases h1 : l > len
      · simp [scatterwalk_ffwd_walk, h0, h1] at h
        subst h
        exact ⟨[], rest, Or.inr ⟨l, rfl, by simp; omega, by simp; omega, by simp⟩⟩
      · simp [scatterwalk_ffwd_walk, h0, h1] at h
        obtain ⟨pre, rest2, hc⟩ := ih (ptr + 1) (len - l) r h
        rcases hc with ⟨e1, e2, e3⟩ | ⟨l2, e1, e2, e3, e4⟩
        · refine ⟨l :: pre, rest2, Or.inl ⟨?_, ?_, ?_⟩⟩
          · simp only at e1; simp [e1]
          · simp [e2]; omega
          · rw [e3]; simp; omega
        · refine ⟨l :: pre, rest2, Or.inr ⟨l2, ?_, ?_, ?_, ?_⟩⟩
          · simp only at e1; simp [e1]
          · simp; omega
          · simp; omega
          · rw [e4]; simp; omega

/-- The list that starts `n` bytes into `sg` holds the bytes of `sg` less
`n`. -/
theorem starts_bytes_into_sum (tmp : Nat) (sg : scatterlist) (n : Nat) (r : scatterlist)
    (h : starts_bytes_into tmp sg n r) : r.lens.sum + n = sg.lens.sum := by
  obtain ⟨pre, rest, hc⟩ := h
  rcases hc with ⟨e1, e2, e3⟩ | ⟨l, e1, e2, e3, e4⟩
  · rw [e1, e3]; simp; omega
  · rw [e1, e4]; simp; omega

/-- What the first part of the TLS builder maps and hands on as destination:
in place the list of the request, mapped once with `DMA_BIDIRECTIONAL`;
otherwise the list `scatterwalk_ffwd` returns, mapped with
`DMA_FROM_DEVICE`. -/
theorem tls_map_src_dst_dst (env : Env) (tmp : Nat) (req : aead_request)
    (req_ctx : caam_request) (encrypt : Bool) (authsize : Nat) (st : MappedBufs)
    (hok : tls_map_src_dst env tmp req req_ctx encrypt authsize = some (Except.ok st)) :
    (req.src = req.dst → st.dst = req.dst ∧
      mappings st.trace =
        [Resource.sg req.src st.src_nents dma_data_direction.DMA_BIDIRECTIONAL]) ∧
    (req.src ≠ req.dst → ∃ dst, scatterwalk_ffwd tmp req.dst req.assoclen = some dst ∧
      st.dst = dst ∧
      mappings st.trace =
        (if st.src_nents ≠ 0 then
          [Resource.sg req.src st.src_nents dma_data_direction.DMA_TO_DEVICE] else []) ++
        [Resource.sg dst st.dst_nents dma_data_direction.DMA_FROM_DEVICE]) := by
  by_cases h0 : env.qi_cache_zalloc
      (gfp_flags req.flags (CRYPTO_TFM_REQ_MAY_BACKLOG ||| CRYPTO_TFM_REQ_MAY_SLEEP)) = false
  · simp [tls_map_src_dst, h0] at hok
  by_cases h1 : req.src = req.dst
  · refine ⟨fun _ => ?_, fun h => absurd h1 h⟩
    cases hsn : sg_nents_for_len req.src (u32 (req.assoclen + req.cryptlen +
        (if encrypt then authsize else 0))) with
    | error e => simp [tls_map_src_dst, h0, if_pos h1, hsn] at hok
    | ok sn =>
      by_cases h2 : env.dma_map_sg req.src sn dma_data_direction.DMA_BIDIRECTIONAL = []
      · simp [tls_map_src_dst, h0, if_pos h1, hsn, h2] at hok
      · simp [tls_map_src_dst, h0, if_pos h1, hsn, h2] at hok
        subst hok
        simp [mappings, Event.mapped, h2]
  · refine ⟨fun h => absurd h h1, fun _ => ?_⟩
    cases hsn : sg_nents_for_len req.src (u32 (req.assoclen + req.cryptlen)) with
    | error e => simp [tls_map_src_dst, h0, h1, hsn] at hok
    | ok sn =>
      cases hf : scatterwalk_ffwd tmp req.dst req.assoclen with
      | none => simp [tls_map_src_dst, h0, h1, hsn, hf] at hok
      | some dst =>
        refine ⟨dst, rfl, ?_⟩
        cases hdn : sg_nents_for_len dst (u32 (req.cryptlen +
            (if encrypt then authsize else 0))) with
        | error e => simp [tls_map_src_dst, h0, h1, hsn, hf, hdn] at hok
        | ok dn =>
          by_cases hz : sn = 0 <;>
          by_cases h2 : env.dma_map_sg req.src sn dma_data_direction.DMA_TO_DEVICE = [] <;>
          by_cases h3 : env.dma_map_sg dst dn dma_data_direction.DMA_FROM_DEVICE = [] <;>
          simp [tls_map_src_dst, h0, h1, hsn, hf, hdn, hz, h2, h3] at hok <;>
          subst hok <;>
          simp [mappings, Event.mapped, hz, h2, h3]

/-- C21, as stated, fails: the in-place TLS record of 13 header bytes and 64
payload bytes over the entries `13, 64, 32`. The builder maps the list of the
request once, from its first byte, and records that list in the descriptor;
the list that starts 13 bytes into the destination is another one (the
entries `64, 32`). -/
theorem tls_edesc_alloc_in_place_dst_from_start :
    aead_request.tls_record.src = aead_request.tls_record.dst ∧
    aead_request.tls_record.assoclen = 13 ∧
    (tls_edesc_alloc Env.good caam_ctx.example caam_aead_alg.tls10_sha1_cbc_aes 7
      aead_request.tls_record caam_request.zero true).map
      (fun b => (b.ret.toOption.map (fun edesc => edesc.dst), mappings b.trace)) =
      some (some ⟨1, [13, 64, 32]⟩,
        [Resource.sg ⟨1, [13, 64, 32]⟩ 3 dma_data_direction.DMA_BIDIRECTIONAL,
         Resource.single 4096 16 dma_data_direction.DMA_TO_DEVICE,
         Resource.single 16384 64 dma_data_direction.DMA_TO_DEVICE]) ∧
    scatterwalk_ffwd 7 aead_request.tls_record.dst 13 = some ⟨2, [64, 32]⟩ ∧
    ¬ starts_bytes_into 7 aead_request.tls_record.dst 13 ⟨1, [13, 64, 32]⟩ := by
  refine ⟨rfl, rfl, rfl, rfl, ?_⟩
  intro h
  have := starts_bytes_into_sum _ _ _ _ h
  simp [aead_request.tls_record] at this

/-- C21, amended: for every TLS-record request on which `tls_edesc_alloc`
succeeds. With distinct buffers the list the builder records in the
descriptor is the one `scatterwalk_ffwd` returns for `assoclen` bytes: it
starts `assoclen` bytes into the destination of the request (it holds the
bytes of the destination less `assoclen`), and it is the list the builder
maps with `DMA_FROM_DEVICE`. In place the list the builder records is the list
of the request itself, from its first byte, and the only scatter list it maps
is that list, `DMA_BIDIRECTIONAL`. -/
theorem tls_edesc_alloc_destination (env : Env) (ctx : caam_ctx) (alg : caam_aead_alg)
    (tmp : Nat) (req : aead_request) (req_ctx : caam_request) (encrypt : Bool)
    (b : Built tls_edesc) (edesc : tls_edesc)
    (hb : tls_edesc_alloc env ctx alg tmp req req_ctx encrypt = some b)
    (hok : b.ret = Except.ok edesc) :
    (req.src ≠ req.dst →
      ∃ dst, scatterwalk_ffwd tmp req.dst req.assoclen = some dst ∧ edesc.dst = dst ∧
        starts_bytes_into tmp req.dst req.assoclen dst ∧
        dst.lens.sum + req.assoclen = req.dst.lens.sum ∧
        Resource.sg dst edesc.dst_nents dma_data_direction.DMA_FROM_DEVICE ∈
          mappings b.trace) ∧
    (req.src = req.dst →
      edesc.dst = req.dst ∧
      Resource.sg req.dst edesc.src_nents dma_data_direction.DMA_BIDIRECTIONAL ∈
        mappings b.trace ∧
      ∀ sg n d, Resource.sg sg n d ∈ mappings b.trace →
        sg = req.dst ∧ d = dma_data_direction.DMA_BIDIRECTIONAL) := by
  unfold tls_edesc_alloc at hb
  split_ifs at hb
  cases hst : tls_map_src_dst env tmp req req_ctx encrypt
      (tls_authsize ctx alg.cra_blocksize req encrypt) with
  | none => rw [hst] at hb; simp at hb
  | some r =>
    rw [hst] at hb
    cases r with
    | error b1 =>
      simp only [Option.some.injEq] at hb
      subst hb
      obtain ⟨e1, he1⟩ := tls_map_src_dst_error env tmp req req_ctx encrypt _ _ hst
      rw [he1] at hok
      simp at hok
    | ok st =>
      simp only [Option.some.injEq] at hb
      subst hb
      obtain ⟨_, _, e1, e2, _, _, _, e6, htr⟩ :=
        tls_edesc_alloc_table_ok env alg req req_ctx encrypt _ st edesc hok
      obtain ⟨hin, hdis⟩ := tls_map_src_dst_dst env tmp req req_ctx encrypt _ st hst
      rw [htr, e1, e2, e6]
      refine ⟨fun hne => ?_, fun heq => ?_⟩
      · obtain ⟨dst, hf, hd, hm⟩ := hdis hne
        have hs : starts_bytes_into tmp req.dst req.assoclen dst :=
          scatterwalk_ffwd_walk_spec tmp req.dst.lens req.dst.ptr req.assoclen dst hf
        refine ⟨dst, hf, hd, hs, starts_bytes_into_sum _ _ _ _ hs, ?_⟩
        rw [mappings_append, hm]
        simp
      · obtain ⟨hd, hm⟩ := hin heq
        refine ⟨hd, ?_, ?_⟩
        · rw [mappings_append, hm, heq]
          simp
        · intro sg n d hmem
          rw [mappings_append, hm] at hmem
          simp [mappings, Event.mapped] at hmem
          exact ⟨hmem.1.trans heq, hmem.2.2⟩

/-- Witness of C21: the record with distinct buffers whose header ends 13
bytes into a destination entry of 20 bytes; the recorded destination is the
table `tmp` with the remaining 7 bytes of that entry first. -/
theorem tls_edesc_alloc_destination_witness :
    ∃ b edesc,
      tls_edesc_alloc Env.good caam_ctx.example caam_aead_alg.tls10_sha1_cbc_aes 7
        aead_request.tls_distinct caam_request.zero true = some b ∧
      b.ret = Except.ok edesc ∧ edesc.dst = ⟨7, [7, 100]⟩ ∧
      ∃ dst, edesc.dst = dst ∧
        starts_bytes_into 7 aead_request.tls_distinct.dst 13 dst :=
  ⟨_, _, rfl, rfl, rfl,
    let ⟨dst, _, h2, h3, _⟩ := (tls_edesc_alloc_destination Env.good caam_ctx.example
      caam_aead_alg.tls10_sha1_cbc_aes 7 aead_request.tls_distinct caam_request.zero true
      _ _ rfl rfl).1 (by decide)
    ⟨dst, h2, h3⟩⟩


/-! ### Frame lists of the block cipher builders -/

/-- A successful `ablkcipher_edesc_alloc` went through its table part. -/
theorem ablkcipher_edesc_alloc_ok (env : Env) (lim : Limits) (ivsize : Nat)
    (req : ablkcipher_request) (req_ctx : caam_request) (encrypt : Bool)
    (edesc : ablkcipher_edesc)
    (hok : (ablkcipher_edesc_alloc env lim ivsize req req_ctx encrypt).ret = Except.ok edesc) :
    ∃ st, ablkcipher_map_src_dst env req req_ctx false = Except.ok st ∧
      ablkcipher_edesc_alloc env lim ivsize req req_ctx encrypt =
        ablkcipher_edesc_alloc_table env lim ivsize req req_ctx encrypt st := by
  unfold ablkcipher_edesc_alloc at hok ⊢
  cases hst : ablkcipher_map_src_dst env req req_ctx false with
  | error b =>
    rw [hst] at hok
    obtain ⟨e, he⟩ := ablkcipher_map_src_dst_error env req req_ctx false b hst
    simp only at hok
    rw [he] at hok
    simp at hok
  | ok st => exact ⟨st, rfl, rfl⟩

/-- A successful `ablkcipher_giv_edesc_alloc` went through its table part. -/
theorem ablkcipher_giv_edesc_alloc_ok (env : Env) (lim : Limits) (ivsize : Nat)
    (req : ablkcipher_request) (req_ctx : caam_request) (edesc : ablkcipher_edesc)
    (hok : (ablkcipher_giv_edesc_alloc env lim ivsize req req_ctx).ret = Except.ok edesc) :
    ∃ st, ablkcipher_map_src_dst env req req_ctx true = Except.ok st ∧
      ablkcipher_giv_edesc_alloc env lim ivsize req req_ctx =
        ablkcipher_giv_edesc_alloc_table env lim ivsize req req_ctx st := by
  unfold ablkcipher_giv_edesc_alloc at hok ⊢
  cases hst : ablkcipher_map_src_dst env req req_ctx true with
  | error b =>
    rw [hst] at hok
    obtain ⟨e, he⟩ := ablkcipher_map_src_dst_error env req req_ctx true b hst
    simp only at hok
    rw [he] at hok
    simp at hok
  | ok st => exact ⟨st, rfl, rfl⟩

/-- The frame list and the table of a successful `ablkcipher_edesc_alloc`. -/
theorem ablkcipher_edesc_alloc_table_req_ctx (env : Env) (lim : Limits) (ivsize : Nat)
    (req : ablkcipher_request) (req_ctx : caam_request) (encrypt : Bool) (st : MappedBufs)
    (edesc : ablkcipher_edesc)
    (hok : (ablkcipher_edesc_alloc_table env lim ivsize req req_ctx encrypt st).ret
      = Except.ok edesc) :
    (ablkcipher_edesc_alloc_table env lim ivsize req req_ctx encrypt st).req_ctx.fd_flt0 =
      ablkcipher_out_fle req edesc.iv_dma ivsize edesc.qm_sg_dma st.mapped_src st.mapped_dst ∧
    (ablkcipher_edesc_alloc_table env lim ivsize req req_ctx encrypt st).req_ctx.fd_flt1 =
      ablkcipher_in_fle req edesc.iv_dma ivsize edesc.qm_sg_dma st.mapped_src ∧
    edesc.sgt = ablkcipher_sg_table edesc.iv_dma ivsize st.mapped_src st.mapped_dst ∧
    edesc.qm_sg_bytes =
      ablkcipher_qm_sg_ents edesc.iv_dma ivsize st.mapped_src st.mapped_dst * SG_ENTRY_SIZE := by
  unfold ablkcipher_edesc_alloc_table at hok ⊢
  simp only at hok ⊢
  split_ifs at hok ⊢
  simp only [Except.ok.injEq] at hok
  subst hok
  exact ⟨rfl, rfl, rfl, rfl⟩

/-- The frame list and the table of a successful
`ablkcipher_giv_edesc_alloc`. -/
theorem ablkcipher_giv_edesc_alloc_table_req_ctx (env : Env) (lim : Limits) (ivsize : Nat)
    (req : ablkcipher_request) (req_ctx : caam_request) (st : MappedBufs)
    (edesc : ablkcipher_edesc)
    (hok : (ablkcipher_giv_edesc_alloc_table env lim ivsize req req_ctx st).ret
      = Except.ok edesc) :
    (ablkcipher_giv_edesc_alloc_table env lim ivsize req req_ctx st).req_ctx.fd_flt0 =
      giv_out_fle req edesc.iv_dma ivsize edesc.qm_sg_dma st.mapped_dst_nents st.mapped_src
        st.mapped_dst ∧
    (ablkcipher_giv_edesc_alloc_table env lim ivsize req req_ctx st).req_ctx.fd_flt1 =
      giv_in_fle req edesc.qm_sg_dma st.mapped_src ∧
    edesc.sgt = giv_sg_table edesc.iv_dma ivsize st.mapped_dst_nents st.mapped_src
      st.mapped_dst := by
  unfold ablkcipher_giv_edesc_alloc_table at hok ⊢
  simp only at hok ⊢
  split_ifs at hok ⊢
  simp only [Except.ok.injEq] at hok
  subst hok
  exact ⟨rfl, rfl, rfl⟩

/-- C22 at its failing input: an in-place request over one 64-byte segment
that is mapped right behind the 16-byte generated-IV buffer (`iv_dma = 0x2000`,
segment at `0x2010`). The output frame entry is a single-buffer reference of
length `ivsize + nbytes = 80`, but its address is that of the segment: the
range is `[0x2010, 0x2060)`, not `[0x2000, 0x2050)`; it leaves out the IV and
runs 16 bytes past the segment. In general, on the contiguous path the address
is `sg_dma_address(req->dst) = iv_dma + ivsize` and the length
`ivsize + nbytes`. Off the contiguous path the output is a table reference at
index `dst_sg_idx`, where the IV entry is followed by the destination
segments. The sibling fast path of `ablkcipher_edesc_alloc` references its
contiguous input at `iv_dma`. -/
theorem ablkcipher_giv_edesc_alloc_contig_output_skips_iv :
    (ablkcipher_giv_edesc_alloc Env.giv_contig Limits.example 16
      ablkcipher_request.in_place1 caam_request.zero).ret =
      Except.ok ⟨1, 1, 0x2000, 0, 0x4000, []⟩ ∧
    (ablkcipher_giv_edesc_alloc Env.giv_contig Limits.example 16
      ablkcipher_request.in_place1 caam_request.zero).req_ctx.fd_flt0 =
      ⟨0x2010, 80, dpaa2_fl_format.dpaa2_fl_single, false, 0⟩ ∧
    (∀ (env : Env) (lim : Limits) (ivsize : Nat) (req : ablkcipher_request)
        (req_ctx : caam_request) (edesc : ablkcipher_edesc) (st : MappedBufs),
      (ablkcipher_giv_edesc_alloc env lim ivsize req req_ctx).ret = Except.ok edesc →
      ablkcipher_map_src_dst env req req_ctx true = Except.ok st →
      (giv_out_contig edesc.iv_dma ivsize st.mapped_dst_nents st.mapped_dst = true →
        (ablkcipher_giv_edesc_alloc env lim ivsize req req_ctx).req_ctx.fd_flt0 =
          ⟨u64 (edesc.iv_dma + ivsize), u32 (ivsize + req.nbytes),
            dpaa2_fl_format.dpaa2_fl_single, false, 0⟩) ∧
      (giv_out_contig edesc.iv_dma ivsize st.mapped_dst_nents st.mapped_dst = false →
        (ablkcipher_giv_edesc_alloc env lim ivsize req req_ctx).req_ctx.fd_flt0 =
          ⟨u64 (edesc.qm_sg_dma + giv_dst_sg_idx st.mapped_src * SG_ENTRY_SIZE),
            u32 (ivsize + req.nbytes), dpaa2_fl_format.dpaa2_fl_sg, false, 0⟩)) ∧
    (ablkcipher_giv_edesc_alloc Env.good Limits.example 16
      ⟨0, 64, ⟨1, [64]⟩, ⟨2, [32, 32]⟩⟩ caam_request.zero).ret =
      Except.ok ⟨1, 2, 0x2000, 48, 0x4000,
        [⟨0x2000, 16, false, 0⟩, ⟨0x20000, 32, false, 0⟩, ⟨0x20100, 32, true, 0⟩]⟩ ∧
    (ablkcipher_giv_edesc_alloc Env.good Limits.example 16
      ⟨0, 64, ⟨1, [64]⟩, ⟨2, [32, 32]⟩⟩ caam_request.zero).req_ctx.fd_flt0 =
      ⟨0x4000, 80, dpaa2_fl_format.dpaa2_fl_sg, false, 0⟩ ∧
    (ablkcipher_edesc_alloc Env.contig Limits.example 16 ablkcipher_request.in_place1
      caam_request.zero true).req_ctx.fd_flt1 =
      ⟨0x1000, 80, dpaa2_fl_format.dpaa2_fl_single, true, 0⟩ := by
  refine ⟨rfl, rfl, ?_, rfl, rfl, rfl⟩
  intro env lim ivsize req req_ctx edesc st hok hst
  obtain ⟨st2, hst2, heq⟩ := ablkcipher_giv_edesc_alloc_ok env lim ivsize req req_ctx edesc hok
  rw [hst] at hst2
  cases hst2
  rw [heq] at hok ⊢
  obtain ⟨h0, _, _⟩ :=
    ablkcipher_giv_edesc_alloc_table_req_ctx env lim ivsize req req_ctx st edesc hok
  rw [h0]
  refine ⟨fun hc => ?_, fun hc => ?_⟩
  · have hc2 := hc
    simp only [giv_out_contig, Bool.and_eq_true, decide_eq_true_eq] at hc2
    simp only [giv_out_fle, hc, if_true, hc2.2]
  · simp only [giv_out_fle, hc, Bool.false_eq_true, if_false]


/-- Writing mapped segments into an empty table gives one entry per segment,
in order. -/
theorem sg_to_qm_sg_last_proj_nil (L : List sg_seg) (off : Nat) (hL : L ≠ []) :
    (sg_to_qm_sg_last L L.length [] 0 off).map (fun e => (e.addr, e.len)) =
      L.map (fun s => (s.dma_address, s.dma_len)) := by
  have hpos : 0 < L.length := List.length_pos.mpr hL
  have h := sg_to_qm_sg_append L [] off
  simp only [List.length_nil, List.nil_append, Nat.zero_add] at h
  unfold sg_to_qm_sg_last
  simp only [h]
  rw [if_neg (by omega)]
  rw [table_set_final_proj _ _ (by simp; omega)]
  simp [Function.comp_def]

/-- The table the block cipher builder writes: off the contiguous path the IV
and the source segments; then the destination segments iff there are more than
one. -/
theorem ablkcipher_sg_table_proj (iv_dma ivsize : Nat) (ms md : List sg_seg) :
    (ablkcipher_sg_table iv_dma ivsize ms md).map (fun e => (e.addr, e.len)) =
      (if ablkcipher_in_contig iv_dma ivsize ms then []
       else (iv_dma, ivsize) :: ms.map (fun s => (s.dma_address, s.dma_len))) ++
      (if md.length > 1 then md.map (fun s => (s.dma_address, s.dma_len)) else []) := by
  have h0 : dma_to_qm_sg_one [] 0 iv_dma ivsize 0 = [⟨iv_dma, ivsize, false, 0⟩] := by
    simp [dma_to_qm_sg_one, table_set]
  unfold ablkcipher_sg_table ablkcipher_dst_sg_idx
  simp only [h0]
  by_cases hc : ablkcipher_in_contig iv_dma ivsize ms = true
  · simp only [hc, if_true]
    split_ifs with hmd
    · rw [sg_to_qm_sg_last_proj_nil md 0 (by intro h; rw [h] at hmd; simp at hmd)]
      simp
    · simp
  · simp only [hc, Bool.false_eq_true, if_false]
    have e1 := sg_to_qm_sg_last_proj ms [⟨iv_dma, ivsize, false, 0⟩] 0 (by simp)
    simp only [List.length_singleton] at e1
    split_ifs with hmd
    · have hlen : 1 + ms.length =
          (sg_to_qm_sg_last ms ms.length [⟨iv_dma, ivsize, false, 0⟩] 1 0).length := by
        have := congrArg List.length e1
        simp at this
        omega
      rw [hlen, sg_to_qm_sg_last_proj md _ 0 (by
        intro hnil
        rw [hnil] at hlen
        simp at hlen), e1]
      simp
    · rw [e1]
      simp

/-- C23, as stated, fails: the in-place request over one segment of
`2^32 - 16` bytes that is mapped right behind the 16-byte IV. The builder
succeeds on the contiguous path and the input frame entry has length `0`, not
`ivsize + nbytes = 2^32`: the sum is taken in `unsigned int`. -/
theorem ablkcipher_edesc_alloc_contig_in_len_wraps :
    (ablkcipher_edesc_alloc Env.contig Limits.example 16 ablkcipher_request.in_place_huge
      caam_request.zero true).ret = Except.ok ⟨1, 0, 0x1000, 0, 0x4000, []⟩ ∧
    (ablkcipher_edesc_alloc Env.contig Limits.example 16 ablkcipher_request.in_place_huge
      caam_request.zero true).req_ctx.fd_flt1 =
      ⟨0x1000, 0, dpaa2_fl_format.dpaa2_fl_single, true, 0⟩ ∧
    16 + ablkcipher_request.in_place_huge.nbytes = 4294967296 := by
  refine ⟨rfl, rfl, rfl⟩

/-- C23, amended: for every block-cipher request on which
`ablkcipher_edesc_alloc` succeeds, with `st.mapped_src` and `st.mapped_dst`
the mapped source and destination segments (no destination segments in place).
The contiguous fast path is taken exactly when the source maps to one segment
and `iv_dma + ivsize` is the bus address of that segment. On it the input
frame entry is a single-buffer reference at `iv_dma`, and the table holds the
destination segments only, iff there are more than one: `mapped_dst` entries
if `mapped_dst > 1`, else none. Off it the input frame entry is a table
reference at the bus address of the table, whose first `1 + mapped_src`
entries are the IV and the source segments. In both cases the input entry has
the final flag and the length `ivsize + nbytes` reduced modulo `2^32`, which
is `ivsize + nbytes` when that is below `2^32`, and the output length is
`nbytes`. -/
theorem ablkcipher_edesc_alloc_fast_path (env : Env) (lim : Limits) (ivsize : Nat)
    (req : ablkcipher_request) (req_ctx : caam_request) (encrypt : Bool)
    (edesc : ablkcipher_edesc) (st : MappedBufs)
    (hok : (ablkcipher_edesc_alloc env lim ivsize req req_ctx encrypt).ret = Except.ok edesc)
    (hst : ablkcipher_map_src_dst env req req_ctx false = Except.ok st) :
    (ablkcipher_in_contig edesc.iv_dma ivsize st.mapped_src = true ↔
      st.mapped_src.length = 1 ∧
        u64 (edesc.iv_dma + ivsize) = sg_dma_address st.mapped_src) ∧
    (ablkcipher_in_contig edesc.iv_dma ivsize st.mapped_src = true →
      (ablkcipher_edesc_alloc env lim ivsize req req_ctx encrypt).req_ctx.fd_flt1 =
        ⟨edesc.iv_dma, (ivsize + req.nbytes) % 4294967296,
          dpaa2_fl_format.dpaa2_fl_single, true, 0⟩ ∧
      edesc.sgt.map (fun e => (e.addr, e.len)) =
        (if st.mapped_dst.length > 1 then
          st.mapped_dst.map (fun s => (s.dma_address, s.dma_len)) else []) ∧
      edesc.qm_sg_bytes =
        (if st.mapped_dst.length > 1 then st.mapped_dst.length else 0) * SG_ENTRY_SIZE) ∧
    (ablkcipher_in_contig edesc.iv_dma ivsize st.mapped_src = false →
      (ablkcipher_edesc_alloc env lim ivsize req req_ctx encrypt).req_ctx.fd_flt1 =
        ⟨edesc.qm_sg_dma, (ivsize + req.nbytes) % 4294967296,
          dpaa2_fl_format.dpaa2_fl_sg, true, 0⟩ ∧
      (edesc.sgt.map (fun e => (e.addr, e.len))).take (1 + st.mapped_src.length) =
        (edesc.iv_dma, ivsize) :: st.mapped_src.map (fun s => (s.dma_address, s.dma_len)) ∧
      edesc.qm_sg_bytes =
        (1 + st.mapped_src.length +
          (if st.mapped_dst.length > 1 then st.mapped_dst.length else 0)) * SG_ENTRY_SIZE) ∧
    (ivsize + req.nbytes < 4294967296 →
      (ablkcipher_edesc_alloc env lim ivsize req req_ctx encrypt).req_ctx.fd_flt1.len =
        ivsize + req.nbytes) ∧
    (ablkcipher_edesc_alloc env lim ivsize req req_ctx encrypt).req_ctx.fd_flt0.len =
      req.nbytes := by
  obtain ⟨st2, hst2, heq⟩ :=
    ablkcipher_edesc_alloc_ok env lim ivsize req req_ctx encrypt edesc hok
  rw [hst] at hst2
  cases hst2
  rw [heq] at hok ⊢
  obtain ⟨h0, h1, hsgt, hbytes⟩ :=
    ablkcipher_edesc_alloc_table_req_ctx env lim ivsize req req_ctx encrypt st edesc hok
  have hproj := ablkcipher_sg_table_proj edesc.iv_dma ivsize st.mapped_src st.mapped_dst
  rw [h0, h1, hsgt, hbytes]
  refine ⟨?_, fun hc => ?_, fun hc => ?_, fun hlt => ?_, ?_⟩
  · simp [ablkcipher_in_contig]
  · refine ⟨?_, ?_, ?_⟩
    · simp [ablkcipher_in_fle, hc, u32, Nat.add_comm]
    · rw [hproj]
      simp [hc]
    · simp [ablkcipher_qm_sg_ents, ablkcipher_dst_sg_idx, hc]
  · refine ⟨?_, ?_, ?_⟩
    · simp [ablkcipher_in_fle, hc, u32, Nat.add_comm]
    · rw [hproj]
      simp only [hc, Bool.false_eq_true, if_false]
      rw [List.take_append_of_le_length (by simp; omega)]
      rw [List.take_of_length_le (by simp; omega)]
    · simp [ablkcipher_qm_sg_ents, ablkcipher_dst_sg_idx, hc]
  · unfold ablkcipher_in_fle
    split_ifs <;> simp [u32, Nat.add_comm, Nat.mod_eq_of_lt hlt]
  · unfold ablkcipher_out_fle
    split_ifs <;> rfl

/-- Witness of C23: the in-place request over one 64-byte segment mapped right
behind the IV takes the fast path; its input entry is the single buffer of
`16 + 64` bytes at `iv_dma` and its table is empty. -/
theorem ablkcipher_edesc_alloc_fast_path_witness :
    (ablkcipher_edesc_alloc Env.contig Limits.example 16 ablkcipher_request.in_place1
      caam_request.zero true).ret = Except.ok ⟨1, 0, 0x1000, 0, 0x4000, []⟩ ∧
    (ablkcipher_edesc_alloc Env.contig Limits.example 16 ablkcipher_request.in_place1
      caam_request.zero true).req_ctx.fd_flt1.len = 16 + 64 ∧
    (ablkcipher_edesc_alloc Env.contig Limits.example 16 ablkcipher_request.in_place1
      caam_request.zero true).req_ctx.fd_flt0.len = 64 :=
  ⟨rfl,
    (ablkcipher_edesc_alloc_fast_path Env.contig Limits.example 16
      ablkcipher_request.in_place1 caam_request.zero true _ _ rfl rfl).2.2.2.1 (by decide),
    (ablkcipher_edesc_alloc_fast_path Env.contig Limits.example 16
      ablkcipher_request.in_place1 caam_request.zero true _ _ rfl rfl).2.2.2.2⟩


/-- C24: for every sequence of store answers `pre ++ (x, true) :: rest` in
which no answer of `pre` is flagged last, `dpaa2_caam_store_consume` returns,
and it stops at the answer flagged last and nowhere before it (an empty answer
that is not last does not end the loop): the answers left are exactly `rest`.
It has run `dpaa2_caam_process_fd` on every valid entry up to and including
that answer, once each and in order, and nothing else; the count it returns
is the count it started from (`0` in the code) plus the number of these
entries. -/
theorem dpaa2_caam_store_consume_until_last (iova_to_virt : Nat → caam_request)
    (pre rest : List (Option dpaa2_dq × Bool)) (x : Option dpaa2_dq) (cleaned : Nat)
    (hpre : ∀ a ∈ pre, a.2 = false) :
    dpaa2_caam_store_consume iova_to_virt (pre ++ (x, true) :: rest) cleaned =
      some (cleaned + ((pre ++ [(x, true)]).filterMap Prod.fst).length, rest,
        (((pre ++ [(x, true)]).filterMap Prod.fst).map
          (dpaa2_caam_process_fd iova_to_virt)).flatten) := by
  induction pre generalizing cleaned with
  | nil =>
    cases x with
    | none => simp [dpaa2_caam_store_consume]
    | some dq => simp [dpaa2_caam_store_consume]
  | cons a pre ih =>
    obtain ⟨dq, is_last⟩ := a
    have hl : is_last = false := hpre (dq, is_last) (by simp)
    have hpre2 : ∀ a ∈ pre, a.2 = false := fun a ha => hpre a (by simp [ha])
    subst hl
    cases dq with
    | none =>
      rw [List.cons_append]
      simp only [dpaa2_caam_store_consume, Bool.false_eq_true, if_false]
      rw [ih cleaned hpre2]
      simp
    | some d =>
      rw [List.cons_append]
      simp only [dpaa2_caam_store_consume, Bool.false_eq_true, if_false]
      rw [ih (cleaned + 1) hpre2]
      simp
      omega

/-- Witness of C24: two empty answers that are not last, a frame, and an empty
answer flagged last, followed by an answer that is left in the store. -/
theorem dpaa2_caam_store_consume_until_last_witness :
    dpaa2_caam_store_consume (fun _ => caam_request.in_flight)
      [(none, false), (none, false), (some (dpaa2_dq.list_fd 7 0), false), (none, true),
       (some (dpaa2_dq.list_fd 8 0), true)] 0 =
      some (1, [(some (dpaa2_dq.list_fd 8 0), true)],
        [Event.unmap_single 0x5000 FD_FLT_SIZE dma_data_direction.DMA_BIDIRECTIONAL,
         Event.cbk cbk_fn.aead_encrypt_done 7]) :=
  dpaa2_caam_store_consume_until_last (fun _ => caam_request.in_flight)
    [(none, false), (none, false), (some (dpaa2_dq.list_fd 7 0), false)]
    [(some (dpaa2_dq.list_fd 8 0), true)] none 0 (by decide)


/-- C25 at its failing inputs, for a fresh GCM session with tag length 16 and
a 16-byte key. One installation followed by the release is balanced: the key
and both flow contexts are mapped once and unmapped once. Two installations
followed by the release are not: the second installation maps the key and
both flow contexts again without unmapping the first mappings, and the release
unmaps each address once; every mapping is left mapped once. An installation
whose rebuild fails (the decryption flow context cannot be mapped) unmaps the
key and leaves `ctx->key_dma` set: the release unmaps the key a second time,
and it also unmaps the decryption flow context, whose mapping had failed. -/
theorem setkey_release_unbalanced :
    (gcm_setkey DescEnv.example Env.flc_apart caam_aead_alg.gcm_aes caam_ctx.fresh
      (List.replicate 16 9) 16).ret = 0 ∧
    mappings
      ((gcm_setkey DescEnv.example Env.flc_apart caam_aead_alg.gcm_aes caam_ctx.fresh
        (List.replicate 16 9) 16).trace ++
       caam_exit_common (gcm_setkey DescEnv.example Env.flc_apart caam_aead_alg.gcm_aes
        caam_ctx.fresh (List.replicate 16 9) 16).ctx) =
      [Resource.single 0x6000 16 dma_data_direction.DMA_TO_DEVICE,
       Resource.single 0x7000 76 dma_data_direction.DMA_TO_DEVICE,
       Resource.single 0x8000 76 dma_data_direction.DMA_TO_DEVICE] ∧
    unmappings
      ((gcm_setkey DescEnv.example Env.flc_apart caam_aead_alg.gcm_aes caam_ctx.fresh
        (List.replicate 16 9) 16).trace ++
       caam_exit_common (gcm_setkey DescEnv.example Env.flc_apart caam_aead_alg.gcm_aes
        caam_ctx.fresh (List.replicate 16 9) 16).ctx) =
      [Resource.single 0x7000 76 dma_data_direction.DMA_TO_DEVICE,
       Resource.single 0x8000 76 dma_data_direction.DMA_TO_DEVICE,
       Resource.single 0x6000 16 dma_data_direction.DMA_TO_DEVICE] ∧
    (gcm_setkey DescEnv.example Env.flc_apart caam_aead_alg.gcm_aes
      (gcm_setkey DescEnv.example Env.flc_apart caam_aead_alg.gcm_aes caam_ctx.fresh
        (List.replicate 16 9) 16).ctx (List.replicate 16 9) 16).ret = 0 ∧
    mappings
      ((gcm_setkey DescEnv.example Env.flc_apart caam_aead_alg.gcm_aes caam_ctx.fresh
        (List.replicate 16 9) 16).trace ++
       (gcm_setkey DescEnv.example Env.flc_apart caam_aead_alg.gcm_aes
        (gcm_setkey DescEnv.example Env.flc_apart caam_aead_alg.gcm_aes caam_ctx.fresh
          (List.replicate 16 9) 16).ctx (List.replicate 16 9) 16).trace ++
       caam_exit_common (gcm_setkey DescEnv.example Env.flc_apart caam_aead_alg.gcm_aes
        (gcm_setkey DescEnv.example Env.flc_apart caam_aead_alg.gcm_aes caam_ctx.fresh
          (List.replicate 16 9) 16).ctx (List.replicate 16 9) 16).ctx) =
      [Resource.single 0x6000 16 dma_data_direction.DMA_TO_DEVICE,
       Resource.single 0x7000 76 dma_data_direction.DMA_TO_DEVICE,
       Resource.single 0x8000 76 dma_data_direction.DMA_TO_DEVICE,
       Resource.single 0x6000 16 dma_data_direction.DMA_TO_DEVICE,
       Resource.single 0x7000 76 dma_data_direction.DMA_TO_DEVICE,
       Resource.single 0x8000 76 dma_data_direction.DMA_TO_DEVICE] ∧
    unmappings
      ((gcm_setkey DescEnv.example Env.flc_apart caam_aead_alg.gcm_aes caam_ctx.fresh
        (List.replicate 16 9) 16).trace ++
       (gcm_setkey DescEnv.example Env.flc_apart caam_aead_alg.gcm_aes
        (gcm_setkey DescEnv.example Env.flc_apart caam_aead_alg.gcm_aes caam_ctx.fresh
          (List.replicate 16 9) 16).ctx (List.replicate 16 9) 16).trace ++
       caam_exit_common (gcm_setkey DescEnv.example Env.flc_apart caam_aead_alg.gcm_aes
        (gcm_setkey DescEnv.example Env.flc_apart caam_aead_alg.gcm_aes caam_ctx.fresh
          (List.replicate 16 9) 16).ctx (List.replicate 16 9) 16).ctx) =
      [Resource.single 0x7000 76 dma_data_direction.DMA_TO_DEVICE,
       Resource.single 0x8000 76 dma_data_direction.DMA_TO_DEVICE,
       Resource.single 0x6000 16 dma_data_direction.DMA_TO_DEVICE] ∧
    (gcm_setkey DescEnv.example Env.no_flc_decrypt caam_aead_alg.gcm_aes caam_ctx.fresh
      (List.replicate 16 9) 16).ret = -ENOMEM ∧
    mappings
      ((gcm_setkey DescEnv.example Env.no_flc_decrypt caam_aead_alg.gcm_aes caam_ctx.fresh
        (List.replicate 16 9) 16).trace ++
       caam_exit_common (gcm_setkey DescEnv.example Env.no_flc_decrypt caam_aead_alg.gcm_aes
        caam_ctx.fresh (List.replicate 16 9) 16).ctx) =
      [Resource.single 0x6000 16 dma_data_direction.DMA_TO_DEVICE,
       Resource.single 0x7000 76 dma_data_direction.DMA_TO_DEVICE] ∧
    unmappings
      ((gcm_setkey DescEnv.example Env.no_flc_decrypt caam_aead_alg.gcm_aes caam_ctx.fresh
        (List.replicate 16 9) 16).trace ++
       caam_exit_common (gcm_setkey DescEnv.example Env.no_flc_decrypt caam_aead_alg.gcm_aes
        caam_ctx.fresh (List.replicate 16 9) 16).ctx) =
      [Resource.single 0x6000 16 dma_data_direction.DMA_TO_DEVICE,
       Resource.single 0x7000 76 dma_data_direction.DMA_TO_DEVICE,
       Resource.single 0x8000 76 dma_data_direction.DMA_TO_DEVICE,
       Resource.single 0x6000 16 dma_data_direction.DMA_TO_DEVICE] := by
  refine ⟨rfl, rfl, rfl, rfl, rfl, rfl, rfl, rfl, rfl⟩


/-- C26 at its failing input: a session whose keys both fit inline in the TLS
encryption program (the inline-fit query returns the mask 3). When
`cnstr_shdsc_tls_decap` is called both `key_inline` flags are still `true`:
the program it writes here is `1, 1`. In general the decryption constructor is
called with the keys given by bus address (`key_dma` and
`key_dma + keylen_pad`) and with the `key_inline` flags of the inline mask,
`adata.key_inline = !!(inl_mask & 1)` and `cdata.key_inline = !!(inl_mask & 2)`:
`tls_set_sh_desc` sets the two addresses before the call and leaves the flags
as they were set for `cnstr_shdsc_tls_encap`. -/
theorem tls_set_sh_desc_decap_key_inline :
    (DescEnv.show_inline.desc_inline_query [desc_len_id.DESC_TLS10_ENC_LEN]
      [caam_ctx.keyed.adata.keylen_pad, caam_ctx.keyed.cdata.keylen]) = (0, 3) ∧
    (tls_set_sh_desc DescEnv.show_inline Env.good caam_aead_alg.tls10_sha1_cbc_aes
      caam_ctx.keyed).ret = 0 ∧
    ((tls_set_sh_desc DescEnv.show_inline Env.good caam_aead_alg.tls10_sha1_cbc_aes
      caam_ctx.keyed).ctx.flc optype.DECRYPT).sh_desc = [1, 1] ∧
    (tls_set_sh_desc DescEnv.show_inline Env.good caam_aead_alg.tls10_sha1_cbc_aes
      caam_ctx.keyed).ctx.adata = ⟨0x410000, 20, 32, alginfo_key.key_dma 0x6000, true⟩ ∧
    (tls_set_sh_desc DescEnv.show_inline Env.good caam_aead_alg.tls10_sha1_cbc_aes
      caam_ctx.keyed).ctx.cdata = ⟨0x100100, 16, 16, alginfo_key.key_dma 0x6020, true⟩ ∧
    (∀ (denv : DescEnv) (env : Env) (alg : caam_aead_alg) (ctx : caam_ctx),
      ctx.cdata.keylen ≠ 0 → ctx.authsize ≠ 0 →
      0 ≤ (denv.desc_inline_query [desc_len_id.DESC_TLS10_ENC_LEN]
        [ctx.adata.keylen_pad, ctx.cdata.keylen]).1 →
      (tls_set_sh_desc denv env alg ctx).ret = 0 →
      ((tls_set_sh_desc denv env alg ctx).ctx.flc optype.DECRYPT).sh_desc.take
        (denv.cnstr_shdsc
          (shdsc.tls_decap
            { ctx.cdata with
              key := alginfo_key.key_dma (u64 (ctx.key_dma + ctx.adata.keylen_pad)),
              key_inline := decide ((denv.desc_inline_query [desc_len_id.DESC_TLS10_ENC_LEN]
                [ctx.adata.keylen_pad, ctx.cdata.keylen]).2 &&& 2 ≠ 0) }
            { ctx.adata with
              key := alginfo_key.key_dma ctx.key_dma,
              key_inline := decide ((denv.desc_inline_query [desc_len_id.DESC_TLS10_ENC_LEN]
                [ctx.adata.keylen_pad, ctx.cdata.keylen]).2 &&& 1 ≠ 0) }
            13 alg.ivsize ctx.authsize alg.cra_blocksize)
          ctx.key).length =
        denv.cnstr_shdsc
          (shdsc.tls_decap
            { ctx.cdata with
              key := alginfo_key.key_dma (u64 (ctx.key_dma + ctx.adata.keylen_pad)),
              key_inline := decide ((denv.desc_inline_query [desc_len_id.DESC_TLS10_ENC_LEN]
                [ctx.adata.keylen_pad, ctx.cdata.keylen]).2 &&& 2 ≠ 0) }
            { ctx.adata with
              key := alginfo_key.key_dma ctx.key_dma,
              key_inline := decide ((denv.desc_inline_query [desc_len_id.DESC_TLS10_ENC_LEN]
                [ctx.adata.keylen_pad, ctx.cdata.keylen]).2 &&& 1 ≠ 0) }
            13 alg.ivsize ctx.authsize alg.cra_blocksize)
          ctx.key) := by
  refine ⟨rfl, rfl, rfl, rfl, rfl, ?_⟩
  intro denv env alg ctx hk ha hq hret
  unfold tls_set_sh_desc at hret ⊢
  have h0 : ¬(ctx.cdata.keylen = 0 ∨ ctx.authsize = 0) := by
    intro h; rcases h with h | h
    · exact hk h
    · exact ha h
  simp only [h0, if_false] at hret ⊢
  rw [if_neg (by omega)] at hret ⊢
  split_ifs at hret ⊢ with he
  · simp [ENOMEM] at hret
  · unfold set_sh_desc_decrypt
    split_ifs <;>
      simp [caam_ctx.set_flc, flc_rebuilt, caam_ctx.set_key_dma, caam_ctx.set_inline]


/-! ### The drain loop of the poll -/

/-- A drain takes at least one answer of the store. -/
theorem dpaa2_caam_store_consume_length (iova_to_virt : Nat → caam_request)
    (store : List (Option dpaa2_dq × Bool)) :
    ∀ (c0 c : Nat) (rest : List (Option dpaa2_dq × Bool)) (tr : List Event),
      dpaa2_caam_store_consume iova_to_virt store c0 = some (c, rest, tr) →
      rest.length < store.length := by
  induction store with
  | nil => intro c0 c rest tr h; simp [dpaa2_caam_store_consume] at h
  | cons a store ih =>
    intro c0 c rest tr h
    obtain ⟨dq, is_last⟩ := a
    cases dq with
    | none =>
      by_cases hl : is_last = true
      · simp [dpaa2_caam_store_consume, hl] at h
        rw [← h.2.1]; simp
      · simp only [dpaa2_caam_store_consume, hl, Bool.false_eq_true, if_false] at h
        have := ih c0 c rest tr h
        simp; omega
    | some d =>
      by_cases hl : is_last = true
      · simp [dpaa2_caam_store_consume, hl] at h
        rw [← h.2.1]; simp
      · simp only [dpaa2_caam_store_consume, hl, Bool.false_eq_true, if_false] at h
        cases hrec : dpaa2_caam_store_consume iova_to_virt store (c0 + 1) with
        | none => simp [hrec] at h
        | some r =>
          obtain ⟨c1, rest1, tr1⟩ := r
          simp [hrec] at h
          obtain ⟨_, h2, _⟩ := h
          subst h2
          have := ih (c0 + 1) c1 rest1 tr1 hrec
          simp; omega

/-- What a drain leaves in the store is `drop k` of what it found, for some
`k`. -/
theorem dpaa2_caam_store_consume_drop (iova_to_virt : Nat → caam_request)
    (store : List (Option dpaa2_dq × Bool)) (c0 c : Nat)
    (rest : List (Option dpaa2_dq × Bool)) (tr : List Event)
    (h : dpaa2_caam_store_consume iova_to_virt store c0 = some (c, rest, tr)) :
    ∃ k, rest = store.drop k := by
  obtain ⟨pre, hp, _, _⟩ := dpaa2_caam_store_consume_spec iova_to_virt store c0 c rest tr h
  exact ⟨pre.length, by rw [hp]; simp⟩

/-- The count of the drain loop stays within the budget: when every drain
yields at most `store_size` entries and the count on entry is at most
`budget - store_size`, the count returned is at most `budget`. -/
theorem dpaa2_dpseci_poll_loop_le (iova_to_virt : Nat → caam_request) (store_size : Nat)
    (budget : Int) :
    ∀ (fuel : Nat) (st : Portal) (cleaned c : Nat) (st2 : Portal) (tr : List Event),
      (∀ n, drain_le iova_to_virt store_size (st.store.drop n) = true) →
      (cleaned : Int) ≤ budget - store_size →
      dpaa2_dpseci_poll_loop iova_to_virt store_size budget fuel st cleaned =
        some (c, st2, tr) →
      (c : Int) ≤ budget := by
  intro fuel
  induction fuel with
  | zero => intro st cleaned c st2 tr _ _ h; simp [dpaa2_dpseci_poll_loop] at h
  | succ fuel ih =>
    intro st cleaned c st2 tr hd hc h
    unfold dpaa2_dpseci_poll_loop at h
    cases hcons : dpaa2_caam_store_consume iova_to_virt st.store 0 with
    | none => simp [hcons] at h
    | some r =>
      obtain ⟨sc, store1, tr1⟩ := r
      have hsc : sc ≤ store_size := by
        have := hd 0
        simp [drain_le, hcons] at this
        exact this
      simp only [hcons] at h
      split_ifs at h with hbrk
      · simp only [Option.some.injEq, Prod.mk.injEq] at h
        obtain ⟨h1, _, _⟩ := h
        subst h1
        push_cast
        omega
      · cases hpull : dpaa2_caam_pull_fq st.pulls with
        | none => simp [hpull] at h
        | some p =>
          obtain ⟨err, pulls1, tr2⟩ := p
          simp only [hpull] at h
          split_ifs at h with herr
          · simp only [Option.some.injEq, Prod.mk.injEq] at h
            obtain ⟨h1, _, _⟩ := h
            subst h1
            push_cast
            omega
          · cases hrec : dpaa2_dpseci_poll_loop iova_to_virt store_size budget fuel
                ⟨pulls1, store1, st.rearm⟩ (cleaned + sc) with
            | none => simp [hrec] at h
            | some q =>
              obtain ⟨c2, st3, tr3⟩ := q
              simp only [hrec, Option.some.injEq, Prod.mk.injEq] at h
              obtain ⟨h1, _, _⟩ := h
              subst h1
              obtain ⟨k, hk⟩ := dpaa2_caam_store_consume_drop iova_to_virt st.store 0 sc
                store1 tr1 hcons
              refine ih ⟨pulls1, store1, st.rearm⟩ (cleaned + sc) c2 st3 tr3 ?_ ?_ hrec
              · intro n
                simp only [hk, List.drop_drop]
                exact hd _
              · push_neg at hbrk
                exact hbrk.2

/-- The fuel `dpaa2_dpseci_poll` gives its drain loop is enough: every
iteration takes an answer of the store, so the loop gives the same result for
every fuel above the number of answers. -/
theorem dpaa2_dpseci_poll_loop_fuel_store (iova_to_virt : Nat → caam_request)
    (store_size : Nat) (budget : Int) :
    ∀ (fuel1 fuel2 : Nat) (st : Portal) (cleaned : Nat),
      st.store.length < fuel1 → st.store.length < fuel2 →
      dpaa2_dpseci_poll_loop iova_to_virt store_size budget fuel1 st cleaned =
        dpaa2_dpseci_poll_loop iova_to_virt store_size budget fuel2 st cleaned := by
  intro fuel1
  induction fuel1 with
  | zero => intro fuel2 st cleaned h1; omega
  | succ f1 ih =>
    intro fuel2 st cleaned h1 h2
    cases fuel2 with
    | zero => omega
    | succ f2 =>
      unfold dpaa2_dpseci_poll_loop
      cases hcons : dpaa2_caam_store_consume iova_to_virt st.store 0 with
      | none => rfl
      | some r =>
        obtain ⟨sc, store1, tr1⟩ := r
        have hlen := dpaa2_caam_store_consume_length iova_to_virt st.store 0 sc store1 tr1 hcons
        simp only
        split_ifs with hbrk
        · rfl
        · cases hpull : dpaa2_caam_pull_fq st.pulls with
          | none => rfl
          | some p =>
            obtain ⟨err, pulls1, tr2⟩ := p
            simp only
            split_ifs with herr
            · rfl
            · rw [ih f2 ⟨pulls1, store1, st.rearm⟩ (cleaned + sc) (by simp; omega)
                (by simp; omega)]

/-- The drain loop runs a bounded number of iterations: an iteration is
followed by another one only if its drain cleaned at least one entry and the
count is still at most `budget - store_size`, so the loop gives the same
result for every fuel above `budget - store_size - cleaned`. -/
theorem dpaa2_dpseci_poll_loop_fuel_budget (iova_to_virt : Nat → caam_request)
    (store_size : Nat) (budget : Int) :
    ∀ (fuel1 fuel2 : Nat) (st : Portal) (cleaned : Nat),
      (budget - store_size - cleaned).toNat < fuel1 →
      (budget - store_size - cleaned).toNat < fuel2 →
      dpaa2_dpseci_poll_loop iova_to_virt store_size budget fuel1 st cleaned =
        dpaa2_dpseci_poll_loop iova_to_virt store_size budget fuel2 st cleaned := by
  intro fuel1
  induction fuel1 with
  | zero => intro fuel2 st cleaned h1; omega
  | succ f1 ih =>
    intro fuel2 st cleaned h1 h2
    cases fuel2 with
    | zero => omega
    | succ f2 =>
      unfold dpaa2_dpseci_poll_loop
      cases hcons : dpaa2_caam_store_consume iova_to_virt st.store 0 with
      | none => rfl
      | some r =>
        obtain ⟨sc, store1, tr1⟩ := r
        simp only
        split_ifs with hbrk
        · rfl
        · cases hpull : dpaa2_caam_pull_fq st.pulls with
          | none => rfl
          | some p =>
            obtain ⟨err, pulls1, tr2⟩ := p
            simp only
            split_ifs with herr
            · rfl
            · push_neg at hbrk
              obtain ⟨hsc, hle⟩ := hbrk
              have hpos : 0 < sc := Nat.pos_of_ne_zero hsc
              rw [ih f2 ⟨pulls1, store1, st.rearm⟩ (cleaned + sc)
                (by push_cast at hle ⊢; omega) (by push_cast at hle ⊢; omega)]

/-- C27: for every budget of at least `DPAA2_CAAM_STORE_SIZE`, when every
drain of the store yields at most `DPAA2_CAAM_STORE_SIZE` entries, the count
`dpaa2_dpseci_poll` returns is at most the budget. Its drain loop runs a
bounded number of iterations: the loop gives the same result for every fuel
above `budget - store_size - cleaned` (at most `budget - store_size + 1`
iterations from a count of `0`) and for every fuel above the number of store
answers, which is the fuel the poll gives it; and a drain that cleaned no
entry ends the loop without a further pull. -/
theorem dpaa2_dpseci_poll_within_budget (iova_to_virt : Nat → caam_request)
    (store_size : Nat) (st : Portal) (budget : Int)
    (hb : (store_size : Int) ≤ budget)
    (hd : ∀ n, n < st.store.length →
      drain_le iova_to_virt store_size (st.store.drop n) = true) :
    (∀ r, dpaa2_dpseci_poll iova_to_virt store_size st budget = some r →
      (r.ret : Int) ≤ budget) ∧
    (∀ (fuel : Nat) (p : Portal) (cleaned : Nat),
      (budget - store_size - cleaned).toNat < fuel →
      dpaa2_dpseci_poll_loop iova_to_virt store_size budget fuel p cleaned =
        dpaa2_dpseci_poll_loop iova_to_virt store_size budget
          ((budget - store_size - cleaned).toNat + 1) p cleaned) ∧
    (∀ (fuel : Nat) (p : Portal) (cleaned : Nat), p.store.length < fuel →
      dpaa2_dpseci_poll_loop iova_to_virt store_size budget fuel p cleaned =
        dpaa2_dpseci_poll_loop iova_to_virt store_size budget (p.store.length + 1) p
          cleaned) ∧
    (∀ (fuel : Nat) (p : Portal) (cleaned : Nat) (store1 : List (Option dpaa2_dq × Bool))
        (tr1 : List Event),
      dpaa2_caam_store_consume iova_to_virt p.store 0 = some (0, store1, tr1) →
      dpaa2_dpseci_poll_loop iova_to_virt store_size budget (fuel + 1) p cleaned =
        some (cleaned, ⟨p.pulls, store1, p.rearm⟩, tr1)) := by
  have hd2 : ∀ n, drain_le iova_to_virt store_size (st.store.drop n) = true := by
    intro n
    by_cases hn : n < st.store.length
    · exact hd n hn
    · rw [List.drop_eq_nil_of_le (by omega)]
      simp [drain_le, dpaa2_caam_store_consume]
  refine ⟨?_, ?_, ?_, ?_⟩
  · intro r hr
    unfold dpaa2_dpseci_poll at hr
    cases hpull : dpaa2_caam_pull_fq st.pulls with
    | none => simp [hpull] at hr
    | some p =>
      obtain ⟨err, pulls1, tr0⟩ := p
      simp only [hpull] at hr
      split_ifs at hr with herr
      · simp only [Option.some.injEq] at hr
        subst hr
        simp only [Nat.cast_zero]
        omega
      · cases hloop : dpaa2_dpseci_poll_loop iova_to_virt store_size budget
            (st.store.length + 1) ⟨pulls1, st.store, st.rearm⟩ 0 with
        | none => simp [hloop] at hr
        | some q =>
          obtain ⟨c, st1, tr⟩ := q
          have hc := dpaa2_dpseci_poll_loop_le iova_to_virt store_size budget
            (st.store.length + 1) ⟨pulls1, st.store, st.rearm⟩ 0 c st1 tr hd2
            (by simp only [Nat.cast_zero]; omega) hloop
          simp only [hloop] at hr
          split_ifs at hr <;>
            (simp only [Option.some.injEq] at hr
             subst hr
             exact hc)
  · intro fuel p cleaned hf
    exact dpaa2_dpseci_poll_loop_fuel_budget iova_to_virt store_size budget fuel _ p cleaned
      hf (by omega)
  · intro fuel p cleaned hf
    exact dpaa2_dpseci_poll_loop_fuel_store iova_to_virt store_size budget fuel _ p cleaned
      hf (by omega)
  · intro fuel p cleaned store1 tr1 hcons
    unfold dpaa2_dpseci_poll_loop
    simp [hcons]

/-- Witness of C27: a store size of 16 and a budget of 64; the first drain
cleans one frame, the second finds the store empty. The poll returns 1. -/
theorem dpaa2_dpseci_poll_within_budget_witness :
    (dpaa2_dpseci_poll (fun _ => caam_request.in_flight) 16
      ⟨[0, 0], [(some (dpaa2_dq.list_fd 0 0), false), (none, true), (none, true)], 0⟩
      64).map (fun r => r.ret) = some 1 ∧
    ∀ r, dpaa2_dpseci_poll (fun _ => caam_request.in_flight) 16
      ⟨[0, 0], [(some (dpaa2_dq.list_fd 0 0), false), (none, true), (none, true)], 0⟩
      64 = some r → (r.ret : Int) ≤ 64 :=
  ⟨rfl,
    (dpaa2_dpseci_poll_within_budget (fun _ => caam_request.in_flight) 16
      ⟨[0, 0], [(some (dpaa2_dq.list_fd 0 0), false), (none, true), (none, true)], 0⟩
      64 (by decide) (by decide)).1⟩


/-! ### The output reference of the AEAD builder -/

/-- The output frame list entry a successful table part of the AEAD builder
leaves in the request context. -/
theorem aead_edesc_alloc_table_out_fle (env : Env) (lim : Limits) (ctx : caam_ctx)
    (alg : caam_aead_alg) (req : aead_request) (req_ctx : caam_request) (encrypt : Bool)
    (st : MappedBufs) (edesc : aead_edesc)
    (hok : (aead_edesc_alloc_table env lim ctx alg req req_ctx encrypt st).ret
      = Except.ok edesc) :
    (aead_edesc_alloc_table env lim ctx alg req req_ctx encrypt st).req_ctx.fd_flt0 =
      aead_out_fle (req.dst = req.src) edesc.qm_sg_dma (aead_ivsize alg encrypt)
        (aead_out_len ctx req encrypt) st.mapped_src st.mapped_dst := by
  unfold aead_edesc_alloc_table at hok ⊢
  simp only at hok ⊢
  split_ifs at hok ⊢ with h1 h2 h3 h4
  simp only [Except.ok.injEq] at hok
  subst hok
  rfl

/-- C28: for every generic-AEAD request (an algorithm of `driver_aeads[]`) on
which `aead_edesc_alloc` succeeds and whose output frame entry has table
format, with `st.mapped_src` and `st.mapped_dst` the mapped source and
destination segments: the address of the entry is the bus address of the table
plus `k` entries (in the 64-bit arithmetic of bus addresses; the plain sum
when the mapped table does not reach past the end of the address space), `k`
is strictly less than the number of table entries, and the entries from `k` on
are exactly the output segments: in place `k = 1 + (IV ? 1 : 0)` and they are
the source segments, otherwise `k = 1 + (IV ? 1 : 0) + mapped_src` and they
are the destination segments. -/
theorem aead_edesc_alloc_out_table_offset (env : Env) (lim : Limits) (ctx : caam_ctx)
    (alg : caam_aead_alg) (req : aead_request) (req_ctx : caam_request) (encrypt : Bool)
    (edesc : aead_edesc) (st : MappedBufs) (halg : alg ∈ driver_aeads)
    (hok : (aead_edesc_alloc env lim ctx alg req req_ctx encrypt).ret = Except.ok edesc)
    (hst : aead_map_src_dst env ctx req req_ctx encrypt = Except.ok st)
    (hfmt : (aead_edesc_alloc env lim ctx alg req req_ctx encrypt).req_ctx.fd_flt0.format =
      dpaa2_fl_format.dpaa2_fl_sg) :
    ∃ k,
      k = 1 + (if aead_map_iv alg encrypt then 1 else 0) +
        (if req.dst = req.src then 0 else st.mapped_src.length) ∧
      (aead_edesc_alloc env lim ctx alg req req_ctx encrypt).req_ctx.fd_flt0.addr =
        u64 (edesc.qm_sg_dma + k * SG_ENTRY_SIZE) ∧
      (edesc.qm_sg_dma + edesc.qm_sg_bytes ≤ 18446744073709551616 →
        (aead_edesc_alloc env lim ctx alg req req_ctx encrypt).req_ctx.fd_flt0.addr =
          edesc.qm_sg_dma + k * SG_ENTRY_SIZE) ∧
      k < edesc.sgt.length ∧
      edesc.qm_sg_bytes = edesc.sgt.length * SG_ENTRY_SIZE ∧
      (edesc.sgt.map (fun e => (e.addr, e.len))).drop k =
        (if req.dst = req.src then st.mapped_src.map (fun s => (s.dma_address, s.dma_len))
         else st.mapped_dst.map (fun s => (s.dma_address, s.dma_len))) := by
  have hivpos := driver_aeads_ivsize_pos alg halg
  obtain ⟨st2, hst2, heq⟩ := aead_edesc_alloc_ok env lim ctx alg req req_ctx encrypt edesc hok
  rw [hst] at hst2
  cases hst2
  have hcase := aead_map_src_dst_ok env ctx req req_ctx encrypt st hst
  rw [heq] at hok hfmt ⊢
  obtain ⟨_, _, _, _, hed, _⟩ :=
    aead_edesc_alloc_table_ok env lim ctx alg req req_ctx encrypt st edesc hok
  have hout := aead_edesc_alloc_table_out_fle env lim ctx alg req req_ctx encrypt st edesc hok
  have hproj := aead_sg_table_proj
    (env.dma_map_single Buf.assoclen 4 dma_data_direction.DMA_TO_DEVICE)
    (aead_iv_dma env alg encrypt) (aead_ivsize alg encrypt) st.mapped_src st.mapped_dst
  have hivsz : (aead_ivsize alg encrypt ≠ 0) ↔ aead_map_iv alg encrypt = true := by
    unfold aead_ivsize
    by_cases hm : aead_map_iv alg encrypt = true
    · simp [hm]; omega
    · simp [hm]
  have hiv01 : (if aead_ivsize alg encrypt ≠ 0 then 1 else 0 : Nat) =
      (if aead_map_iv alg encrypt = true then 1 else 0) := by
    by_cases hm : aead_map_iv alg encrypt = true
    · rw [if_pos (hivsz.mpr hm), if_pos hm]
    · rw [if_neg (fun hx => hm (hivsz.mp hx)), if_neg hm]
  have hiv12 : (if aead_ivsize alg encrypt ≠ 0 then 2 else 1 : Nat) =
      1 + (if aead_map_iv alg encrypt = true then 1 else 0) := by
    by_cases hm : aead_map_iv alg encrypt = true
    · rw [if_pos (hivsz.mpr hm), if_pos hm]
    · rw [if_neg (fun hx => hm (hivsz.mp hx)), if_neg hm]
  have hsgt : edesc.sgt = aead_sg_table
      (env.dma_map_single Buf.assoclen 4 dma_data_direction.DMA_TO_DEVICE)
      (aead_iv_dma env alg encrypt) (aead_ivsize alg encrypt) st.mapped_src st.mapped_dst := by
    rw [hed]
  have hbytes : edesc.qm_sg_bytes = aead_qm_sg_nents (aead_ivsize alg encrypt)
      st.mapped_src.length st.mapped_dst.length * SG_ENTRY_SIZE := by
    rw [hed]
  have hlen : edesc.sgt.length = aead_qm_sg_nents (aead_ivsize alg encrypt)
      st.mapped_src.length st.mapped_dst.length := by
    have := congrArg List.length hproj
    rw [← hsgt] at this
    simp only [List.length_map, List.length_append] at this
    rw [this]
    unfold aead_qm_sg_nents
    split_ifs <;> simp
  have hnents : aead_qm_sg_nents (aead_ivsize alg encrypt)
      st.mapped_src.length st.mapped_dst.length =
      1 + (if aead_map_iv alg encrypt = true then 1 else 0) + st.mapped_src.length +
        (if st.mapped_dst.length > 1 then st.mapped_dst.length else 0) := by
    unfold aead_qm_sg_nents
    rw [hiv01]
  have hlead : ([(env.dma_map_single Buf.assoclen 4 dma_data_direction.DMA_TO_DEVICE, 4)] ++
      (if aead_ivsize alg encrypt ≠ 0 then
        [(aead_iv_dma env alg encrypt, aead_ivsize alg encrypt)] else [])).length =
      1 + (if aead_map_iv alg encrypt = true then 1 else 0) := by
    rw [← hiv01]
    split_ifs <;> simp
  have hSG : SG_ENTRY_SIZE = 16 := rfl
  rw [hout] at hfmt ⊢
  rw [hbytes, hlen, hnents, hsgt, hproj]
  generalize hivn : (if aead_map_iv alg encrypt = true then 1 else 0 : Nat) = iv at *
  refine ⟨_, rfl, ?_⟩
  rcases hcase with ⟨hne, _, _, _, _, _, hmd, _⟩ | ⟨hin, _, _, _, hms, hmd, _⟩
  · have hmd1 : st.mapped_dst.length ≠ 1 := by
      intro h1
      simp [aead_out_fle, hne, h1] at hfmt
    have hmd2 : st.mapped_dst.length > 1 := by omega
    have haddr : (aead_out_fle (decide (req.dst = req.src)) edesc.qm_sg_dma
        (aead_ivsize alg encrypt) (aead_out_len ctx req encrypt) st.mapped_src
        st.mapped_dst).addr =
        u64 (edesc.qm_sg_dma + (1 + iv + st.mapped_src.length) * SG_ENTRY_SIZE) := by
      simp only [aead_out_fle, hne, decide_False, Bool.false_eq_true, if_false, hmd1, hiv12]
    rw [haddr, if_neg hne, if_neg hne, if_pos hmd2, if_pos hmd2]
    refine ⟨rfl, ?_, ?_, rfl, ?_⟩
    · intro hfit
      unfold u64
      apply Nat.mod_eq_of_lt
      rw [hSG] at hfit ⊢
      omega
    · omega
    · apply List.drop_left'
      rw [List.length_append, hlead]
      simp
  · have hms1 : st.mapped_src.length ≠ 1 := by
      intro h1
      simp [aead_out_fle, hin, h1] at hfmt
    have haddr : (aead_out_fle (decide (req.dst = req.src)) edesc.qm_sg_dma
        (aead_ivsize alg encrypt) (aead_out_len ctx req encrypt) st.mapped_src
        st.mapped_dst).addr =
        u64 (edesc.qm_sg_dma + (1 + iv + 0) * SG_ENTRY_SIZE) := by
      simp only [aead_out_fle, hin, decide_True, if_true, hms1, if_false, hiv01, Nat.add_zero]
    have h01 : ¬ (st.mapped_dst.length > 1) := by rw [hmd]; simp
    rw [haddr, if_pos hin, if_pos hin, if_neg h01, if_neg h01]
    refine ⟨rfl, ?_, ?_, rfl, ?_⟩
    · intro hfit
      unfold u64
      apply Nat.mod_eq_of_lt
      rw [hSG] at hfit ⊢
      omega
    · omega
    · rw [List.append_nil]
      apply List.drop_left'
      rw [hlead]
      omega

/-- Witness of C28: the in-place encryption over four segments with an IV; the
output entry points at entry `2` of the six table entries, where the four
source segments start. -/
theorem aead_edesc_alloc_out_table_offset_witness :
    (aead_edesc_alloc Env.good Limits.example caam_ctx.example
      caam_aead_alg.authenc_sha1_cbc_aes aead_request.in_place4 caam_request.zero
      true).req_ctx.fd_flt0.addr = 0x4000 + 2 * SG_ENTRY_SIZE ∧
    ∃ k, k = 2 ∧
      (aead_edesc_alloc Env.good Limits.example caam_ctx.example
        caam_aead_alg.authenc_sha1_cbc_aes aead_request.in_place4 caam_request.zero
        true).req_ctx.fd_flt0.addr = u64 (0x4000 + k * SG_ENTRY_SIZE) ∧
      k < 6 :=
  ⟨rfl,
    let ⟨k, h1, h2, _, h4, _⟩ := aead_edesc_alloc_out_table_offset Env.good Limits.example
      caam_ctx.example caam_aead_alg.authenc_sha1_cbc_aes aead_request.in_place4
      caam_request.zero true _ _ (by decide) rfl rfl rfl
    ⟨k, h1, h2, h4⟩⟩


/-! ### The output reference of the TLS builder -/

/-- The output frame list entry and the table size of a successful table part
of the TLS builder. -/
theorem tls_edesc_alloc_table_out_fle (env : Env) (alg : caam_aead_alg) (req : aead_request)
    (req_ctx : caam_request) (encrypt : Bool) (authsize : Nat) (st : MappedBufs)
    (edesc : tls_edesc)
    (hok : (tls_edesc_alloc_table env alg req req_ctx encrypt authsize st).ret
      = Except.ok edesc) :
    (tls_edesc_alloc_table env alg req req_ctx encrypt authsize st).req_ctx.fd_flt0 =
      tls_out_fle req edesc.qm_sg_dma (u32 (req.cryptlen + (if encrypt then authsize else 0)))
        st.mapped_src st.mapped_dst ∧
    edesc.sgt = tls_sg_table edesc.iv_dma alg.ivsize st.mapped_src st.mapped_dst := by
  unfold tls_edesc_alloc_table at hok ⊢
  simp only at hok ⊢
  split_ifs at hok ⊢ <;>
    (simp only [Except.ok.injEq] at hok
     subst hok
     exact ⟨rfl, rfl⟩)

/-- In place the first part of the TLS builder maps the source only. -/
theorem tls_map_src_dst_in_place (env : Env) (tmp : Nat) (req : aead_request)
    (req_ctx : caam_request) (encrypt : Bool) (authsize : Nat) (st : MappedBufs)
    (hin : req.src = req.dst)
    (hok : tls_map_src_dst env tmp req req_ctx encrypt authsize = some (Except.ok st)) :
    st.mapped_src = env.dma_map_sg req.src st.src_nents dma_data_direction.DMA_BIDIRECTIONAL ∧
    st.mapped_dst = [] ∧ st.mapped_src.length ≠ 0 := by
  by_cases h0 : env.qi_cache_zalloc
      (gfp_flags req.flags (CRYPTO_TFM_REQ_MAY_BACKLOG ||| CRYPTO_TFM_REQ_MAY_SLEEP)) = false
  · simp [tls_map_src_dst, h0] at hok
  cases hsn : sg_nents_for_len req.src (u32 (req.assoclen + req.cryptlen +
      (if encrypt then authsize else 0))) with
  | error e => simp [tls_map_src_dst, h0, if_pos hin, hsn] at hok
  | ok sn =>
    by_cases h2 : env.dma_map_sg req.src sn dma_data_direction.DMA_BIDIRECTIONAL = []
    · simp [tls_map_src_dst, h0, if_pos hin, hsn, h2] at hok
    · simp [tls_map_src_dst, h0, if_pos hin, hsn, h2] at hok
      subst hok
      simp [h2]

/-- C29 at its failing input: the in-place TLS record whose 13 header bytes
and 64 payload bytes lie in one segment. `tls_edesc_alloc` succeeds with a
table of two entries (the IV and the segment, 32 bytes at `0x4000`) and the
output frame entry points at entry `1 + sg_nents_for_len(src, assoclen) = 2`,
the address `0x4020` right behind the table. When the header has a segment of
its own (entries `13, 64, 32`) the index `2` lies inside the table of four
entries. In general, in place, the index is
`1 + sg_nents_for_len(req->src, req->assoclen)` and the table has
`1 + mapped_src` entries, and nothing compares the two. -/
theorem tls_edesc_alloc_in_place_output_past_table :
    (tls_edesc_alloc Env.good caam_ctx.example caam_aead_alg.tls10_sha1_cbc_aes 7
      aead_request.tls_one_segment caam_request.zero true).map
      (fun b => (b.ret.toOption.map (fun e => (e.qm_sg_dma, e.qm_sg_bytes, e.sgt.length)),
        b.req_ctx.fd_flt0)) =
      some (some (0x4000, 32, 2),
        ⟨0x4000 + 2 * SG_ENTRY_SIZE, 96, dpaa2_fl_format.dpaa2_fl_sg, false, 0⟩) ∧
    sg_nents_for_len aead_request.tls_one_segment.src
      aead_request.tls_one_segment.assoclen = Except.ok 1 ∧
    (tls_edesc_alloc Env.good caam_ctx.example caam_aead_alg.tls10_sha1_cbc_aes 7
      aead_request.tls_record caam_request.zero true).map
      (fun b => (b.ret.toOption.map (fun e => (e.qm_sg_dma, e.qm_sg_bytes, e.sgt.length)),
        b.req_ctx.fd_flt0)) =
      some (some (0x4000, 64, 4),
        ⟨0x4000 + 2 * SG_ENTRY_SIZE, 96, dpaa2_fl_format.dpaa2_fl_sg, false, 0⟩) ∧
    (∀ (env : Env) (ctx : caam_ctx) (alg : caam_aead_alg) (tmp : Nat) (req : aead_request)
        (req_ctx : caam_request) (encrypt : Bool) (b : Built tls_edesc) (edesc : tls_edesc)
        (n : Nat),
      req.src = req.dst →
      tls_edesc_alloc env ctx alg tmp req req_ctx encrypt = some b →
      b.ret = Except.ok edesc →
      sg_nents_for_len req.src req.assoclen = Except.ok n →
      b.req_ctx.fd_flt0.format = dpaa2_fl_format.dpaa2_fl_sg ∧
      b.req_ctx.fd_flt0.addr = u64 (edesc.qm_sg_dma + (n + 1) * SG_ENTRY_SIZE) ∧
      edesc.qm_sg_bytes =
        (1 + (env.dma_map_sg req.src edesc.src_nents
          dma_data_direction.DMA_BIDIRECTIONAL).length) * SG_ENTRY_SIZE) := by
  refine ⟨rfl, rfl, rfl, ?_⟩
  intro env ctx alg tmp req req_ctx encrypt b edesc n hin hb hok hn
  unfold tls_edesc_alloc at hb
  split_ifs at hb
  cases hst : tls_map_src_dst env tmp req req_ctx encrypt
      (tls_authsize ctx alg.cra_blocksize req encrypt) with
  | none => rw [hst] at hb; simp at hb
  | some r =>
    rw [hst] at hb
    cases r with
    | error b1 =>
      simp only [Option.some.injEq] at hb
      subst hb
      obtain ⟨e1, he1⟩ := tls_map_src_dst_error env tmp req req_ctx encrypt _ _ hst
      rw [he1] at hok
      simp at hok
    | ok st =>
      simp only [Option.some.injEq] at hb
      subst hb
      obtain ⟨_, _, e1, _, _, e4, _, _, _⟩ :=
        tls_edesc_alloc_table_ok env alg req req_ctx encrypt _ st edesc hok
      obtain ⟨hout, _⟩ := tls_edesc_alloc_table_out_fle env alg req req_ctx encrypt _ st edesc hok
      obtain ⟨hms, hmd, _⟩ := tls_map_src_dst_in_place env tmp req req_ctx encrypt _ st hin hst
      rw [hout, e4, e1]
      refine ⟨?_, ?_, ?_⟩
      · simp [tls_out_fle, hin]
      · have hn2 := hn
        rw [hin] at hn2
        simp [tls_out_fle, hin, tls_out_offset, hn2]
      · rw [← hms, hmd]
        simp [tls_qm_sg_ents]


/-! ### The return value of `dpaa2_dpseci_dpio_setup` -/

/-- What the first loop of `dpaa2_dpseci_dpio_setup` adds to the trace decides
how it ends: after a failed store creation it leaves through `goto err` with
`err == 0`, after a failed registration with the error of that call. -/
theorem dpaa2_dpseci_dpio_setup_loop_spec (io : DpioEnv) (num_pairs : Nat)
    (online : List Nat) :
    ∀ (i : Nat) (pp : Nat → dpaa2_caam_priv_per_cpu) (tr : List dpio_event),
      ∃ new, (dpaa2_dpseci_dpio_setup_loop io num_pairs online i pp tr).2.2 = tr ++ new ∧
        (∀ e ∈ new, (∃ cpu err, e = dpio_event.service_register cpu err) ∨
          (∃ cpu created, e = dpio_event.store_create cpu created)) ∧
        (∀ cpu, dpio_event.store_create cpu false ∈ new →
          (dpaa2_dpseci_dpio_setup_loop io num_pairs online i pp tr).1 = some 0) ∧
        (∀ cpu err, dpio_event.service_register cpu err ∈ new → err ≠ 0 →
          (dpaa2_dpseci_dpio_setup_loop io num_pairs online i pp tr).1 = some err) := by
  induction online with
  | nil =>
    intro i pp tr
    exact ⟨[], by simp [dpaa2_dpseci_dpio_setup_loop], by simp, by simp, by simp⟩
  | cons cpu rest ih =>
    intro i pp tr
    by_cases herr : io.service_register cpu ≠ 0
    · refine ⟨[dpio_event.service_register cpu (io.service_register cpu)], ?_, ?_, ?_, ?_⟩
      · simp [dpaa2_dpseci_dpio_setup_loop, herr]
      · simp
      · simp
      · intro c e he hne
        simp at he
        simp [dpaa2_dpseci_dpio_setup_loop, herr, he.2]
    · have herr0 : io.service_register cpu = 0 := by
        by_contra h; exact herr h
      by_cases hcr : io.store_create cpu = false
      · refine ⟨[dpio_event.service_register cpu (io.service_register cpu),
          dpio_event.store_create cpu (io.store_create cpu)], ?_, ?_, ?_, ?_⟩
        · simp [dpaa2_dpseci_dpio_setup_loop, herr0, hcr]
        · intro e he
          simp only [List.mem_cons, List.mem_singleton, List.not_mem_nil, or_false] at he
          rcases he with he | he
          · exact Or.inl ⟨_, _, he⟩
          · exact Or.inr ⟨_, _, he⟩
        · intro c hc
          simp [dpaa2_dpseci_dpio_setup_loop, herr0, hcr]
        · intro c e he hne
          simp [herr0] at he
          exact absurd he.2 hne
      · have hcr1 : io.store_create cpu = true := by
          cases h : io.store_create cpu
          · exact absurd h hcr
          · rfl
        by_cases hnp : i + 1 = num_pairs
        · refine ⟨[dpio_event.service_register cpu (io.service_register cpu),
            dpio_event.store_create cpu (io.store_create cpu)], ?_, ?_, ?_, ?_⟩
          · simp [dpaa2_dpseci_dpio_setup_loop, herr0, hcr1, hnp]
          · intro e he
            simp only [List.mem_cons, List.mem_singleton, List.not_mem_nil, or_false] at he
            rcases he with he | he
            · exact Or.inl ⟨_, _, he⟩
            · exact Or.inr ⟨_, _, he⟩
          · intro c hc
            simp [herr0, hcr1] at hc
          · intro c e he hne
            simp [herr0] at he
            exact absurd he.2 hne
        · obtain ⟨new, h1, h2, h3, h4⟩ := ih (i + 1) (ppriv_set pp cpu ⟨true, true⟩)
            (tr ++ [dpio_event.service_register cpu 0, dpio_event.store_create cpu true])
          have hstep : dpaa2_dpseci_dpio_setup_loop io num_pairs (cpu :: rest) i pp tr =
              dpaa2_dpseci_dpio_setup_loop io num_pairs rest (i + 1)
                (ppriv_set pp cpu ⟨true, true⟩)
                (tr ++ [dpio_event.service_register cpu 0,
                  dpio_event.store_create cpu true]) := by
            simp [dpaa2_dpseci_dpio_setup_loop, herr0, hcr1, hnp]
          rw [hstep]
          refine ⟨[dpio_event.service_register cpu 0, dpio_event.store_create cpu true] ++ new,
            ?_, ?_, ?_, ?_⟩
          · rw [h1]; simp
          · intro e he
            simp only [List.mem_append, List.mem_cons, List.mem_singleton,
              List.not_mem_nil, or_false] at he
            rcases he with (he | he) | he
            · exact Or.inl ⟨_, _, he⟩
            · exact Or.inr ⟨_, _, he⟩
            · exact h2 e he
          · intro c hc
            simp at hc
            exact h3 c hc
          · intro c e he hne
            simp at he
            rcases he with ⟨_, he⟩ | he
            · exact absurd he hne
            · exact h4 c e he hne

/-- C30 at its failing input: two online CPUs, `num_pairs = 2`, every
registration succeeds and the store of CPU 1 cannot be created.
`dpaa2_dpseci_dpio_setup` takes the error path (it deregisters both
notifications and destroys the store of CPU 0) and returns `0`: on
`goto err` after a failed `dpaa2_io_store_create` the local `err` still holds
the `0` of the successful registration. In general the function returns `0`
whenever a store creation failed, while a failed registration makes it return
the error of that call. -/
theorem dpaa2_dpseci_dpio_setup_store_failure_returns_zero :
    (dpaa2_dpseci_dpio_setup DpioEnv.no_store_on_cpu1 2 [0, 1] ppriv_zero).ret = 0 ∧
    (dpaa2_dpseci_dpio_setup DpioEnv.no_store_on_cpu1 2 [0, 1] ppriv_zero).trace =
      [dpio_event.service_register 0 0, dpio_event.store_create 0 true,
       dpio_event.service_register 1 0, dpio_event.store_create 1 false,
       dpio_event.service_deregister 0, dpio_event.service_deregister 1,
       dpio_event.store_destroy 0] ∧
    (dpaa2_dpseci_dpio_setup DpioEnv.no_register_on_cpu1 2 [0, 1] ppriv_zero).ret =
      -ENOMEM ∧
    (∀ (io : DpioEnv) (num_pairs : Nat) (online : List Nat)
        (pp : Nat → dpaa2_caam_priv_per_cpu) (cpu : Nat),
      dpio_event.store_create cpu false ∈
        (dpaa2_dpseci_dpio_setup io num_pairs online pp).trace →
      (dpaa2_dpseci_dpio_setup io num_pairs online pp).ret = 0) ∧
    (∀ (io : DpioEnv) (num_pairs : Nat) (online : List Nat)
        (pp : Nat → dpaa2_caam_priv_per_cpu) (cpu : Nat) (err : Int),
      dpio_event.service_register cpu err ∈
        (dpaa2_dpseci_dpio_setup io num_pairs online pp).trace → err ≠ 0 →
      (dpaa2_dpseci_dpio_setup io num_pairs online pp).ret = err) := by
  refine ⟨rfl, rfl, rfl, ?_, ?_⟩
  · intro io num_pairs online pp cpu hmem
    obtain ⟨new, h1, h2, h3, h4⟩ :=
      dpaa2_dpseci_dpio_setup_loop_spec io num_pairs online 0 pp []
    unfold dpaa2_dpseci_dpio_setup at hmem ⊢
    rcases hloop : dpaa2_dpseci_dpio_setup_loop io num_pairs online 0 pp [] with ⟨r, pp1, tr⟩
    rw [hloop] at h1 h3 hmem
    simp only [List.nil_append] at h1
    subst h1
    cases r with
    | none =>
      simp only at hmem
      have := h3 cpu hmem
      simp at this
    | some err =>
      simp only [List.mem_append] at hmem
      rcases hmem with hmem | hmem
      · have := h3 cpu hmem
        simp only [Option.some.injEq] at this
        simp [this]
      · simp [dpaa2_dpseci_dpio_setup_unwind] at hmem
  · intro io num_pairs online pp cpu err hmem hne
    obtain ⟨new, h1, h2, h3, h4⟩ :=
      dpaa2_dpseci_dpio_setup_loop_spec io num_pairs online 0 pp []
    unfold dpaa2_dpseci_dpio_setup at hmem ⊢
    rcases hloop : dpaa2_dpseci_dpio_setup_loop io num_pairs online 0 pp [] with ⟨r, pp1, tr⟩
    rw [hloop] at h1 h4 hmem
    simp only [List.nil_append] at h1
    subst h1
    cases r with
    | none =>
      simp only at hmem
      have := h4 cpu err hmem hne
      simp at this
    | some e0 =>
      simp only [List.mem_append] at hmem
      rcases hmem with hmem | hmem
      · have := h4 cpu err hmem hne
        simp only [Option.some.injEq] at this
        simp [this]
      · simp [dpaa2_dpseci_dpio_setup_unwind] at hmem

end CaamQi2
